import Mathlib

/-!
Versioned aggregates of DistributedProgramming

A shallow embedding of the Go domain services (order, payment, product, user,
notification) and of the in-memory repositories the test suites run them against.

Conventions of the embedding

* `uuid.UUID` is a natural number, `time.Time` an instant counted as a natural number.
* A Go `error` result is `Option Err` (`none` is `nil`); a `(*T, error)` result is
  `Except Err T`.
* `int64` money amounts and `int` stock quantities (Go's `int` taken at 64 bits) are
  integers reduced by `wrap64` after every addition, subtraction and negation.
  `Version` fields are counters that start at 1 and grow by one per update; they are
  kept as unbounded integers (reaching the bounds of `int` takes `2^63` updates, and
  the comparison with `Version-1` in the stores does not wrap for a positive version).
  What the update methods of the order and wallet stores do at the bounds of `int` is
  stated over `UpdateInt` and `UpdateWalletInt`, which take the comparison in `int`
  arithmetic.
* A repository is an interface in Go; here it is a record of state transformers over
  an abstract state `σ`.  The mocks of the test suites are instances of that record.
* A Go `map[uuid.UUID]*T` is an association list with one entry per key; a `range`
  over it starts at a position chosen by the runtime and wraps around.
* Values the environment chooses are read from streams carried by the mock: `uuids`
  holds the results the UUID generator will return, `starts` the positions at which the
  runtime will start the map iterations to come; each use consumes the head of its
  stream.  The clock readings `time.Now()` of a service operation are arguments of that
  operation.
-/

namespace DistributedProgramming

/-- Identifier type `uuid.UUID`; `uuid.Nil` is `0`. -/
abbrev UUID := Nat

/-- Instant type `time.Time`. -/
abbrev Time := Nat

/-- Two-complement reduction of an integer to the range of `int64`. -/
def wrap64 (x : Int) : Int := (x + 2 ^ 63) % 2 ^ 64 - 2 ^ 63

/-- The error of a `(*T, error)` result, `none` when it is `nil`. -/
def errorOf {ε α : Type} (r : Except ε α) : Option ε :=
  match r with
  | .error e => some e
  | .ok _ => none

/-- Rendering `uuid.UUID.String()`; the properties below use it only as a function of the
identifier. -/
def uuidString (u : UUID) : String := toString u

/-- Lookup `m[k]` in a Go map. -/
def mapGet {α : Type} (m : List (UUID × α)) (k : UUID) : Option α :=
  match m with
  | [] => none
  | (k', v) :: rest => if k' = k then some v else mapGet rest k

/-- Assignment `m[k] = v` in a Go map: the entry of `k` is replaced where it is, a new
key gets a new entry. -/
def mapSet {α : Type} (m : List (UUID × α)) (k : UUID) (v : α) : List (UUID × α) :=
  match m with
  | [] => [(k, v)]
  | (k', v') :: rest => if k' = k then (k, v) :: rest else (k', v') :: mapSet rest k v

/-- The entries of a Go map in the order a `range` visits them when the runtime starts
the iteration at position `start`. -/
def mapRange {α : Type} (m : List (UUID × α)) (start : Nat) : List (UUID × α) :=
  m.rotate start

/-! ## Payment: model -/

namespace PaymentSvc

/-- Error values of `payment/pkg/domain/model`, and `other` for `errors.New` values
created elsewhere. -/
inductive Err where
  | ErrWalletNotFound
  | ErrInsufficientFunds
  | ErrDuplicateTransaction
  | ErrInvalidAmount
  | ErrOptimisticLock
  | other (msg : String)
deriving DecidableEq, Repr

/-- Message of an error, `err.Error()`. -/
def Err.Error : Err → String
  | .ErrWalletNotFound => "wallet not found"
  | .ErrInsufficientFunds => "insufficient funds"
  | .ErrDuplicateTransaction => "transaction with this reference already exists"
  | .ErrInvalidAmount => "amount must be positive"
  | .ErrOptimisticLock => "wallet was modified by another transaction"
  | .other msg => msg

inductive TransactionType where
  | Deposit
  | Withdrawal
deriving DecidableEq, Repr

inductive TransactionStatus where
  | TxPending
  | TxCommitted
  | TxFailed
deriving DecidableEq, Repr

structure Wallet where
  ID : UUID
  UserID : UUID
  BalanceCents : Int
  Currency : String
  Version : Int
  CreatedAt : Time
  UpdatedAt : Time
deriving DecidableEq, Repr

structure Transaction where
  ID : UUID
  WalletID : UUID
  Type_ : TransactionType
  AmountCents : Int
  ReferenceID : String
  Status : TransactionStatus
  ErrorMessage : String
  CreatedAt : Time
deriving DecidableEq, Repr

/-- Events of `payment/pkg/domain/model/event.go`. -/
inductive Event where
  | FundsDeposited (WalletID UserID : UUID) (AmountCents : Int) (ReferenceID : String)
      (NewBalance : Int)
  | FundsWithdrawn (WalletID UserID : UUID) (AmountCents : Int) (ReferenceID : String)
  | PaymentFailed (WalletID : UUID) (ReferenceID : String) (Reason : String)
deriving DecidableEq, Repr

/-- Interface `model.PaymentRepository`. -/
structure PaymentRepository (σ : Type) where
  NextID : σ → Except Err UUID × σ
  CreateWallet : Wallet → σ → Option Err × σ
  GetWalletByUserID : UUID → σ → Except Err Wallet × σ
  UpdateWallet : Wallet → σ → Option Err × σ
  SaveTransaction : Transaction → σ → Option Err × σ
  FindTransactionByRef : UUID → String → σ → (Option Transaction × Option Err) × σ

/-- Interface `service.EventDispatcher`. -/
structure EventDispatcher (δ : Type) where
  Dispatch : Event → δ → Option Err × δ

/-! ## Payment: service (`payment/pkg/domain/service/payment.go`) -/

/-- Method `paymentService.CreateWallet`. -/
def CreateWallet {σ : Type} (R : PaymentRepository σ) (now : Time) (userID : UUID) (s : σ) :
    Except Err Wallet × σ :=
  let r₁ := R.NextID s
  match r₁.1 with
  | .error e => (.error e, r₁.2)
  | .ok id =>
    let wallet : Wallet :=
      { ID := id, UserID := userID, BalanceCents := 0, Currency := "INTERNAL_COIN",
        Version := 1, CreatedAt := now, UpdatedAt := now }
    let r₂ := R.CreateWallet wallet r₁.2
    match r₂.1 with
    | some e => (.error e, r₂.2)
    | none => (.ok wallet, r₂.2)

/-- Method `paymentService.processTransaction`.  `t₁` is the clock reading taken for the
transaction record, `t₂` the one taken for `wallet.UpdatedAt`. -/
def processTransaction {σ δ : Type} (R : PaymentRepository σ) (D : EventDispatcher δ)
    (t₁ t₂ : Time) (userID : UUID) (amount : Int) (refID : String) (txType : TransactionType)
    (s : σ) (d : δ) : Except Err Wallet × σ × δ :=
  let r₁ := R.GetWalletByUserID userID s
  match r₁.1 with
  | .error e => (.error e, r₁.2, d)
  | .ok wallet =>
    let r₂ := R.FindTransactionByRef wallet.ID refID r₁.2
    match r₂.1 with
    | (some _, none) => (.ok wallet, r₂.2, d)
    | _ =>
      let r₃ := R.NextID r₂.2
      match r₃.1 with
      | .error e => (.error e, r₃.2, d)
      | .ok txID =>
        let tx : Transaction :=
          { ID := txID, WalletID := wallet.ID, Type_ := txType, AmountCents := amount,
            ReferenceID := refID, Status := .TxPending, ErrorMessage := "", CreatedAt := t₁ }
        if txType = .Withdrawal ∧ wallet.BalanceCents < amount then
          let r₄ := R.SaveTransaction
            { tx with Status := .TxFailed, ErrorMessage := Err.ErrInsufficientFunds.Error } r₃.2
          let r₅ := D.Dispatch
            (.PaymentFailed wallet.ID refID Err.ErrInsufficientFunds.Error) d
          (.error .ErrInsufficientFunds, r₄.2, r₅.2)
        else
          let balance : Int :=
            if txType = .Withdrawal then wrap64 (wallet.BalanceCents - amount)
            else wrap64 (wallet.BalanceCents + amount)
          let wallet₁ : Wallet :=
            { wallet with BalanceCents := balance, Version := wallet.Version + 1,
                          UpdatedAt := t₂ }
          let r₄ := R.SaveTransaction { tx with Status := .TxCommitted } r₃.2
          match r₄.1 with
          | some e => (.error e, r₄.2, d)
          | none =>
            let r₅ := R.UpdateWallet wallet₁ r₄.2
            match r₅.1 with
            | some e => (.error e, r₅.2, d)
            | none =>
              let ev : Event :=
                if txType = .Withdrawal then .FundsWithdrawn wallet₁.ID userID amount refID
                else .FundsDeposited wallet₁.ID userID amount refID wallet₁.BalanceCents
              (.ok wallet₁, r₅.2, (D.Dispatch ev d).2)

/-- Method `paymentService.Deposit`. -/
def Deposit {σ δ : Type} (R : PaymentRepository σ) (D : EventDispatcher δ)
    (t₁ t₂ : Time) (userID : UUID) (amountCents : Int) (referenceID : String)
    (s : σ) (d : δ) : Except Err Wallet × σ × δ :=
  if amountCents ≤ 0 then (.error .ErrInvalidAmount, s, d)
  else processTransaction R D t₁ t₂ userID amountCents referenceID .Deposit s d

/-- Method `paymentService.PayForOrder`. -/
def PayForOrder {σ δ : Type} (R : PaymentRepository σ) (D : EventDispatcher δ)
    (t₁ t₂ : Time) (userID orderID : UUID) (amountCents : Int)
    (s : σ) (d : δ) : Option Err × σ × δ :=
  if amountCents ≤ 0 then (some .ErrInvalidAmount, s, d)
  else
    let r := processTransaction R D t₁ t₂ userID amountCents (uuidString orderID) .Withdrawal s d
    match r.1 with
    | .error e => (some e, r.2)
    | .ok _ => (none, r.2)

/-- Method `paymentService.GetBalance`. -/
def GetBalance {σ : Type} (R : PaymentRepository σ) (userID : UUID) (s : σ) :
    Except Err Int × σ :=
  let r := R.GetWalletByUserID userID s
  match r.1 with
  | .error e => (.error e, r.2)
  | .ok wallet => (.ok wallet.BalanceCents, r.2)

/-! ## Payment: in-memory repository (`paymentervice_test.go`) -/

/-- State of `mockPaymentRepository`: the two Go fields, the results `uuid.New()` will
return and the starts of the map iterations to come. -/
structure mockPaymentRepository where
  storeWallets : List (UUID × Wallet)
  storeTxs : List Transaction
  uuids : Nat → UUID
  starts : Nat → Nat

namespace mockPaymentRepository

/-- Constructor `newMockPaymentRepository`. -/
def new (uuids : Nat → UUID) (starts : Nat → Nat) : mockPaymentRepository :=
  { storeWallets := [], storeTxs := [], uuids := uuids, starts := starts }

def NextID (m : mockPaymentRepository) : Except Err UUID × mockPaymentRepository :=
  (.ok (m.uuids 0), { m with uuids := fun n => m.uuids (n + 1) })

def CreateWallet (w : Wallet) (m : mockPaymentRepository) : Option Err × mockPaymentRepository :=
  match mapGet m.storeWallets w.ID with
  | some _ => (some (.other "wallet already exists"), m)
  | none =>
    (none, { m with storeWallets := mapSet (mapSet m.storeWallets w.ID w) w.UserID w })

/-- The first wallet of `entries` whose `UserID` is `userID`. -/
def firstByUser (userID : UUID) (entries : List (UUID × Wallet)) : Option Wallet :=
  match entries with
  | [] => none
  | (_, w) :: rest => if w.UserID = userID then some w else firstByUser userID rest

def GetWalletByUserID (userID : UUID) (m : mockPaymentRepository) :
    Except Err Wallet × mockPaymentRepository :=
  let m₁ := { m with starts := fun n => m.starts (n + 1) }
  match firstByUser userID (mapRange m.storeWallets (m.starts 0)) with
  | some w => (.ok w, m₁)
  | none => (.error .ErrWalletNotFound, m₁)

def UpdateWallet (w : Wallet) (m : mockPaymentRepository) : Option Err × mockPaymentRepository :=
  match mapGet m.storeWallets w.ID with
  | none => (some .ErrWalletNotFound, m)
  | some existing =>
    if existing.Version ≠ w.Version - 1 then (some .ErrOptimisticLock, m)
    else (none, { m with storeWallets := mapSet m.storeWallets w.ID w })

def SaveTransaction (tx : Transaction) (m : mockPaymentRepository) :
    Option Err × mockPaymentRepository :=
  (none, { m with storeTxs := m.storeTxs ++ [tx] })

/-- The first transaction of the slice for the wallet and the reference. -/
def firstByRef (walletID : UUID) (refID : String) (txs : List Transaction) : Option Transaction :=
  match txs with
  | [] => none
  | tx :: rest =>
    if tx.WalletID = walletID ∧ tx.ReferenceID = refID then some tx
    else firstByRef walletID refID rest

def FindTransactionByRef (walletID : UUID) (refID : String) (m : mockPaymentRepository) :
    (Option Transaction × Option Err) × mockPaymentRepository :=
  ((firstByRef walletID refID m.storeTxs, none), m)

/-- The mock as an implementation of the repository interface. -/
def impl : PaymentRepository mockPaymentRepository :=
  { NextID := NextID
    CreateWallet := CreateWallet
    GetWalletByUserID := GetWalletByUserID
    UpdateWallet := UpdateWallet
    SaveTransaction := SaveTransaction
    FindTransactionByRef := FindTransactionByRef }

end mockPaymentRepository

/-- State of `mockEventDispatcher`. -/
structure mockEventDispatcher where
  events : List Event
deriving DecidableEq, Repr

namespace mockEventDispatcher

def Dispatch (event : Event) (m : mockEventDispatcher) : Option Err × mockEventDispatcher :=
  (none, { events := m.events ++ [event] })

def Reset (_m : mockEventDispatcher) : mockEventDispatcher := { events := [] }

/-- The dispatcher a test setup builds: nothing dispatched yet. -/
def new : mockEventDispatcher := { events := [] }

def impl : EventDispatcher mockEventDispatcher := { Dispatch := Dispatch }

end mockEventDispatcher

end PaymentSvc

/-! ## Order: model (`order/pkg/domain/model`) -/

namespace OrderSvc

/-- Error values of the order model and of the order service, and `other` for
`errors.New` values created elsewhere. -/
inductive Err where
  | ErrOrderNotFound
  | ErrOptimisticLock
  | ErrOrderCannotBeModified
  | ErrOrderIsEmpty
  | ErrNegativePrice
  | ErrOrderItemNotFound
  | other (msg : String)
deriving DecidableEq, Repr

inductive OrderStatus where
  | Open
  | Pending
  | Paid
  | Cancelled
deriving DecidableEq, Repr

structure Item where
  ID : UUID
  ProductID : UUID
  PriceCents : Int
deriving DecidableEq, Repr

structure Order where
  ID : UUID
  CustomerID : UUID
  Status : OrderStatus
  Items : List Item
  TotalCents : Int
  Version : Int
  CreatedAt : Time
  UpdatedAt : Time
  DeletedAt : Option Time
deriving DecidableEq, Repr

/-- Events of `order/pkg/domain/model/event.go`. -/
inductive Event where
  | OrderCreated (OrderID CustomerID : UUID)
  | ItemAddedToOrder (OrderID ItemID ProductID : UUID)
  | ItemRemovedFromOrder (OrderID ItemID : UUID)
  | OrderSubmittedForPayment (OrderID : UUID) (TotalCents : Int)
  | OrderPaid (OrderID : UUID)
  | OrderCancelled (OrderID : UUID) (Reason : String)
deriving DecidableEq, Repr

/-- Interface `model.OrderRepository`. -/
structure OrderRepository (σ : Type) where
  NextID : σ → Except Err UUID × σ
  Create : Order → σ → Option Err × σ
  Find : UUID → σ → Except Err Order × σ
  Update : Order → σ → Option Err × σ
  Delete : UUID → σ → Option Err × σ

/-- Interface `service.EventDispatcher`. -/
structure EventDispatcher (δ : Type) where
  Dispatch : Event → δ → Option Err × δ

/-! ## Order: service (`lw5/pkg/domain/service/order.go`) -/

/-- Method `orderService.recalculateTotal`: the running `int64` sum of the item prices. -/
def recalculateTotal (order : Order) : Order :=
  { order with
    TotalCents := order.Items.foldl (fun total item => wrap64 (total + item.PriceCents)) 0 }

/-- Method `orderService.updateOrder`. -/
def updateOrder {σ : Type} (R : OrderRepository σ) (now : Time) (order : Order) (s : σ) :
    Option Err × σ :=
  R.Update { order with Version := order.Version + 1, UpdatedAt := now } s

/-- Method `orderService.CreateNewOrder`. -/
def CreateNewOrder {σ δ : Type} (R : OrderRepository σ) (D : EventDispatcher δ)
    (now : Time) (customerID : UUID) (s : σ) (d : δ) : Except Err Order × σ × δ :=
  let r₁ := R.NextID s
  match r₁.1 with
  | .error e => (.error e, r₁.2, d)
  | .ok orderID =>
    let order : Order :=
      { ID := orderID, CustomerID := customerID, Status := .Open, Items := [],
        TotalCents := 0, Version := 1, CreatedAt := now, UpdatedAt := now, DeletedAt := none }
    let r₂ := R.Create order r₁.2
    match r₂.1 with
    | some e => (.error e, r₂.2, d)
    | none => (.ok order, r₂.2, (D.Dispatch (.OrderCreated orderID customerID) d).2)

/-- Method `orderService.AddItemToOrder`; the first component of the result is the
returned item identifier (`uuid.Nil` with an error). -/
def AddItemToOrder {σ δ : Type} (R : OrderRepository σ) (D : EventDispatcher δ)
    (now : Time) (orderID productID : UUID) (priceCents : Int) (s : σ) (d : δ) :
    (UUID × Option Err) × σ × δ :=
  if priceCents < 0 then ((0, some .ErrNegativePrice), s, d)
  else
    let r₁ := R.Find orderID s
    match r₁.1 with
    | .error e => ((0, some e), r₁.2, d)
    | .ok order =>
      if order.Status ≠ .Open then ((0, some .ErrOrderCannotBeModified), r₁.2, d)
      else
        let r₂ := R.NextID r₁.2
        match r₂.1 with
        | .error e => ((0, some e), r₂.2, d)
        | .ok itemID =>
          let order₁ := recalculateTotal
            { order with
              Items := order.Items ++
                [{ ID := itemID, ProductID := productID, PriceCents := priceCents }] }
          let r₃ := updateOrder R now order₁ r₂.2
          match r₃.1 with
          | some e => ((0, some e), r₃.2, d)
          | none =>
            ((itemID, none), r₃.2, (D.Dispatch (.ItemAddedToOrder orderID itemID productID) d).2)

/-- Index of the first item carrying `itemID`, the loop of `RemoveItemFromOrder`
(`none` stands for the sentinel `-1`). -/
def itemIndex (itemID : UUID) (items : List Item) : Option Nat :=
  match items with
  | [] => none
  | item :: rest =>
    if item.ID = itemID then some 0 else (itemIndex itemID rest).map (· + 1)

/-- Method `orderService.RemoveItemFromOrder`.  The items are a value here; see
`OrderSvc.mockOrderRepository.Update_after_Find` for the array Go shares with the stored
order. -/
def RemoveItemFromOrder {σ δ : Type} (R : OrderRepository σ) (D : EventDispatcher δ)
    (now : Time) (orderID itemID : UUID) (s : σ) (d : δ) : Option Err × σ × δ :=
  let r₁ := R.Find orderID s
  match r₁.1 with
  | .error e => (some e, r₁.2, d)
  | .ok order =>
    if order.Status ≠ .Open then (some .ErrOrderCannotBeModified, r₁.2, d)
    else
      match itemIndex itemID order.Items with
      | none => (some .ErrOrderItemNotFound, r₁.2, d)
      | some i =>
        let order₁ := recalculateTotal
          { order with Items := order.Items.take i ++ order.Items.drop (i + 1) }
        let r₂ := updateOrder R now order₁ r₁.2
        match r₂.1 with
        | some e => (some e, r₂.2, d)
        | none => (none, r₂.2, (D.Dispatch (.ItemRemovedFromOrder orderID itemID) d).2)

/-- Method `orderService.SubmitOrderForPayment`. -/
def SubmitOrderForPayment {σ δ : Type} (R : OrderRepository σ) (D : EventDispatcher δ)
    (now : Time) (orderID : UUID) (s : σ) (d : δ) : Option Err × σ × δ :=
  let r₁ := R.Find orderID s
  match r₁.1 with
  | .error e => (some e, r₁.2, d)
  | .ok order =>
    if order.Items.length = 0 then (some .ErrOrderIsEmpty, r₁.2, d)
    else if order.Status ≠ .Open then (some .ErrOrderCannotBeModified, r₁.2, d)
    else
      let order₁ := { order with Status := .Pending }
      let r₂ := updateOrder R now order₁ r₁.2
      match r₂.1 with
      | some e => (some e, r₂.2, d)
      | none =>
        (none, r₂.2, (D.Dispatch (.OrderSubmittedForPayment orderID order₁.TotalCents) d).2)

/-- Method `orderService.MarkOrderAsPaid`. -/
def MarkOrderAsPaid {σ δ : Type} (R : OrderRepository σ) (_D : EventDispatcher δ)
    (now : Time) (orderID : UUID) (s : σ) (d : δ) : Option Err × σ × δ :=
  let r₁ := R.Find orderID s
  match r₁.1 with
  | .error e => (some e, r₁.2, d)
  | .ok order =>
    if order.Status ≠ .Pending then (some .ErrOrderCannotBeModified, r₁.2, d)
    else
      let r₂ := updateOrder R now { order with Status := .Paid } r₁.2
      (r₂.1, r₂.2, d)

/-- Method `orderService.CancelOrder`. -/
def CancelOrder {σ δ : Type} (R : OrderRepository σ) (D : EventDispatcher δ)
    (now : Time) (orderID : UUID) (reason : String) (s : σ) (d : δ) : Option Err × σ × δ :=
  let r₁ := R.Find orderID s
  match r₁.1 with
  | .error e => (some e, r₁.2, d)
  | .ok order =>
    if order.Status ≠ .Open ∧ order.Status ≠ .Pending then
      (some .ErrOrderCannotBeModified, r₁.2, d)
    else
      let r₂ := updateOrder R now { order with Status := .Cancelled } r₁.2
      match r₂.1 with
      | some e => (some e, r₂.2, d)
      | none => (none, r₂.2, (D.Dispatch (.OrderCancelled orderID reason) d).2)

/-! ## Order: in-memory repository (`orderservice_test.go`) -/

/-- State of `mockOrderRepository`: the Go field `store`, the results
`uuid.NewRandom()` will return and the clock readings `Delete` will take.
A failure of the random source is not part of this mock; how the service treats a
failing `NextID` is stated over the repository interface. -/
structure mockOrderRepository where
  store : List (UUID × Order)
  uuids : Nat → UUID
  clock : Nat → Time

namespace mockOrderRepository

/-- The repository value built by `setup`. -/
def new (uuids : Nat → UUID) (clock : Nat → Time) : mockOrderRepository :=
  { store := [], uuids := uuids, clock := clock }

def NextID (m : mockOrderRepository) : Except Err UUID × mockOrderRepository :=
  (.ok (m.uuids 0), { m with uuids := fun n => m.uuids (n + 1) })

def CreateAndReturn (order : Order) (m : mockOrderRepository) :
    Except Err Order × mockOrderRepository :=
  (.ok order, { m with store := mapSet m.store order.ID order })

def Create (order : Order) (m : mockOrderRepository) : Option Err × mockOrderRepository :=
  match mapGet m.store order.ID with
  | some _ => (some (.other "order with this ID already exists"), m)
  | none => (none, { m with store := mapSet m.store order.ID order })

def Find (id : UUID) (m : mockOrderRepository) : Except Err Order × mockOrderRepository :=
  match mapGet m.store id with
  | some order => if order.DeletedAt = none then (.ok order, m) else (.error .ErrOrderNotFound, m)
  | none => (.error .ErrOrderNotFound, m)

def Update (order : Order) (m : mockOrderRepository) : Option Err × mockOrderRepository :=
  match mapGet m.store order.ID with
  | none => (some .ErrOrderNotFound, m)
  | some existing =>
    if existing.Version ≠ order.Version - 1 then (some .ErrOptimisticLock, m)
    else (none, { m with store := mapSet m.store order.ID order })

def Delete (id : UUID) (m : mockOrderRepository) : Option Err × mockOrderRepository :=
  match mapGet m.store id with
  | none => (some .ErrOrderNotFound, m)
  | some order =>
    (none, { m with store := mapSet m.store id { order with DeletedAt := some (m.clock 0) }
                    clock := fun n => m.clock (n + 1) })

/-- The mock as an implementation of the repository interface. -/
def impl : OrderRepository mockOrderRepository :=
  { NextID := NextID, Create := Create, Find := Find, Update := Update, Delete := Delete }

end mockOrderRepository

/-- State of `mockEventDispatcher`. -/
structure mockEventDispatcher where
  events : List Event
deriving DecidableEq, Repr

namespace mockEventDispatcher

def Dispatch (event : Event) (m : mockEventDispatcher) : Option Err × mockEventDispatcher :=
  (none, { events := m.events ++ [event] })

def Reset (_m : mockEventDispatcher) : mockEventDispatcher := { events := [] }

/-- The dispatcher a test setup builds: nothing dispatched yet. -/
def new : mockEventDispatcher := { events := [] }

def impl : EventDispatcher mockEventDispatcher := { Dispatch := Dispatch }

end mockEventDispatcher

end OrderSvc

/-! ## Product: model (`product/pkg/product/domain/model`) -/

namespace ProductSvc

/-- Error values of the product model and of the product service, and `other` for
`errors.New` values created in place. -/
inductive Err where
  | ErrProductNotFound
  | ErrInsufficientStock
  | ErrInvalidStockQuantity
  | ErrProductNotAvailable
  | other (msg : String)
deriving DecidableEq, Repr

inductive ProductStatus where
  | Available
  | Unavailable
  | Archived
deriving DecidableEq, Repr

structure Product where
  ID : UUID
  Name : String
  Description : String
  PriceCents : Int
  StockQuantity : Int
  Status : ProductStatus
  Version : Int
  CreatedAt : Time
  UpdatedAt : Time
deriving DecidableEq, Repr

/-- Events of `product/pkg/product/domain/model/event.go`. -/
inductive Event where
  | ProductCreated (ProductID : UUID) (Name : String)
  | ProductPriceChanged (ProductID : UUID) (OldPriceCents NewPriceCents : Int)
  | ProductStockChanged (ProductID : UUID) (ChangeAmount NewQuantity : Int)
  | ProductArchived (ProductID : UUID)
deriving DecidableEq, Repr

/-- Interface `model.ProductRepository`. -/
structure ProductRepository (σ : Type) where
  NextID : σ → Except Err UUID × σ
  Create : Product → σ → Option Err × σ
  Update : Product → σ → Option Err × σ
  Find : UUID → σ → Except Err Product × σ

/-- Interface `service.EventDispatcher`. -/
structure EventDispatcher (δ : Type) where
  Dispatch : Event → δ → Option Err × δ

/-! ## Product: service (`product/pkg/product/domain/service/product.go`) -/

/-- Method `productService.updateProduct`. -/
def updateProduct {σ : Type} (R : ProductRepository σ) (now : Time) (product : Product) (s : σ) :
    Option Err × σ :=
  R.Update { product with Version := product.Version + 1, UpdatedAt := now } s

/-- Method `productService.CreateProduct`. -/
def CreateProduct {σ δ : Type} (R : ProductRepository σ) (D : EventDispatcher δ)
    (now : Time) (name description : String) (priceCents initialStock : Int) (s : σ) (d : δ) :
    Except Err Product × σ × δ :=
  if priceCents < 0 ∨ initialStock < 0 then
    (.error (.other "price and stock cannot be negative"), s, d)
  else
    let r₁ := R.NextID s
    match r₁.1 with
    | .error e => (.error e, r₁.2, d)
    | .ok productID =>
      let product : Product :=
        { ID := productID, Name := name, Description := description, PriceCents := priceCents,
          StockQuantity := initialStock, Status := .Available, Version := 1,
          CreatedAt := now, UpdatedAt := now }
      let r₂ := R.Create product r₁.2
      match r₂.1 with
      | some e => (.error e, r₂.2, d)
      | none => (.ok product, r₂.2, (D.Dispatch (.ProductCreated productID name) d).2)

/-- Method `productService.ChangeProductPrice`. -/
def ChangeProductPrice {σ δ : Type} (R : ProductRepository σ) (D : EventDispatcher δ)
    (now : Time) (productID : UUID) (newPriceCents : Int) (s : σ) (d : δ) :
    Option Err × σ × δ :=
  let r₁ := R.Find productID s
  match r₁.1 with
  | .error e => (some e, r₁.2, d)
  | .ok product =>
    if product.Status = .Archived then (some .ErrProductNotAvailable, r₁.2, d)
    else if newPriceCents < 0 then (some (.other "price cannot be negative"), r₁.2, d)
    else
      let oldPrice := product.PriceCents
      let r₂ := updateProduct R now { product with PriceCents := newPriceCents } r₁.2
      match r₂.1 with
      | some e => (some e, r₂.2, d)
      | none =>
        (none, r₂.2, (D.Dispatch (.ProductPriceChanged productID oldPrice newPriceCents) d).2)

/-- Method `productService.changeStock`. -/
def changeStock {σ δ : Type} (R : ProductRepository σ) (D : EventDispatcher δ)
    (now : Time) (productID : UUID) (amount : Int) (s : σ) (d : δ) : Option Err × σ × δ :=
  let r₁ := R.Find productID s
  match r₁.1 with
  | .error e => (some e, r₁.2, d)
  | .ok product =>
    if product.Status ≠ .Available then (some .ErrProductNotAvailable, r₁.2, d)
    else if wrap64 (product.StockQuantity + amount) < 0 then
      (some .ErrInsufficientStock, r₁.2, d)
    else
      let product₁ :=
        { product with StockQuantity := wrap64 (product.StockQuantity + amount) }
      let r₂ := updateProduct R now product₁ r₁.2
      match r₂.1 with
      | some e => (some e, r₂.2, d)
      | none =>
        (none, r₂.2,
          (D.Dispatch (.ProductStockChanged productID amount product₁.StockQuantity) d).2)

/-- Method `productService.ReceiveStock`. -/
def ReceiveStock {σ δ : Type} (R : ProductRepository σ) (D : EventDispatcher δ)
    (now : Time) (productID : UUID) (quantity : Int) (s : σ) (d : δ) : Option Err × σ × δ :=
  if quantity ≤ 0 then (some .ErrInvalidStockQuantity, s, d)
  else changeStock R D now productID quantity s d

/-- Method `productService.ReserveStock`. -/
def ReserveStock {σ δ : Type} (R : ProductRepository σ) (D : EventDispatcher δ)
    (now : Time) (productID : UUID) (quantity : Int) (s : σ) (d : δ) : Option Err × σ × δ :=
  if quantity ≤ 0 then (some .ErrInvalidStockQuantity, s, d)
  else changeStock R D now productID (wrap64 (-quantity)) s d

/-- Method `productService.ArchiveProduct`. -/
def ArchiveProduct {σ δ : Type} (R : ProductRepository σ) (D : EventDispatcher δ)
    (now : Time) (productID : UUID) (s : σ) (d : δ) : Option Err × σ × δ :=
  let r₁ := R.Find productID s
  match r₁.1 with
  | .error e => (some e, r₁.2, d)
  | .ok product =>
    if product.Status = .Archived then (none, r₁.2, d)
    else
      let r₂ := updateProduct R now { product with Status := .Archived } r₁.2
      match r₂.1 with
      | some e => (some e, r₂.2, d)
      | none => (none, r₂.2, (D.Dispatch (.ProductArchived productID) d).2)

/-! ## Product: in-memory repository (`productservice_test.go`) -/

/-- State of `mockProductRepository`: the Go field `store` and the results `uuid.New()`
will return. -/
structure mockProductRepository where
  store : List (UUID × Product)
  uuids : Nat → UUID

namespace mockProductRepository

/-- The repository value built by `setup`. -/
def new (uuids : Nat → UUID) : mockProductRepository :=
  { store := [], uuids := uuids }

def NextID (m : mockProductRepository) : Except Err UUID × mockProductRepository :=
  (.ok (m.uuids 0), { m with uuids := fun n => m.uuids (n + 1) })

def Create (p : Product) (m : mockProductRepository) : Option Err × mockProductRepository :=
  (none, { m with store := mapSet m.store p.ID p })

def Find (id : UUID) (m : mockProductRepository) : Except Err Product × mockProductRepository :=
  match mapGet m.store id with
  | some p => (.ok p, m)
  | none => (.error .ErrProductNotFound, m)

def Update (p : Product) (m : mockProductRepository) : Option Err × mockProductRepository :=
  match mapGet m.store p.ID with
  | none => (some .ErrProductNotFound, m)
  | some existing =>
    if existing.Version ≠ p.Version - 1 then (some (.other "optimistic lock failed"), m)
    else (none, { m with store := mapSet m.store p.ID p })

/-- The mock as an implementation of the repository interface. -/
def impl : ProductRepository mockProductRepository :=
  { NextID := NextID, Create := Create, Update := Update, Find := Find }

end mockProductRepository

/-- State of `mockEventDispatcher`. -/
structure mockEventDispatcher where
  events : List Event
deriving DecidableEq, Repr

namespace mockEventDispatcher

def Dispatch (event : Event) (m : mockEventDispatcher) : Option Err × mockEventDispatcher :=
  (none, { events := m.events ++ [event] })

def Reset (_m : mockEventDispatcher) : mockEventDispatcher := { events := [] }

/-- The dispatcher a test setup builds: nothing dispatched yet. -/
def new : mockEventDispatcher := { events := [] }

def impl : EventDispatcher mockEventDispatcher := { Dispatch := Dispatch }

end mockEventDispatcher

end ProductSvc

/-! ## User: model (`user/pkg/domain/model`) -/

namespace UserSvc

/-- Error values of the user model and of the user service, and `other` for
`errors.New` values created elsewhere. -/
inductive Err where
  | ErrUserNotFound
  | ErrEmailTaken
  | ErrPasswordTooShort
  | ErrUserCannotBeChanged
  | other (msg : String)
deriving DecidableEq, Repr

inductive UserStatus where
  | PendingVerification
  | Active
  | Suspended
  | Deactivated
deriving DecidableEq, Repr

structure User where
  ID : UUID
  Email : String
  HashedPassword : String
  FirstName : String
  LastName : String
  Status : UserStatus
  CreatedAt : Time
  UpdatedAt : Time
deriving DecidableEq, Repr

/-- Events of `user/pkg/domain/model/event.go`. -/
inductive Event where
  | UserRegistered (UserID : UUID) (Email FirstName : String)
  | UserProfileUpdated (UserID : UUID)
  | UserStatusChanged (UserID : UUID) (OldStatus NewStatus : UserStatus)
  | UserDeactivated (UserID : UUID)
deriving DecidableEq, Repr

/-- Interface `model.UserRepository`. -/
structure UserRepository (σ : Type) where
  NextID : σ → Except Err UUID × σ
  Create : User → σ → Option Err × σ
  Update : User → σ → Option Err × σ
  Find : UUID → σ → Except Err User × σ
  FindByEmail : String → σ → Except Err User × σ

/-- Interface `model.PasswordManager`. -/
structure PasswordManager where
  Hash : String → Except Err String
  Check : String → String → Except Err Bool

/-- Interface `service.EventDispatcher`. -/
structure EventDispatcher (δ : Type) where
  Dispatch : Event → δ → Option Err × δ

/-! ## User: service (`user/pkg/domain/service/user.go`) -/

def minPasswordLength : Nat := 8

/-- Method `userService.RegisterNewUser`; `len` of a Go string is its length in bytes. -/
def RegisterNewUser {σ δ : Type} (R : UserRepository σ) (P : PasswordManager)
    (D : EventDispatcher δ) (now : Time) (firstName lastName email plainTextPassword : String)
    (s : σ) (d : δ) : Except Err User × σ × δ :=
  if plainTextPassword.utf8ByteSize < minPasswordLength then (.error .ErrPasswordTooShort, s, d)
  else
    let r₁ := R.FindByEmail email s
    match r₁.1 with
    | .ok _ => (.error .ErrEmailTaken, r₁.2, d)
    | .error _ =>
      match P.Hash plainTextPassword with
      | .error e => (.error e, r₁.2, d)
      | .ok hashedPassword =>
        let r₂ := R.NextID r₁.2
        match r₂.1 with
        | .error e => (.error e, r₂.2, d)
        | .ok userID =>
          let user : User :=
            { ID := userID, Email := email, HashedPassword := hashedPassword,
              FirstName := firstName, LastName := lastName, Status := .Active,
              CreatedAt := now, UpdatedAt := now }
          let r₃ := R.Create user r₂.2
          match r₃.1 with
          | some e => (.error e, r₃.2, d)
          | none =>
            (.ok user, r₃.2, (D.Dispatch (.UserRegistered userID email firstName) d).2)

/-- Method `userService.UpdateUserProfile`. -/
def UpdateUserProfile {σ δ : Type} (R : UserRepository σ) (D : EventDispatcher δ)
    (now : Time) (userID : UUID) (firstName lastName : String) (s : σ) (d : δ) :
    Option Err × σ × δ :=
  let r₁ := R.Find userID s
  match r₁.1 with
  | .error e => (some e, r₁.2, d)
  | .ok user =>
    if user.Status = .Deactivated then (some .ErrUserCannotBeChanged, r₁.2, d)
    else
      let r₂ := R.Update
        { user with FirstName := firstName, LastName := lastName, UpdatedAt := now } r₁.2
      match r₂.1 with
      | some e => (some e, r₂.2, d)
      | none => (none, r₂.2, (D.Dispatch (.UserProfileUpdated userID) d).2)

/-- Method `userService.changeStatus`. -/
def changeStatus {σ δ : Type} (R : UserRepository σ) (D : EventDispatcher δ)
    (now : Time) (userID : UUID) (newStatus : UserStatus) (s : σ) (d : δ) :
    Option Err × σ × δ :=
  let r₁ := R.Find userID s
  match r₁.1 with
  | .error e => (some e, r₁.2, d)
  | .ok user =>
    let oldStatus := user.Status
    if oldStatus = newStatus ∨ oldStatus = .Deactivated then (none, r₁.2, d)
    else
      let r₂ := R.Update { user with Status := newStatus, UpdatedAt := now } r₁.2
      match r₂.1 with
      | some e => (some e, r₂.2, d)
      | none =>
        let d₁ := (D.Dispatch (.UserStatusChanged userID oldStatus newStatus) d).2
        if newStatus = .Deactivated then (none, r₂.2, (D.Dispatch (.UserDeactivated userID) d₁).2)
        else (none, r₂.2, d₁)

/-- Method `userService.SuspendUser`. -/
def SuspendUser {σ δ : Type} (R : UserRepository σ) (D : EventDispatcher δ)
    (now : Time) (userID : UUID) (s : σ) (d : δ) : Option Err × σ × δ :=
  changeStatus R D now userID .Suspended s d

/-- Method `userService.ActivateUser`. -/
def ActivateUser {σ δ : Type} (R : UserRepository σ) (D : EventDispatcher δ)
    (now : Time) (userID : UUID) (s : σ) (d : δ) : Option Err × σ × δ :=
  changeStatus R D now userID .Active s d

/-- Method `userService.DeactivateUser`. -/
def DeactivateUser {σ δ : Type} (R : UserRepository σ) (D : EventDispatcher δ)
    (now : Time) (userID : UUID) (s : σ) (d : δ) : Option Err × σ × δ :=
  changeStatus R D now userID .Deactivated s d

/-! ## User: in-memory repository (`userservice_test.go`)

The Go mock hands out the stored pointer from `Find`, so the field writes of the
service reach the stored object before `Update` is called; `Update` then stores the same
pointer under the same key and cannot fail, so the stored object after a call is the one
the value-passing reading below produces. -/

/-- State of `mockUserRepository`: the Go field `store`, the results `uuid.New()` will
return and the starts of the map iterations to come. -/
structure mockUserRepository where
  store : List (UUID × User)
  uuids : Nat → UUID
  starts : Nat → Nat

namespace mockUserRepository

/-- The repository value built by `setup`. -/
def new (uuids : Nat → UUID) (starts : Nat → Nat) : mockUserRepository :=
  { store := [], uuids := uuids, starts := starts }

def NextID (m : mockUserRepository) : Except Err UUID × mockUserRepository :=
  (.ok (m.uuids 0), { m with uuids := fun n => m.uuids (n + 1) })

def Create (user : User) (m : mockUserRepository) : Option Err × mockUserRepository :=
  (none, { m with store := mapSet m.store user.ID user })

def Update (user : User) (m : mockUserRepository) : Option Err × mockUserRepository :=
  (none, { m with store := mapSet m.store user.ID user })

def Find (id : UUID) (m : mockUserRepository) : Except Err User × mockUserRepository :=
  match mapGet m.store id with
  | some user => (.ok user, m)
  | none => (.error .ErrUserNotFound, m)

/-- The first user of `entries` whose `Email` is `email`. -/
def firstByEmail (email : String) (entries : List (UUID × User)) : Option User :=
  match entries with
  | [] => none
  | (_, u) :: rest => if u.Email = email then some u else firstByEmail email rest

def FindByEmail (email : String) (m : mockUserRepository) :
    Except Err User × mockUserRepository :=
  let m₁ := { m with starts := fun n => m.starts (n + 1) }
  match firstByEmail email (mapRange m.store (m.starts 0)) with
  | some u => (.ok u, m₁)
  | none => (.error .ErrUserNotFound, m₁)

/-- The mock as an implementation of the repository interface. -/
def impl : UserRepository mockUserRepository :=
  { NextID := NextID, Create := Create, Update := Update, Find := Find,
    FindByEmail := FindByEmail }

end mockUserRepository

/-- The value `mockPasswordManager`. -/
def mockPasswordManager : PasswordManager :=
  { Hash := fun pwd => if pwd = "" then .error (.other "empty password") else .ok (pwd ++ "-hashed")
    Check := fun hashed pwd => .ok (decide (hashed = pwd ++ "-hashed")) }

/-- State of `mockEventDispatcher`. -/
structure mockEventDispatcher where
  events : List Event
deriving DecidableEq, Repr

namespace mockEventDispatcher

def Dispatch (event : Event) (m : mockEventDispatcher) : Option Err × mockEventDispatcher :=
  (none, { events := m.events ++ [event] })

def Reset (_m : mockEventDispatcher) : mockEventDispatcher := { events := [] }

/-- The dispatcher a test setup builds: nothing dispatched yet. -/
def new : mockEventDispatcher := { events := [] }

def impl : EventDispatcher mockEventDispatcher := { Dispatch := Dispatch }

end mockEventDispatcher

end UserSvc

/-! ## Sequences of service calls -/

namespace OrderSvc

/-- A call of the order service with its arguments and the clock reading it takes. -/
inductive Cmd where
  | CreateNewOrder (now : Time) (customerID : UUID)
  | AddItemToOrder (now : Time) (orderID productID : UUID) (priceCents : Int)
  | RemoveItemFromOrder (now : Time) (orderID itemID : UUID)
  | SubmitOrderForPayment (now : Time) (orderID : UUID)
  | MarkOrderAsPaid (now : Time) (orderID : UUID)
  | CancelOrder (now : Time) (orderID : UUID) (reason : String)
deriving Repr

/-- Performs one call; the first component is the error the call returns. -/
def exec {σ δ : Type} (R : OrderRepository σ) (D : EventDispatcher δ) (c : Cmd) (s : σ) (d : δ) :
    Option Err × σ × δ :=
  match c with
  | .CreateNewOrder now customerID =>
    let r := CreateNewOrder R D now customerID s d
    (match r.1 with
      | .error e => some e
      | .ok _ => none, r.2)
  | .AddItemToOrder now orderID productID priceCents =>
    let r := AddItemToOrder R D now orderID productID priceCents s d
    (r.1.2, r.2)
  | .RemoveItemFromOrder now orderID itemID => RemoveItemFromOrder R D now orderID itemID s d
  | .SubmitOrderForPayment now orderID => SubmitOrderForPayment R D now orderID s d
  | .MarkOrderAsPaid now orderID => MarkOrderAsPaid R D now orderID s d
  | .CancelOrder now orderID reason => CancelOrder R D now orderID reason s d

/-- Performs the calls one after the other. -/
def run {σ δ : Type} (R : OrderRepository σ) (D : EventDispatcher δ) (cs : List Cmd)
    (s : σ) (d : δ) : σ × δ :=
  match cs with
  | [] => (s, d)
  | c :: rest => run R D rest (exec R D c s d).2.1 (exec R D c s d).2.2

end OrderSvc

namespace ProductSvc

/-- A call of the product service with its arguments and the clock reading it takes. -/
inductive Cmd where
  | CreateProduct (now : Time) (name description : String) (priceCents initialStock : Int)
  | ChangeProductPrice (now : Time) (productID : UUID) (newPriceCents : Int)
  | ReceiveStock (now : Time) (productID : UUID) (quantity : Int)
  | ReserveStock (now : Time) (productID : UUID) (quantity : Int)
  | ArchiveProduct (now : Time) (productID : UUID)
deriving Repr

/-- Performs one call; the first component is the error the call returns. -/
def exec {σ δ : Type} (R : ProductRepository σ) (D : EventDispatcher δ) (c : Cmd)
    (s : σ) (d : δ) : Option Err × σ × δ :=
  match c with
  | .CreateProduct now name description priceCents initialStock =>
    let r := CreateProduct R D now name description priceCents initialStock s d
    (match r.1 with
      | .error e => some e
      | .ok _ => none, r.2)
  | .ChangeProductPrice now productID newPriceCents =>
    ChangeProductPrice R D now productID newPriceCents s d
  | .ReceiveStock now productID quantity => ReceiveStock R D now productID quantity s d
  | .ReserveStock now productID quantity => ReserveStock R D now productID quantity s d
  | .ArchiveProduct now productID => ArchiveProduct R D now productID s d

/-- Performs the calls one after the other. -/
def run {σ δ : Type} (R : ProductRepository σ) (D : EventDispatcher δ) (cs : List Cmd)
    (s : σ) (d : δ) : σ × δ :=
  match cs with
  | [] => (s, d)
  | c :: rest => run R D rest (exec R D c s d).2.1 (exec R D c s d).2.2

end ProductSvc

namespace PaymentSvc

/-- A call of the payment service with its arguments and the clock readings it takes. -/
inductive Cmd where
  | CreateWallet (now : Time) (userID : UUID)
  | Deposit (t₁ t₂ : Time) (userID : UUID) (amountCents : Int) (referenceID : String)
  | PayForOrder (t₁ t₂ : Time) (userID orderID : UUID) (amountCents : Int)
  | GetBalance (userID : UUID)
deriving Repr

/-- Performs one call; the first component is the error the call returns. -/
def exec {σ δ : Type} (R : PaymentRepository σ) (D : EventDispatcher δ) (c : Cmd)
    (s : σ) (d : δ) : Option Err × σ × δ :=
  match c with
  | .CreateWallet now userID =>
    let r := CreateWallet R now userID s
    (match r.1 with
      | .error e => some e
      | .ok _ => none, r.2, d)
  | .Deposit t₁ t₂ userID amountCents referenceID =>
    let r := Deposit R D t₁ t₂ userID amountCents referenceID s d
    (match r.1 with
      | .error e => some e
      | .ok _ => none, r.2)
  | .PayForOrder t₁ t₂ userID orderID amountCents =>
    PayForOrder R D t₁ t₂ userID orderID amountCents s d
  | .GetBalance userID =>
    let r := GetBalance R userID s
    (match r.1 with
      | .error e => some e
      | .ok _ => none, r.2, d)

/-- Performs the calls one after the other. -/
def run {σ δ : Type} (R : PaymentRepository σ) (D : EventDispatcher δ) (cs : List Cmd)
    (s : σ) (d : δ) : σ × δ :=
  match cs with
  | [] => (s, d)
  | c :: rest => run R D rest (exec R D c s d).2.1 (exec R D c s d).2.2

end PaymentSvc

namespace UserSvc

/-- A call of the user service with its arguments and the clock reading it takes. -/
inductive Cmd where
  | RegisterNewUser (now : Time) (firstName lastName email plainTextPassword : String)
  | UpdateUserProfile (now : Time) (userID : UUID) (firstName lastName : String)
  | SuspendUser (now : Time) (userID : UUID)
  | ActivateUser (now : Time) (userID : UUID)
  | DeactivateUser (now : Time) (userID : UUID)
deriving Repr

/-- Performs one call; the first component is the error the call returns. -/
def exec {σ δ : Type} (R : UserRepository σ) (P : PasswordManager) (D : EventDispatcher δ)
    (c : Cmd) (s : σ) (d : δ) : Option Err × σ × δ :=
  match c with
  | .RegisterNewUser now firstName lastName email plainTextPassword =>
    let r := RegisterNewUser R P D now firstName lastName email plainTextPassword s d
    (match r.1 with
      | .error e => some e
      | .ok _ => none, r.2)
  | .UpdateUserProfile now userID firstName lastName =>
    UpdateUserProfile R D now userID firstName lastName s d
  | .SuspendUser now userID => SuspendUser R D now userID s d
  | .ActivateUser now userID => ActivateUser R D now userID s d
  | .DeactivateUser now userID => DeactivateUser R D now userID s d

/-- Performs the calls one after the other. -/
def run {σ δ : Type} (R : UserRepository σ) (P : PasswordManager) (D : EventDispatcher δ)
    (cs : List Cmd) (s : σ) (d : δ) : σ × δ :=
  match cs with
  | [] => (s, d)
  | c :: rest => run R P D rest (exec R P D c s d).2.1 (exec R P D c s d).2.2

end UserSvc

/-! ## Observing a repository

`Recorded` wraps the state of any repository with two lists: the aggregates its lookups
have returned and the aggregates that were passed to its update method, in call order.
The `recording` wrappers forward every call to the wrapped repository. -/

/-- State of a recording repository. -/
structure Recorded (σ α : Type) where
  inner : σ
  loaded : List α
  updated : List α

/-- The order repository `R`, recording what `Find` returns and what `Update` receives. -/
def OrderSvc.recording {σ : Type} (R : OrderSvc.OrderRepository σ) :
    OrderSvc.OrderRepository (Recorded σ OrderSvc.Order) :=
  { NextID := fun s => ((R.NextID s.inner).1, { s with inner := (R.NextID s.inner).2 })
    Create := fun o s => ((R.Create o s.inner).1, { s with inner := (R.Create o s.inner).2 })
    Find := fun id s =>
      ((R.Find id s.inner).1,
        { s with
          inner := (R.Find id s.inner).2
          loaded := match (R.Find id s.inner).1 with
            | .ok o => s.loaded ++ [o]
            | .error _ => s.loaded })
    Update := fun o s =>
      ((R.Update o s.inner).1,
        { s with inner := (R.Update o s.inner).2, updated := s.updated ++ [o] })
    Delete := fun id s => ((R.Delete id s.inner).1, { s with inner := (R.Delete id s.inner).2 }) }

/-- The product repository `R`, recording what `Find` returns and what `Update` receives. -/
def ProductSvc.recording {σ : Type} (R : ProductSvc.ProductRepository σ) :
    ProductSvc.ProductRepository (Recorded σ ProductSvc.Product) :=
  { NextID := fun s => ((R.NextID s.inner).1, { s with inner := (R.NextID s.inner).2 })
    Create := fun p s => ((R.Create p s.inner).1, { s with inner := (R.Create p s.inner).2 })
    Update := fun p s =>
      ((R.Update p s.inner).1,
        { s with inner := (R.Update p s.inner).2, updated := s.updated ++ [p] })
    Find := fun id s =>
      ((R.Find id s.inner).1,
        { s with
          inner := (R.Find id s.inner).2
          loaded := match (R.Find id s.inner).1 with
            | .ok p => s.loaded ++ [p]
            | .error _ => s.loaded }) }

/-- The payment repository `R`, recording what `GetWalletByUserID` returns and what
`UpdateWallet` receives. -/
def PaymentSvc.recording {σ : Type} (R : PaymentSvc.PaymentRepository σ) :
    PaymentSvc.PaymentRepository (Recorded σ PaymentSvc.Wallet) :=
  { NextID := fun s => ((R.NextID s.inner).1, { s with inner := (R.NextID s.inner).2 })
    CreateWallet := fun w s =>
      ((R.CreateWallet w s.inner).1, { s with inner := (R.CreateWallet w s.inner).2 })
    GetWalletByUserID := fun userID s =>
      ((R.GetWalletByUserID userID s.inner).1,
        { s with
          inner := (R.GetWalletByUserID userID s.inner).2
          loaded := match (R.GetWalletByUserID userID s.inner).1 with
            | .ok w => s.loaded ++ [w]
            | .error _ => s.loaded })
    UpdateWallet := fun w s =>
      ((R.UpdateWallet w s.inner).1,
        { s with inner := (R.UpdateWallet w s.inner).2, updated := s.updated ++ [w] })
    SaveTransaction := fun tx s =>
      ((R.SaveTransaction tx s.inner).1, { s with inner := (R.SaveTransaction tx s.inner).2 })
    FindTransactionByRef := fun walletID refID s =>
      ((R.FindTransactionByRef walletID refID s.inner).1,
        { s with inner := (R.FindTransactionByRef walletID refID s.inner).2 }) }

/-! ## Sequences of updates of the in-memory stores -/

/-- The order store after the updates `os`, applied one after the other. -/
def OrderSvc.mockOrderRepository.updateAll (os : List OrderSvc.Order)
    (m : OrderSvc.mockOrderRepository) : OrderSvc.mockOrderRepository :=
  match os with
  | [] => m
  | o :: rest => updateAll rest (OrderSvc.mockOrderRepository.Update o m).2

/-- Number of the updates `os` that carry the identifier `id` and succeed. -/
def OrderSvc.mockOrderRepository.successes (id : UUID) (os : List OrderSvc.Order)
    (m : OrderSvc.mockOrderRepository) : Nat :=
  match os with
  | [] => 0
  | o :: rest =>
    (if o.ID = id ∧ (OrderSvc.mockOrderRepository.Update o m).1 = none then 1 else 0)
      + successes id rest (OrderSvc.mockOrderRepository.Update o m).2

/-- The product store after the updates `ps`, applied one after the other. -/
def ProductSvc.mockProductRepository.updateAll (ps : List ProductSvc.Product)
    (m : ProductSvc.mockProductRepository) : ProductSvc.mockProductRepository :=
  match ps with
  | [] => m
  | p :: rest => updateAll rest (ProductSvc.mockProductRepository.Update p m).2

/-- Number of the updates `ps` that carry the identifier `id` and succeed. -/
def ProductSvc.mockProductRepository.successes (id : UUID) (ps : List ProductSvc.Product)
    (m : ProductSvc.mockProductRepository) : Nat :=
  match ps with
  | [] => 0
  | p :: rest =>
    (if p.ID = id ∧ (ProductSvc.mockProductRepository.Update p m).1 = none then 1 else 0)
      + successes id rest (ProductSvc.mockProductRepository.Update p m).2

/-- The wallet store after the updates `ws`, applied one after the other. -/
def PaymentSvc.mockPaymentRepository.updateAll (ws : List PaymentSvc.Wallet)
    (m : PaymentSvc.mockPaymentRepository) : PaymentSvc.mockPaymentRepository :=
  match ws with
  | [] => m
  | w :: rest => updateAll rest (PaymentSvc.mockPaymentRepository.UpdateWallet w m).2

/-- Number of the updates `ws` that carry the identifier `id` and succeed. -/
def PaymentSvc.mockPaymentRepository.successes (id : UUID) (ws : List PaymentSvc.Wallet)
    (m : PaymentSvc.mockPaymentRepository) : Nat :=
  match ws with
  | [] => 0
  | w :: rest =>
    (if w.ID = id ∧ (PaymentSvc.mockPaymentRepository.UpdateWallet w m).1 = none then 1 else 0)
      + successes id rest (PaymentSvc.mockPaymentRepository.UpdateWallet w m).2

/-! ## A repository whose calls may fail -/

/-- State of a payment repository with injected failures: `faults n` is the error the
`n`-th call to come returns instead of being performed, if any. -/
structure PaymentSvc.Faulty (σ : Type) where
  inner : σ
  faults : Nat → Option PaymentSvc.Err

/-- The payment repository `R` with injected failures: a call for which a fault is
scheduled returns that error and leaves the wrapped repository untouched; every other call
is forwarded. -/
def PaymentSvc.faulty {σ : Type} (R : PaymentSvc.PaymentRepository σ) :
    PaymentSvc.PaymentRepository (PaymentSvc.Faulty σ) :=
  { NextID := fun s =>
      match s.faults 0 with
      | some e => (.error e, { s with faults := fun n => s.faults (n + 1) })
      | none => ((R.NextID s.inner).1,
          { inner := (R.NextID s.inner).2, faults := fun n => s.faults (n + 1) })
    CreateWallet := fun w s =>
      match s.faults 0 with
      | some e => (some e, { s with faults := fun n => s.faults (n + 1) })
      | none => ((R.CreateWallet w s.inner).1,
          { inner := (R.CreateWallet w s.inner).2, faults := fun n => s.faults (n + 1) })
    GetWalletByUserID := fun userID s =>
      match s.faults 0 with
      | some e => (.error e, { s with faults := fun n => s.faults (n + 1) })
      | none => ((R.GetWalletByUserID userID s.inner).1,
          { inner := (R.GetWalletByUserID userID s.inner).2,
            faults := fun n => s.faults (n + 1) })
    UpdateWallet := fun w s =>
      match s.faults 0 with
      | some e => (some e, { s with faults := fun n => s.faults (n + 1) })
      | none => ((R.UpdateWallet w s.inner).1,
          { inner := (R.UpdateWallet w s.inner).2, faults := fun n => s.faults (n + 1) })
    SaveTransaction := fun tx s =>
      match s.faults 0 with
      | some e => (some e, { s with faults := fun n => s.faults (n + 1) })
      | none => ((R.SaveTransaction tx s.inner).1,
          { inner := (R.SaveTransaction tx s.inner).2, faults := fun n => s.faults (n + 1) })
    FindTransactionByRef := fun walletID refID s =>
      match s.faults 0 with
      | some e => ((none, some e), { s with faults := fun n => s.faults (n + 1) })
      | none => ((R.FindTransactionByRef walletID refID s.inner).1,
          { inner := (R.FindTransactionByRef walletID refID s.inner).2,
            faults := fun n => s.faults (n + 1) }) }

/-! ## Properties of an order that the calls maintain -/

/-- Sum of the item prices of an order, as an exact integer. -/
def OrderSvc.priceSum (o : OrderSvc.Order) : Int :=
  (o.Items.map (fun item => item.PriceCents)).sum

/-- The total of the order is the sum of its item prices reduced to `int64`, and no item
has a negative price. -/
def OrderSvc.TotalOK (o : OrderSvc.Order) : Prop :=
  o.TotalCents = wrap64 (OrderSvc.priceSum o) ∧ ∀ item ∈ o.Items, 0 ≤ item.PriceCents

/-! ## Sample states -/

/-- The order of the test after `CreateNewOrder` (the generator issues 10, 11, ...) and
`AddItemToOrder` with price 5000. -/
def OrderSvc.sampleOrderWithItem : OrderSvc.Order :=
  { ID := 10, CustomerID := 7, Status := .Open,
    Items := [{ ID := 11, ProductID := 5, PriceCents := 5000 }],
    TotalCents := 5000, Version := 2, CreatedAt := 1, UpdatedAt := 2, DeletedAt := none }

/-- An order in status `Paid` with one item. -/
def OrderSvc.samplePaidOrder : OrderSvc.Order :=
  { ID := 10, CustomerID := 7, Status := .Paid,
    Items := [{ ID := 11, ProductID := 5, PriceCents := 300 }],
    TotalCents := 300, Version := 4, CreatedAt := 1, UpdatedAt := 4, DeletedAt := none }

/-- An in-memory order store holding `samplePaidOrder`. -/
def OrderSvc.samplePaidStore : OrderSvc.mockOrderRepository :=
  { store := [(10, OrderSvc.samplePaidOrder)], uuids := fun n => n + 12, clock := fun n => n }

/-- The product of the test scenario after the first reservation: 7 in stock. -/
def ProductSvc.sampleLaptop : ProductSvc.Product :=
  { ID := 10, Name := "Laptop", Description := "Powerful laptop", PriceCents := 150000,
    StockQuantity := 7, Status := .Available, Version := 2, CreatedAt := 1, UpdatedAt := 2 }

/-- The calls of the test scenario: a laptop is created with 10 in stock, then 3 are
reserved (the generator issues 10 for the product). -/
def ProductSvc.sampleCalls : List ProductSvc.Cmd :=
  [.CreateProduct 1 "Laptop" "Powerful laptop" 150000 10, .ReserveStock 2 10 3]

/-- A user in status `Deactivated`. -/
def UserSvc.sampleDeactivated : UserSvc.User :=
  { ID := 10, Email := "gone@example.com", HashedPassword := "password123-hashed",
    FirstName := "John", LastName := "Doe", Status := .Deactivated,
    CreatedAt := 1, UpdatedAt := 3 }

/-- An in-memory user store holding `sampleDeactivated`; the generator issues 11, 12, ... -/
def UserSvc.sampleStore : UserSvc.mockUserRepository :=
  { store := [(10, UserSvc.sampleDeactivated)], uuids := fun n => n + 11, starts := fun n => n }

/-- The payment test setup followed by `CreateWallet` for user 7 at time 100: the UUID
generator issues 10, 11, ... and the `n`-th map iteration to come starts at position `n`. -/
def PaymentSvc.sampleCreated : Except PaymentSvc.Err PaymentSvc.Wallet ×
    PaymentSvc.mockPaymentRepository :=
  PaymentSvc.CreateWallet PaymentSvc.mockPaymentRepository.impl 100 7
    (PaymentSvc.mockPaymentRepository.new (fun n => n + 10) (fun n => n))

/-- The call `Deposit(7, 500, "r1")` after `sampleCreated`. -/
def PaymentSvc.sampleFirstDeposit : Except PaymentSvc.Err PaymentSvc.Wallet ×
    PaymentSvc.mockPaymentRepository × PaymentSvc.mockEventDispatcher :=
  PaymentSvc.Deposit PaymentSvc.mockPaymentRepository.impl PaymentSvc.mockEventDispatcher.impl
    101 102 7 500 "r1" PaymentSvc.sampleCreated.2 PaymentSvc.mockEventDispatcher.new

/-- The call `Deposit(7, 500, "r1")` once more, after `sampleFirstDeposit`. -/
def PaymentSvc.sampleSecondDeposit : Except PaymentSvc.Err PaymentSvc.Wallet ×
    PaymentSvc.mockPaymentRepository × PaymentSvc.mockEventDispatcher :=
  PaymentSvc.Deposit PaymentSvc.mockPaymentRepository.impl PaymentSvc.mockEventDispatcher.impl
    103 104 7 500 "r1" PaymentSvc.sampleFirstDeposit.2.1 PaymentSvc.sampleFirstDeposit.2.2

/-- The call `Deposit(7, 100, "r2")`, a new reference, after `sampleFirstDeposit`. -/
def PaymentSvc.sampleOtherDeposit : Except PaymentSvc.Err PaymentSvc.Wallet ×
    PaymentSvc.mockPaymentRepository × PaymentSvc.mockEventDispatcher :=
  PaymentSvc.Deposit PaymentSvc.mockPaymentRepository.impl PaymentSvc.mockEventDispatcher.impl
    103 104 7 100 "r2" PaymentSvc.sampleFirstDeposit.2.1 PaymentSvc.sampleFirstDeposit.2.2

/-- The wallet of `sampleCreated` with balance 500 at version 2. -/
def PaymentSvc.sampleUpdatedWallet : PaymentSvc.Wallet :=
  { ID := 10, UserID := 7, BalanceCents := 500, Currency := "INTERNAL_COIN", Version := 2,
    CreatedAt := 100, UpdatedAt := 101 }

/-- The call `UpdateWallet(sampleUpdatedWallet)` on the store of `sampleCreated`. -/
def PaymentSvc.sampleUpdated : Option PaymentSvc.Err × PaymentSvc.mockPaymentRepository :=
  PaymentSvc.mockPaymentRepository.UpdateWallet PaymentSvc.sampleUpdatedWallet
    PaymentSvc.sampleCreated.2

/-- The order test setup followed by `CreateNewOrder` for customer 7 (the generator issues
10, 11, ...) and `CancelOrder` of the new order 10. -/
def OrderSvc.sampleCancelled : Option OrderSvc.Err × OrderSvc.mockOrderRepository ×
    OrderSvc.mockEventDispatcher :=
  OrderSvc.CancelOrder OrderSvc.mockOrderRepository.impl OrderSvc.mockEventDispatcher.impl
    2 10 "changed my mind"
    (OrderSvc.CreateNewOrder OrderSvc.mockOrderRepository.impl OrderSvc.mockEventDispatcher.impl
      1 7 (OrderSvc.mockOrderRepository.new (fun n => n + 10) (fun n => n))
      OrderSvc.mockEventDispatcher.new).2.1
    (OrderSvc.CreateNewOrder OrderSvc.mockOrderRepository.impl OrderSvc.mockEventDispatcher.impl
      1 7 (OrderSvc.mockOrderRepository.new (fun n => n + 10) (fun n => n))
      OrderSvc.mockEventDispatcher.new).2.2

/-- The order test setup followed by `CreateNewOrder` and three `AddItemToOrder` calls with
price `2^62` on the new order 10. -/
def OrderSvc.sampleLargeOrder : OrderSvc.mockOrderRepository × OrderSvc.mockEventDispatcher :=
  OrderSvc.run OrderSvc.mockOrderRepository.impl OrderSvc.mockEventDispatcher.impl
    [.CreateNewOrder 1 7, .AddItemToOrder 2 10 5 (2 ^ 62), .AddItemToOrder 3 10 5 (2 ^ 62),
     .AddItemToOrder 4 10 5 (2 ^ 62)]
    (OrderSvc.mockOrderRepository.new (fun n => n + 10) (fun n => n))
    OrderSvc.mockEventDispatcher.new

/-- The in-memory wallet store after `CreateWallet` for user 7, behind a repository whose
fifth call to come fails with `ErrOptimisticLock`. -/
def PaymentSvc.sampleFaulty : PaymentSvc.Faulty PaymentSvc.mockPaymentRepository :=
  { inner := (PaymentSvc.CreateWallet PaymentSvc.mockPaymentRepository.impl 100 7
      (PaymentSvc.mockPaymentRepository.new (fun n => n + 10) (fun n => n))).2
    faults := fun n => if n = 4 then some .ErrOptimisticLock else none }

/-- The call `Deposit(7, 500, "r1")` on `sampleFaulty`: the fifth repository call is
`UpdateWallet`. -/
def PaymentSvc.sampleFaultyDeposit : Except PaymentSvc.Err PaymentSvc.Wallet ×
    PaymentSvc.Faulty PaymentSvc.mockPaymentRepository × PaymentSvc.mockEventDispatcher :=
  PaymentSvc.Deposit (PaymentSvc.faulty PaymentSvc.mockPaymentRepository.impl)
    PaymentSvc.mockEventDispatcher.impl 101 102 7 500 "r1" PaymentSvc.sampleFaulty
    PaymentSvc.mockEventDispatcher.new

/-- Every entry of the map is filed under the identifier its order carries. -/
def OrderSvc.KeyedByID (l : List (UUID × OrderSvc.Order)) : Prop :=
  ∀ e ∈ l, e.2.ID = e.1

/-- No entry of the map is marked as deleted. -/
def OrderSvc.NotDeleted (l : List (UUID × OrderSvc.Order)) : Prop :=
  ∀ e ∈ l, e.2.DeletedAt = none

/-! ## Stores reached from the empty one -/

/-- The in-memory order store and dispatcher after the calls `cs` on what `setup` builds. -/
def OrderSvc.reached (uuids : Nat → UUID) (clock : Nat → Time) (cs : List OrderSvc.Cmd) :
    OrderSvc.mockOrderRepository × OrderSvc.mockEventDispatcher :=
  OrderSvc.run OrderSvc.mockOrderRepository.impl OrderSvc.mockEventDispatcher.impl cs
    (OrderSvc.mockOrderRepository.new uuids clock) OrderSvc.mockEventDispatcher.new

/-- The order a call is addressed to; `CreateNewOrder` is addressed to none. -/
def OrderSvc.Cmd.target : OrderSvc.Cmd → Option UUID
  | .CreateNewOrder _ _ => none
  | .AddItemToOrder _ orderID _ _ => some orderID
  | .RemoveItemFromOrder _ orderID _ => some orderID
  | .SubmitOrderForPayment _ orderID => some orderID
  | .MarkOrderAsPaid _ orderID => some orderID
  | .CancelOrder _ orderID _ => some orderID

/-- The in-memory wallet store and dispatcher after the calls `cs` on what the test setup
builds. -/
def PaymentSvc.reached (uuids : Nat → UUID) (starts : Nat → Nat) (cs : List PaymentSvc.Cmd) :
    PaymentSvc.mockPaymentRepository × PaymentSvc.mockEventDispatcher :=
  PaymentSvc.run PaymentSvc.mockPaymentRepository.impl PaymentSvc.mockEventDispatcher.impl cs
    (PaymentSvc.mockPaymentRepository.new uuids starts) PaymentSvc.mockEventDispatcher.new

/-- The calls of the payment test on a new store (the generator issues 10, 11, ...): an
order is created for customer 7, an item of 300 is added, the order is submitted. -/
def OrderSvc.sampleSubmitCalls : List OrderSvc.Cmd :=
  [.CreateNewOrder 1 7, .AddItemToOrder 2 10 5 300, .SubmitOrderForPayment 3 10]

/-- The order 10 as stored after `sampleSubmitCalls`. -/
def OrderSvc.samplePendingOrder : OrderSvc.Order :=
  { ID := 10, CustomerID := 7, Status := .Pending,
    Items := [{ ID := 11, ProductID := 5, PriceCents := 300 }],
    TotalCents := 300, Version := 3, CreatedAt := 1, UpdatedAt := 3, DeletedAt := none }

/-- Status of the stored order `id` after the calls `cs` on a new store whose generator
issues 10, 11, ... -/
def OrderSvc.sampleStatusAfter (cs : List OrderSvc.Cmd) (id : UUID) :
    Option OrderSvc.OrderStatus :=
  (mapGet (OrderSvc.reached (fun n => n + 10) (fun n => n) cs).1.store id).map
    (fun o => o.Status)

/-- The call `SubmitOrderForPayment` at time 5 of the order 10 of `sampleLargeOrder`. -/
def OrderSvc.sampleLargeSubmitted : Option OrderSvc.Err × OrderSvc.mockOrderRepository ×
    OrderSvc.mockEventDispatcher :=
  OrderSvc.SubmitOrderForPayment OrderSvc.mockOrderRepository.impl
    OrderSvc.mockEventDispatcher.impl 5 10 OrderSvc.sampleLargeOrder.1
    OrderSvc.sampleLargeOrder.2

/-- The ledger holds no `Pending` record and at most one record for each wallet and
reference. -/
def PaymentSvc.LedgerOK (txs : List PaymentSvc.Transaction) : Prop :=
  (∀ tx ∈ txs, tx.Status ≠ .TxPending) ∧
  ∀ (walletID : UUID) (refID : String),
    (txs.filter (fun tx => decide (tx.WalletID = walletID ∧ tx.ReferenceID = refID))).length ≤ 1

/-- The calls of a payment that is retried (the generator issues 10, 11, ... and the `n`-th
map iteration starts at position `n`): a wallet is created for user 7, a payment of 500 for
order 20 fails for lack of funds, 1000 is deposited. -/
def PaymentSvc.sampleRetryCalls : List PaymentSvc.Cmd :=
  [.CreateWallet 100 7, .PayForOrder 101 102 7 20 500, .Deposit 103 104 7 1000 "r1"]

/-- The wallet of user 7 as stored under its identifier after `sampleRetryCalls`. -/
def PaymentSvc.sampleFundedWallet : PaymentSvc.Wallet :=
  { ID := 10, UserID := 7, BalanceCents := 1000, Currency := "INTERNAL_COIN", Version := 2,
    CreatedAt := 100, UpdatedAt := 104 }

/-- The record of the failed payment in the ledger after `sampleRetryCalls`. -/
def PaymentSvc.sampleFailedRecord : PaymentSvc.Transaction :=
  { ID := 11, WalletID := 10, Type_ := .Withdrawal, AmountCents := 500, ReferenceID := "20",
    Status := .TxFailed, ErrorMessage := "insufficient funds", CreatedAt := 101 }

/-- The wallet `sampleCreated` returns and stores. -/
def PaymentSvc.sampleNewWallet : PaymentSvc.Wallet :=
  { ID := 10, UserID := 7, BalanceCents := 0, Currency := "INTERNAL_COIN", Version := 1,
    CreatedAt := 100, UpdatedAt := 100 }

/-- A wallet is created for user 7 and `2^62` is deposited (the generator issues 10, 11, ...
and every map iteration starts at the first entry). -/
def PaymentSvc.sampleLargeBalance : PaymentSvc.mockPaymentRepository ×
    PaymentSvc.mockEventDispatcher :=
  PaymentSvc.reached (fun n => n + 10) (fun _ => 0)
    [.CreateWallet 100 7, .Deposit 101 102 7 (2 ^ 62) "r1"]

/-- The call `Deposit(7, 2^62, "r2")` after `sampleLargeBalance`. -/
def PaymentSvc.sampleLargeDeposit : Except PaymentSvc.Err PaymentSvc.Wallet ×
    PaymentSvc.mockPaymentRepository × PaymentSvc.mockEventDispatcher :=
  PaymentSvc.Deposit PaymentSvc.mockPaymentRepository.impl PaymentSvc.mockEventDispatcher.impl
    103 104 7 (2 ^ 62) "r2" PaymentSvc.sampleLargeBalance.1 PaymentSvc.sampleLargeBalance.2

/-- Every entry of the product map is filed under the identifier its product carries. -/
def ProductSvc.KeyedByID (l : List (UUID × ProductSvc.Product)) : Prop :=
  ∀ e ∈ l, e.2.ID = e.1

/-- The in-memory product store and dispatcher after the calls `cs` on what `setup` builds. -/
def ProductSvc.reached (uuids : Nat → UUID) (cs : List ProductSvc.Cmd) :
    ProductSvc.mockProductRepository × ProductSvc.mockEventDispatcher :=
  ProductSvc.run ProductSvc.mockProductRepository.impl ProductSvc.mockEventDispatcher.impl cs
    (ProductSvc.mockProductRepository.new uuids) ProductSvc.mockEventDispatcher.new

/-- The product a call is addressed to; `CreateProduct` is addressed to none. -/
def ProductSvc.Cmd.target : ProductSvc.Cmd → Option UUID
  | .CreateProduct _ _ _ _ _ => none
  | .ChangeProductPrice _ productID _ => some productID
  | .ReceiveStock _ productID _ => some productID
  | .ReserveStock _ productID _ => some productID
  | .ArchiveProduct _ productID => some productID

/-- An in-memory product store holding `sampleLaptop`; the generator issues 11, 12, ... -/
def ProductSvc.sampleLaptopStore : ProductSvc.mockProductRepository :=
  { store := [(10, ProductSvc.sampleLaptop)], uuids := fun n => n + 11 }

/-- Another product carrying the identifier of `sampleLaptop`. -/
def ProductSvc.sampleOtherProduct : ProductSvc.Product :=
  { ID := 10, Name := "Phone", Description := "", PriceCents := 90000, StockQuantity := 1,
    Status := .Available, Version := 1, CreatedAt := 5, UpdatedAt := 5 }

/-- What the calls maintain of a stored product: price and stock are not negative and the
status is `Available` or `Archived`. -/
def ProductSvc.WellFormed (p : ProductSvc.Product) : Prop :=
  0 ≤ p.PriceCents ∧ 0 ≤ p.StockQuantity ∧ (p.Status = .Available ∨ p.Status = .Archived)

/-- The laptop of the test scenario as `CreateProduct` stores it: 10 in stock, version 1. -/
def ProductSvc.sampleNewLaptop : ProductSvc.Product :=
  { ID := 10, Name := "Laptop", Description := "Powerful laptop", PriceCents := 150000,
    StockQuantity := 10, Status := .Available, Version := 1, CreatedAt := 1, UpdatedAt := 1 }

/-- A new store on which a product is created with the largest stock an `int` holds,
`2^63 - 1` (the generator issues 10, 11, ...). -/
def ProductSvc.sampleFullStock : ProductSvc.mockProductRepository ×
    ProductSvc.mockEventDispatcher :=
  ProductSvc.reached (fun n => n + 10) [.CreateProduct 1 "Bolt" "" 5 (2 ^ 63 - 1)]

/-- The call `ReceiveStock(10, 1)` at time 2 after `sampleFullStock`. -/
def ProductSvc.sampleFullReceive : Option ProductSvc.Err × ProductSvc.mockProductRepository ×
    ProductSvc.mockEventDispatcher :=
  ProductSvc.ReceiveStock ProductSvc.mockProductRepository.impl
    ProductSvc.mockEventDispatcher.impl 2 10 1 ProductSvc.sampleFullStock.1
    ProductSvc.sampleFullStock.2

/-- The laptop of the test scenario, archived at time 3. -/
def ProductSvc.sampleArchivedLaptop : ProductSvc.Product :=
  { ProductSvc.sampleNewLaptop with Status := .Archived, Version := 2, UpdatedAt := 3 }

/-- The calls that create the laptop and archive it (the generator issues 10, 11, ...). -/
def ProductSvc.sampleArchiveCalls : List ProductSvc.Cmd :=
  [.CreateProduct 1 "Laptop" "Powerful laptop" 150000 10, .ArchiveProduct 3 10]

/-- The order test setup followed by `CreateNewOrder` and four `AddItemToOrder` calls with
price `2^62` on the new order 10; the items receive the identifiers 11 to 14. -/
def OrderSvc.sampleFourItems : OrderSvc.mockOrderRepository × OrderSvc.mockEventDispatcher :=
  OrderSvc.reached (fun n => n + 10) (fun n => n)
    [.CreateNewOrder 1 7, .AddItemToOrder 2 10 5 (2 ^ 62), .AddItemToOrder 3 10 5 (2 ^ 62),
     .AddItemToOrder 4 10 5 (2 ^ 62), .AddItemToOrder 5 10 5 (2 ^ 62)]

/-- The call `RemoveItemFromOrder(10, 11)` at time 6 after `sampleFourItems`. -/
def OrderSvc.sampleFourItemsRemoved : Option OrderSvc.Err × OrderSvc.mockOrderRepository ×
    OrderSvc.mockEventDispatcher :=
  OrderSvc.RemoveItemFromOrder OrderSvc.mockOrderRepository.impl
    OrderSvc.mockEventDispatcher.impl 6 10 11 OrderSvc.sampleFourItems.1
    OrderSvc.sampleFourItems.2

/-- Every entry of the user map is filed under the identifier its user carries. -/
def UserSvc.KeyedByID (l : List (UUID × UserSvc.User)) : Prop :=
  ∀ e ∈ l, e.2.ID = e.1

/-- No two entries of the user map carry the same email. -/
def UserSvc.EmailsDistinct (l : List (UUID × UserSvc.User)) : Prop :=
  (l.map (fun e => e.2.Email)).Nodup

/-- The in-memory user store and dispatcher after the calls `cs` on what `setup` builds,
with the password manager `P`. -/
def UserSvc.reached (P : UserSvc.PasswordManager) (uuids : Nat → UUID) (starts : Nat → Nat)
    (cs : List UserSvc.Cmd) : UserSvc.mockUserRepository × UserSvc.mockEventDispatcher :=
  UserSvc.run UserSvc.mockUserRepository.impl P UserSvc.mockEventDispatcher.impl cs
    (UserSvc.mockUserRepository.new uuids starts) UserSvc.mockEventDispatcher.new

/-- The registration of the user test on a new store (the generator issues 10, 11, ...). -/
def UserSvc.sampleRegisterCalls : List UserSvc.Cmd :=
  [.RegisterNewUser 1 "John" "Doe" "test@example.com" "password123"]

/-- The store and dispatcher after `sampleRegisterCalls` with the password manager of the
test. -/
def UserSvc.sampleRegistered : UserSvc.mockUserRepository × UserSvc.mockEventDispatcher :=
  UserSvc.reached UserSvc.mockPasswordManager (fun n => n + 10) (fun n => n)
    UserSvc.sampleRegisterCalls

/-- The user 10 as stored after `sampleRegisterCalls`. -/
def UserSvc.sampleActive : UserSvc.User :=
  { ID := 10, Email := "test@example.com", HashedPassword := "password123-hashed",
    FirstName := "John", LastName := "Doe", Status := .Active, CreatedAt := 1, UpdatedAt := 1 }

/-- The user `sampleActive` suspended at time 2. -/
def UserSvc.sampleSuspended : UserSvc.User :=
  { UserSvc.sampleActive with Status := .Suspended, UpdatedAt := 2 }

/-- The user `sampleActive`, as loaded before the suspension, with a new first name given at
time 3. -/
def UserSvc.sampleRenamed : UserSvc.User :=
  { UserSvc.sampleActive with FirstName := "Johnny", UpdatedAt := 3 }

/-! ## Notification: model (`notification/pkg/domain/model`) -/

namespace NotificationSvc

/-- Error values of the notification model, and `other` for `errors.New` and `fmt.Errorf`
values created elsewhere. -/
inductive Err where
  | ErrNotificationNotFound
  | other (msg : String)
deriving DecidableEq, Repr

/-- Message of an error, `err.Error()`. -/
def Err.Error : Err → String
  | .ErrNotificationNotFound => "notification not found"
  | .other msg => msg

inductive NotificationChannel where
  | Email
  | SMS
  | Push
deriving DecidableEq, Repr

/-- Number of a channel (`iota`), which is what `%v` prints. -/
def NotificationChannel.toNat : NotificationChannel → Nat
  | .Email => 0
  | .SMS => 1
  | .Push => 2

inductive NotificationStatus where
  | Pending
  | Sent
  | Failed
deriving DecidableEq, Repr

structure Notification where
  ID : UUID
  UserID : UUID
  Channel : NotificationChannel
  RecipientAddress : String
  Subject : String
  Body : String
  Status : NotificationStatus
  FailureReason : String
  CreatedAt : Time
  SentAt : Option Time
deriving DecidableEq, Repr

/-- Events of `notification/pkg/domain/model/event.go`. -/
inductive Event where
  | NotificationSent (NotificationID UserID : UUID) (Channel : NotificationChannel)
  | NotificationFailed (NotificationID UserID : UUID) (Channel : NotificationChannel)
      (Reason : String)
deriving DecidableEq, Repr

/-- Interface `model.NotificationRepository`. -/
structure NotificationRepository (σ : Type) where
  NextID : σ → Except Err UUID × σ
  Create : Notification → σ → Option Err × σ
  Update : Notification → σ → Option Err × σ

/-- Interface `model.NotificationSender`; `ς` is the state of the senders. -/
structure NotificationSender (ς : Type) where
  Send : String → String → String → ς → Option Err × ς

/-- Interface `service.EventDispatcher`. -/
structure EventDispatcher (δ : Type) where
  Dispatch : Event → δ → Option Err × δ

/-! ## Notification: service (`notification/pkg/domain/service/notification.go`) -/

/-- Method `notificationService.orchestrateSend`.  `senders` is the lookup in the Go map
of senders; `t₁` is the clock reading taken for `CreatedAt`, `t₂` the one taken for
`SentAt`. -/
def orchestrateSend {σ ς δ : Type} (R : NotificationRepository σ)
    (senders : NotificationChannel → Option (NotificationSender ς)) (D : EventDispatcher δ)
    (t₁ t₂ : Time) (userID : UUID) (recipient subject body : String)
    (channel : NotificationChannel) (s : σ) (z : ς) (d : δ) : Option Err × σ × ς × δ :=
  let r₁ := R.NextID s
  match r₁.1 with
  | .error e => (some e, r₁.2, z, d)
  | .ok notifID =>
    let notification : Notification :=
      { ID := notifID, UserID := userID, Channel := channel, RecipientAddress := recipient,
        Subject := subject, Body := body, Status := .Pending, FailureReason := "",
        CreatedAt := t₁, SentAt := none }
    let r₂ := R.Create notification r₁.2
    match r₂.1 with
    | some e => (some e, r₂.2, z, d)
    | none =>
      match senders channel with
      | none =>
        (some (.other ("no sender configured for channel " ++ toString channel.toNat)),
          r₂.2, z, d)
      | some sender =>
        let r₃ := sender.Send recipient subject body z
        match r₃.1 with
        | some err =>
          let notification₁ : Notification :=
            { notification with Status := .Failed, FailureReason := err.Error }
          let d₁ := (D.Dispatch (.NotificationFailed notifID userID channel err.Error) d).2
          let r₄ := R.Update notification₁ r₂.2
          (r₄.1, r₄.2, r₃.2, d₁)
        | none =>
          let notification₁ : Notification :=
            { notification with Status := .Sent, SentAt := some t₂ }
          let d₁ := (D.Dispatch (.NotificationSent notifID userID channel) d).2
          let r₄ := R.Update notification₁ r₂.2
          (r₄.1, r₄.2, r₃.2, d₁)

/-- Method `notificationService.SendWelcomeEmail`. -/
def SendWelcomeEmail {σ ς δ : Type} (R : NotificationRepository σ)
    (senders : NotificationChannel → Option (NotificationSender ς)) (D : EventDispatcher δ)
    (t₁ t₂ : Time) (userID : UUID) (email firstName : String) (s : σ) (z : ς) (d : δ) :
    Option Err × σ × ς × δ :=
  orchestrateSend R senders D t₁ t₂ userID email "Welcome to our store!"
    ("Hi " ++ firstName ++ ", thanks for joining us!") .Email s z d

/-- Method `notificationService.NotifyOrderConfirmation`. -/
def NotifyOrderConfirmation {σ ς δ : Type} (R : NotificationRepository σ)
    (senders : NotificationChannel → Option (NotificationSender ς)) (D : EventDispatcher δ)
    (t₁ t₂ : Time) (userID : UUID) (email : String) (orderID : UUID) (s : σ) (z : ς) (d : δ) :
    Option Err × σ × ς × δ :=
  orchestrateSend R senders D t₁ t₂ userID email
    ("Your order " ++ uuidString orderID ++ " has been confirmed!")
    "We have received your order and will process it shortly." .Email s z d

/-- Method `notificationService.NotifyPaymentFailed`. -/
def NotifyPaymentFailed {σ ς δ : Type} (R : NotificationRepository σ)
    (senders : NotificationChannel → Option (NotificationSender ς)) (D : EventDispatcher δ)
    (t₁ t₂ : Time) (userID : UUID) (email : String) (orderID : UUID) (reason : String)
    (s : σ) (z : ς) (d : δ) : Option Err × σ × ς × δ :=
  orchestrateSend R senders D t₁ t₂ userID email
    ("Payment failed for order " ++ uuidString orderID)
    ("Unfortunately, the payment for your order failed. Reason: " ++ reason) .Email s z d

/-! ## Notification: in-memory repository and sender (`notificationservice_test.go`)

The Go mock stores the pointer `Create` is given, so the field writes of the service reach
the stored object before `Update` is called; `Update` then stores the same pointer under
the same key and cannot fail, so the stored object after a call is the one the
value-passing reading below produces. -/

/-- State of `mockNotificationRepository`: the Go field `store` and the results
`uuid.New()` will return. -/
structure mockNotificationRepository where
  store : List (UUID × Notification)
  uuids : Nat → UUID

namespace mockNotificationRepository

/-- The repository value built by `setup`. -/
def new (uuids : Nat → UUID) : mockNotificationRepository :=
  { store := [], uuids := uuids }

def NextID (m : mockNotificationRepository) : Except Err UUID × mockNotificationRepository :=
  (.ok (m.uuids 0), { m with uuids := fun n => m.uuids (n + 1) })

def Create (n : Notification) (m : mockNotificationRepository) :
    Option Err × mockNotificationRepository :=
  (none, { m with store := mapSet m.store n.ID n })

def Update (n : Notification) (m : mockNotificationRepository) :
    Option Err × mockNotificationRepository :=
  (none, { m with store := mapSet m.store n.ID n })

/-- The mock as an implementation of the repository interface. -/
def impl : NotificationRepository mockNotificationRepository :=
  { NextID := NextID, Create := Create, Update := Update }

end mockNotificationRepository

/-- State of `mockNotificationSender`; `SendCount` is a Go `int`. -/
structure mockNotificationSender where
  SendCount : Int
  LastRecipient : String
  ShouldError : Bool
deriving DecidableEq, Repr

namespace mockNotificationSender

/-- The sender value built by `setup`. -/
def new : mockNotificationSender :=
  { SendCount := 0, LastRecipient := "", ShouldError := false }

def Send (recipient _subject _body : String) (m : mockNotificationSender) :
    Option Err × mockNotificationSender :=
  let m₁ := { m with SendCount := wrap64 (m.SendCount + 1), LastRecipient := recipient }
  if m.ShouldError then (some (.other "failed to send"), m₁) else (none, m₁)

def impl : NotificationSender mockNotificationSender := { Send := Send }

end mockNotificationSender

/-- The map of senders built by `setup`: the mock sender for `Email`, none for the other
channels. -/
def setupSenders : NotificationChannel → Option (NotificationSender mockNotificationSender) :=
  fun channel => if channel = .Email then some mockNotificationSender.impl else none

/-- State of `mockEventDispatcher`. -/
structure mockEventDispatcher where
  events : List Event
deriving DecidableEq, Repr

namespace mockEventDispatcher

def Dispatch (event : Event) (m : mockEventDispatcher) : Option Err × mockEventDispatcher :=
  (none, { events := m.events ++ [event] })

def Reset (_m : mockEventDispatcher) : mockEventDispatcher := { events := [] }

/-- The dispatcher a test setup builds: nothing dispatched yet. -/
def new : mockEventDispatcher := { events := [] }

def impl : EventDispatcher mockEventDispatcher := { Dispatch := Dispatch }

end mockEventDispatcher

end NotificationSvc

/-- The notification the welcome email of the test leaves in the store, when the sender
succeeds (the generator issues 10, 11, ..., the clock reads 1 and 2). -/
def NotificationSvc.sampleSentRecord : NotificationSvc.Notification :=
  { ID := 10, UserID := 7, Channel := .Email, RecipientAddress := "test@example.com",
    Subject := "Welcome to our store!", Body := "Hi John, thanks for joining us!",
    Status := .Sent, FailureReason := "", CreatedAt := 1, SentAt := some 2 }

/-- The notification the welcome email of the test leaves in the store, when the sender
fails. -/
def NotificationSvc.sampleFailedNotification : NotificationSvc.Notification :=
  { ID := 10, UserID := 7, Channel := .Email, RecipientAddress := "fail@example.com",
    Subject := "Welcome to our store!", Body := "Hi Jane, thanks for joining us!",
    Status := .Failed, FailureReason := "failed to send", CreatedAt := 1, SentAt := none }

/-- The errors the calls `cs` return, one after the other. -/
def PaymentSvc.results {σ δ : Type} (R : PaymentSvc.PaymentRepository σ)
    (D : PaymentSvc.EventDispatcher δ) (cs : List PaymentSvc.Cmd) (s : σ) (d : δ) :
    List (Option PaymentSvc.Err) :=
  match cs with
  | [] => []
  | c :: rest =>
    (PaymentSvc.exec R D c s d).1 ::
      PaymentSvc.results R D rest (PaymentSvc.exec R D c s d).2.1 (PaymentSvc.exec R D c s d).2.2

/-- What the ledger says of a wallet: the amounts of its `TxCommitted` deposits minus the
amounts of its `TxCommitted` withdrawals. -/
def PaymentSvc.ledgerBalance (walletID : UUID) (txs : List PaymentSvc.Transaction) : Int :=
  ((txs.filter (fun tx => decide (tx.WalletID = walletID ∧ tx.Status = .TxCommitted ∧
      tx.Type_ = .Deposit))).map (fun tx => tx.AmountCents)).sum -
  ((txs.filter (fun tx => decide (tx.WalletID = walletID ∧ tx.Status = .TxCommitted ∧
      tx.Type_ = .Withdrawal))).map (fun tx => tx.AmountCents)).sum

/-- A wallet is created for user 7 and `2^62` is deposited twice (the generator issues
10, 11, ... and every map iteration starts at the first entry). -/
def PaymentSvc.sampleLargeDepositCalls : List PaymentSvc.Cmd :=
  [.CreateWallet 100 7, .Deposit 101 102 7 (2 ^ 62) "r1", .Deposit 103 104 7 (2 ^ 62) "r2"]

/-- The calls of the payment test: a wallet is created for user 7, 2000 is deposited and
500 is paid for order 20. -/
def PaymentSvc.samplePaymentCalls : List PaymentSvc.Cmd :=
  [.CreateWallet 100 7, .Deposit 101 102 7 2000 "initial_topup", .PayForOrder 103 104 7 20 500]

/-- A wallet is created for user 7, 500 is deposited under "r1" and 100 under "r2". -/
def PaymentSvc.sampleTwoDepositCalls : List PaymentSvc.Cmd :=
  [.CreateWallet 100 7, .Deposit 101 102 7 500 "r1", .Deposit 103 104 7 100 "r2"]

/-- The wallet map `ws` and the ledger `txs` agree: every entry has an entry under the
identifier of its wallet, of the same or a later version and with the same balance when of
the same version; a wallet filed under its own identifier has the balance of the ledger,
reduced to `int64`; every record of the ledger is for an identifier of the map. -/
def PaymentSvc.Agree (ws : List (UUID × PaymentSvc.Wallet))
    (txs : List PaymentSvc.Transaction) : Prop :=
  (∀ e ∈ ws, ∃ w₀, mapGet ws e.2.ID = some w₀ ∧ w₀.ID = e.2.ID ∧
    e.2.Version ≤ w₀.Version ∧ (e.2.Version = w₀.Version → e.2.BalanceCents = w₀.BalanceCents)) ∧
  (∀ k w, mapGet ws k = some w → w.ID = k →
    w.BalanceCents = wrap64 (PaymentSvc.ledgerBalance k txs)) ∧
  (∀ tx ∈ txs, ∃ w, mapGet ws tx.WalletID = some w)

/-- The wallet of user 7 as stored under its identifier after `samplePaymentCalls`. -/
def PaymentSvc.samplePaidWallet : PaymentSvc.Wallet :=
  { ID := 10, UserID := 7, BalanceCents := 1500, Currency := "INTERNAL_COIN", Version := 3,
    CreatedAt := 100, UpdatedAt := 104 }

/-! ## Stores built by service calls and deletions -/

/-- A step on the in-memory order store: a call of the order service, or the store's own
`Delete` of an identifier (the service has no operation that deletes). -/
inductive OrderSvc.Step where
  | call (c : OrderSvc.Cmd)
  | delete (id : UUID)
deriving Repr

/-- Performs one step on the in-memory store and the dispatcher. -/
def OrderSvc.step (st : OrderSvc.Step) (m : OrderSvc.mockOrderRepository)
    (d : OrderSvc.mockEventDispatcher) :
    OrderSvc.mockOrderRepository × OrderSvc.mockEventDispatcher :=
  match st with
  | .call c =>
    (OrderSvc.exec OrderSvc.mockOrderRepository.impl OrderSvc.mockEventDispatcher.impl c m d).2
  | .delete id => ((OrderSvc.mockOrderRepository.Delete id m).2, d)

/-- Performs the steps one after the other. -/
def OrderSvc.steps (ss : List OrderSvc.Step) (m : OrderSvc.mockOrderRepository)
    (d : OrderSvc.mockEventDispatcher) :
    OrderSvc.mockOrderRepository × OrderSvc.mockEventDispatcher :=
  match ss with
  | [] => (m, d)
  | st :: rest => OrderSvc.steps rest (OrderSvc.step st m d).1 (OrderSvc.step st m d).2

/-- The in-memory order store and dispatcher after the steps `ss` on what `setup` builds:
every state that calls of the service and deletions lead to.  With no deletion among the
steps this is `OrderSvc.reached`. -/
def OrderSvc.built (uuids : Nat → UUID) (clock : Nat → Time) (ss : List OrderSvc.Step) :
    OrderSvc.mockOrderRepository × OrderSvc.mockEventDispatcher :=
  OrderSvc.steps ss (OrderSvc.mockOrderRepository.new uuids clock)
    OrderSvc.mockEventDispatcher.new

/-- The calls of `sampleSubmitCalls`, then the store's `Delete` of the order 10. -/
def OrderSvc.sampleDeleteSteps : List OrderSvc.Step :=
  [.call (.CreateNewOrder 1 7), .call (.AddItemToOrder 2 10 5 300),
   .call (.SubmitOrderForPayment 3 10), .delete 10]

/-- Store and dispatcher after `sampleDeleteSteps` (the generator issues 10, 11, ..., the
clock of the store reads 50): the order 10 is stored `Pending` and marked as deleted. -/
def OrderSvc.sampleDeleted : OrderSvc.mockOrderRepository × OrderSvc.mockEventDispatcher :=
  OrderSvc.built (fun n => n + 10) (fun n => n + 50) OrderSvc.sampleDeleteSteps

/-- The order 10 as stored in `sampleDeleted`. -/
def OrderSvc.sampleDeletedOrder : OrderSvc.Order :=
  { OrderSvc.samplePendingOrder with DeletedAt := some 50 }

/-- An order is created and an item of 5000 added, then the store's `Delete` of the order. -/
def OrderSvc.sampleDeleteOpenSteps : List OrderSvc.Step :=
  [.call (.CreateNewOrder 1 7), .call (.AddItemToOrder 2 10 5 5000), .delete 10]

/-- Store and dispatcher after `sampleDeleteOpenSteps`: the order 10 is stored `Open` and
marked as deleted. -/
def OrderSvc.sampleDeletedOpen : OrderSvc.mockOrderRepository × OrderSvc.mockEventDispatcher :=
  OrderSvc.built (fun n => n + 10) (fun n => n + 50) OrderSvc.sampleDeleteOpenSteps

/-- The order 10 as stored in `sampleDeletedOpen`. -/
def OrderSvc.sampleDeletedOpenOrder : OrderSvc.Order :=
  { OrderSvc.sampleOrderWithItem with DeletedAt := some 50 }

/-- The steps of the test up to the submission: an order is created and an item of 5000
added. -/
def OrderSvc.sampleItemSteps : List OrderSvc.Step :=
  [.call (.CreateNewOrder 1 7), .call (.AddItemToOrder 2 10 5 5000)]

/-- The call `CancelOrder(10, "late")` at time 4 on `sampleDeleted`. -/
def OrderSvc.sampleDeletedCancel : Option OrderSvc.Err × OrderSvc.mockOrderRepository ×
    OrderSvc.mockEventDispatcher :=
  OrderSvc.CancelOrder OrderSvc.mockOrderRepository.impl OrderSvc.mockEventDispatcher.impl
    4 10 "late" OrderSvc.sampleDeleted.1 OrderSvc.sampleDeleted.2

/-- The call `MarkOrderAsPaid(10)` at time 4 on `sampleDeleted`. -/
def OrderSvc.sampleDeletedMarked : Option OrderSvc.Err × OrderSvc.mockOrderRepository ×
    OrderSvc.mockEventDispatcher :=
  OrderSvc.MarkOrderAsPaid OrderSvc.mockOrderRepository.impl OrderSvc.mockEventDispatcher.impl
    4 10 OrderSvc.sampleDeleted.1 OrderSvc.sampleDeleted.2

/-- The call `MarkOrderAsPaid(10)` at time 4 on `sampleDeletedOpen`. -/
def OrderSvc.sampleDeletedOpenMarked : Option OrderSvc.Err × OrderSvc.mockOrderRepository ×
    OrderSvc.mockEventDispatcher :=
  OrderSvc.MarkOrderAsPaid OrderSvc.mockOrderRepository.impl OrderSvc.mockEventDispatcher.impl
    4 10 OrderSvc.sampleDeletedOpen.1 OrderSvc.sampleDeletedOpen.2

/-! ## The version test of the stores in `int` arithmetic

The stores compare `existing.Version != order.Version-1` on Go's `int`, where the
subtraction wraps: the predecessor of the smallest `int`, `-2^63`, is the largest,
`2^63 - 1`.  `UpdateInt` and `UpdateWalletInt` are the two update methods with that
subtraction; they are `Update` and `UpdateWallet` for every incoming version other than the
smallest `int`. -/

/-- Method `mockOrderRepository.Update` of `orderservice_test.go`, the version test taken in
`int` arithmetic. -/
def OrderSvc.mockOrderRepository.UpdateInt (order : OrderSvc.Order)
    (m : OrderSvc.mockOrderRepository) : Option OrderSvc.Err × OrderSvc.mockOrderRepository :=
  match mapGet m.store order.ID with
  | none => (some .ErrOrderNotFound, m)
  | some existing =>
    if existing.Version ≠ wrap64 (order.Version - 1) then (some .ErrOptimisticLock, m)
    else (none, { m with store := mapSet m.store order.ID order })

/-- Method `mockPaymentRepository.UpdateWallet` of `paymentervice_test.go`, the version test
taken in `int` arithmetic. -/
def PaymentSvc.mockPaymentRepository.UpdateWalletInt (w : PaymentSvc.Wallet)
    (m : PaymentSvc.mockPaymentRepository) :
    Option PaymentSvc.Err × PaymentSvc.mockPaymentRepository :=
  match mapGet m.storeWallets w.ID with
  | none => (some .ErrWalletNotFound, m)
  | some existing =>
    if existing.Version ≠ wrap64 (w.Version - 1) then (some .ErrOptimisticLock, m)
    else (none, { m with storeWallets := mapSet m.storeWallets w.ID w })

/-- The order store of `setup` after `CreateAndReturn` of an order 10 whose version is the
largest `int`. -/
def OrderSvc.sampleMaxVersionStore : OrderSvc.mockOrderRepository :=
  (OrderSvc.mockOrderRepository.CreateAndReturn
    { OrderSvc.samplePaidOrder with Version := 2 ^ 63 - 1 }
    (OrderSvc.mockOrderRepository.new (fun n => n + 12) (fun n => n))).2

/-- The call `Update` on `sampleMaxVersionStore` with the order 10 at the smallest `int` as
version. -/
def OrderSvc.sampleMaxVersionUpdated : Option OrderSvc.Err × OrderSvc.mockOrderRepository :=
  OrderSvc.mockOrderRepository.UpdateInt { OrderSvc.samplePaidOrder with Version := -2 ^ 63 }
    OrderSvc.sampleMaxVersionStore

/-- The wallet store of the test setup after the store's `CreateWallet` of a wallet 10 of
user 7 whose version is the largest `int`. -/
def PaymentSvc.sampleMaxVersionStore : PaymentSvc.mockPaymentRepository :=
  (PaymentSvc.mockPaymentRepository.CreateWallet
    { PaymentSvc.sampleNewWallet with Version := 2 ^ 63 - 1 }
    (PaymentSvc.mockPaymentRepository.new (fun n => n + 11) (fun n => n))).2

/-- The call `UpdateWallet` on `sampleMaxVersionStore` with the wallet 10 at the smallest
`int` as version. -/
def PaymentSvc.sampleMaxVersionUpdated :
    Option PaymentSvc.Err × PaymentSvc.mockPaymentRepository :=
  PaymentSvc.mockPaymentRepository.UpdateWalletInt
    { PaymentSvc.sampleNewWallet with Version := -2 ^ 63 } PaymentSvc.sampleMaxVersionStore

/-- Three updates of the order 10 stored after `sampleSubmitCalls` at version 3: to version
4, to version 4 again and to version 5. -/
def OrderSvc.samplePendingUpdates : List OrderSvc.Order :=
  [{ OrderSvc.samplePendingOrder with Version := 4 },
   { OrderSvc.samplePendingOrder with Version := 4 },
   { OrderSvc.samplePendingOrder with Version := 5 }]

/-! # Properties -/

/-! ## Go maps -/

theorem mapGet_mapSet_self {α : Type} (m : List (UUID × α)) (k : UUID) (v : α) :
    mapGet (mapSet m k v) k = some v := by
  induction m with
  | nil => simp [mapSet, mapGet]
  | cons e rest ih =>
    obtain ⟨k', v'⟩ := e
    by_cases h : k' = k
    · simp [mapSet, mapGet, h]
    · simp [mapSet, mapGet, h, ih]

theorem mapGet_mapSet_of_ne {α : Type} (m : List (UUID × α)) {k k' : UUID} (v : α)
    (h : k' ≠ k) : mapGet (mapSet m k v) k' = mapGet m k' := by
  induction m with
  | nil => simp [mapSet, mapGet, Ne.symm h]
  | cons e rest ih =>
    obtain ⟨k₀, v₀⟩ := e
    by_cases h₀ : k₀ = k
    · subst h₀
      simp [mapSet, mapGet, Ne.symm h]
    · by_cases h₁ : k₀ = k'
      · subst h₁
        simp [mapSet, mapGet, h₀]
      · simp [mapSet, mapGet, h₀, h₁, ih]

theorem mem_of_mapGet {α : Type} {m : List (UUID × α)} {k : UUID} {v : α}
    (h : mapGet m k = some v) : (k, v) ∈ m := by
  induction m with
  | nil => simp [mapGet] at h
  | cons e rest ih =>
    obtain ⟨k', v'⟩ := e
    by_cases hk : k' = k
    · simp [mapGet, hk] at h
      simp [hk, h]
    · simp [mapGet, hk] at h
      exact List.mem_cons_of_mem _ (ih h)

theorem mem_mapSet {α : Type} {m : List (UUID × α)} {k : UUID} {v : α} {e : UUID × α}
    (h : e ∈ mapSet m k v) : e ∈ m ∨ e = (k, v) := by
  induction m with
  | nil => simpa [mapSet] using h
  | cons e₀ rest ih =>
    obtain ⟨k', v'⟩ := e₀
    by_cases hk : k' = k
    · simp [mapSet, hk] at h
      rcases h with h | h
      · exact Or.inr h
      · exact Or.inl (List.mem_cons_of_mem _ h)
    · simp [mapSet, hk] at h
      rcases h with h | h
      · exact Or.inl (by simp [h])
      · rcases ih h with h' | h'
        · exact Or.inl (List.mem_cons_of_mem _ h')
        · exact Or.inr h'

/-! ## Machine integers -/

theorem wrap64_of_inRange {x : Int} (h₁ : -2 ^ 63 ≤ x) (h₂ : x < 2 ^ 63) : wrap64 x = x := by
  unfold wrap64
  omega

theorem wrap64_add_wrap64 (x y : Int) : wrap64 (wrap64 x + y) = wrap64 (x + y) := by
  unfold wrap64
  omega

theorem wrap64_zero : wrap64 0 = 0 := by
  decide

/-! ## The in-memory order store -/

theorem OrderSvc.mockOrderRepository.Find_state_order (id : UUID)
    (m : OrderSvc.mockOrderRepository) :
    (OrderSvc.mockOrderRepository.Find id m).2 = m := by
  unfold OrderSvc.mockOrderRepository.Find
  split
  · split <;> rfl
  · rfl

theorem OrderSvc.mockOrderRepository.Find_ok_order {id : UUID}
    {m : OrderSvc.mockOrderRepository} {o : OrderSvc.Order}
    (h : (OrderSvc.mockOrderRepository.Find id m).1 = .ok o) :
    mapGet m.store id = some o ∧ o.DeletedAt = none := by
  unfold OrderSvc.mockOrderRepository.Find at h
  split at h
  · next o' ho =>
    split at h
    · next hd =>
      simp at h
      subst h
      exact ⟨ho, hd⟩
    · simp at h
  · simp at h

theorem OrderSvc.mockOrderRepository.Update_all_order (P : OrderSvc.Order → Prop)
    (m : OrderSvc.mockOrderRepository) (o : OrderSvc.Order)
    (hinv : ∀ e ∈ m.store, P e.2) (ho : P o) :
    ∀ e ∈ (OrderSvc.mockOrderRepository.Update o m).2.store, P e.2 := by
  intro e he
  unfold OrderSvc.mockOrderRepository.Update at he
  split at he
  · exact hinv e he
  · split at he
    · exact hinv e he
    · rcases mem_mapSet he with h | h
      · exact hinv e h
      · subst h
        exact ho

theorem OrderSvc.mockOrderRepository.Create_all_order (P : OrderSvc.Order → Prop)
    (m : OrderSvc.mockOrderRepository) (o : OrderSvc.Order)
    (hinv : ∀ e ∈ m.store, P e.2) (ho : P o) :
    ∀ e ∈ (OrderSvc.mockOrderRepository.Create o m).2.store, P e.2 := by
  intro e he
  unfold OrderSvc.mockOrderRepository.Create at he
  split at he
  · exact hinv e he
  · rcases mem_mapSet he with h | h
    · exact hinv e h
    · subst h
      exact ho

theorem OrderSvc.mockOrderRepository.Update_store_order (o : OrderSvc.Order)
    (m : OrderSvc.mockOrderRepository) :
    (OrderSvc.mockOrderRepository.Update o m).2.store
      = if (OrderSvc.mockOrderRepository.Update o m).1 = none then mapSet m.store o.ID o
        else m.store := by
  unfold OrderSvc.mockOrderRepository.Update
  split
  · simp
  · split <;> simp

theorem OrderSvc.mockOrderRepository.Create_store_order (o : OrderSvc.Order)
    (m : OrderSvc.mockOrderRepository) :
    (OrderSvc.mockOrderRepository.Create o m).2.store
      = if (OrderSvc.mockOrderRepository.Create o m).1 = none then mapSet m.store o.ID o
        else m.store := by
  unfold OrderSvc.mockOrderRepository.Create
  split <;> simp

/-! ### Aliasing in `RemoveItemFromOrder`

The Go `append(order.Items[:i], order.Items[i+1:]...)` shifts the items inside the
backing array that the clone returned by `Find` shares with the stored order, before
`Update` replaces the stored order.  The lemmas below show that in every store reached
from the empty one this `Update` succeeds, so the shifted array is never what a later
lookup reads. -/

theorem OrderSvc.KeyedByID_mapSet {l : List (UUID × OrderSvc.Order)} {k : UUID}
    {o : OrderSvc.Order} (h : OrderSvc.KeyedByID l) (hk : o.ID = k) :
    OrderSvc.KeyedByID (mapSet l k o) := by
  intro e he
  rcases mem_mapSet he with h' | h'
  · exact h e h'
  · subst h'
    exact hk

/-- Every call of the order service keeps the entries of the in-memory store filed under
the identifier of their order. -/
theorem OrderSvc.KeyedByID_exec (c : OrderSvc.Cmd) (m : OrderSvc.mockOrderRepository)
    (d : OrderSvc.mockEventDispatcher) (h : OrderSvc.KeyedByID m.store) :
    OrderSvc.KeyedByID (OrderSvc.exec OrderSvc.mockOrderRepository.impl
      OrderSvc.mockEventDispatcher.impl c m d).2.1.store := by
  cases c <;>
  simp only [OrderSvc.exec, OrderSvc.CreateNewOrder, OrderSvc.AddItemToOrder,
    OrderSvc.RemoveItemFromOrder, OrderSvc.SubmitOrderForPayment, OrderSvc.MarkOrderAsPaid,
    OrderSvc.CancelOrder, OrderSvc.updateOrder, OrderSvc.mockOrderRepository.impl,
    OrderSvc.mockOrderRepository.Find_state_order, OrderSvc.mockOrderRepository.NextID] <;>
  (repeat' split) <;>
  simp_all [OrderSvc.mockOrderRepository.Update_store_order,
    OrderSvc.mockOrderRepository.Create_store_order, OrderSvc.recalculateTotal,
    OrderSvc.KeyedByID_mapSet]
  split <;> simp_all [OrderSvc.KeyedByID_mapSet]

/-- On the in-memory store with entries filed under their identifier, the update that
follows a successful `Find` of the same order with the version raised by one succeeds. -/
theorem OrderSvc.mockOrderRepository.Update_after_Find (m : OrderSvc.mockOrderRepository)
    (id : UUID) (o o' : OrderSvc.Order) (hk : OrderSvc.KeyedByID m.store)
    (hfind : (OrderSvc.mockOrderRepository.Find id m).1 = .ok o)
    (hid : o'.ID = o.ID) (hv : o'.Version = o.Version + 1) :
    (OrderSvc.mockOrderRepository.Update o' m).1 = none := by
  have hg := (OrderSvc.mockOrderRepository.Find_ok_order hfind).1
  have hkey : o.ID = id := hk _ (mem_of_mapGet hg)
  unfold OrderSvc.mockOrderRepository.Update
  rw [hid, hkey, hg]
  simp [hv]

theorem OrderSvc.KeyedByID_run (cs : List OrderSvc.Cmd) (m : OrderSvc.mockOrderRepository)
    (d : OrderSvc.mockEventDispatcher) (h : OrderSvc.KeyedByID m.store) :
    OrderSvc.KeyedByID (OrderSvc.run OrderSvc.mockOrderRepository.impl
      OrderSvc.mockEventDispatcher.impl cs m d).1.store := by
  induction cs generalizing m d with
  | nil => simpa [OrderSvc.run] using h
  | cons c rest ih =>
    simp only [OrderSvc.run]
    exact ih _ _ (OrderSvc.KeyedByID_exec c m d h)

/-! ## The in-memory product store -/

theorem ProductSvc.mockProductRepository.Find_state_product (id : UUID)
    (m : ProductSvc.mockProductRepository) :
    (ProductSvc.mockProductRepository.Find id m).2 = m := by
  unfold ProductSvc.mockProductRepository.Find
  split <;> rfl

theorem ProductSvc.mockProductRepository.Update_all_product (P : ProductSvc.Product → Prop)
    (m : ProductSvc.mockProductRepository) (p : ProductSvc.Product)
    (hinv : ∀ e ∈ m.store, P e.2) (hp : P p) :
    ∀ e ∈ (ProductSvc.mockProductRepository.Update p m).2.store, P e.2 := by
  intro e he
  unfold ProductSvc.mockProductRepository.Update at he
  split at he
  · exact hinv e he
  · split at he
    · exact hinv e he
    · rcases mem_mapSet he with h | h
      · exact hinv e h
      · subst h
        exact hp

theorem ProductSvc.mockProductRepository.Update_store_product (p : ProductSvc.Product)
    (m : ProductSvc.mockProductRepository) :
    (ProductSvc.mockProductRepository.Update p m).2.store
      = if (ProductSvc.mockProductRepository.Update p m).1 = none then mapSet m.store p.ID p
        else m.store := by
  unfold ProductSvc.mockProductRepository.Update
  split
  · simp
  · split <;> simp

/-! ## The in-memory wallet store -/

theorem PaymentSvc.mockPaymentRepository.GetWalletByUserID_state (userID : UUID)
    (m : PaymentSvc.mockPaymentRepository) :
    (PaymentSvc.mockPaymentRepository.GetWalletByUserID userID m).2
      = { m with starts := fun n => m.starts (n + 1) } := by
  unfold PaymentSvc.mockPaymentRepository.GetWalletByUserID
  split <;> rfl

theorem PaymentSvc.mockPaymentRepository.UpdateWallet_storeWallets (w : PaymentSvc.Wallet)
    (m : PaymentSvc.mockPaymentRepository) :
    (PaymentSvc.mockPaymentRepository.UpdateWallet w m).2.storeWallets
      = if (PaymentSvc.mockPaymentRepository.UpdateWallet w m).1 = none
        then mapSet m.storeWallets w.ID w else m.storeWallets := by
  unfold PaymentSvc.mockPaymentRepository.UpdateWallet
  split
  · simp
  · split <;> simp

theorem PaymentSvc.mockPaymentRepository.CreateWallet_storeWallets (w : PaymentSvc.Wallet)
    (m : PaymentSvc.mockPaymentRepository) :
    (PaymentSvc.mockPaymentRepository.CreateWallet w m).2.storeWallets
      = if (PaymentSvc.mockPaymentRepository.CreateWallet w m).1 = none
        then mapSet (mapSet m.storeWallets w.ID w) w.UserID w else m.storeWallets := by
  unfold PaymentSvc.mockPaymentRepository.CreateWallet
  split <;> simp

/-! ## The in-memory user store -/

theorem UserSvc.mockUserRepository.Find_eq_user (id : UUID) (m : UserSvc.mockUserRepository) :
    UserSvc.mockUserRepository.Find id m
      = (match mapGet m.store id with
          | some user => .ok user
          | none => .error .ErrUserNotFound, m) := by
  unfold UserSvc.mockUserRepository.Find
  split <;> rfl

theorem UserSvc.mockUserRepository.FindByEmail_state_user (email : String)
    (m : UserSvc.mockUserRepository) :
    (UserSvc.mockUserRepository.FindByEmail email m).2
      = { m with starts := fun n => m.starts (n + 1) } := by
  unfold UserSvc.mockUserRepository.FindByEmail
  split <;> rfl

/-! ## The wallet command when it returns an error -/

/-- Frame of `processTransaction` when it returns an error, for a repository seen through
a wallet map `W` and a ledger `T` that its lookups and `NextID` leave alone, whose
`SaveTransaction` appends at most the given record and whose failing `UpdateWallet`
changes nothing. -/
theorem PaymentSvc.processTransaction_error_frame {σ δ : Type}
    (R : PaymentSvc.PaymentRepository σ) (D : PaymentSvc.EventDispatcher δ)
    (W : σ → List (UUID × PaymentSvc.Wallet)) (T : σ → List PaymentSvc.Transaction)
    (hN : ∀ s, W (R.NextID s).2 = W s ∧ T (R.NextID s).2 = T s)
    (hG : ∀ u s, W (R.GetWalletByUserID u s).2 = W s ∧ T (R.GetWalletByUserID u s).2 = T s)
    (hF : ∀ a b s, W (R.FindTransactionByRef a b s).2 = W s ∧
      T (R.FindTransactionByRef a b s).2 = T s)
    (hS : ∀ tx s, W (R.SaveTransaction tx s).2 = W s ∧
      (T (R.SaveTransaction tx s).2 = T s ∨ T (R.SaveTransaction tx s).2 = T s ++ [tx]))
    (hU : ∀ w s, T (R.UpdateWallet w s).2 = T s ∧
      ((R.UpdateWallet w s).1 ≠ none → W (R.UpdateWallet w s).2 = W s))
    (t₁ t₂ : Time) (userID : UUID) (amount : Int) (refID : String)
    (txType : PaymentSvc.TransactionType) (s : σ) (d : δ) (e : PaymentSvc.Err)
    (h : (PaymentSvc.processTransaction R D t₁ t₂ userID amount refID txType s d).1 = .error e) :
    W (PaymentSvc.processTransaction R D t₁ t₂ userID amount refID txType s d).2.1 = W s ∧
    ((txType = .Withdrawal ∧ e = .ErrInsufficientFunds) ∨
      T (PaymentSvc.processTransaction R D t₁ t₂ userID amount refID txType s d).2.1 = T s ∨
      ∃ tx, T (PaymentSvc.processTransaction R D t₁ t₂ userID amount refID txType s d).2.1
        = T s ++ [tx] ∧ tx.Status = .TxCommitted ∧ tx.ReferenceID = refID) := by
  unfold PaymentSvc.processTransaction at h ⊢
  simp only [] at h ⊢
  have hG₁ := hG userID s
  generalize R.GetWalletByUserID userID s = r₁ at h hG₁ ⊢
  obtain ⟨x₁, s₁⟩ := r₁
  cases x₁ with
  | error e₁ => exact ⟨hG₁.1, Or.inr (Or.inl hG₁.2)⟩
  | ok wallet =>
    simp only [] at h hG₁ ⊢
    have hF₂ := hF wallet.ID refID s₁
    generalize R.FindTransactionByRef wallet.ID refID s₁ = r₂ at h hF₂ ⊢
    obtain ⟨⟨otx, oerr⟩, s₂⟩ := r₂
    have hW₂ : W s₂ = W s := hF₂.1.trans hG₁.1
    have hT₂ : T s₂ = T s := hF₂.2.trans hG₁.2
    clear hF₂ hG₁
    have hN₃ := hN s₂
    generalize R.NextID s₂ = r₃ at h hN₃ ⊢
    obtain ⟨x₃, s₃⟩ := r₃
    have hW₃ : W s₃ = W s := hN₃.1.trans hW₂
    have hT₃ : T s₃ = T s := hN₃.2.trans hT₂
    clear hN₃ hW₂ hT₂
    rcases otx with _ | tx <;> rcases oerr with _ | err <;> simp only [] at h ⊢ <;>
    first
    | exact absurd h (by simp)
    | (cases x₃ with
      | error e₃ => exact ⟨hW₃, Or.inr (Or.inl hT₃)⟩
      | ok txID =>
        simp only [] at h ⊢
        by_cases hins : txType = .Withdrawal ∧ wallet.BalanceCents < amount
        · rw [if_pos hins] at h ⊢
          simp only [Except.error.injEq] at h
          exact ⟨(hS _ _).1.trans hW₃, Or.inl ⟨hins.1, h.symm⟩⟩
        · rw [if_neg hins] at h ⊢
          have hS₄ := hS
            { ID := txID, WalletID := wallet.ID, Type_ := txType, AmountCents := amount,
              ReferenceID := refID, Status := .TxCommitted, ErrorMessage := "", CreatedAt := t₁ }
            s₃
          generalize R.SaveTransaction
            { ID := txID, WalletID := wallet.ID, Type_ := txType, AmountCents := amount,
              ReferenceID := refID, Status := .TxCommitted, ErrorMessage := "", CreatedAt := t₁ }
            s₃ = r₄ at h hS₄ ⊢
          obtain ⟨x₄, s₄⟩ := r₄
          have hW₄ : W s₄ = W s := hS₄.1.trans hW₃
          have hT₄ : T s₄ = T s ∨ ∃ tx, T s₄ = T s ++ [tx] ∧ tx.Status = .TxCommitted ∧
              tx.ReferenceID = refID := by
            rcases hS₄.2 with h' | h'
            · exact Or.inl (h'.trans hT₃)
            · exact Or.inr ⟨_, by rw [← hT₃]; exact h', rfl, rfl⟩
          cases x₄ with
          | some e₄ => exact ⟨hW₄, Or.inr hT₄⟩
          | none =>
            simp only [] at h ⊢
            generalize hw :
              ({ wallet with
                 BalanceCents :=
                   if txType = .Withdrawal then wrap64 (wallet.BalanceCents - amount)
                   else wrap64 (wallet.BalanceCents + amount)
                 Version := wallet.Version + 1
                 UpdatedAt := t₂ } : PaymentSvc.Wallet) = w₁ at h ⊢
            have hU₅ := hU w₁ s₄
            generalize R.UpdateWallet w₁ s₄ = r₅ at h hU₅ ⊢
            obtain ⟨x₅, s₅⟩ := r₅
            cases x₅ with
            | some e₅ =>
              refine ⟨(hU₅.2 (by simp)).trans hW₄, Or.inr ?_⟩
              simp only []
              rw [hU₅.1]
              exact hT₄
            | none => simp at h)

/-- On the in-memory store, `processTransaction` that returns an error leaves the wallet
map as it was. -/
theorem PaymentSvc.processTransaction_error_keeps_wallets
    (m : PaymentSvc.mockPaymentRepository) (d : PaymentSvc.mockEventDispatcher)
    (t₁ t₂ : Time) (userID : UUID) (amount : Int) (refID : String)
    (txType : PaymentSvc.TransactionType) (e : PaymentSvc.Err)
    (h : (PaymentSvc.processTransaction PaymentSvc.mockPaymentRepository.impl
      PaymentSvc.mockEventDispatcher.impl t₁ t₂ userID amount refID txType m d).1 = .error e) :
    (PaymentSvc.processTransaction PaymentSvc.mockPaymentRepository.impl
      PaymentSvc.mockEventDispatcher.impl t₁ t₂ userID amount refID txType m d).2.1.storeWallets
      = m.storeWallets :=
  (PaymentSvc.processTransaction_error_frame PaymentSvc.mockPaymentRepository.impl
    PaymentSvc.mockEventDispatcher.impl (fun s => s.storeWallets) (fun s => s.storeTxs)
    (by intro s; simp [PaymentSvc.mockPaymentRepository.impl,
          PaymentSvc.mockPaymentRepository.NextID])
    (by intro u s; simp [PaymentSvc.mockPaymentRepository.impl,
          PaymentSvc.mockPaymentRepository.GetWalletByUserID_state])
    (by intro a b s; simp [PaymentSvc.mockPaymentRepository.impl,
          PaymentSvc.mockPaymentRepository.FindTransactionByRef])
    (by intro tx s; simp [PaymentSvc.mockPaymentRepository.impl,
          PaymentSvc.mockPaymentRepository.SaveTransaction])
    (by
      intro w s
      simp only [PaymentSvc.mockPaymentRepository.impl,
        PaymentSvc.mockPaymentRepository.UpdateWallet]
      split
      · simp
      · split <;> simp)
    t₁ t₂ userID amount refID txType m d e h).1

/-! ## C1: the versioned update of the in-memory stores -/

theorem wrap64_pred_ne (v : Int) : wrap64 (v - 1) ≠ v := by
  unfold wrap64
  omega

theorem wrap64_pred_of_not_smallest {v : Int} (h₁ : -2 ^ 63 < v) (h₂ : v < 2 ^ 63) :
    wrap64 (v - 1) = v - 1 :=
  wrap64_of_inRange (by omega) (by omega)

theorem wrap64_succ_of_pred {e v : Int} (h₁ : -2 ^ 63 ≤ v) (h₂ : v < 2 ^ 63)
    (h : e = wrap64 (v - 1)) : v = wrap64 (e + 1) := by
  subst h
  unfold wrap64
  omega

/-- C1 as stated fails at the bounds of `int`.  The order store holds the order 10 at
version `2^63 - 1` and `Update` receives the order 10 at version `-2^63`: the stored version
is not the incoming version minus one, yet `Update` returns success and stores the incoming
order, so the stored version goes from `2^63 - 1` to `-2^63`, not to the old version plus
one.  `UpdateWallet` of the wallet store does the same on the wallet 10. -/
theorem C1_update_accepts_smallest_version_after_largest :
    (mapGet OrderSvc.sampleMaxVersionStore.store 10).map (fun o => o.Version)
      = some (2 ^ 63 - 1) ∧
    decide ((2 ^ 63 - 1 : Int) = -2 ^ 63 - 1) = false ∧
    OrderSvc.sampleMaxVersionUpdated.1 = none ∧
    (mapGet OrderSvc.sampleMaxVersionUpdated.2.store 10).map
        (fun o => (o.Version, decide (o.Version = (2 ^ 63 - 1) + 1)))
      = some (-2 ^ 63, false) ∧
    (mapGet PaymentSvc.sampleMaxVersionStore.storeWallets 10).map (fun w => w.Version)
      = some (2 ^ 63 - 1) ∧
    PaymentSvc.sampleMaxVersionUpdated.1 = none ∧
    (mapGet PaymentSvc.sampleMaxVersionUpdated.2.storeWallets 10).map
        (fun w => (w.Version, decide (w.Version = (2 ^ 63 - 1) + 1)))
      = some (-2 ^ 63, false) := by
  decide

/-- C1, amended.  `Update` of the in-memory order store and `UpdateWallet` of the in-memory
wallet store, with the version test in `int` arithmetic: an absent identifier gives the
not-found error and leaves the store as it was; for a present identifier the call succeeds
exactly when the stored version is the incoming version minus one reduced to `int`; on
success the value stored under the identifier is the incoming one and every other key keeps
its value; on failure the error is `ErrOptimisticLock` and the store is unchanged; the same
update applied a second time fails with `ErrOptimisticLock` and changes nothing.  For an
incoming version that is an `int`, a successful update stores the old version plus one
reduced to `int`; when it is not the smallest `int` the reduction does nothing: the test is
"stored version = incoming version - 1" and the call is `Update` (`UpdateWallet`) as the
services use it. -/
theorem C1_update_succeeds_iff_version_is_next
    (m : OrderSvc.mockOrderRepository) (o : OrderSvc.Order)
    (p : PaymentSvc.mockPaymentRepository) (w : PaymentSvc.Wallet) :
    ((mapGet m.store o.ID = none →
        OrderSvc.mockOrderRepository.UpdateInt o m = (some .ErrOrderNotFound, m)) ∧
      (∀ e, mapGet m.store o.ID = some e →
        (((OrderSvc.mockOrderRepository.UpdateInt o m).1 = none ↔
            e.Version = wrap64 (o.Version - 1)) ∧
          (e.Version = wrap64 (o.Version - 1) →
            mapGet (OrderSvc.mockOrderRepository.UpdateInt o m).2.store o.ID = some o ∧
            (-2 ^ 63 ≤ o.Version → o.Version < 2 ^ 63 → o.Version = wrap64 (e.Version + 1)) ∧
            ∀ k, k ≠ o.ID →
              mapGet (OrderSvc.mockOrderRepository.UpdateInt o m).2.store k
                = mapGet m.store k) ∧
          (e.Version ≠ wrap64 (o.Version - 1) →
            OrderSvc.mockOrderRepository.UpdateInt o m = (some .ErrOptimisticLock, m)))) ∧
      ((OrderSvc.mockOrderRepository.UpdateInt o m).1 = none →
        OrderSvc.mockOrderRepository.UpdateInt o
            (OrderSvc.mockOrderRepository.UpdateInt o m).2 =
          (some .ErrOptimisticLock, (OrderSvc.mockOrderRepository.UpdateInt o m).2)) ∧
      (-2 ^ 63 < o.Version → o.Version < 2 ^ 63 →
        wrap64 (o.Version - 1) = o.Version - 1 ∧
        OrderSvc.mockOrderRepository.UpdateInt o m = OrderSvc.mockOrderRepository.Update o m)) ∧
    ((mapGet p.storeWallets w.ID = none →
        PaymentSvc.mockPaymentRepository.UpdateWalletInt w p = (some .ErrWalletNotFound, p)) ∧
      (∀ e, mapGet p.storeWallets w.ID = some e →
        (((PaymentSvc.mockPaymentRepository.UpdateWalletInt w p).1 = none ↔
            e.Version = wrap64 (w.Version - 1)) ∧
          (e.Version = wrap64 (w.Version - 1) →
            mapGet (PaymentSvc.mockPaymentRepository.UpdateWalletInt w p).2.storeWallets w.ID
              = some w ∧
            (-2 ^ 63 ≤ w.Version → w.Version < 2 ^ 63 → w.Version = wrap64 (e.Version + 1)) ∧
            ∀ k, k ≠ w.ID →
              mapGet (PaymentSvc.mockPaymentRepository.UpdateWalletInt w p).2.storeWallets k
                = mapGet p.storeWallets k) ∧
          (e.Version ≠ wrap64 (w.Version - 1) →
            PaymentSvc.mockPaymentRepository.UpdateWalletInt w p
              = (some .ErrOptimisticLock, p)))) ∧
      ((PaymentSvc.mockPaymentRepository.UpdateWalletInt w p).1 = none →
        PaymentSvc.mockPaymentRepository.UpdateWalletInt w
            (PaymentSvc.mockPaymentRepository.UpdateWalletInt w p).2 =
          (some .ErrOptimisticLock,
            (PaymentSvc.mockPaymentRepository.UpdateWalletInt w p).2)) ∧
      (-2 ^ 63 < w.Version → w.Version < 2 ^ 63 →
        wrap64 (w.Version - 1) = w.Version - 1 ∧
        PaymentSvc.mockPaymentRepository.UpdateWalletInt w p
          = PaymentSvc.mockPaymentRepository.UpdateWallet w p)) := by
  refine ⟨⟨?_, ?_, ?_, ?_⟩, ⟨?_, ?_, ?_, ?_⟩⟩
  · intro h
    simp [OrderSvc.mockOrderRepository.UpdateInt, h]
  · intro e h
    by_cases hv : e.Version = wrap64 (o.Version - 1)
    · refine ⟨?_, ?_, ?_⟩
      · simp [OrderSvc.mockOrderRepository.UpdateInt, h, hv]
      · intro _
        refine ⟨?_, fun h₁ h₂ => wrap64_succ_of_pred h₁ h₂ hv, ?_⟩
        · simp [OrderSvc.mockOrderRepository.UpdateInt, h, hv, mapGet_mapSet_self]
        · intro k hk
          simp [OrderSvc.mockOrderRepository.UpdateInt, h, hv, mapGet_mapSet_of_ne _ _ hk]
      · intro hne
        exact absurd hv hne
    · refine ⟨?_, ?_, ?_⟩
      · simp [OrderSvc.mockOrderRepository.UpdateInt, h, hv]
      · intro he
        exact absurd he hv
      · intro _
        simp [OrderSvc.mockOrderRepository.UpdateInt, h, hv]
  · intro h
    cases hg : mapGet m.store o.ID with
    | none => simp [OrderSvc.mockOrderRepository.UpdateInt, hg] at h
    | some e =>
      by_cases hv : e.Version = wrap64 (o.Version - 1)
      · simp [OrderSvc.mockOrderRepository.UpdateInt, hg, hv, mapGet_mapSet_self]
        exact fun h' => wrap64_pred_ne _ h'.symm
      · simp [OrderSvc.mockOrderRepository.UpdateInt, hg, hv] at h
  · intro h₁ h₂
    have hw := wrap64_pred_of_not_smallest h₁ h₂
    refine ⟨hw, ?_⟩
    unfold OrderSvc.mockOrderRepository.UpdateInt OrderSvc.mockOrderRepository.Update
    rw [hw]
  · intro h
    simp [PaymentSvc.mockPaymentRepository.UpdateWalletInt, h]
  · intro e h
    by_cases hv : e.Version = wrap64 (w.Version - 1)
    · refine ⟨?_, ?_, ?_⟩
      · simp [PaymentSvc.mockPaymentRepository.UpdateWalletInt, h, hv]
      · intro _
        refine ⟨?_, fun h₁ h₂ => wrap64_succ_of_pred h₁ h₂ hv, ?_⟩
        · simp [PaymentSvc.mockPaymentRepository.UpdateWalletInt, h, hv, mapGet_mapSet_self]
        · intro k hk
          simp [PaymentSvc.mockPaymentRepository.UpdateWalletInt, h, hv,
            mapGet_mapSet_of_ne _ _ hk]
      · intro hne
        exact absurd hv hne
    · refine ⟨?_, ?_, ?_⟩
      · simp [PaymentSvc.mockPaymentRepository.UpdateWalletInt, h, hv]
      · intro he
        exact absurd he hv
      · intro _
        simp [PaymentSvc.mockPaymentRepository.UpdateWalletInt, h, hv]
  · intro h
    cases hg : mapGet p.storeWallets w.ID with
    | none => simp [PaymentSvc.mockPaymentRepository.UpdateWalletInt, hg] at h
    | some e =>
      by_cases hv : e.Version = wrap64 (w.Version - 1)
      · simp [PaymentSvc.mockPaymentRepository.UpdateWalletInt, hg, hv, mapGet_mapSet_self]
        exact fun h' => wrap64_pred_ne _ h'.symm
      · simp [PaymentSvc.mockPaymentRepository.UpdateWalletInt, hg, hv] at h
  · intro h₁ h₂
    have hw := wrap64_pred_of_not_smallest h₁ h₂
    refine ⟨hw, ?_⟩
    unfold PaymentSvc.mockPaymentRepository.UpdateWalletInt
      PaymentSvc.mockPaymentRepository.UpdateWallet
    rw [hw]

/-- C1 at the stored order of version 4: the update to version 5 succeeds and stores
version 5; the same update again fails with `ErrOptimisticLock`; the call is the `Update`
the services use. -/
theorem C1_update_witness :
    ((OrderSvc.mockOrderRepository.UpdateInt { OrderSvc.samplePaidOrder with Version := 5 }
        OrderSvc.samplePaidStore).1 = none ↔ (4 : Int) = wrap64 (5 - 1)) ∧
    OrderSvc.mockOrderRepository.UpdateInt { OrderSvc.samplePaidOrder with Version := 5 }
        (OrderSvc.mockOrderRepository.UpdateInt { OrderSvc.samplePaidOrder with Version := 5 }
          OrderSvc.samplePaidStore).2
      = (some .ErrOptimisticLock,
          (OrderSvc.mockOrderRepository.UpdateInt { OrderSvc.samplePaidOrder with Version := 5 }
            OrderSvc.samplePaidStore).2) ∧
    (wrap64 (5 - 1) = 5 - 1 ∧
      OrderSvc.mockOrderRepository.UpdateInt { OrderSvc.samplePaidOrder with Version := 5 }
          OrderSvc.samplePaidStore
        = OrderSvc.mockOrderRepository.Update { OrderSvc.samplePaidOrder with Version := 5 }
          OrderSvc.samplePaidStore) :=
  ⟨((C1_update_succeeds_iff_version_is_next OrderSvc.samplePaidStore
      { OrderSvc.samplePaidOrder with Version := 5 } PaymentSvc.sampleCreated.2
      PaymentSvc.sampleUpdatedWallet).1.2.1 OrderSvc.samplePaidOrder rfl).1,
    (C1_update_succeeds_iff_version_is_next OrderSvc.samplePaidStore
      { OrderSvc.samplePaidOrder with Version := 5 } PaymentSvc.sampleCreated.2
      PaymentSvc.sampleUpdatedWallet).1.2.2.1 (by decide),
    (C1_update_succeeds_iff_version_is_next OrderSvc.samplePaidStore
      { OrderSvc.samplePaidOrder with Version := 5 } PaymentSvc.sampleCreated.2
      PaymentSvc.sampleUpdatedWallet).1.2.2.2 (by decide) (by decide)⟩

/-! ## C2: a repeated deposit on the in-memory wallet store -/

/-- C2, evaluated on the in-memory store.  `CreateWallet` for user 7 receives the wallet
identifier 10 and files the wallet under the keys 10 and 7.  `Deposit(7, 500, "r1")`
returns balance 500 at version 2 and replaces the entry under key 10 only.  The same
`Deposit` again, with the map iteration starting at the entry under key 7, returns success
with the wallet of before the first deposit: balance 0 and version 1, not the balance and
version the first call returned.  The stored balance under key 10 is 500, the ledger holds
one transaction and one `FundsDeposited` was dispatched. -/
theorem C2_repeated_deposit_returns_stale_wallet :
    PaymentSvc.sampleFirstDeposit.1.toOption.map (fun w => (w.ID, w.BalanceCents, w.Version))
      = some (10, 500, 2) ∧
    PaymentSvc.sampleSecondDeposit.1.toOption.map (fun w => (w.ID, w.BalanceCents, w.Version))
      = some (10, 0, 1) ∧
    (mapGet PaymentSvc.sampleSecondDeposit.2.1.storeWallets 10).map
      (fun w => (w.BalanceCents, w.Version)) = some (500, 2) ∧
    PaymentSvc.sampleSecondDeposit.2.1.storeTxs.map
      (fun tx => (tx.WalletID, tx.ReferenceID, tx.Status)) = [(10, "r1", .TxCommitted)] ∧
    PaymentSvc.sampleSecondDeposit.2.2.events = [.FundsDeposited 10 7 500 "r1" 500] := by
  decide

/-! ## C3: payment with insufficient funds -/

/-- C3.  On the in-memory store, when the wallet loaded for the user has a balance below
the amount, the amount is positive and the ledger has no transaction for the wallet and
the reference of the order: `PayForOrder` returns `ErrInsufficientFunds`, the wallet map is
unchanged, exactly one transaction is appended, a `Withdrawal` for that reference with
status `TxFailed` and message "insufficient funds", and exactly one event is dispatched,
a `PaymentFailed` carrying that reference. -/
theorem C3_insufficient_funds_records_failure
    (m : PaymentSvc.mockPaymentRepository) (d : PaymentSvc.mockEventDispatcher)
    (t₁ t₂ : Time) (userID orderID : UUID) (a : Int) (w : PaymentSvc.Wallet)
    (hget : (PaymentSvc.mockPaymentRepository.GetWalletByUserID userID m).1 = .ok w)
    (ha : 0 < a) (hb : w.BalanceCents < a)
    (hno : (PaymentSvc.mockPaymentRepository.FindTransactionByRef w.ID (uuidString orderID)
      m).1.1 = none) :
    (PaymentSvc.PayForOrder PaymentSvc.mockPaymentRepository.impl
        PaymentSvc.mockEventDispatcher.impl t₁ t₂ userID orderID a m d).1
      = some .ErrInsufficientFunds ∧
    (PaymentSvc.PayForOrder PaymentSvc.mockPaymentRepository.impl
        PaymentSvc.mockEventDispatcher.impl t₁ t₂ userID orderID a m d).2.1.storeWallets
      = m.storeWallets ∧
    (PaymentSvc.PayForOrder PaymentSvc.mockPaymentRepository.impl
        PaymentSvc.mockEventDispatcher.impl t₁ t₂ userID orderID a m d).2.1.storeTxs
      = m.storeTxs ++
          [{ ID := m.uuids 0, WalletID := w.ID, Type_ := .Withdrawal, AmountCents := a,
             ReferenceID := uuidString orderID, Status := .TxFailed,
             ErrorMessage := "insufficient funds", CreatedAt := t₁ }] ∧
    (PaymentSvc.PayForOrder PaymentSvc.mockPaymentRepository.impl
        PaymentSvc.mockEventDispatcher.impl t₁ t₂ userID orderID a m d).2.2.events
      = d.events ++ [.PaymentFailed w.ID (uuidString orderID) "insufficient funds"] := by
  have hget' : PaymentSvc.mockPaymentRepository.GetWalletByUserID userID m
      = (.ok w, { m with starts := fun n => m.starts (n + 1) }) := by
    unfold PaymentSvc.mockPaymentRepository.GetWalletByUserID at hget ⊢
    cases hf : PaymentSvc.mockPaymentRepository.firstByUser userID
        (mapRange m.storeWallets (m.starts 0)) with
    | none => simp [hf] at hget
    | some w' =>
      simp [hf] at hget
      simp [hget]
  have hno' : PaymentSvc.mockPaymentRepository.firstByRef w.ID (uuidString orderID) m.storeTxs
      = none := by
    simpa [PaymentSvc.mockPaymentRepository.FindTransactionByRef] using hno
  have ha' : ¬ a ≤ 0 := by omega
  simp [PaymentSvc.PayForOrder, PaymentSvc.processTransaction,
    PaymentSvc.mockPaymentRepository.impl, PaymentSvc.mockEventDispatcher.impl,
    hget', ha', hb, PaymentSvc.mockPaymentRepository.FindTransactionByRef, hno',
    PaymentSvc.mockPaymentRepository.NextID, PaymentSvc.mockPaymentRepository.SaveTransaction,
    PaymentSvc.mockEventDispatcher.Dispatch, PaymentSvc.Err.Error]

/-- C3 at a wallet with balance 100 and a payment of 500 for order 9. -/
theorem C3_insufficient_funds_witness :
    (PaymentSvc.PayForOrder PaymentSvc.mockPaymentRepository.impl
        PaymentSvc.mockEventDispatcher.impl 5 6 7 9 500
        { storeWallets :=
            [(10, { ID := 10, UserID := 7, BalanceCents := 100, Currency := "INTERNAL_COIN",
                    Version := 2, CreatedAt := 1, UpdatedAt := 2 })]
          storeTxs := [], uuids := fun n => n + 11, starts := fun _ => 0 }
        PaymentSvc.mockEventDispatcher.new).1
      = some .ErrInsufficientFunds :=
  (C3_insufficient_funds_records_failure
    { storeWallets :=
        [(10, { ID := 10, UserID := 7, BalanceCents := 100, Currency := "INTERNAL_COIN",
                Version := 2, CreatedAt := 1, UpdatedAt := 2 })]
      storeTxs := [], uuids := fun n => n + 11, starts := fun _ => 0 }
    PaymentSvc.mockEventDispatcher.new 5 6 7 9 500
    { ID := 10, UserID := 7, BalanceCents := 100, Currency := "INTERNAL_COIN",
      Version := 2, CreatedAt := 1, UpdatedAt := 2 }
    rfl (by decide) (by decide) rfl).1

/-! ## C4: the total of an order -/

/-- The running `int64` sum of `recalculateTotal` is the exact sum reduced to `int64`. -/
theorem OrderSvc.foldl_total (items : List OrderSvc.Item) (a : Int) :
    wrap64 (items.foldl (fun total item => wrap64 (total + item.PriceCents)) a)
      = wrap64 (a + (items.map (fun item => item.PriceCents)).sum) := by
  induction items generalizing a with
  | nil => simp
  | cons item rest ih =>
    simp only [List.foldl_cons, List.map_cons, List.sum_cons]
    rw [ih, wrap64_add_wrap64, Int.add_assoc]

theorem OrderSvc.recalculateTotal_total (o : OrderSvc.Order) :
    (OrderSvc.recalculateTotal o).TotalCents
      = wrap64 ((o.Items.map (fun item => item.PriceCents)).sum) := by
  have h := OrderSvc.foldl_total o.Items 0
  simp only [Int.zero_add] at h
  rw [← h]
  unfold OrderSvc.recalculateTotal
  simp only
  cases o.Items with
  | nil => simp [wrap64_zero]
  | cons item rest =>
    have : ∀ (l : List OrderSvc.Item) (a : Int), wrap64 a = a →
        wrap64 (l.foldl (fun total item => wrap64 (total + item.PriceCents)) a)
          = l.foldl (fun total item => wrap64 (total + item.PriceCents)) a := by
      intro l
      induction l with
      | nil => intro a ha; simpa using ha
      | cons x xs ih =>
        intro a _
        simp only [List.foldl_cons]
        apply ih
        unfold wrap64
        omega
    exact (this _ 0 wrap64_zero).symm

theorem OrderSvc.TotalOK_recalculate (o : OrderSvc.Order)
    (h : ∀ item ∈ o.Items, 0 ≤ item.PriceCents) : OrderSvc.TotalOK (OrderSvc.recalculateTotal o) := by
  refine ⟨?_, ?_⟩
  · rw [OrderSvc.recalculateTotal_total]
    rfl
  · exact h

theorem OrderSvc.TotalOK_of_same (o o' : OrderSvc.Order) (h : OrderSvc.TotalOK o)
    (hi : o'.Items = o.Items) (ht : o'.TotalCents = o.TotalCents) : OrderSvc.TotalOK o' := by
  unfold OrderSvc.TotalOK OrderSvc.priceSum at *
  rw [hi, ht]
  exact h

/-- Every call of the order service keeps `TotalOK` for all orders of the in-memory
store. -/
theorem OrderSvc.TotalOK_exec (c : OrderSvc.Cmd) (m : OrderSvc.mockOrderRepository)
    (d : OrderSvc.mockEventDispatcher) (hinv : ∀ e ∈ m.store, OrderSvc.TotalOK e.2) :
    ∀ e ∈ (OrderSvc.exec OrderSvc.mockOrderRepository.impl OrderSvc.mockEventDispatcher.impl
      c m d).2.1.store, OrderSvc.TotalOK e.2 := by
  have hfind : ∀ {id : UUID} {o : OrderSvc.Order},
      (OrderSvc.mockOrderRepository.Find id m).1 = .ok o → OrderSvc.TotalOK o := by
    intro id o h
    exact hinv _ (mem_of_mapGet (OrderSvc.mockOrderRepository.Find_ok_order h).1)
  cases c with
  | CreateNewOrder now customerID =>
    simp only [OrderSvc.exec]
    unfold OrderSvc.CreateNewOrder
    simp only [OrderSvc.mockOrderRepository.impl, OrderSvc.mockOrderRepository.NextID]
    have hall := OrderSvc.mockOrderRepository.Create_all_order OrderSvc.TotalOK
      { m with uuids := fun n => m.uuids (n + 1) }
      { ID := m.uuids 0, CustomerID := customerID, Status := .Open, Items := [],
        TotalCents := 0, Version := 1, CreatedAt := now, UpdatedAt := now, DeletedAt := none }
      hinv (by simp [OrderSvc.TotalOK, OrderSvc.priceSum, wrap64_zero])
    split <;> exact hall
  | AddItemToOrder now orderID productID priceCents =>
    simp only [OrderSvc.exec]
    unfold OrderSvc.AddItemToOrder
    split
    · exact hinv
    · next hp =>
      simp only [OrderSvc.mockOrderRepository.impl, OrderSvc.mockOrderRepository.Find_state_order]
      cases hF : (OrderSvc.mockOrderRepository.Find orderID m).1 with
      | error err => exact hinv
      | ok o =>
        simp only []
        split
        · exact hinv
        · simp only [OrderSvc.mockOrderRepository.NextID, OrderSvc.updateOrder]
          have hok : OrderSvc.TotalOK (OrderSvc.recalculateTotal
              { o with Items := o.Items ++
                [{ ID := m.uuids 0, ProductID := productID, PriceCents := priceCents }] }) := by
            apply OrderSvc.TotalOK_recalculate
            intro item hi
            simp only [List.mem_append, List.mem_singleton] at hi
            rcases hi with hi | hi
            · exact (hfind hF).2 item hi
            · subst hi
              simp only
              omega
          have hall := OrderSvc.mockOrderRepository.Update_all_order OrderSvc.TotalOK
            { m with uuids := fun n => m.uuids (n + 1) } _ hinv
            (OrderSvc.TotalOK_of_same _
              { OrderSvc.recalculateTotal
                { o with Items := o.Items ++
                  [{ ID := m.uuids 0, ProductID := productID, PriceCents := priceCents }] }
                with Version := o.Version + 1, UpdatedAt := now } hok rfl rfl)
          split <;> exact hall
  | RemoveItemFromOrder now orderID itemID =>
    simp only [OrderSvc.exec]
    unfold OrderSvc.RemoveItemFromOrder
    simp only [OrderSvc.mockOrderRepository.impl, OrderSvc.mockOrderRepository.Find_state_order]
    cases hF : (OrderSvc.mockOrderRepository.Find orderID m).1 with
    | error err => exact hinv
    | ok o =>
      simp only []
      split
      · exact hinv
      · split
        · exact hinv
        · next i hi =>
          simp only [OrderSvc.updateOrder]
          have hok : OrderSvc.TotalOK (OrderSvc.recalculateTotal
              { o with Items := o.Items.take i ++ o.Items.drop (i + 1) }) := by
            apply OrderSvc.TotalOK_recalculate
            intro item hmem
            simp only [List.mem_append] at hmem
            rcases hmem with hmem | hmem
            · exact (hfind hF).2 item (List.mem_of_mem_take hmem)
            · exact (hfind hF).2 item (List.mem_of_mem_drop hmem)
          have hall := OrderSvc.mockOrderRepository.Update_all_order OrderSvc.TotalOK m _ hinv
            (OrderSvc.TotalOK_of_same _
              { OrderSvc.recalculateTotal
                { o with Items := o.Items.take i ++ o.Items.drop (i + 1) }
                with Version := o.Version + 1, UpdatedAt := now } hok rfl rfl)
          split <;> exact hall
  | SubmitOrderForPayment now orderID =>
    simp only [OrderSvc.exec]
    unfold OrderSvc.SubmitOrderForPayment
    simp only [OrderSvc.mockOrderRepository.impl, OrderSvc.mockOrderRepository.Find_state_order]
    cases hF : (OrderSvc.mockOrderRepository.Find orderID m).1 with
    | error err => exact hinv
    | ok o =>
      simp only []
      split
      · exact hinv
      · split
        · exact hinv
        · simp only [OrderSvc.updateOrder]
          have hall := OrderSvc.mockOrderRepository.Update_all_order OrderSvc.TotalOK m
            { o with Status := .Pending, Version := o.Version + 1, UpdatedAt := now } hinv
            (OrderSvc.TotalOK_of_same o _ (hfind hF) rfl rfl)
          split <;> exact hall
  | MarkOrderAsPaid now orderID =>
    simp only [OrderSvc.exec]
    unfold OrderSvc.MarkOrderAsPaid
    simp only [OrderSvc.mockOrderRepository.impl, OrderSvc.mockOrderRepository.Find_state_order]
    cases hF : (OrderSvc.mockOrderRepository.Find orderID m).1 with
    | error err => exact hinv
    | ok o =>
      simp only []
      split
      · exact hinv
      · simp only [OrderSvc.updateOrder]
        exact OrderSvc.mockOrderRepository.Update_all_order OrderSvc.TotalOK m
          { o with Status := .Paid, Version := o.Version + 1, UpdatedAt := now } hinv
          (OrderSvc.TotalOK_of_same o _ (hfind hF) rfl rfl)
  | CancelOrder now orderID reason =>
    simp only [OrderSvc.exec]
    unfold OrderSvc.CancelOrder
    simp only [OrderSvc.mockOrderRepository.impl, OrderSvc.mockOrderRepository.Find_state_order]
    cases hF : (OrderSvc.mockOrderRepository.Find orderID m).1 with
    | error err => exact hinv
    | ok o =>
      simp only []
      split
      · exact hinv
      · simp only [OrderSvc.updateOrder]
        have hall := OrderSvc.mockOrderRepository.Update_all_order OrderSvc.TotalOK m
          { o with Status := .Cancelled, Version := o.Version + 1, UpdatedAt := now } hinv
          (OrderSvc.TotalOK_of_same o _ (hfind hF) rfl rfl)
        split <;> exact hall

theorem OrderSvc.TotalOK_run (cs : List OrderSvc.Cmd) (m : OrderSvc.mockOrderRepository)
    (d : OrderSvc.mockEventDispatcher) (hinv : ∀ e ∈ m.store, OrderSvc.TotalOK e.2) :
    ∀ e ∈ (OrderSvc.run OrderSvc.mockOrderRepository.impl OrderSvc.mockEventDispatcher.impl
      cs m d).1.store, OrderSvc.TotalOK e.2 := by
  induction cs generalizing m d with
  | nil => simpa [OrderSvc.run] using hinv
  | cons c rest ih =>
    simp only [OrderSvc.run]
    exact ih _ _ (OrderSvc.TotalOK_exec c m d hinv)

/-- C4 as stated fails: an order is created and three items of price `2^62` are added.  The
stored order is `Open` with three items whose prices sum to `3 * 2^62`; its `TotalCents`
is `-2^62`. -/
theorem C4_total_wraps_on_overflow :
    (mapGet OrderSvc.sampleLargeOrder.1.store 10).map
      (fun o => (o.Status, o.Items.map (fun item => item.PriceCents), OrderSvc.priceSum o,
        o.TotalCents, decide (o.TotalCents = OrderSvc.priceSum o)))
      = some (.Open, [2 ^ 62, 2 ^ 62, 2 ^ 62], 3 * 2 ^ 62, -2 ^ 62, false) := by
  decide

/-- C4, amended.  Starting from the empty in-memory store, after every sequence of
order-service calls every stored order has `TotalCents` equal to the sum of the
`PriceCents` of its items reduced to `int64` (two-complement wrapping, 0 for the empty
list); whenever that sum is below `2^63` the total is the sum itself. -/
theorem C4_total_is_sum_of_prices_in_int64 (uuids : Nat → UUID) (clock : Nat → Time)
    (cs : List OrderSvc.Cmd) (e : UUID × OrderSvc.Order)
    (he : e ∈ (OrderSvc.run OrderSvc.mockOrderRepository.impl
      OrderSvc.mockEventDispatcher.impl cs (OrderSvc.mockOrderRepository.new uuids clock)
      OrderSvc.mockEventDispatcher.new).1.store) :
    e.2.TotalCents = wrap64 ((e.2.Items.map (fun item => item.PriceCents)).sum) ∧
    ((e.2.Items.map (fun item => item.PriceCents)).sum < 2 ^ 63 →
      e.2.TotalCents = (e.2.Items.map (fun item => item.PriceCents)).sum) := by
  have h := OrderSvc.TotalOK_run cs (OrderSvc.mockOrderRepository.new uuids clock)
    OrderSvc.mockEventDispatcher.new (by simp [OrderSvc.mockOrderRepository.new]) e he
  refine ⟨h.1, fun hlt => ?_⟩
  have hnn : 0 ≤ (e.2.Items.map (fun item => item.PriceCents)).sum := by
    apply List.sum_nonneg
    intro x hx
    obtain ⟨item, hi, rfl⟩ := List.mem_map.mp hx
    exact h.2 item hi
  rw [h.1]
  exact wrap64_of_inRange (by unfold OrderSvc.priceSum; omega) hlt

/-- C4 on the order of the test: one item of 5000 added to a new order. -/
theorem C4_total_witness :
    OrderSvc.sampleOrderWithItem.TotalCents
      = wrap64 ((OrderSvc.sampleOrderWithItem.Items.map (fun item => item.PriceCents)).sum) :=
  (C4_total_is_sum_of_prices_in_int64 (fun n => n + 10) (fun n => n)
    [.CreateNewOrder 1 7, .AddItemToOrder 2 10 5 5000] (10, OrderSvc.sampleOrderWithItem)
    (by decide)).1

/-! ## C5: operations not permitted in the current status -/

/-- C5 as stated fails: in the in-memory store an order is created and cancelled, so it is
`Cancelled` with no items; `SubmitOrderForPayment` on it returns `ErrOrderIsEmpty`, not
`ErrOrderCannotBeModified`, and `AddItemToOrder` with price -1 returns
`ErrNegativePrice`. -/
theorem C5_submit_on_cancelled_empty_order_is_ErrOrderIsEmpty :
    (mapGet OrderSvc.sampleCancelled.2.1.store 10).map (fun o => (o.Status, o.Items))
      = some (.Cancelled, []) ∧
    (OrderSvc.SubmitOrderForPayment OrderSvc.mockOrderRepository.impl
      OrderSvc.mockEventDispatcher.impl 3 10 OrderSvc.sampleCancelled.2.1
      OrderSvc.sampleCancelled.2.2).1 = some .ErrOrderIsEmpty ∧
    (OrderSvc.SubmitOrderForPayment OrderSvc.mockOrderRepository.impl
      OrderSvc.mockEventDispatcher.impl 3 10 OrderSvc.sampleCancelled.2.1
      OrderSvc.sampleCancelled.2.2).1 ≠ some .ErrOrderCannotBeModified ∧
    (OrderSvc.AddItemToOrder OrderSvc.mockOrderRepository.impl
      OrderSvc.mockEventDispatcher.impl 3 10 5 (-1) OrderSvc.sampleCancelled.2.1
      OrderSvc.sampleCancelled.2.2).1.2 = some .ErrNegativePrice := by
  decide

/-- C5, amended.  For every repository and dispatcher, when `Find` returns an order whose
status does not permit the operation, the operation returns an error, the repository is
left in the state `Find` left it (no other repository method is called, so `Update` is
not) and the dispatcher is untouched.  The error is `ErrOrderCannotBeModified`, except
that `AddItemToOrder` with a negative price returns `ErrNegativePrice` before the order
is loaded and `SubmitOrderForPayment` on an order with no items returns
`ErrOrderIsEmpty`.  `Find` of the in-memory store does not change the store. -/
theorem C5_disallowed_status_rejected_without_update {σ δ : Type}
    (R : OrderSvc.OrderRepository σ) (D : OrderSvc.EventDispatcher δ) (now : Time)
    (orderID : UUID) (s : σ) (d : δ) (o : OrderSvc.Order)
    (hfind : (R.Find orderID s).1 = .ok o) :
    (o.Status ≠ .Open →
      (∀ productID priceCents, 0 ≤ priceCents →
        OrderSvc.AddItemToOrder R D now orderID productID priceCents s d
          = ((0, some .ErrOrderCannotBeModified), (R.Find orderID s).2, d)) ∧
      (∀ productID priceCents, priceCents < 0 →
        OrderSvc.AddItemToOrder R D now orderID productID priceCents s d
          = ((0, some .ErrNegativePrice), s, d)) ∧
      (∀ itemID, OrderSvc.RemoveItemFromOrder R D now orderID itemID s d
          = (some .ErrOrderCannotBeModified, (R.Find orderID s).2, d)) ∧
      (o.Items ≠ [] → OrderSvc.SubmitOrderForPayment R D now orderID s d
          = (some .ErrOrderCannotBeModified, (R.Find orderID s).2, d)) ∧
      (o.Items = [] → OrderSvc.SubmitOrderForPayment R D now orderID s d
          = (some .ErrOrderIsEmpty, (R.Find orderID s).2, d))) ∧
    (o.Status ≠ .Pending →
      OrderSvc.MarkOrderAsPaid R D now orderID s d
        = (some .ErrOrderCannotBeModified, (R.Find orderID s).2, d)) ∧
    (o.Status ≠ .Open → o.Status ≠ .Pending →
      ∀ reason, OrderSvc.CancelOrder R D now orderID reason s d
        = (some .ErrOrderCannotBeModified, (R.Find orderID s).2, d)) ∧
    (∀ (m : OrderSvc.mockOrderRepository) (id : UUID),
      (OrderSvc.mockOrderRepository.Find id m).2 = m) := by
  refine ⟨fun hs => ⟨?_, ?_, ?_, ?_, ?_⟩, ?_, ?_, ?_⟩
  · intro productID priceCents hp
    have : ¬ priceCents < 0 := by omega
    simp [OrderSvc.AddItemToOrder, this, hfind, hs]
  · intro productID priceCents hp
    simp [OrderSvc.AddItemToOrder, hp]
  · intro itemID
    simp [OrderSvc.RemoveItemFromOrder, hfind, hs]
  · intro hi
    simp [OrderSvc.SubmitOrderForPayment, hfind, hs, hi]
  · intro hi
    simp [OrderSvc.SubmitOrderForPayment, hfind, hi]
  · intro hs
    simp [OrderSvc.MarkOrderAsPaid, hfind, hs]
  · intro h₁ h₂ reason
    simp [OrderSvc.CancelOrder, hfind, h₁, h₂]
  · intro m id
    unfold OrderSvc.mockOrderRepository.Find
    split
    · split <;> rfl
    · rfl

/-- C5 at a stored order in status `Paid` with one item: `SubmitOrderForPayment` returns
`ErrOrderCannotBeModified` and leaves repository and dispatcher as they were. -/
theorem C5_disallowed_status_witness :
    OrderSvc.SubmitOrderForPayment OrderSvc.mockOrderRepository.impl
        OrderSvc.mockEventDispatcher.impl 9 10 OrderSvc.samplePaidStore OrderSvc.mockEventDispatcher.new
      = (some .ErrOrderCannotBeModified,
          (OrderSvc.mockOrderRepository.impl.Find 10 OrderSvc.samplePaidStore).2,
          OrderSvc.mockEventDispatcher.new) :=
  ((C5_disallowed_status_rejected_without_update OrderSvc.mockOrderRepository.impl
    OrderSvc.mockEventDispatcher.impl 9 10 OrderSvc.samplePaidStore OrderSvc.mockEventDispatcher.new
    OrderSvc.samplePaidOrder rfl).1 (by decide)).2.2.2.1 (by decide)

/-! ## C6: reserving more than the stock -/

/-- On the in-memory product store, for a stored product in status `Available` with
stock `s ≥ 0` and a quantity `q > s` (a Go `int`, so `q < 2^63`), `ReserveStock(q)`
returns `ErrInsufficientStock` and leaves the store and the dispatcher as they were; and
a call of `ReserveStock` on a store without negative stock leaves none behind. -/
theorem ProductSvc.ReserveStock_on_non_negative_stock
    (m : ProductSvc.mockProductRepository) (d : ProductSvc.mockEventDispatcher)
    (now : Time) (productID : UUID) (q : Int) :
    (∀ p, mapGet m.store productID = some p → p.Status = .Available →
      0 ≤ p.StockQuantity → p.StockQuantity < q → q < 2 ^ 63 →
      ProductSvc.ReserveStock ProductSvc.mockProductRepository.impl
          ProductSvc.mockEventDispatcher.impl now productID q m d
        = (some .ErrInsufficientStock, m, d)) ∧
    ((∀ e ∈ m.store, 0 ≤ e.2.StockQuantity) →
      ∀ e ∈ (ProductSvc.ReserveStock ProductSvc.mockProductRepository.impl
          ProductSvc.mockEventDispatcher.impl now productID q m d).2.1.store,
        0 ≤ e.2.StockQuantity) := by
  constructor
  · intro p hp hst h0 hq hmax
    have hq0 : ¬ q ≤ 0 := by omega
    have hneg : wrap64 (-q) = -q := wrap64_of_inRange (by omega) (by omega)
    have hsum : wrap64 (p.StockQuantity + -q) = p.StockQuantity + -q :=
      wrap64_of_inRange (by omega) (by omega)
    have hlt : p.StockQuantity + -q < 0 := by omega
    simp [ProductSvc.ReserveStock, ProductSvc.changeStock, ProductSvc.mockProductRepository.impl,
      ProductSvc.mockProductRepository.Find, hp, hst, hq0, hneg, hsum, hlt]
  · intro hinv e he
    unfold ProductSvc.ReserveStock at he
    split at he
    · exact hinv e he
    · unfold ProductSvc.changeStock at he
      simp only [ProductSvc.mockProductRepository.impl,
        ProductSvc.mockProductRepository.Find_state_product] at he
      cases hF : (ProductSvc.mockProductRepository.Find productID m).1 with
      | error err =>
        simp only [hF] at he
        exact hinv e he
      | ok p =>
        simp only [hF] at he
        split at he
        · exact hinv e he
        · split at he
          · exact hinv e he
          · next hlt =>
            have hall := ProductSvc.mockProductRepository.Update_all_product
              (fun p => 0 ≤ p.StockQuantity) m
              { p with StockQuantity := wrap64 (p.StockQuantity + wrap64 (-q)),
                       Version := p.Version + 1, UpdatedAt := now } hinv
              (by simpa using hlt)
            unfold ProductSvc.updateProduct at he
            split at he <;> exact hall e he

/-- Every call of the product service keeps the stored stock quantities non-negative. -/
theorem ProductSvc.stock_non_negative_exec (c : ProductSvc.Cmd)
    (m : ProductSvc.mockProductRepository) (d : ProductSvc.mockEventDispatcher)
    (hinv : ∀ e ∈ m.store, 0 ≤ e.2.StockQuantity) :
    ∀ e ∈ (ProductSvc.exec ProductSvc.mockProductRepository.impl
      ProductSvc.mockEventDispatcher.impl c m d).2.1.store, 0 ≤ e.2.StockQuantity := by
  have hfind : ∀ {id : UUID} {p : ProductSvc.Product},
      (ProductSvc.mockProductRepository.Find id m).1 = .ok p → 0 ≤ p.StockQuantity := by
    intro id p h
    unfold ProductSvc.mockProductRepository.Find at h
    split at h
    · next p' hp =>
      simp only [Except.ok.injEq] at h
      subst h
      exact hinv _ (mem_of_mapGet hp)
    · simp at h
  have hstock : ∀ (now : Time) (productID : UUID) (amount : Int),
      ∀ e ∈ (ProductSvc.changeStock ProductSvc.mockProductRepository.impl
        ProductSvc.mockEventDispatcher.impl now productID amount m d).2.1.store,
        0 ≤ e.2.StockQuantity := by
    intro now productID amount
    unfold ProductSvc.changeStock
    simp only [ProductSvc.mockProductRepository.impl,
      ProductSvc.mockProductRepository.Find_state_product]
    cases hF : (ProductSvc.mockProductRepository.Find productID m).1 with
    | error err => exact hinv
    | ok p =>
      simp only []
      split
      · exact hinv
      · split
        · exact hinv
        · next hlt =>
          have hall := ProductSvc.mockProductRepository.Update_all_product
            (fun p => 0 ≤ p.StockQuantity) m
            { p with StockQuantity := wrap64 (p.StockQuantity + amount),
                     Version := p.Version + 1, UpdatedAt := now } hinv
            (by simpa using hlt)
          unfold ProductSvc.updateProduct
          split <;> exact hall
  cases c with
  | CreateProduct now name description priceCents initialStock =>
    simp only [ProductSvc.exec]
    unfold ProductSvc.CreateProduct
    split
    · exact hinv
    · next hneg =>
      simp only [ProductSvc.mockProductRepository.impl, ProductSvc.mockProductRepository.NextID,
        ProductSvc.mockProductRepository.Create]
      intro e he
      rcases mem_mapSet he with h | h
      · exact hinv e h
      · subst h
        simp only
        omega
  | ChangeProductPrice now productID newPriceCents =>
    simp only [ProductSvc.exec]
    unfold ProductSvc.ChangeProductPrice
    simp only [ProductSvc.mockProductRepository.impl,
      ProductSvc.mockProductRepository.Find_state_product]
    cases hF : (ProductSvc.mockProductRepository.Find productID m).1 with
    | error err => exact hinv
    | ok p =>
      simp only []
      split
      · exact hinv
      · split
        · exact hinv
        · have hall := ProductSvc.mockProductRepository.Update_all_product
            (fun p => 0 ≤ p.StockQuantity) m
            { p with PriceCents := newPriceCents, Version := p.Version + 1, UpdatedAt := now }
            hinv (hfind (p := p) hF)
          unfold ProductSvc.updateProduct
          split <;> exact hall
  | ReceiveStock now productID quantity =>
    simp only [ProductSvc.exec]
    unfold ProductSvc.ReceiveStock
    split
    · exact hinv
    · exact hstock now productID quantity
  | ReserveStock now productID quantity =>
    simp only [ProductSvc.exec]
    unfold ProductSvc.ReserveStock
    split
    · exact hinv
    · exact hstock now productID (wrap64 (-quantity))
  | ArchiveProduct now productID =>
    simp only [ProductSvc.exec]
    unfold ProductSvc.ArchiveProduct
    simp only [ProductSvc.mockProductRepository.impl,
      ProductSvc.mockProductRepository.Find_state_product]
    cases hF : (ProductSvc.mockProductRepository.Find productID m).1 with
    | error err => exact hinv
    | ok p =>
      simp only []
      split
      · exact hinv
      · have hall := ProductSvc.mockProductRepository.Update_all_product
          (fun p => 0 ≤ p.StockQuantity) m
          { p with Status := .Archived, Version := p.Version + 1, UpdatedAt := now }
          hinv (hfind (p := p) hF)
        unfold ProductSvc.updateProduct
        split <;> exact hall

theorem ProductSvc.stock_non_negative_run (cs : List ProductSvc.Cmd)
    (m : ProductSvc.mockProductRepository) (d : ProductSvc.mockEventDispatcher)
    (hinv : ∀ e ∈ m.store, 0 ≤ e.2.StockQuantity) :
    ∀ e ∈ (ProductSvc.run ProductSvc.mockProductRepository.impl
      ProductSvc.mockEventDispatcher.impl cs m d).1.store, 0 ≤ e.2.StockQuantity := by
  induction cs generalizing m d with
  | nil => simpa [ProductSvc.run] using hinv
  | cons c rest ih =>
    simp only [ProductSvc.run]
    exact ih _ _ (ProductSvc.stock_non_negative_exec c m d hinv)

/-- C6.  Take the in-memory product store reached from the empty store by any sequence of
product-service calls.  For a stored product in status `Available` with stock `s` and a
quantity `q > s` (a Go `int`, so `q < 2^63`), `ReserveStock(q)` returns
`ErrInsufficientStock` and leaves the store (stock and version) and the dispatched events
as they were.  And whatever the product, its status and the quantity, no stored stock
quantity is below 0 after a call of `ReserveStock`. -/
theorem C6_reserve_stock_keeps_stock_non_negative (uuids : Nat → UUID)
    (cs : List ProductSvc.Cmd) (now : Time) (productID : UUID) (q : Int) :
    (∀ p, mapGet (ProductSvc.run ProductSvc.mockProductRepository.impl
          ProductSvc.mockEventDispatcher.impl cs (ProductSvc.mockProductRepository.new uuids)
          ProductSvc.mockEventDispatcher.new).1.store productID = some p →
      p.Status = .Available → p.StockQuantity < q → q < 2 ^ 63 →
      ProductSvc.ReserveStock ProductSvc.mockProductRepository.impl
          ProductSvc.mockEventDispatcher.impl now productID q
          (ProductSvc.run ProductSvc.mockProductRepository.impl
            ProductSvc.mockEventDispatcher.impl cs (ProductSvc.mockProductRepository.new uuids)
            ProductSvc.mockEventDispatcher.new).1
          (ProductSvc.run ProductSvc.mockProductRepository.impl
            ProductSvc.mockEventDispatcher.impl cs (ProductSvc.mockProductRepository.new uuids)
            ProductSvc.mockEventDispatcher.new).2
        = (some .ErrInsufficientStock,
          (ProductSvc.run ProductSvc.mockProductRepository.impl
            ProductSvc.mockEventDispatcher.impl cs (ProductSvc.mockProductRepository.new uuids)
            ProductSvc.mockEventDispatcher.new).1,
          (ProductSvc.run ProductSvc.mockProductRepository.impl
            ProductSvc.mockEventDispatcher.impl cs (ProductSvc.mockProductRepository.new uuids)
            ProductSvc.mockEventDispatcher.new).2)) ∧
    (∀ e ∈ (ProductSvc.ReserveStock ProductSvc.mockProductRepository.impl
          ProductSvc.mockEventDispatcher.impl now productID q
          (ProductSvc.run ProductSvc.mockProductRepository.impl
            ProductSvc.mockEventDispatcher.impl cs (ProductSvc.mockProductRepository.new uuids)
            ProductSvc.mockEventDispatcher.new).1
          (ProductSvc.run ProductSvc.mockProductRepository.impl
            ProductSvc.mockEventDispatcher.impl cs (ProductSvc.mockProductRepository.new uuids)
            ProductSvc.mockEventDispatcher.new).2).2.1.store,
      0 ≤ e.2.StockQuantity) := by
  have hinv := ProductSvc.stock_non_negative_run cs (ProductSvc.mockProductRepository.new uuids)
    ProductSvc.mockEventDispatcher.new (by simp [ProductSvc.mockProductRepository.new])
  have hres := ProductSvc.ReserveStock_on_non_negative_stock
    (ProductSvc.run ProductSvc.mockProductRepository.impl
      ProductSvc.mockEventDispatcher.impl cs (ProductSvc.mockProductRepository.new uuids)
      ProductSvc.mockEventDispatcher.new).1
    (ProductSvc.run ProductSvc.mockProductRepository.impl
      ProductSvc.mockEventDispatcher.impl cs (ProductSvc.mockProductRepository.new uuids)
      ProductSvc.mockEventDispatcher.new).2 now productID q
  refine ⟨?_, hres.2 hinv⟩
  intro p hp hst hq hmax
  exact hres.1 p hp hst (hinv _ (mem_of_mapGet hp)) hq hmax

/-- C6 on the scenario of the test: a laptop is created with 10 in stock, 3 are reserved,
and a reservation of 15 against the remaining 7 is refused. -/
theorem C6_reserve_stock_witness :
    (ProductSvc.ReserveStock ProductSvc.mockProductRepository.impl
        ProductSvc.mockEventDispatcher.impl 3 10 15
        (ProductSvc.run ProductSvc.mockProductRepository.impl
          ProductSvc.mockEventDispatcher.impl ProductSvc.sampleCalls
          (ProductSvc.mockProductRepository.new (fun n => n + 10))
          ProductSvc.mockEventDispatcher.new).1
        (ProductSvc.run ProductSvc.mockProductRepository.impl
          ProductSvc.mockEventDispatcher.impl ProductSvc.sampleCalls
          (ProductSvc.mockProductRepository.new (fun n => n + 10))
          ProductSvc.mockEventDispatcher.new).2).1 = some .ErrInsufficientStock :=
  congrArg Prod.fst
    ((C6_reserve_stock_keeps_stock_non_negative (fun n => n + 10) ProductSvc.sampleCalls 3 10
      15).1 ProductSvc.sampleLaptop (by decide) rfl (by decide) (by decide))

/-! ## C7: a deactivated user stays deactivated -/

/-- What C7 needs of a state of the in-memory user store: every entry is filed under its
own identifier, the generator will not issue `id` again, and `id` holds `u`. -/
theorem UserSvc.deactivated_kept_by_exec (P : UserSvc.PasswordManager) (c : UserSvc.Cmd)
    (m : UserSvc.mockUserRepository) (d : UserSvc.mockEventDispatcher) (id : UUID)
    (u : UserSvc.User) (hu : u.Status = .Deactivated)
    (hwf : ∀ e ∈ m.store, e.2.ID = e.1) (hfresh : ∀ n, m.uuids n ≠ id)
    (hget : mapGet m.store id = some u) :
    (∀ e ∈ (UserSvc.exec UserSvc.mockUserRepository.impl P UserSvc.mockEventDispatcher.impl
        c m d).2.1.store, e.2.ID = e.1) ∧
    (∀ n, (UserSvc.exec UserSvc.mockUserRepository.impl P UserSvc.mockEventDispatcher.impl
        c m d).2.1.uuids n ≠ id) ∧
    mapGet (UserSvc.exec UserSvc.mockUserRepository.impl P UserSvc.mockEventDispatcher.impl
        c m d).2.1.store id = some u := by
  have hstatus : ∀ (now : Time) (userID : UUID) (newStatus : UserSvc.UserStatus),
      (∀ e ∈ (UserSvc.changeStatus UserSvc.mockUserRepository.impl
          UserSvc.mockEventDispatcher.impl now userID newStatus m d).2.1.store, e.2.ID = e.1) ∧
      (∀ n, (UserSvc.changeStatus UserSvc.mockUserRepository.impl
          UserSvc.mockEventDispatcher.impl now userID newStatus m d).2.1.uuids n ≠ id) ∧
      mapGet (UserSvc.changeStatus UserSvc.mockUserRepository.impl
          UserSvc.mockEventDispatcher.impl now userID newStatus m d).2.1.store id = some u := by
    intro now userID newStatus
    unfold UserSvc.changeStatus
    simp only [UserSvc.mockUserRepository.impl, UserSvc.mockUserRepository.Find_eq_user]
    cases hg : mapGet m.store userID with
    | none => exact ⟨hwf, hfresh, hget⟩
    | some u₀ =>
      have hid : u₀.ID = userID := hwf _ (mem_of_mapGet hg)
      by_cases hs : u₀.Status = newStatus ∨ u₀.Status = .Deactivated
      · simp only [hs, if_true]
        exact ⟨hwf, hfresh, hget⟩
      · have hne : userID ≠ id := by
          intro h
          subst h
          rw [hget] at hg
          cases hg
          exact hs (Or.inr hu)
        simp only [hs, if_false, UserSvc.mockUserRepository.Update]
        split <;>
        · refine ⟨?_, hfresh, ?_⟩
          · intro e he
            rcases mem_mapSet he with h | h
            · exact hwf e h
            · subst h
              rfl
          · simp only [hid]
            rw [mapGet_mapSet_of_ne _ _ (Ne.symm hne)]
            exact hget
  cases c with
  | RegisterNewUser now firstName lastName email plainTextPassword =>
    simp only [UserSvc.exec]
    unfold UserSvc.RegisterNewUser
    split
    · exact ⟨hwf, hfresh, hget⟩
    · simp only [UserSvc.mockUserRepository.impl, UserSvc.mockUserRepository.FindByEmail_state_user]
      split
      · exact ⟨hwf, hfresh, hget⟩
      · split
        · exact ⟨hwf, hfresh, hget⟩
        · simp only [UserSvc.mockUserRepository.NextID, UserSvc.mockUserRepository.Create]
          refine ⟨?_, fun n => hfresh (n + 1), ?_⟩
          · intro e he
            rcases mem_mapSet he with h | h
            · exact hwf e h
            · subst h
              rfl
          · rw [mapGet_mapSet_of_ne _ _ (Ne.symm (hfresh 0))]
            exact hget
  | UpdateUserProfile now userID firstName lastName =>
    simp only [UserSvc.exec]
    unfold UserSvc.UpdateUserProfile
    simp only [UserSvc.mockUserRepository.impl, UserSvc.mockUserRepository.Find_eq_user]
    cases hg : mapGet m.store userID with
    | none => exact ⟨hwf, hfresh, hget⟩
    | some u₀ =>
      have hid : u₀.ID = userID := hwf _ (mem_of_mapGet hg)
      by_cases hs : u₀.Status = .Deactivated
      · simp only [hs, if_true]
        exact ⟨hwf, hfresh, hget⟩
      · have hne : userID ≠ id := by
          intro h
          subst h
          rw [hget] at hg
          cases hg
          exact hs hu
        simp only [hs, if_false, UserSvc.mockUserRepository.Update]
        refine ⟨?_, hfresh, ?_⟩
        · intro e he
          rcases mem_mapSet he with h | h
          · exact hwf e h
          · subst h
            rfl
        · simp only [hid]
          rw [mapGet_mapSet_of_ne _ _ (Ne.symm hne)]
          exact hget
  | SuspendUser now userID => exact hstatus now userID .Suspended
  | ActivateUser now userID => exact hstatus now userID .Active
  | DeactivateUser now userID => exact hstatus now userID .Deactivated

/-- C7.  When `Find` returns a user in status `Deactivated`, `SuspendUser`, `ActivateUser`
and `DeactivateUser` return success, leave the repository in the state `Find` left it (no
`Update`) and leave the dispatcher untouched, for every repository and dispatcher; on the
in-memory store that state is the store itself.  Consequently, on the in-memory store
(entries filed under their own identifier, the generator not issuing the identifier of the
user again), after every sequence of user-service calls the stored user is the same
deactivated user. -/
theorem C7_deactivated_user_is_absorbing
    (P : UserSvc.PasswordManager) (cs : List UserSvc.Cmd) (m : UserSvc.mockUserRepository)
    (d : UserSvc.mockEventDispatcher) (now : Time) (id : UUID) (u : UserSvc.User)
    (hu : u.Status = .Deactivated) (hget : mapGet m.store id = some u) :
    (∀ {σ δ : Type} (R : UserSvc.UserRepository σ) (D : UserSvc.EventDispatcher δ)
        (s : σ) (x : δ), (R.Find id s).1 = .ok u →
      UserSvc.SuspendUser R D now id s x = (none, (R.Find id s).2, x) ∧
      UserSvc.ActivateUser R D now id s x = (none, (R.Find id s).2, x) ∧
      UserSvc.DeactivateUser R D now id s x = (none, (R.Find id s).2, x)) ∧
    (UserSvc.SuspendUser UserSvc.mockUserRepository.impl UserSvc.mockEventDispatcher.impl
        now id m d = (none, m, d) ∧
      UserSvc.ActivateUser UserSvc.mockUserRepository.impl UserSvc.mockEventDispatcher.impl
        now id m d = (none, m, d) ∧
      UserSvc.DeactivateUser UserSvc.mockUserRepository.impl UserSvc.mockEventDispatcher.impl
        now id m d = (none, m, d)) ∧
    ((∀ e ∈ m.store, e.2.ID = e.1) → (∀ n, m.uuids n ≠ id) →
      mapGet (UserSvc.run UserSvc.mockUserRepository.impl P UserSvc.mockEventDispatcher.impl
        cs m d).1.store id = some u) := by
  refine ⟨?_, ?_, ?_⟩
  · intro σ δ R D s x hfind
    simp [UserSvc.SuspendUser, UserSvc.ActivateUser, UserSvc.DeactivateUser,
      UserSvc.changeStatus, hfind, hu]
  · simp [UserSvc.SuspendUser, UserSvc.ActivateUser, UserSvc.DeactivateUser,
      UserSvc.changeStatus, UserSvc.mockUserRepository.impl,
      UserSvc.mockUserRepository.Find_eq_user, hget, hu]
  · intro hwf hfresh
    induction cs generalizing m d with
    | nil => simpa [UserSvc.run] using hget
    | cons c rest ih =>
      obtain ⟨h₁, h₂, h₃⟩ := UserSvc.deactivated_kept_by_exec P c m d id u hu hwf hfresh hget
      simp only [UserSvc.run]
      exact ih _ _ h₃ h₁ h₂

/-- C7 on a store holding a deactivated user 10: it is reactivated, a new user registers,
the profile of user 10 is edited and user 10 is suspended; user 10 is stored as before. -/
theorem C7_deactivated_user_witness :
    mapGet (UserSvc.run UserSvc.mockUserRepository.impl UserSvc.mockPasswordManager
      UserSvc.mockEventDispatcher.impl
      [.ActivateUser 4 10, .RegisterNewUser 5 "Jane" "Doe" "jane@example.com" "password123",
       .UpdateUserProfile 6 10 "J" "D", .SuspendUser 7 10]
      UserSvc.sampleStore UserSvc.mockEventDispatcher.new).1.store 10 = some UserSvc.sampleDeactivated :=
  (C7_deactivated_user_is_absorbing UserSvc.mockPasswordManager
    [.ActivateUser 4 10, .RegisterNewUser 5 "Jane" "Doe" "jane@example.com" "password123",
     .UpdateUserProfile 6 10 "J" "D", .SuspendUser 7 10]
    UserSvc.sampleStore UserSvc.mockEventDispatcher.new 0 10 UserSvc.sampleDeactivated rfl rfl).2.2
    (by decide) (by intro n; simp [UserSvc.sampleStore])

/-! ## C8: versions start at 1 and count the successful updates -/

theorem OrderSvc.CreateNewOrder_version (m : OrderSvc.mockOrderRepository)
    (d : OrderSvc.mockEventDispatcher) (now : Time) (customerID : UUID) (o : OrderSvc.Order)
    (h : (OrderSvc.CreateNewOrder OrderSvc.mockOrderRepository.impl
      OrderSvc.mockEventDispatcher.impl now customerID m d).1 = .ok o) :
    o.Version = 1 ∧
    mapGet (OrderSvc.CreateNewOrder OrderSvc.mockOrderRepository.impl
      OrderSvc.mockEventDispatcher.impl now customerID m d).2.1.store o.ID = some o := by
  revert h
  simp only [OrderSvc.CreateNewOrder, OrderSvc.mockOrderRepository.impl,
    OrderSvc.mockOrderRepository.NextID, OrderSvc.mockOrderRepository.Create]
  cases mapGet m.store (m.uuids 0) with
  | some x => simp
  | none =>
    simp only [Except.ok.injEq]
    intro h
    subst h
    exact ⟨rfl, mapGet_mapSet_self _ _ _⟩

theorem ProductSvc.CreateProduct_version (m : ProductSvc.mockProductRepository)
    (d : ProductSvc.mockEventDispatcher) (now : Time) (name description : String)
    (priceCents initialStock : Int) (p : ProductSvc.Product)
    (h : (ProductSvc.CreateProduct ProductSvc.mockProductRepository.impl
      ProductSvc.mockEventDispatcher.impl now name description priceCents initialStock
      m d).1 = .ok p) :
    p.Version = 1 ∧
    mapGet (ProductSvc.CreateProduct ProductSvc.mockProductRepository.impl
      ProductSvc.mockEventDispatcher.impl now name description priceCents initialStock
      m d).2.1.store p.ID = some p := by
  revert h
  simp only [ProductSvc.CreateProduct, ProductSvc.mockProductRepository.impl,
    ProductSvc.mockProductRepository.NextID, ProductSvc.mockProductRepository.Create]
  split
  · simp
  · simp only [Except.ok.injEq]
    intro h
    subst h
    exact ⟨rfl, mapGet_mapSet_self _ _ _⟩

theorem PaymentSvc.CreateWallet_version (m : PaymentSvc.mockPaymentRepository)
    (now : Time) (userID : UUID) (w : PaymentSvc.Wallet)
    (h : (PaymentSvc.CreateWallet PaymentSvc.mockPaymentRepository.impl now userID m).1 = .ok w) :
    w.Version = 1 ∧
    mapGet (PaymentSvc.CreateWallet PaymentSvc.mockPaymentRepository.impl now userID
      m).2.storeWallets w.ID = some w := by
  revert h
  simp only [PaymentSvc.CreateWallet, PaymentSvc.mockPaymentRepository.impl,
    PaymentSvc.mockPaymentRepository.NextID, PaymentSvc.mockPaymentRepository.CreateWallet]
  cases mapGet m.storeWallets (m.uuids 0) with
  | some x => simp
  | none =>
    simp only [Except.ok.injEq]
    intro h
    subst h
    refine ⟨rfl, ?_⟩
    simp only
    by_cases hk : m.uuids 0 = userID
    · rw [hk]
      exact mapGet_mapSet_self _ _ _
    · rw [mapGet_mapSet_of_ne _ _ hk]
      exact mapGet_mapSet_self _ _ _

/-- Every call of the order service passes to `Update` at most one order, and that order
carries the identifier and the version plus one of an order `Find` returned during the
call. -/
theorem OrderSvc.exec_updates_loaded_version_plus_one_order {σ δ : Type}
    (R : OrderSvc.OrderRepository σ) (D : OrderSvc.EventDispatcher δ) (c : OrderSvc.Cmd)
    (s : σ) (d : δ) :
    (OrderSvc.exec (OrderSvc.recording R) D c
      { inner := s, loaded := [], updated := [] } d).2.1.updated.length ≤ 1 ∧
    ∀ o' ∈ (OrderSvc.exec (OrderSvc.recording R) D c
        { inner := s, loaded := [], updated := [] } d).2.1.updated,
      ∃ o ∈ (OrderSvc.exec (OrderSvc.recording R) D c
        { inner := s, loaded := [], updated := [] } d).2.1.loaded,
        o'.ID = o.ID ∧ o'.Version = o.Version + 1 := by
  cases c <;>
  simp only [OrderSvc.exec, OrderSvc.CreateNewOrder, OrderSvc.AddItemToOrder,
    OrderSvc.RemoveItemFromOrder, OrderSvc.SubmitOrderForPayment, OrderSvc.MarkOrderAsPaid,
    OrderSvc.CancelOrder, OrderSvc.updateOrder, OrderSvc.recording, OrderSvc.recalculateTotal] <;>
  (repeat' split) <;>
  simp_all

/-- Every call of the product service passes to `Update` at most one product, and that
product carries the identifier and the version plus one of a product `Find` returned during
the call. -/
theorem ProductSvc.exec_updates_loaded_version_plus_one_product {σ δ : Type}
    (R : ProductSvc.ProductRepository σ) (D : ProductSvc.EventDispatcher δ) (c : ProductSvc.Cmd)
    (s : σ) (d : δ) :
    (ProductSvc.exec (ProductSvc.recording R) D c
      { inner := s, loaded := [], updated := [] } d).2.1.updated.length ≤ 1 ∧
    ∀ p' ∈ (ProductSvc.exec (ProductSvc.recording R) D c
        { inner := s, loaded := [], updated := [] } d).2.1.updated,
      ∃ p ∈ (ProductSvc.exec (ProductSvc.recording R) D c
        { inner := s, loaded := [], updated := [] } d).2.1.loaded,
        p'.ID = p.ID ∧ p'.Version = p.Version + 1 := by
  cases c <;>
  simp only [ProductSvc.exec, ProductSvc.CreateProduct, ProductSvc.ChangeProductPrice,
    ProductSvc.ReceiveStock, ProductSvc.ReserveStock, ProductSvc.changeStock,
    ProductSvc.ArchiveProduct, ProductSvc.updateProduct, ProductSvc.recording] <;>
  (repeat' split) <;>
  simp_all

set_option maxRecDepth 8000 in
/-- Every call of the payment service passes to `UpdateWallet` at most one wallet, and
that wallet carries the identifier and the version plus one of a wallet
`GetWalletByUserID` returned during the call. -/
theorem PaymentSvc.exec_updates_loaded_version_plus_one_wallet {σ δ : Type}
    (R : PaymentSvc.PaymentRepository σ) (D : PaymentSvc.EventDispatcher δ) (c : PaymentSvc.Cmd)
    (s : σ) (d : δ) :
    (PaymentSvc.exec (PaymentSvc.recording R) D c
      { inner := s, loaded := [], updated := [] } d).2.1.updated.length ≤ 1 ∧
    ∀ w' ∈ (PaymentSvc.exec (PaymentSvc.recording R) D c
        { inner := s, loaded := [], updated := [] } d).2.1.updated,
      ∃ w ∈ (PaymentSvc.exec (PaymentSvc.recording R) D c
        { inner := s, loaded := [], updated := [] } d).2.1.loaded,
        w'.ID = w.ID ∧ w'.Version = w.Version + 1 := by
  cases c <;>
  simp only [PaymentSvc.exec, PaymentSvc.CreateWallet, PaymentSvc.Deposit,
    PaymentSvc.PayForOrder, PaymentSvc.GetBalance, PaymentSvc.processTransaction,
    PaymentSvc.recording] <;>
  (repeat' split) <;>
  simp_all

theorem OrderSvc.mockOrderRepository.version_after_updates_order (id : UUID)
    (os : List OrderSvc.Order) (m : OrderSvc.mockOrderRepository) (o₀ : OrderSvc.Order)
    (h : mapGet m.store id = some o₀) :
    ∃ o₁, mapGet (OrderSvc.mockOrderRepository.updateAll os m).store id = some o₁ ∧
      o₁.Version = o₀.Version + OrderSvc.mockOrderRepository.successes id os m := by
  induction os generalizing m o₀ with
  | nil => exact ⟨o₀, h, by simp [OrderSvc.mockOrderRepository.successes]⟩
  | cons o rest ih =>
    simp only [OrderSvc.mockOrderRepository.updateAll, OrderSvc.mockOrderRepository.successes]
    unfold OrderSvc.mockOrderRepository.Update
    cases hg : mapGet m.store o.ID with
    | none =>
      obtain ⟨o₁, h₁, h₂⟩ := ih m o₀ h
      exact ⟨o₁, h₁, by simp [h₂]⟩
    | some existing =>
      by_cases hv : existing.Version = o.Version - 1
      · simp only [hv, ne_eq, not_true_eq_false, if_false, and_true]
        by_cases hid : o.ID = id
        · subst hid
          rw [h] at hg
          cases hg
          obtain ⟨o₁, h₁, h₂⟩ := ih { m with store := mapSet m.store o.ID o } o
            (mapGet_mapSet_self _ _ _)
          refine ⟨o₁, h₁, ?_⟩
          simp only [if_true]
          push_cast
          omega
        · obtain ⟨o₁, h₁, h₂⟩ := ih { m with store := mapSet m.store o.ID o } o₀
            (by simpa [mapGet_mapSet_of_ne _ _ (Ne.symm hid)] using h)
          exact ⟨o₁, h₁, by simp [hid, h₂]⟩
      · simp only [ne_eq, hv, not_false_eq_true, if_true]
        obtain ⟨o₁, h₁, h₂⟩ := ih m o₀ h
        exact ⟨o₁, h₁, by simp [h₂]⟩

theorem ProductSvc.mockProductRepository.version_after_updates_product (id : UUID)
    (os : List ProductSvc.Product) (m : ProductSvc.mockProductRepository) (o₀ : ProductSvc.Product)
    (h : mapGet m.store id = some o₀) :
    ∃ o₁, mapGet (ProductSvc.mockProductRepository.updateAll os m).store id = some o₁ ∧
      o₁.Version = o₀.Version + ProductSvc.mockProductRepository.successes id os m := by
  induction os generalizing m o₀ with
  | nil => exact ⟨o₀, h, by simp [ProductSvc.mockProductRepository.successes]⟩
  | cons o rest ih =>
    simp only [ProductSvc.mockProductRepository.updateAll, ProductSvc.mockProductRepository.successes]
    unfold ProductSvc.mockProductRepository.Update
    cases hg : mapGet m.store o.ID with
    | none =>
      obtain ⟨o₁, h₁, h₂⟩ := ih m o₀ h
      exact ⟨o₁, h₁, by simp [h₂]⟩
    | some existing =>
      by_cases hv : existing.Version = o.Version - 1
      · simp only [hv, ne_eq, not_true_eq_false, if_false, and_true]
        by_cases hid : o.ID = id
        · subst hid
          rw [h] at hg
          cases hg
          obtain ⟨o₁, h₁, h₂⟩ := ih { m with store := mapSet m.store o.ID o } o
            (mapGet_mapSet_self _ _ _)
          refine ⟨o₁, h₁, ?_⟩
          simp only [if_true]
          push_cast
          omega
        · obtain ⟨o₁, h₁, h₂⟩ := ih { m with store := mapSet m.store o.ID o } o₀
            (by simpa [mapGet_mapSet_of_ne _ _ (Ne.symm hid)] using h)
          exact ⟨o₁, h₁, by simp [hid, h₂]⟩
      · simp only [ne_eq, hv, not_false_eq_true, if_true]
        obtain ⟨o₁, h₁, h₂⟩ := ih m o₀ h
        exact ⟨o₁, h₁, by simp [h₂]⟩

theorem PaymentSvc.mockPaymentRepository.version_after_updates_wallet (id : UUID)
    (os : List PaymentSvc.Wallet) (m : PaymentSvc.mockPaymentRepository) (o₀ : PaymentSvc.Wallet)
    (h : mapGet m.storeWallets id = some o₀) :
    ∃ o₁, mapGet (PaymentSvc.mockPaymentRepository.updateAll os m).storeWallets id = some o₁ ∧
      o₁.Version = o₀.Version + PaymentSvc.mockPaymentRepository.successes id os m := by
  induction os generalizing m o₀ with
  | nil => exact ⟨o₀, h, by simp [PaymentSvc.mockPaymentRepository.successes]⟩
  | cons o rest ih =>
    simp only [PaymentSvc.mockPaymentRepository.updateAll, PaymentSvc.mockPaymentRepository.successes]
    unfold PaymentSvc.mockPaymentRepository.UpdateWallet
    cases hg : mapGet m.storeWallets o.ID with
    | none =>
      obtain ⟨o₁, h₁, h₂⟩ := ih m o₀ h
      exact ⟨o₁, h₁, by simp [h₂]⟩
    | some existing =>
      by_cases hv : existing.Version = o.Version - 1
      · simp only [hv, ne_eq, not_true_eq_false, if_false, and_true]
        by_cases hid : o.ID = id
        · subst hid
          rw [h] at hg
          cases hg
          obtain ⟨o₁, h₁, h₂⟩ := ih { m with storeWallets := mapSet m.storeWallets o.ID o } o
            (mapGet_mapSet_self _ _ _)
          refine ⟨o₁, h₁, ?_⟩
          simp only [if_true]
          push_cast
          omega
        · obtain ⟨o₁, h₁, h₂⟩ := ih { m with storeWallets := mapSet m.storeWallets o.ID o } o₀
            (by simpa [mapGet_mapSet_of_ne _ _ (Ne.symm hid)] using h)
          exact ⟨o₁, h₁, by simp [hid, h₂]⟩
      · simp only [ne_eq, hv, not_false_eq_true, if_true]
        obtain ⟨o₁, h₁, h₂⟩ := ih m o₀ h
        exact ⟨o₁, h₁, by simp [h₂]⟩

/-- A call of the order service that returns an error leaves the in-memory store as it
was. -/
theorem OrderSvc.exec_error_keeps_store_order (c : OrderSvc.Cmd) (m : OrderSvc.mockOrderRepository)
    (d : OrderSvc.mockEventDispatcher)
    (h : (OrderSvc.exec OrderSvc.mockOrderRepository.impl OrderSvc.mockEventDispatcher.impl
      c m d).1 ≠ none) :
    (OrderSvc.exec OrderSvc.mockOrderRepository.impl OrderSvc.mockEventDispatcher.impl
      c m d).2.1.store = m.store := by
  revert h
  cases c <;>
  simp only [OrderSvc.exec, OrderSvc.CreateNewOrder, OrderSvc.AddItemToOrder,
    OrderSvc.RemoveItemFromOrder, OrderSvc.SubmitOrderForPayment, OrderSvc.MarkOrderAsPaid,
    OrderSvc.CancelOrder, OrderSvc.updateOrder, OrderSvc.mockOrderRepository.impl,
    OrderSvc.mockOrderRepository.Find_state_order, OrderSvc.mockOrderRepository.NextID] <;>
  (repeat' split) <;>
  simp_all [OrderSvc.mockOrderRepository.Update_store_order, OrderSvc.mockOrderRepository.Create_store_order]

/-- A call of the product service that returns an error leaves the in-memory store as it
was. -/
theorem ProductSvc.exec_error_keeps_store_product (c : ProductSvc.Cmd)
    (m : ProductSvc.mockProductRepository) (d : ProductSvc.mockEventDispatcher)
    (h : (ProductSvc.exec ProductSvc.mockProductRepository.impl
      ProductSvc.mockEventDispatcher.impl c m d).1 ≠ none) :
    (ProductSvc.exec ProductSvc.mockProductRepository.impl
      ProductSvc.mockEventDispatcher.impl c m d).2.1.store = m.store := by
  revert h
  cases c <;>
  simp only [ProductSvc.exec, ProductSvc.CreateProduct, ProductSvc.ChangeProductPrice,
    ProductSvc.ReceiveStock, ProductSvc.ReserveStock, ProductSvc.changeStock,
    ProductSvc.ArchiveProduct, ProductSvc.updateProduct, ProductSvc.mockProductRepository.impl,
    ProductSvc.mockProductRepository.Find_state_product, ProductSvc.mockProductRepository.NextID,
    ProductSvc.mockProductRepository.Create] <;>
  (repeat' split) <;>
  simp_all [ProductSvc.mockProductRepository.Update_store_product]

/-- A call of the payment service that returns an error leaves the wallet map of the
in-memory store as it was. -/
theorem PaymentSvc.exec_error_keeps_wallets (c : PaymentSvc.Cmd)
    (m : PaymentSvc.mockPaymentRepository) (d : PaymentSvc.mockEventDispatcher)
    (h : (PaymentSvc.exec PaymentSvc.mockPaymentRepository.impl
      PaymentSvc.mockEventDispatcher.impl c m d).1 ≠ none) :
    (PaymentSvc.exec PaymentSvc.mockPaymentRepository.impl
      PaymentSvc.mockEventDispatcher.impl c m d).2.1.storeWallets = m.storeWallets := by
  cases c with
  | CreateWallet now userID =>
    revert h
    simp only [PaymentSvc.exec, PaymentSvc.CreateWallet, PaymentSvc.mockPaymentRepository.impl,
      PaymentSvc.mockPaymentRepository.NextID]
    (repeat' split) <;>
    simp_all [PaymentSvc.mockPaymentRepository.CreateWallet_storeWallets]
  | Deposit t₁ t₂ userID amountCents referenceID =>
    simp only [PaymentSvc.exec, PaymentSvc.Deposit] at h ⊢
    by_cases hpos : amountCents ≤ 0
    · simp [hpos]
    · simp only [hpos, if_false] at h ⊢
      cases hr : (PaymentSvc.processTransaction PaymentSvc.mockPaymentRepository.impl
          PaymentSvc.mockEventDispatcher.impl t₁ t₂ userID amountCents referenceID
          .Deposit m d).1 with
      | ok w => simp [hr] at h
      | error e => exact PaymentSvc.processTransaction_error_keeps_wallets _ _ _ _ _ _ _ _ e hr
  | PayForOrder t₁ t₂ userID orderID amountCents =>
    simp only [PaymentSvc.exec, PaymentSvc.PayForOrder] at h ⊢
    by_cases hpos : amountCents ≤ 0
    · simp [hpos]
    · simp only [hpos, if_false] at h ⊢
      cases hr : (PaymentSvc.processTransaction PaymentSvc.mockPaymentRepository.impl
          PaymentSvc.mockEventDispatcher.impl t₁ t₂ userID amountCents (uuidString orderID)
          .Withdrawal m d).1 with
      | ok w => simp [hr] at h
      | error e =>
        simpa [hr] using
          PaymentSvc.processTransaction_error_keeps_wallets _ _ _ _ _ _ _ _ e hr
  | GetBalance userID =>
    simp only [PaymentSvc.exec, PaymentSvc.GetBalance, PaymentSvc.mockPaymentRepository.impl,
      PaymentSvc.mockPaymentRepository.GetWalletByUserID_state]
    split <;> rfl

/-- C8.  On the in-memory stores, a successful `CreateNewOrder`, `CreateProduct` or
`CreateWallet` returns an aggregate of version 1 and stores it under its identifier.  On
every in-memory store reached from the empty one by calls of the service, every call of the
service passes to `Update` (`UpdateWallet`) at most one aggregate, and it carries the
identifier and the version plus one of an aggregate the lookup returned during that call.
On such a store, after any sequence of updates the version stored under an identifier is
the version stored before plus the number of those updates that carried the identifier and
succeeded (`N + 1` after `N` successful updates of an aggregate created at version 1).  A
service call that returns an error leaves the stored aggregates, and so their versions, as
they were. -/
theorem C8_version_starts_at_one_and_counts_updates :
    ((∀ (m : OrderSvc.mockOrderRepository) (d : OrderSvc.mockEventDispatcher) (now : Time)
        (customerID : UUID) (o : OrderSvc.Order),
        (OrderSvc.CreateNewOrder OrderSvc.mockOrderRepository.impl
          OrderSvc.mockEventDispatcher.impl now customerID m d).1 = .ok o →
        o.Version = 1 ∧
        mapGet (OrderSvc.CreateNewOrder OrderSvc.mockOrderRepository.impl
          OrderSvc.mockEventDispatcher.impl now customerID m d).2.1.store o.ID = some o) ∧
      (∀ (m : ProductSvc.mockProductRepository) (d : ProductSvc.mockEventDispatcher)
        (now : Time) (name description : String) (priceCents initialStock : Int)
        (p : ProductSvc.Product),
        (ProductSvc.CreateProduct ProductSvc.mockProductRepository.impl
          ProductSvc.mockEventDispatcher.impl now name description priceCents initialStock
          m d).1 = .ok p →
        p.Version = 1 ∧
        mapGet (ProductSvc.CreateProduct ProductSvc.mockProductRepository.impl
          ProductSvc.mockEventDispatcher.impl now name description priceCents initialStock
          m d).2.1.store p.ID = some p) ∧
      (∀ (m : PaymentSvc.mockPaymentRepository) (now : Time) (userID : UUID)
        (w : PaymentSvc.Wallet),
        (PaymentSvc.CreateWallet PaymentSvc.mockPaymentRepository.impl now userID m).1 = .ok w →
        w.Version = 1 ∧
        mapGet (PaymentSvc.CreateWallet PaymentSvc.mockPaymentRepository.impl now userID
          m).2.storeWallets w.ID = some w)) ∧
    ((∀ (uuids : Nat → UUID) (clock : Nat → Time) (cs : List OrderSvc.Cmd) (c : OrderSvc.Cmd),
        (OrderSvc.exec (OrderSvc.recording OrderSvc.mockOrderRepository.impl)
          OrderSvc.mockEventDispatcher.impl c
          { inner := (OrderSvc.reached uuids clock cs).1, loaded := [], updated := [] }
          (OrderSvc.reached uuids clock cs).2).2.1.updated.length ≤ 1 ∧
        ∀ o' ∈ (OrderSvc.exec (OrderSvc.recording OrderSvc.mockOrderRepository.impl)
            OrderSvc.mockEventDispatcher.impl c
            { inner := (OrderSvc.reached uuids clock cs).1, loaded := [], updated := [] }
            (OrderSvc.reached uuids clock cs).2).2.1.updated,
          ∃ o ∈ (OrderSvc.exec (OrderSvc.recording OrderSvc.mockOrderRepository.impl)
            OrderSvc.mockEventDispatcher.impl c
            { inner := (OrderSvc.reached uuids clock cs).1, loaded := [], updated := [] }
            (OrderSvc.reached uuids clock cs).2).2.1.loaded,
            o'.ID = o.ID ∧ o'.Version = o.Version + 1) ∧
      (∀ (uuids : Nat → UUID) (cs : List ProductSvc.Cmd) (c : ProductSvc.Cmd),
        (ProductSvc.exec (ProductSvc.recording ProductSvc.mockProductRepository.impl)
          ProductSvc.mockEventDispatcher.impl c
          { inner := (ProductSvc.reached uuids cs).1, loaded := [], updated := [] }
          (ProductSvc.reached uuids cs).2).2.1.updated.length ≤ 1 ∧
        ∀ p' ∈ (ProductSvc.exec (ProductSvc.recording ProductSvc.mockProductRepository.impl)
            ProductSvc.mockEventDispatcher.impl c
            { inner := (ProductSvc.reached uuids cs).1, loaded := [], updated := [] }
            (ProductSvc.reached uuids cs).2).2.1.updated,
          ∃ p ∈ (ProductSvc.exec (ProductSvc.recording ProductSvc.mockProductRepository.impl)
            ProductSvc.mockEventDispatcher.impl c
            { inner := (ProductSvc.reached uuids cs).1, loaded := [], updated := [] }
            (ProductSvc.reached uuids cs).2).2.1.loaded,
            p'.ID = p.ID ∧ p'.Version = p.Version + 1) ∧
      (∀ (uuids : Nat → UUID) (starts : Nat → Nat) (cs : List PaymentSvc.Cmd)
        (c : PaymentSvc.Cmd),
        (PaymentSvc.exec (PaymentSvc.recording PaymentSvc.mockPaymentRepository.impl)
          PaymentSvc.mockEventDispatcher.impl c
          { inner := (PaymentSvc.reached uuids starts cs).1, loaded := [], updated := [] }
          (PaymentSvc.reached uuids starts cs).2).2.1.updated.length ≤ 1 ∧
        ∀ w' ∈ (PaymentSvc.exec (PaymentSvc.recording PaymentSvc.mockPaymentRepository.impl)
            PaymentSvc.mockEventDispatcher.impl c
            { inner := (PaymentSvc.reached uuids starts cs).1, loaded := [], updated := [] }
            (PaymentSvc.reached uuids starts cs).2).2.1.updated,
          ∃ w ∈ (PaymentSvc.exec (PaymentSvc.recording PaymentSvc.mockPaymentRepository.impl)
            PaymentSvc.mockEventDispatcher.impl c
            { inner := (PaymentSvc.reached uuids starts cs).1, loaded := [], updated := [] }
            (PaymentSvc.reached uuids starts cs).2).2.1.loaded,
            w'.ID = w.ID ∧ w'.Version = w.Version + 1)) ∧
    ((∀ (uuids : Nat → UUID) (clock : Nat → Time) (cs : List OrderSvc.Cmd) (id : UUID)
        (os : List OrderSvc.Order) (o₀ : OrderSvc.Order),
        mapGet (OrderSvc.reached uuids clock cs).1.store id = some o₀ →
        ∃ o₁, mapGet (OrderSvc.mockOrderRepository.updateAll os
            (OrderSvc.reached uuids clock cs).1).store id = some o₁ ∧
          o₁.Version = o₀.Version +
            OrderSvc.mockOrderRepository.successes id os (OrderSvc.reached uuids clock cs).1) ∧
      (∀ (uuids : Nat → UUID) (cs : List ProductSvc.Cmd) (id : UUID)
        (ps : List ProductSvc.Product) (p₀ : ProductSvc.Product),
        mapGet (ProductSvc.reached uuids cs).1.store id = some p₀ →
        ∃ p₁, mapGet (ProductSvc.mockProductRepository.updateAll ps
            (ProductSvc.reached uuids cs).1).store id = some p₁ ∧
          p₁.Version = p₀.Version +
            ProductSvc.mockProductRepository.successes id ps (ProductSvc.reached uuids cs).1) ∧
      (∀ (uuids : Nat → UUID) (starts : Nat → Nat) (cs : List PaymentSvc.Cmd) (id : UUID)
        (ws : List PaymentSvc.Wallet) (w₀ : PaymentSvc.Wallet),
        mapGet (PaymentSvc.reached uuids starts cs).1.storeWallets id = some w₀ →
        ∃ w₁, mapGet (PaymentSvc.mockPaymentRepository.updateAll ws
            (PaymentSvc.reached uuids starts cs).1).storeWallets id = some w₁ ∧
          w₁.Version = w₀.Version +
            PaymentSvc.mockPaymentRepository.successes id ws
              (PaymentSvc.reached uuids starts cs).1)) ∧
    ((∀ (c : OrderSvc.Cmd) (m : OrderSvc.mockOrderRepository) (d : OrderSvc.mockEventDispatcher),
        (OrderSvc.exec OrderSvc.mockOrderRepository.impl OrderSvc.mockEventDispatcher.impl
          c m d).1 ≠ none →
        (OrderSvc.exec OrderSvc.mockOrderRepository.impl OrderSvc.mockEventDispatcher.impl
          c m d).2.1.store = m.store) ∧
      (∀ (c : ProductSvc.Cmd) (m : ProductSvc.mockProductRepository)
        (d : ProductSvc.mockEventDispatcher),
        (ProductSvc.exec ProductSvc.mockProductRepository.impl
          ProductSvc.mockEventDispatcher.impl c m d).1 ≠ none →
        (ProductSvc.exec ProductSvc.mockProductRepository.impl
          ProductSvc.mockEventDispatcher.impl c m d).2.1.store = m.store) ∧
      (∀ (c : PaymentSvc.Cmd) (m : PaymentSvc.mockPaymentRepository)
        (d : PaymentSvc.mockEventDispatcher),
        (PaymentSvc.exec PaymentSvc.mockPaymentRepository.impl
          PaymentSvc.mockEventDispatcher.impl c m d).1 ≠ none →
        (PaymentSvc.exec PaymentSvc.mockPaymentRepository.impl
          PaymentSvc.mockEventDispatcher.impl c m d).2.1.storeWallets = m.storeWallets)) :=
  ⟨⟨OrderSvc.CreateNewOrder_version, ProductSvc.CreateProduct_version,
      PaymentSvc.CreateWallet_version⟩,
    ⟨fun _ _ _ c => OrderSvc.exec_updates_loaded_version_plus_one_order _ _ c _ _,
      fun _ _ c => ProductSvc.exec_updates_loaded_version_plus_one_product _ _ c _ _,
      fun _ _ _ c => PaymentSvc.exec_updates_loaded_version_plus_one_wallet _ _ c _ _⟩,
    ⟨fun _ _ _ id os o₀ h =>
        OrderSvc.mockOrderRepository.version_after_updates_order id os _ o₀ h,
      fun _ _ id ps p₀ h =>
        ProductSvc.mockProductRepository.version_after_updates_product id ps _ p₀ h,
      fun _ _ _ id ws w₀ h =>
        PaymentSvc.mockPaymentRepository.version_after_updates_wallet id ws _ w₀ h⟩,
    ⟨OrderSvc.exec_error_keeps_store_order, ProductSvc.exec_error_keeps_store_product,
      PaymentSvc.exec_error_keeps_wallets⟩⟩

/-- C8 on the order 10 stored after `sampleSubmitCalls` at version 3 and three updates, to
version 4, to version 4 again and to version 5: two of them succeed and the stored version
is 5. -/
theorem C8_version_counts_updates_witness :
    (∃ o₁, mapGet (OrderSvc.mockOrderRepository.updateAll OrderSvc.samplePendingUpdates
        (OrderSvc.reached (fun n => n + 10) (fun n => n)
          OrderSvc.sampleSubmitCalls).1).store 10 = some o₁ ∧
      o₁.Version = OrderSvc.samplePendingOrder.Version +
        OrderSvc.mockOrderRepository.successes 10 OrderSvc.samplePendingUpdates
          (OrderSvc.reached (fun n => n + 10) (fun n => n) OrderSvc.sampleSubmitCalls).1) ∧
    OrderSvc.mockOrderRepository.successes 10 OrderSvc.samplePendingUpdates
        (OrderSvc.reached (fun n => n + 10) (fun n => n) OrderSvc.sampleSubmitCalls).1
      = 2 :=
  ⟨C8_version_starts_at_one_and_counts_updates.2.2.1.1 (fun n => n + 10) (fun n => n)
    OrderSvc.sampleSubmitCalls 10 OrderSvc.samplePendingUpdates OrderSvc.samplePendingOrder
    (by decide), by decide⟩

/-! ## C9: lookup by user after an update of the in-memory wallet store -/

/-- C9, evaluated on the in-memory store.  `CreateWallet` for user 7 receives the wallet
identifier 10; `UpdateWallet` with balance 500 and version 2 succeeds and replaces the
entry under key 10, the entry under key 7 keeps balance 0 and version 1.
`GetWalletByUserID(7)` returns the updated wallet when the iteration starts at the first
entry, and the wallet of before the update when it starts at the second. -/
theorem C9_lookup_by_user_may_return_wallet_of_before_update :
    PaymentSvc.sampleCreated.1.toOption.map (fun w => (w.ID, w.BalanceCents, w.Version))
      = some (10, 0, 1) ∧
    PaymentSvc.sampleUpdated.1 = none ∧
    PaymentSvc.sampleUpdated.2.storeWallets.map
      (fun e => (e.1, e.2.UserID, e.2.BalanceCents, e.2.Version))
      = [(10, 7, 500, 2), (7, 7, 0, 1)] ∧
    (PaymentSvc.mockPaymentRepository.GetWalletByUserID 7
      PaymentSvc.sampleUpdated.2).1.toOption = some PaymentSvc.sampleUpdatedWallet ∧
    (PaymentSvc.mockPaymentRepository.GetWalletByUserID 7
      (PaymentSvc.mockPaymentRepository.GetWalletByUserID 7
        PaymentSvc.sampleUpdated.2).2).1.toOption.map
      (fun w => (w.ID, w.BalanceCents, w.Version)) = some (10, 0, 1) ∧
    (PaymentSvc.mockPaymentRepository.GetWalletByUserID 7
      (PaymentSvc.mockPaymentRepository.GetWalletByUserID 7
        PaymentSvc.sampleUpdated.2).2).1.toOption ≠ some PaymentSvc.sampleUpdatedWallet := by
  decide

/-! ## C10: wallet commands that return an error -/

/-- C10 as stated fails.  On the in-memory store: a wallet is created, 500 is deposited
under "r1", and a deposit of 100 under "r2" loads the wallet through the entry that still
holds version 1; `UpdateWallet` then fails with `ErrOptimisticLock` and `Deposit` returns
that error, yet the ledger holds a `TxCommitted` record for "r2" while the stored balance
is still 500.  The same with a repository whose `UpdateWallet` is made to fail on the very
first deposit: the error is returned and the `TxCommitted` record stays. -/
theorem C10_committed_record_survives_failed_update :
    (errorOf PaymentSvc.sampleOtherDeposit.1 = some .ErrOptimisticLock ∧
      PaymentSvc.sampleOtherDeposit.2.1.storeTxs.map
        (fun tx => (tx.ReferenceID, tx.Status, tx.AmountCents))
        = [("r1", .TxCommitted, 500), ("r2", .TxCommitted, 100)] ∧
      (mapGet PaymentSvc.sampleOtherDeposit.2.1.storeWallets 10).map
        (fun w => (w.BalanceCents, w.Version)) = some (500, 2)) ∧
    (errorOf PaymentSvc.sampleFaultyDeposit.1 = some .ErrOptimisticLock ∧
      PaymentSvc.sampleFaultyDeposit.2.1.inner.storeTxs.map
        (fun tx => (tx.ReferenceID, tx.Status, tx.AmountCents))
        = [("r1", .TxCommitted, 500)] ∧
      (mapGet PaymentSvc.sampleFaultyDeposit.2.1.inner.storeWallets 10).map
        (fun w => (w.BalanceCents, w.Version)) = some (0, 1)) := by
  decide

/-- C10, amended.  For the in-memory store behind a repository any of whose calls may fail:
if `Deposit` returns an error, or `PayForOrder` returns an error other than
`ErrInsufficientFunds`, then the wallet map is unchanged, and the ledger is unchanged or
has gained exactly one record, a `TxCommitted` record of the reference (the record
appended before the wallet update, which is not taken back when that update fails). -/
theorem C10_failed_wallet_command_leaves_wallets_unchanged
    (f : PaymentSvc.Faulty PaymentSvc.mockPaymentRepository)
    (d : PaymentSvc.mockEventDispatcher) (t₁ t₂ : Time) (userID orderID : UUID)
    (amount : Int) (refID : String) (e : PaymentSvc.Err) :
    ((PaymentSvc.Deposit (PaymentSvc.faulty PaymentSvc.mockPaymentRepository.impl)
        PaymentSvc.mockEventDispatcher.impl t₁ t₂ userID amount refID f d).1 = .error e →
      (PaymentSvc.Deposit (PaymentSvc.faulty PaymentSvc.mockPaymentRepository.impl)
          PaymentSvc.mockEventDispatcher.impl t₁ t₂ userID amount refID f d).2.1.inner.storeWallets
        = f.inner.storeWallets ∧
      ((PaymentSvc.Deposit (PaymentSvc.faulty PaymentSvc.mockPaymentRepository.impl)
          PaymentSvc.mockEventDispatcher.impl t₁ t₂ userID amount refID f d).2.1.inner.storeTxs
          = f.inner.storeTxs ∨
        ∃ tx, (PaymentSvc.Deposit (PaymentSvc.faulty PaymentSvc.mockPaymentRepository.impl)
          PaymentSvc.mockEventDispatcher.impl t₁ t₂ userID amount refID f d).2.1.inner.storeTxs
          = f.inner.storeTxs ++ [tx] ∧ tx.Status = .TxCommitted ∧ tx.ReferenceID = refID)) ∧
    ((PaymentSvc.PayForOrder (PaymentSvc.faulty PaymentSvc.mockPaymentRepository.impl)
        PaymentSvc.mockEventDispatcher.impl t₁ t₂ userID orderID amount f d).1 = some e →
      e ≠ .ErrInsufficientFunds →
      (PaymentSvc.PayForOrder (PaymentSvc.faulty PaymentSvc.mockPaymentRepository.impl)
          PaymentSvc.mockEventDispatcher.impl t₁ t₂ userID orderID amount f d).2.1.inner.storeWallets
        = f.inner.storeWallets ∧
      ((PaymentSvc.PayForOrder (PaymentSvc.faulty PaymentSvc.mockPaymentRepository.impl)
          PaymentSvc.mockEventDispatcher.impl t₁ t₂ userID orderID amount f d).2.1.inner.storeTxs
          = f.inner.storeTxs ∨
        ∃ tx, (PaymentSvc.PayForOrder (PaymentSvc.faulty PaymentSvc.mockPaymentRepository.impl)
          PaymentSvc.mockEventDispatcher.impl t₁ t₂ userID orderID amount f d).2.1.inner.storeTxs
          = f.inner.storeTxs ++ [tx] ∧ tx.Status = .TxCommitted ∧
            tx.ReferenceID = uuidString orderID)) := by
  have frame := fun (ref : String) (ty : PaymentSvc.TransactionType) (e' : PaymentSvc.Err) =>
    PaymentSvc.processTransaction_error_frame
      (PaymentSvc.faulty PaymentSvc.mockPaymentRepository.impl)
      PaymentSvc.mockEventDispatcher.impl
      (fun s => s.inner.storeWallets) (fun s => s.inner.storeTxs)
      (by
        intro s
        simp only [PaymentSvc.faulty, PaymentSvc.mockPaymentRepository.impl,
          PaymentSvc.mockPaymentRepository.NextID]
        split <;> simp)
      (by
        intro u s
        simp only [PaymentSvc.faulty, PaymentSvc.mockPaymentRepository.impl,
          PaymentSvc.mockPaymentRepository.GetWalletByUserID]
        split
        · simp
        · split <;> simp)
      (by
        intro a b s
        simp only [PaymentSvc.faulty, PaymentSvc.mockPaymentRepository.impl,
          PaymentSvc.mockPaymentRepository.FindTransactionByRef]
        split <;> simp)
      (by
        intro tx s
        simp only [PaymentSvc.faulty, PaymentSvc.mockPaymentRepository.impl,
          PaymentSvc.mockPaymentRepository.SaveTransaction]
        split <;> simp)
      (by
        intro w s
        simp only [PaymentSvc.faulty, PaymentSvc.mockPaymentRepository.impl,
          PaymentSvc.mockPaymentRepository.UpdateWallet]
        split
        · simp
        · split
          · simp
          · split <;> simp)
      t₁ t₂ userID amount ref ty f d e'
  constructor
  · intro h
    unfold PaymentSvc.Deposit at h ⊢
    split
    · exact ⟨rfl, Or.inl rfl⟩
    · next hpos =>
      rw [if_neg hpos] at h
      obtain ⟨hW, h' | h'⟩ := frame refID .Deposit e h
      · exact absurd h'.1 (by decide)
      · exact ⟨hW, h'⟩
  · intro h hne
    unfold PaymentSvc.PayForOrder at h ⊢
    split
    · exact ⟨rfl, Or.inl rfl⟩
    · next hpos =>
      rw [if_neg hpos] at h
      simp only [] at h ⊢
      cases hr : (PaymentSvc.processTransaction
          (PaymentSvc.faulty PaymentSvc.mockPaymentRepository.impl)
          PaymentSvc.mockEventDispatcher.impl t₁ t₂ userID amount (uuidString orderID)
          .Withdrawal f d).1 with
      | ok w =>
        rw [hr] at h
        simp at h
      | error e' =>
        rw [hr] at h
        simp only [Option.some.injEq] at h
        subst h
        obtain ⟨hW, h' | h'⟩ := frame (uuidString orderID) .Withdrawal e' hr
        · exact absurd h'.2 hne
        · simpa [hr] using And.intro hW h'

/-- C10 at a first deposit whose wallet update fails: the wallet map is as before. -/
theorem C10_failed_wallet_command_witness :
    (PaymentSvc.Deposit (PaymentSvc.faulty PaymentSvc.mockPaymentRepository.impl)
        PaymentSvc.mockEventDispatcher.impl 101 102 7 500 "r1" PaymentSvc.sampleFaulty
        PaymentSvc.mockEventDispatcher.new).2.1.inner.storeWallets
      = PaymentSvc.sampleFaulty.inner.storeWallets :=
  ((C10_failed_wallet_command_leaves_wallets_unchanged PaymentSvc.sampleFaulty PaymentSvc.mockEventDispatcher.new
    101 102 7 0 500 "r1" .ErrOptimisticLock).1 rfl).1

/-! ## C11: no event when an operation returns an error -/

theorem OrderSvc.exec_error_no_dispatch {σ δ : Type} (R : OrderSvc.OrderRepository σ)
    (D : OrderSvc.EventDispatcher δ) (c : OrderSvc.Cmd) (s : σ) (d : δ)
    (h : (OrderSvc.exec R D c s d).1 ≠ none) : (OrderSvc.exec R D c s d).2.2 = d := by
  revert h
  cases c <;>
  simp only [OrderSvc.exec, OrderSvc.CreateNewOrder, OrderSvc.AddItemToOrder,
    OrderSvc.RemoveItemFromOrder, OrderSvc.SubmitOrderForPayment, OrderSvc.MarkOrderAsPaid,
    OrderSvc.CancelOrder, OrderSvc.updateOrder] <;>
  (repeat' split) <;>
  simp_all

theorem ProductSvc.exec_error_no_dispatch_product {σ δ : Type}
    (R : ProductSvc.ProductRepository σ) (D : ProductSvc.EventDispatcher δ)
    (c : ProductSvc.Cmd) (s : σ) (d : δ)
    (h : (ProductSvc.exec R D c s d).1 ≠ none) : (ProductSvc.exec R D c s d).2.2 = d := by
  revert h
  cases c <;>
  simp only [ProductSvc.exec, ProductSvc.CreateProduct, ProductSvc.ChangeProductPrice,
    ProductSvc.ReceiveStock, ProductSvc.ReserveStock, ProductSvc.changeStock,
    ProductSvc.ArchiveProduct, ProductSvc.updateProduct] <;>
  (repeat' split) <;>
  simp_all

theorem UserSvc.exec_error_no_dispatch_user {σ δ : Type}
    (R : UserSvc.UserRepository σ) (P : UserSvc.PasswordManager) (D : UserSvc.EventDispatcher δ)
    (c : UserSvc.Cmd) (s : σ) (d : δ)
    (h : (UserSvc.exec R P D c s d).1 ≠ none) : (UserSvc.exec R P D c s d).2.2 = d := by
  revert h
  cases c <;>
  simp only [UserSvc.exec, UserSvc.RegisterNewUser, UserSvc.UpdateUserProfile,
    UserSvc.SuspendUser, UserSvc.ActivateUser, UserSvc.DeactivateUser,
    UserSvc.changeStatus] <;>
  (repeat' split) <;>
  simp_all
set_option maxRecDepth 8000 in
/-- A wallet command that returns an error has dispatched nothing, except on the insufficient
funds branch of a withdrawal, which dispatches one `PaymentFailed`. -/
theorem PaymentSvc.processTransaction_error_dispatch {σ δ : Type}
    (R : PaymentSvc.PaymentRepository σ) (D : PaymentSvc.EventDispatcher δ)
    (t₁ t₂ : Time) (userID : UUID) (amount : Int) (refID : String)
    (txType : PaymentSvc.TransactionType) (s : σ) (d : δ) (e : PaymentSvc.Err)
    (h : (PaymentSvc.processTransaction R D t₁ t₂ userID amount refID txType s d).1 = .error e) :
    (PaymentSvc.processTransaction R D t₁ t₂ userID amount refID txType s d).2.2 = d ∨
    (txType = .Withdrawal ∧ e = .ErrInsufficientFunds ∧
      ∃ w : PaymentSvc.Wallet, (R.GetWalletByUserID userID s).1 = .ok w ∧
        w.BalanceCents < amount ∧
        (PaymentSvc.processTransaction R D t₁ t₂ userID amount refID txType s d).2.2 =
          (D.Dispatch (.PaymentFailed w.ID refID "insufficient funds") d).2) := by
  revert h
  simp only [PaymentSvc.processTransaction]
  (repeat' split) <;> simp_all [PaymentSvc.Err.Error]

/-- C11.  Events are dispatched only after the write has succeeded.  For every repository
(whatever each of its calls returns), every password manager and every dispatcher: a command
of the order, product or user service, and a `Deposit`, that returns an error leaves the
dispatcher as it was, so that `Dispatch` has not been called; a `PayForOrder` that returns
an error has either not called `Dispatch`, or it returns `ErrInsufficientFunds` for a
balance below the amount and has called `Dispatch` once, with a `PaymentFailed` for the
loaded wallet and the order. -/
theorem C11_no_event_when_an_error_is_returned :
    (∀ (σ δ : Type) (R : OrderSvc.OrderRepository σ) (D : OrderSvc.EventDispatcher δ)
        (c : OrderSvc.Cmd) (s : σ) (d : δ),
        (OrderSvc.exec R D c s d).1 ≠ none → (OrderSvc.exec R D c s d).2.2 = d) ∧
    (∀ (σ δ : Type) (R : ProductSvc.ProductRepository σ) (D : ProductSvc.EventDispatcher δ)
        (c : ProductSvc.Cmd) (s : σ) (d : δ),
        (ProductSvc.exec R D c s d).1 ≠ none → (ProductSvc.exec R D c s d).2.2 = d) ∧
    (∀ (σ δ : Type) (R : UserSvc.UserRepository σ) (P : UserSvc.PasswordManager)
        (D : UserSvc.EventDispatcher δ) (c : UserSvc.Cmd) (s : σ) (d : δ),
        (UserSvc.exec R P D c s d).1 ≠ none → (UserSvc.exec R P D c s d).2.2 = d) ∧
    (∀ (σ δ : Type) (R : PaymentSvc.PaymentRepository σ) (D : PaymentSvc.EventDispatcher δ)
        (t₁ t₂ : Time) (userID : UUID) (amountCents : Int) (referenceID : String)
        (s : σ) (d : δ) (e : PaymentSvc.Err),
        (PaymentSvc.Deposit R D t₁ t₂ userID amountCents referenceID s d).1 = .error e →
        (PaymentSvc.Deposit R D t₁ t₂ userID amountCents referenceID s d).2.2 = d) ∧
    (∀ (σ δ : Type) (R : PaymentSvc.PaymentRepository σ) (D : PaymentSvc.EventDispatcher δ)
        (t₁ t₂ : Time) (userID orderID : UUID) (amountCents : Int)
        (s : σ) (d : δ) (e : PaymentSvc.Err),
        (PaymentSvc.PayForOrder R D t₁ t₂ userID orderID amountCents s d).1 = some e →
        (PaymentSvc.PayForOrder R D t₁ t₂ userID orderID amountCents s d).2.2 = d ∨
        (e = .ErrInsufficientFunds ∧
          ∃ w : PaymentSvc.Wallet, (R.GetWalletByUserID userID s).1 = .ok w ∧
            w.BalanceCents < amountCents ∧
            (PaymentSvc.PayForOrder R D t₁ t₂ userID orderID amountCents s d).2.2 =
              (D.Dispatch (.PaymentFailed w.ID (uuidString orderID) "insufficient funds")
                d).2)) := by
  refine ⟨fun σ δ R D c s d h => OrderSvc.exec_error_no_dispatch R D c s d h,
    fun σ δ R D c s d h => ProductSvc.exec_error_no_dispatch_product R D c s d h,
    fun σ δ R P D c s d h => UserSvc.exec_error_no_dispatch_user R P D c s d h, ?_, ?_⟩
  · intro σ δ R D t₁ t₂ userID amountCents referenceID s d e h
    unfold PaymentSvc.Deposit at h ⊢
    by_cases ha : amountCents ≤ 0
    · simp [ha]
    · rw [if_neg ha] at h ⊢
      rcases PaymentSvc.processTransaction_error_dispatch R D t₁ t₂ userID amountCents
        referenceID .Deposit s d e h with h' | ⟨h', _⟩
      · exact h'
      · exact absurd h' (by simp)
  · intro σ δ R D t₁ t₂ userID orderID amountCents s d e h
    unfold PaymentSvc.PayForOrder at h ⊢
    by_cases ha : amountCents ≤ 0
    · simp [ha]
    · rw [if_neg ha] at h ⊢
      generalize hr : PaymentSvc.processTransaction R D t₁ t₂ userID amountCents
        (uuidString orderID) .Withdrawal s d = r at h ⊢
      obtain ⟨x, s', d'⟩ := r
      cases x with
      | ok w => simp at h
      | error e' =>
        simp only [Option.some.injEq] at h
        subst h
        have := PaymentSvc.processTransaction_error_dispatch R D t₁ t₂ userID amountCents
          (uuidString orderID) .Withdrawal s d e' (by rw [hr])
        rw [hr] at this
        rcases this with h' | ⟨_, h₁, h₂⟩
        · exact Or.inl h'
        · exact Or.inr ⟨h₁, h₂⟩

theorem C11_no_event_witness :
    (OrderSvc.exec OrderSvc.mockOrderRepository.impl OrderSvc.mockEventDispatcher.impl
        (.CancelOrder 5 1 "late") (OrderSvc.mockOrderRepository.new (fun n => n) (fun n => n))
        OrderSvc.mockEventDispatcher.new).1 ≠ none ∧
    (OrderSvc.exec OrderSvc.mockOrderRepository.impl OrderSvc.mockEventDispatcher.impl
        (.CancelOrder 5 1 "late") (OrderSvc.mockOrderRepository.new (fun n => n) (fun n => n))
        OrderSvc.mockEventDispatcher.new).2.2 = OrderSvc.mockEventDispatcher.new :=
  ⟨by decide, C11_no_event_when_an_error_is_returned.1 _ _ _ _ _ _ _ (by decide)⟩

/-! ## C12: the outcome of `Dispatch` does not influence an operation -/

theorem OrderSvc.exec_independent_of_dispatcher {σ δ₁ δ₂ : Type}
    (R : OrderSvc.OrderRepository σ) (D₁ : OrderSvc.EventDispatcher δ₁)
    (D₂ : OrderSvc.EventDispatcher δ₂) (c : OrderSvc.Cmd) (s : σ) (d₁ : δ₁) (d₂ : δ₂) :
    (OrderSvc.exec R D₁ c s d₁).1 = (OrderSvc.exec R D₂ c s d₂).1 ∧
    (OrderSvc.exec R D₁ c s d₁).2.1 = (OrderSvc.exec R D₂ c s d₂).2.1 := by
  cases c <;>
  simp only [OrderSvc.exec, OrderSvc.CreateNewOrder, OrderSvc.AddItemToOrder,
    OrderSvc.RemoveItemFromOrder, OrderSvc.SubmitOrderForPayment, OrderSvc.MarkOrderAsPaid,
    OrderSvc.CancelOrder, OrderSvc.updateOrder] <;>
  (repeat' split) <;>
  simp_all

theorem ProductSvc.exec_independent_of_dispatcher_product {σ δ₁ δ₂ : Type}
    (R : ProductSvc.ProductRepository σ) (D₁ : ProductSvc.EventDispatcher δ₁)
    (D₂ : ProductSvc.EventDispatcher δ₂) (c : ProductSvc.Cmd) (s : σ) (d₁ : δ₁) (d₂ : δ₂) :
    (ProductSvc.exec R D₁ c s d₁).1 = (ProductSvc.exec R D₂ c s d₂).1 ∧
    (ProductSvc.exec R D₁ c s d₁).2.1 = (ProductSvc.exec R D₂ c s d₂).2.1 := by
  cases c <;>
  simp only [ProductSvc.exec, ProductSvc.CreateProduct, ProductSvc.ChangeProductPrice,
    ProductSvc.ReceiveStock, ProductSvc.ReserveStock, ProductSvc.changeStock,
    ProductSvc.ArchiveProduct, ProductSvc.updateProduct] <;>
  (repeat' split) <;>
  simp_all

theorem UserSvc.exec_independent_of_dispatcher_user {σ δ₁ δ₂ : Type}
    (R : UserSvc.UserRepository σ) (P : UserSvc.PasswordManager)
    (D₁ : UserSvc.EventDispatcher δ₁) (D₂ : UserSvc.EventDispatcher δ₂)
    (c : UserSvc.Cmd) (s : σ) (d₁ : δ₁) (d₂ : δ₂) :
    (UserSvc.exec R P D₁ c s d₁).1 = (UserSvc.exec R P D₂ c s d₂).1 ∧
    (UserSvc.exec R P D₁ c s d₁).2.1 = (UserSvc.exec R P D₂ c s d₂).2.1 := by
  cases c <;>
  simp only [UserSvc.exec, UserSvc.RegisterNewUser, UserSvc.UpdateUserProfile,
    UserSvc.SuspendUser, UserSvc.ActivateUser, UserSvc.DeactivateUser,
    UserSvc.changeStatus] <;>
  (repeat' split) <;>
  simp_all

set_option maxRecDepth 8000 in
theorem PaymentSvc.processTransaction_independent_of_dispatcher {σ δ₁ δ₂ : Type}
    (R : PaymentSvc.PaymentRepository σ) (D₁ : PaymentSvc.EventDispatcher δ₁)
    (D₂ : PaymentSvc.EventDispatcher δ₂) (t₁ t₂ : Time) (userID : UUID) (amount : Int)
    (refID : String) (txType : PaymentSvc.TransactionType) (s : σ) (d₁ : δ₁) (d₂ : δ₂) :
    (PaymentSvc.processTransaction R D₁ t₁ t₂ userID amount refID txType s d₁).1 =
      (PaymentSvc.processTransaction R D₂ t₁ t₂ userID amount refID txType s d₂).1 ∧
    (PaymentSvc.processTransaction R D₁ t₁ t₂ userID amount refID txType s d₁).2.1 =
      (PaymentSvc.processTransaction R D₂ t₁ t₂ userID amount refID txType s d₂).2.1 := by
  simp only [PaymentSvc.processTransaction]
  (repeat' split) <;> simp_all

theorem PaymentSvc.exec_independent_of_dispatcher_wallet {σ δ₁ δ₂ : Type}
    (R : PaymentSvc.PaymentRepository σ) (D₁ : PaymentSvc.EventDispatcher δ₁)
    (D₂ : PaymentSvc.EventDispatcher δ₂) (c : PaymentSvc.Cmd) (s : σ) (d₁ : δ₁) (d₂ : δ₂) :
    (PaymentSvc.exec R D₁ c s d₁).1 = (PaymentSvc.exec R D₂ c s d₂).1 ∧
    (PaymentSvc.exec R D₁ c s d₁).2.1 = (PaymentSvc.exec R D₂ c s d₂).2.1 := by
  cases c with
  | CreateWallet now userID => exact ⟨rfl, rfl⟩
  | GetBalance userID => exact ⟨rfl, rfl⟩
  | Deposit t₁ t₂ userID amountCents referenceID =>
    have h := PaymentSvc.processTransaction_independent_of_dispatcher R D₁ D₂ t₁ t₂ userID
      amountCents referenceID .Deposit s d₁ d₂
    simp only [PaymentSvc.exec, PaymentSvc.Deposit]
    by_cases ha : amountCents ≤ 0
    · simp [ha]
    · simp [ha, h.1, h.2]
  | PayForOrder t₁ t₂ userID orderID amountCents =>
    have h := PaymentSvc.processTransaction_independent_of_dispatcher R D₁ D₂ t₁ t₂ userID
      amountCents (uuidString orderID) .Withdrawal s d₁ d₂
    simp only [PaymentSvc.exec, PaymentSvc.PayForOrder]
    by_cases ha : amountCents ≤ 0
    · simp [ha]
    · simp only [if_neg ha, h.1]
      split <;> simp [h.2]

/-- C12.  The outcome of `Dispatch` does not influence an operation.  For every
repository, every starting store and every two dispatchers (of any kind and in any state, so
in particular two that differ only in whether `Dispatch` returns an error): every command of
the order, product, user and wallet services returns the same error or success and leaves the
same store under both, and the operations that return a value (`CreateNewOrder`,
`AddItemToOrder`, `CreateProduct`, `RegisterNewUser`, `Deposit`) return the same value. -/
theorem C12_dispatch_outcome_does_not_influence_operation :
    (∀ (σ δ₁ δ₂ : Type) (R : OrderSvc.OrderRepository σ) (D₁ : OrderSvc.EventDispatcher δ₁)
        (D₂ : OrderSvc.EventDispatcher δ₂) (c : OrderSvc.Cmd) (s : σ) (d₁ : δ₁) (d₂ : δ₂),
        (OrderSvc.exec R D₁ c s d₁).1 = (OrderSvc.exec R D₂ c s d₂).1 ∧
        (OrderSvc.exec R D₁ c s d₁).2.1 = (OrderSvc.exec R D₂ c s d₂).2.1) ∧
    (∀ (σ δ₁ δ₂ : Type) (R : ProductSvc.ProductRepository σ)
        (D₁ : ProductSvc.EventDispatcher δ₁) (D₂ : ProductSvc.EventDispatcher δ₂)
        (c : ProductSvc.Cmd) (s : σ) (d₁ : δ₁) (d₂ : δ₂),
        (ProductSvc.exec R D₁ c s d₁).1 = (ProductSvc.exec R D₂ c s d₂).1 ∧
        (ProductSvc.exec R D₁ c s d₁).2.1 = (ProductSvc.exec R D₂ c s d₂).2.1) ∧
    (∀ (σ δ₁ δ₂ : Type) (R : UserSvc.UserRepository σ) (P : UserSvc.PasswordManager)
        (D₁ : UserSvc.EventDispatcher δ₁) (D₂ : UserSvc.EventDispatcher δ₂)
        (c : UserSvc.Cmd) (s : σ) (d₁ : δ₁) (d₂ : δ₂),
        (UserSvc.exec R P D₁ c s d₁).1 = (UserSvc.exec R P D₂ c s d₂).1 ∧
        (UserSvc.exec R P D₁ c s d₁).2.1 = (UserSvc.exec R P D₂ c s d₂).2.1) ∧
    (∀ (σ δ₁ δ₂ : Type) (R : PaymentSvc.PaymentRepository σ)
        (D₁ : PaymentSvc.EventDispatcher δ₁) (D₂ : PaymentSvc.EventDispatcher δ₂)
        (c : PaymentSvc.Cmd) (s : σ) (d₁ : δ₁) (d₂ : δ₂),
        (PaymentSvc.exec R D₁ c s d₁).1 = (PaymentSvc.exec R D₂ c s d₂).1 ∧
        (PaymentSvc.exec R D₁ c s d₁).2.1 = (PaymentSvc.exec R D₂ c s d₂).2.1) ∧
    (∀ (σ δ₁ δ₂ : Type) (R : OrderSvc.OrderRepository σ) (D₁ : OrderSvc.EventDispatcher δ₁)
        (D₂ : OrderSvc.EventDispatcher δ₂) (now : Time) (id productID : UUID)
        (priceCents : Int) (s : σ) (d₁ : δ₁) (d₂ : δ₂),
        (OrderSvc.CreateNewOrder R D₁ now id s d₁).1 =
          (OrderSvc.CreateNewOrder R D₂ now id s d₂).1 ∧
        (OrderSvc.AddItemToOrder R D₁ now id productID priceCents s d₁).1 =
          (OrderSvc.AddItemToOrder R D₂ now id productID priceCents s d₂).1) ∧
    (∀ (σ δ₁ δ₂ : Type) (R : ProductSvc.ProductRepository σ)
        (D₁ : ProductSvc.EventDispatcher δ₁) (D₂ : ProductSvc.EventDispatcher δ₂)
        (now : Time) (name description : String) (priceCents initialStock : Int)
        (s : σ) (d₁ : δ₁) (d₂ : δ₂),
        (ProductSvc.CreateProduct R D₁ now name description priceCents initialStock s d₁).1 =
          (ProductSvc.CreateProduct R D₂ now name description priceCents initialStock s d₂).1) ∧
    (∀ (σ δ₁ δ₂ : Type) (R : UserSvc.UserRepository σ) (P : UserSvc.PasswordManager)
        (D₁ : UserSvc.EventDispatcher δ₁) (D₂ : UserSvc.EventDispatcher δ₂)
        (now : Time) (firstName lastName email plainTextPassword : String)
        (s : σ) (d₁ : δ₁) (d₂ : δ₂),
        (UserSvc.RegisterNewUser R P D₁ now firstName lastName email plainTextPassword s d₁).1 =
          (UserSvc.RegisterNewUser R P D₂ now firstName lastName email plainTextPassword
            s d₂).1) ∧
    (∀ (σ δ₁ δ₂ : Type) (R : PaymentSvc.PaymentRepository σ)
        (D₁ : PaymentSvc.EventDispatcher δ₁) (D₂ : PaymentSvc.EventDispatcher δ₂)
        (t₁ t₂ : Time) (userID : UUID) (amountCents : Int) (referenceID : String)
        (s : σ) (d₁ : δ₁) (d₂ : δ₂),
        (PaymentSvc.Deposit R D₁ t₁ t₂ userID amountCents referenceID s d₁).1 =
          (PaymentSvc.Deposit R D₂ t₁ t₂ userID amountCents referenceID s d₂).1) := by
  refine ⟨fun σ δ₁ δ₂ R D₁ D₂ c s d₁ d₂ =>
      OrderSvc.exec_independent_of_dispatcher R D₁ D₂ c s d₁ d₂,
    fun σ δ₁ δ₂ R D₁ D₂ c s d₁ d₂ =>
      ProductSvc.exec_independent_of_dispatcher_product R D₁ D₂ c s d₁ d₂,
    fun σ δ₁ δ₂ R P D₁ D₂ c s d₁ d₂ =>
      UserSvc.exec_independent_of_dispatcher_user R P D₁ D₂ c s d₁ d₂,
    fun σ δ₁ δ₂ R D₁ D₂ c s d₁ d₂ =>
      PaymentSvc.exec_independent_of_dispatcher_wallet R D₁ D₂ c s d₁ d₂, ?_, ?_, ?_, ?_⟩
  · intro σ δ₁ δ₂ R D₁ D₂ now id productID priceCents s d₁ d₂
    constructor
    · simp only [OrderSvc.CreateNewOrder]
      (repeat' split) <;> simp_all
    · simp only [OrderSvc.AddItemToOrder, OrderSvc.updateOrder]
      (repeat' split) <;> simp_all
  · intro σ δ₁ δ₂ R D₁ D₂ now name description priceCents initialStock s d₁ d₂
    simp only [ProductSvc.CreateProduct]
    (repeat' split) <;> simp_all
  · intro σ δ₁ δ₂ R P D₁ D₂ now firstName lastName email plainTextPassword s d₁ d₂
    simp only [UserSvc.RegisterNewUser]
    (repeat' split) <;> simp_all
  · intro σ δ₁ δ₂ R D₁ D₂ t₁ t₂ userID amountCents referenceID s d₁ d₂
    simp only [PaymentSvc.Deposit]
    split
    · rfl
    · exact (PaymentSvc.processTransaction_independent_of_dispatcher R D₁ D₂ t₁ t₂ userID
        amountCents referenceID .Deposit s d₁ d₂).1

/-! ## The in-memory order store: what a call changes -/

theorem OrderSvc.mockOrderRepository.Update_store_cases (o : OrderSvc.Order)
    (m : OrderSvc.mockOrderRepository) :
    (OrderSvc.mockOrderRepository.Update o m).2.store = m.store ∨
    (OrderSvc.mockOrderRepository.Update o m).2.store = mapSet m.store o.ID o := by
  rw [OrderSvc.mockOrderRepository.Update_store_order]
  split
  · exact Or.inr rfl
  · exact Or.inl rfl

/-- A call of the order service on the in-memory store leaves the map as it was, or files a
new `Open` order under an identifier that was free, or replaces the order that `Find`
returned for the identifier the call is addressed to by an order with the same identifier
and deletion mark whose status is the same or follows one of the four edges. -/
theorem OrderSvc.exec_store_cases (c : OrderSvc.Cmd) (m : OrderSvc.mockOrderRepository)
    (d : OrderSvc.mockEventDispatcher) :
    (OrderSvc.exec OrderSvc.mockOrderRepository.impl OrderSvc.mockEventDispatcher.impl
      c m d).2.1.store = m.store ∨
    (∃ o' : OrderSvc.Order, mapGet m.store o'.ID = none ∧ o'.DeletedAt = none ∧
      (OrderSvc.exec OrderSvc.mockOrderRepository.impl OrderSvc.mockEventDispatcher.impl
        c m d).2.1.store = mapSet m.store o'.ID o') ∨
    (∃ (orderID : UUID) (o o' : OrderSvc.Order), c.target = some orderID ∧
      (OrderSvc.mockOrderRepository.Find orderID m).1 = .ok o ∧ o'.ID = o.ID ∧
      o'.DeletedAt = o.DeletedAt ∧
      ((o.Status = .Open ∧ (o'.Status = .Open ∨ o'.Status = .Pending ∨ o'.Status = .Cancelled)) ∨
       (o.Status = .Pending ∧ (o'.Status = .Paid ∨ o'.Status = .Cancelled))) ∧
      (OrderSvc.exec OrderSvc.mockOrderRepository.impl OrderSvc.mockEventDispatcher.impl
        c m d).2.1.store = mapSet m.store o'.ID o') := by
  cases c with
  | CreateNewOrder now customerID =>
    simp only [OrderSvc.exec]
    unfold OrderSvc.CreateNewOrder
    simp only [OrderSvc.mockOrderRepository.impl, OrderSvc.mockOrderRepository.NextID,
      OrderSvc.mockOrderRepository.Create]
    cases hg : mapGet m.store (m.uuids 0) with
    | some x => exact Or.inl rfl
    | none =>
      exact Or.inr (Or.inl
        ⟨{ ID := m.uuids 0, CustomerID := customerID, Status := .Open, Items := [],
           TotalCents := 0, Version := 1, CreatedAt := now, UpdatedAt := now,
           DeletedAt := none }, hg, rfl, rfl⟩)
  | AddItemToOrder now orderID productID priceCents =>
    simp only [OrderSvc.exec]
    unfold OrderSvc.AddItemToOrder
    split
    · exact Or.inl rfl
    · simp only [OrderSvc.mockOrderRepository.impl, OrderSvc.mockOrderRepository.Find_state_order]
      cases hF : (OrderSvc.mockOrderRepository.Find orderID m).1 with
      | error err => exact Or.inl rfl
      | ok o =>
        simp only []
        split
        · exact Or.inl rfl
        · next hs =>
          simp only [OrderSvc.mockOrderRepository.NextID, OrderSvc.updateOrder]
          have hs' : o.Status = .Open := by simpa using hs
          rcases OrderSvc.mockOrderRepository.Update_store_cases
            { OrderSvc.recalculateTotal
              { o with Items := o.Items ++
                [{ ID := m.uuids 0, ProductID := productID, PriceCents := priceCents }] }
              with Version := o.Version + 1, UpdatedAt := now }
            { m with uuids := fun n => m.uuids (n + 1) } with h | h
          · refine Or.inl ?_
            split <;> exact h
          · refine Or.inr (Or.inr ⟨orderID, o,
              { OrderSvc.recalculateTotal
                { o with Items := o.Items ++
                  [{ ID := m.uuids 0, ProductID := productID, PriceCents := priceCents }] }
                with Version := o.Version + 1, UpdatedAt := now },
              rfl, hF, rfl, rfl, Or.inl ⟨hs', Or.inl hs'⟩, ?_⟩)
            split <;> exact h
  | RemoveItemFromOrder now orderID itemID =>
    simp only [OrderSvc.exec]
    unfold OrderSvc.RemoveItemFromOrder
    simp only [OrderSvc.mockOrderRepository.impl, OrderSvc.mockOrderRepository.Find_state_order]
    cases hF : (OrderSvc.mockOrderRepository.Find orderID m).1 with
    | error err => exact Or.inl rfl
    | ok o =>
      simp only []
      split
      · exact Or.inl rfl
      · next hs =>
        have hs' : o.Status = .Open := by simpa using hs
        split
        · exact Or.inl rfl
        · next i hi =>
          simp only [OrderSvc.updateOrder]
          rcases OrderSvc.mockOrderRepository.Update_store_cases
            { OrderSvc.recalculateTotal
              { o with Items := o.Items.take i ++ o.Items.drop (i + 1) }
              with Version := o.Version + 1, UpdatedAt := now } m with h | h
          · refine Or.inl ?_
            split <;> exact h
          · refine Or.inr (Or.inr ⟨orderID, o,
              { OrderSvc.recalculateTotal
                { o with Items := o.Items.take i ++ o.Items.drop (i + 1) }
                with Version := o.Version + 1, UpdatedAt := now },
              rfl, hF, rfl, rfl, Or.inl ⟨hs', Or.inl hs'⟩, ?_⟩)
            split <;> exact h
  | SubmitOrderForPayment now orderID =>
    simp only [OrderSvc.exec]
    unfold OrderSvc.SubmitOrderForPayment
    simp only [OrderSvc.mockOrderRepository.impl, OrderSvc.mockOrderRepository.Find_state_order]
    cases hF : (OrderSvc.mockOrderRepository.Find orderID m).1 with
    | error err => exact Or.inl rfl
    | ok o =>
      simp only []
      split
      · exact Or.inl rfl
      · split
        · exact Or.inl rfl
        · next hs =>
          have hs' : o.Status = .Open := by simpa using hs
          simp only [OrderSvc.updateOrder]
          rcases OrderSvc.mockOrderRepository.Update_store_cases
            { o with Status := .Pending, Version := o.Version + 1, UpdatedAt := now } m
            with h | h
          · refine Or.inl ?_
            split <;> exact h
          · refine Or.inr (Or.inr ⟨orderID, o,
              { o with Status := .Pending, Version := o.Version + 1, UpdatedAt := now },
              rfl, hF, rfl, rfl, Or.inl ⟨hs', Or.inr (Or.inl rfl)⟩, ?_⟩)
            split <;> exact h
  | MarkOrderAsPaid now orderID =>
    simp only [OrderSvc.exec]
    unfold OrderSvc.MarkOrderAsPaid
    simp only [OrderSvc.mockOrderRepository.impl, OrderSvc.mockOrderRepository.Find_state_order]
    cases hF : (OrderSvc.mockOrderRepository.Find orderID m).1 with
    | error err => exact Or.inl rfl
    | ok o =>
      simp only []
      split
      · exact Or.inl rfl
      · next hs =>
        have hs' : o.Status = .Pending := by simpa using hs
        simp only [OrderSvc.updateOrder]
        rcases OrderSvc.mockOrderRepository.Update_store_cases
          { o with Status := .Paid, Version := o.Version + 1, UpdatedAt := now } m
          with h | h
        · exact Or.inl h
        · exact Or.inr (Or.inr ⟨orderID, o,
            { o with Status := .Paid, Version := o.Version + 1, UpdatedAt := now },
            rfl, hF, rfl, rfl, Or.inr ⟨hs', Or.inl rfl⟩, h⟩)
  | CancelOrder now orderID reason =>
    simp only [OrderSvc.exec]
    unfold OrderSvc.CancelOrder
    simp only [OrderSvc.mockOrderRepository.impl, OrderSvc.mockOrderRepository.Find_state_order]
    cases hF : (OrderSvc.mockOrderRepository.Find orderID m).1 with
    | error err => exact Or.inl rfl
    | ok o =>
      simp only []
      split
      · exact Or.inl rfl
      · next hs =>
        have hs' : o.Status = .Open ∨ o.Status = .Pending := by
          by_cases h₁ : o.Status = .Open
          · exact Or.inl h₁
          · by_cases h₂ : o.Status = .Pending
            · exact Or.inr h₂
            · exact absurd ⟨h₁, h₂⟩ hs
        simp only [OrderSvc.updateOrder]
        rcases OrderSvc.mockOrderRepository.Update_store_cases
          { o with Status := .Cancelled, Version := o.Version + 1, UpdatedAt := now } m
          with h | h
        · refine Or.inl ?_
          split <;> exact h
        · refine Or.inr (Or.inr ⟨orderID, o,
            { o with Status := .Cancelled, Version := o.Version + 1, UpdatedAt := now },
            rfl, hF, rfl, rfl, ?_, ?_⟩)
          · rcases hs' with h₁ | h₂
            · exact Or.inl ⟨h₁, Or.inr (Or.inr rfl)⟩
            · exact Or.inr ⟨h₂, Or.inr rfl⟩
          · split <;> exact h

theorem OrderSvc.NotDeleted_exec (c : OrderSvc.Cmd) (m : OrderSvc.mockOrderRepository)
    (d : OrderSvc.mockEventDispatcher) (h : OrderSvc.NotDeleted m.store) :
    OrderSvc.NotDeleted (OrderSvc.exec OrderSvc.mockOrderRepository.impl
      OrderSvc.mockEventDispatcher.impl c m d).2.1.store := by
  rcases OrderSvc.exec_store_cases c m d with hs | ⟨o', _, hd, hs⟩ |
    ⟨orderID, o, o', _, hF, _, hd, _, hs⟩
  · rw [hs]
    exact h
  · rw [hs]
    intro e he
    rcases mem_mapSet he with he | he
    · exact h e he
    · subst he
      exact hd
  · rw [hs]
    intro e he
    rcases mem_mapSet he with he | he
    · exact h e he
    · subst he
      exact hd.trans (OrderSvc.mockOrderRepository.Find_ok_order hF).2

/-- In every store reached from the empty one the orders are filed under their identifier
and none is marked as deleted. -/
theorem OrderSvc.reached_store (uuids : Nat → UUID) (clock : Nat → Time)
    (cs : List OrderSvc.Cmd) :
    OrderSvc.KeyedByID (OrderSvc.reached uuids clock cs).1.store ∧
    OrderSvc.NotDeleted (OrderSvc.reached uuids clock cs).1.store := by
  refine ⟨OrderSvc.KeyedByID_run cs _ _ (by simp [OrderSvc.KeyedByID,
    OrderSvc.mockOrderRepository.new]), ?_⟩
  unfold OrderSvc.reached
  generalize hm : OrderSvc.mockOrderRepository.new uuids clock = m
  have h : OrderSvc.NotDeleted m.store := by
    subst hm
    simp [OrderSvc.NotDeleted, OrderSvc.mockOrderRepository.new]
  clear hm
  generalize OrderSvc.mockEventDispatcher.new = d
  induction cs generalizing m d with
  | nil => simpa [OrderSvc.run] using h
  | cons c rest ih =>
    simp only [OrderSvc.run]
    exact ih _ (OrderSvc.NotDeleted_exec c m d h) _

/-- What a call does to a stored order of a store whose entries are filed under their
identifier: the order stays as it is, or the call is addressed to it and its status stays
or follows one of the four edges. -/
theorem OrderSvc.exec_stored_step (c : OrderSvc.Cmd) (m : OrderSvc.mockOrderRepository)
    (d : OrderSvc.mockEventDispatcher) (hk : OrderSvc.KeyedByID m.store) (id : UUID)
    (o : OrderSvc.Order) (hget : mapGet m.store id = some o) :
    ∃ o', mapGet (OrderSvc.exec OrderSvc.mockOrderRepository.impl
        OrderSvc.mockEventDispatcher.impl c m d).2.1.store id = some o' ∧
      (o' = o ∨ (c.target = some id ∧
        ((o.Status = .Open ∧
            (o'.Status = .Open ∨ o'.Status = .Pending ∨ o'.Status = .Cancelled)) ∨
         (o.Status = .Pending ∧ (o'.Status = .Paid ∨ o'.Status = .Cancelled))))) := by
  rcases OrderSvc.exec_store_cases c m d with hs | ⟨o₀, hfree, _, hs⟩ |
    ⟨orderID, o₁, o₁', ht, hF, hid, _, hstep, hs⟩
  · rw [hs]
    exact ⟨o, hget, Or.inl rfl⟩
  · rw [hs]
    have hne : id ≠ o₀.ID := by
      intro h
      rw [h, hfree] at hget
      simp at hget
    rw [mapGet_mapSet_of_ne _ _ hne]
    exact ⟨o, hget, Or.inl rfl⟩
  · rw [hs]
    have hg := (OrderSvc.mockOrderRepository.Find_ok_order hF).1
    have hkey : o₁.ID = orderID := hk _ (mem_of_mapGet hg)
    by_cases hne : id = orderID
    · subst hne
      rw [hg] at hget
      simp only [Option.some.injEq] at hget
      subst hget
      rw [hid, hkey, mapGet_mapSet_self]
      exact ⟨o₁', rfl, Or.inr ⟨ht, hstep⟩⟩
    · rw [hid, hkey, mapGet_mapSet_of_ne _ _ hne]
      exact ⟨o, hget, Or.inl rfl⟩

theorem OrderSvc.mockOrderRepository.Find_of_stored (m : OrderSvc.mockOrderRepository)
    (id : UUID) (o : OrderSvc.Order) (hget : mapGet m.store id = some o)
    (hd : o.DeletedAt = none) :
    OrderSvc.mockOrderRepository.Find id m = (.ok o, m) := by
  unfold OrderSvc.mockOrderRepository.Find
  rw [hget]
  simp [hd]

theorem OrderSvc.mockOrderRepository.Update_of_stored (m : OrderSvc.mockOrderRepository)
    (id : UUID) (o o' : OrderSvc.Order) (hget : mapGet m.store id = some o)
    (hid : o'.ID = id) (hv : o'.Version = o.Version + 1) :
    OrderSvc.mockOrderRepository.Update o' m
      = (none, { m with store := mapSet m.store id o' }) := by
  subst hid
  unfold OrderSvc.mockOrderRepository.Update
  rw [hget]
  simp [hv]

/-- A call addressed to a stored order in status `Paid` or `Cancelled` returns an error and
leaves the in-memory store and the dispatcher as they were. -/
theorem OrderSvc.exec_on_final_status (c : OrderSvc.Cmd) (m : OrderSvc.mockOrderRepository)
    (d : OrderSvc.mockEventDispatcher) (id : UUID) (o : OrderSvc.Order)
    (hF : OrderSvc.mockOrderRepository.Find id m = (.ok o, m))
    (hs : o.Status = .Paid ∨ o.Status = .Cancelled) (ht : c.target = some id) :
    ∃ e, OrderSvc.exec OrderSvc.mockOrderRepository.impl OrderSvc.mockEventDispatcher.impl
      c m d = (some e, m, d) := by
  have h₁ : o.Status ≠ .Open := by rcases hs with h | h <;> simp [h]
  have h₂ : o.Status ≠ .Pending := by rcases hs with h | h <;> simp [h]
  cases c with
  | CreateNewOrder now customerID => simp [OrderSvc.Cmd.target] at ht
  | AddItemToOrder now orderID productID priceCents =>
    simp only [OrderSvc.Cmd.target, Option.some.injEq] at ht
    subst ht
    by_cases hp : priceCents < 0
    · exact ⟨.ErrNegativePrice, by simp [OrderSvc.exec, OrderSvc.AddItemToOrder, hp]⟩
    · exact ⟨.ErrOrderCannotBeModified, by
        simp [OrderSvc.exec, OrderSvc.AddItemToOrder, hp, OrderSvc.mockOrderRepository.impl,
          hF, h₁]⟩
  | RemoveItemFromOrder now orderID itemID =>
    simp only [OrderSvc.Cmd.target, Option.some.injEq] at ht
    subst ht
    exact ⟨.ErrOrderCannotBeModified, by
      simp [OrderSvc.exec, OrderSvc.RemoveItemFromOrder, OrderSvc.mockOrderRepository.impl,
        hF, h₁]⟩
  | SubmitOrderForPayment now orderID =>
    simp only [OrderSvc.Cmd.target, Option.some.injEq] at ht
    subst ht
    by_cases hi : o.Items = []
    · exact ⟨.ErrOrderIsEmpty, by
        simp [OrderSvc.exec, OrderSvc.SubmitOrderForPayment, OrderSvc.mockOrderRepository.impl,
          hF, hi]⟩
    · exact ⟨.ErrOrderCannotBeModified, by
        simp [OrderSvc.exec, OrderSvc.SubmitOrderForPayment, OrderSvc.mockOrderRepository.impl,
          hF, hi, h₁]⟩
  | MarkOrderAsPaid now orderID =>
    simp only [OrderSvc.Cmd.target, Option.some.injEq] at ht
    subst ht
    exact ⟨.ErrOrderCannotBeModified, by
      simp [OrderSvc.exec, OrderSvc.MarkOrderAsPaid, OrderSvc.mockOrderRepository.impl,
        hF, h₂]⟩
  | CancelOrder now orderID reason =>
    simp only [OrderSvc.Cmd.target, Option.some.injEq] at ht
    subst ht
    exact ⟨.ErrOrderCannotBeModified, by
      simp [OrderSvc.exec, OrderSvc.CancelOrder, OrderSvc.mockOrderRepository.impl,
        hF, h₁, h₂]⟩

theorem OrderSvc.CancelOrder_of_stored (m : OrderSvc.mockOrderRepository)
    (d : OrderSvc.mockEventDispatcher) (now : Time) (id : UUID) (reason : String)
    (o : OrderSvc.Order) (hk : OrderSvc.KeyedByID m.store) (hget : mapGet m.store id = some o)
    (hd : o.DeletedAt = none) (hs : o.Status = .Open ∨ o.Status = .Pending) :
    OrderSvc.CancelOrder OrderSvc.mockOrderRepository.impl OrderSvc.mockEventDispatcher.impl
        now id reason m d
      = (none,
          { m with
            store := mapSet m.store id
              { o with Status := .Cancelled, Version := o.Version + 1, UpdatedAt := now } },
          { events := d.events ++ [.OrderCancelled id reason] }) := by
  have hid : o.ID = id := hk _ (mem_of_mapGet hget)
  have hF := OrderSvc.mockOrderRepository.Find_of_stored m id o hget hd
  have hU := OrderSvc.mockOrderRepository.Update_of_stored m id o
    { o with Status := .Cancelled, Version := o.Version + 1, UpdatedAt := now } hget hid rfl
  have hc : ¬ (o.Status ≠ .Open ∧ o.Status ≠ .Pending) := by
    rcases hs with h | h <;> simp [h]
  simp [OrderSvc.CancelOrder, OrderSvc.mockOrderRepository.impl, hF, hc, OrderSvc.updateOrder,
    hU, OrderSvc.mockEventDispatcher.impl, OrderSvc.mockEventDispatcher.Dispatch]

theorem OrderSvc.SubmitOrderForPayment_of_stored (m : OrderSvc.mockOrderRepository)
    (d : OrderSvc.mockEventDispatcher) (now : Time) (id : UUID)
    (o : OrderSvc.Order) (hk : OrderSvc.KeyedByID m.store) (hget : mapGet m.store id = some o)
    (hd : o.DeletedAt = none) (hs : o.Status = .Open) (hi : o.Items ≠ []) :
    OrderSvc.SubmitOrderForPayment OrderSvc.mockOrderRepository.impl
        OrderSvc.mockEventDispatcher.impl now id m d
      = (none,
          { m with
            store := mapSet m.store id
              { o with Status := .Pending, Version := o.Version + 1, UpdatedAt := now } },
          { events := d.events ++ [.OrderSubmittedForPayment id o.TotalCents] }) := by
  have hid : o.ID = id := hk _ (mem_of_mapGet hget)
  have hF := OrderSvc.mockOrderRepository.Find_of_stored m id o hget hd
  have hU := OrderSvc.mockOrderRepository.Update_of_stored m id o
    { o with Status := .Pending, Version := o.Version + 1, UpdatedAt := now } hget hid rfl
  simp [OrderSvc.SubmitOrderForPayment, OrderSvc.mockOrderRepository.impl, hF, hs, hi,
    OrderSvc.updateOrder, hU, OrderSvc.mockEventDispatcher.impl,
    OrderSvc.mockEventDispatcher.Dispatch]

theorem OrderSvc.MarkOrderAsPaid_of_stored (m : OrderSvc.mockOrderRepository)
    (d : OrderSvc.mockEventDispatcher) (now : Time) (id : UUID)
    (o : OrderSvc.Order) (hk : OrderSvc.KeyedByID m.store) (hget : mapGet m.store id = some o)
    (hd : o.DeletedAt = none) (hs : o.Status = .Pending) :
    OrderSvc.MarkOrderAsPaid OrderSvc.mockOrderRepository.impl
        OrderSvc.mockEventDispatcher.impl now id m d
      = (none,
          { m with
            store := mapSet m.store id
              { o with Status := .Paid, Version := o.Version + 1, UpdatedAt := now } },
          d) := by
  have hid : o.ID = id := hk _ (mem_of_mapGet hget)
  have hF := OrderSvc.mockOrderRepository.Find_of_stored m id o hget hd
  have hU := OrderSvc.mockOrderRepository.Update_of_stored m id o
    { o with Status := .Paid, Version := o.Version + 1, UpdatedAt := now } hget hid rfl
  simp [OrderSvc.MarkOrderAsPaid, OrderSvc.mockOrderRepository.impl, hF, hs,
    OrderSvc.updateOrder, hU]

/-- In every store reached from the empty one the total of a stored order is the sum of its
item prices reduced to `int64`, and that is the sum itself when the sum is below `2^63`. -/
theorem OrderSvc.reached_total (uuids : Nat → UUID) (clock : Nat → Time)
    (cs : List OrderSvc.Cmd) (id : UUID) (o : OrderSvc.Order)
    (hget : mapGet (OrderSvc.reached uuids clock cs).1.store id = some o) :
    o.TotalCents = wrap64 (OrderSvc.priceSum o) ∧
    (OrderSvc.priceSum o < 2 ^ 63 → o.TotalCents = OrderSvc.priceSum o) := by
  have h : OrderSvc.TotalOK o :=
    OrderSvc.TotalOK_run cs (OrderSvc.mockOrderRepository.new uuids clock)
      OrderSvc.mockEventDispatcher.new (by simp [OrderSvc.mockOrderRepository.new]) (id, o)
      (mem_of_mapGet hget)
  refine ⟨h.1, fun hlt => ?_⟩
  have hnn : 0 ≤ OrderSvc.priceSum o := by
    unfold OrderSvc.priceSum
    apply List.sum_nonneg
    intro x hx
    obtain ⟨item, hi, rfl⟩ := List.mem_map.mp hx
    exact h.2 item hi
  rw [h.1]
  exact wrap64_of_inRange (by omega) hlt

/-! ## The in-memory order store after service calls and deletions -/

theorem OrderSvc.mockOrderRepository.Delete_store_cases (id : UUID)
    (m : OrderSvc.mockOrderRepository) :
    (OrderSvc.mockOrderRepository.Delete id m).2.store = m.store ∨
    ∃ o, mapGet m.store id = some o ∧
      (OrderSvc.mockOrderRepository.Delete id m).2.store
        = mapSet m.store id { o with DeletedAt := some (m.clock 0) } := by
  unfold OrderSvc.mockOrderRepository.Delete
  cases hg : mapGet m.store id with
  | none => exact Or.inl rfl
  | some o => exact Or.inr ⟨o, rfl, rfl⟩

theorem OrderSvc.KeyedByID_step (st : OrderSvc.Step) (m : OrderSvc.mockOrderRepository)
    (d : OrderSvc.mockEventDispatcher) (h : OrderSvc.KeyedByID m.store) :
    OrderSvc.KeyedByID (OrderSvc.step st m d).1.store := by
  cases st with
  | call c => exact OrderSvc.KeyedByID_exec c m d h
  | delete id =>
    rcases OrderSvc.mockOrderRepository.Delete_store_cases id m with hs | ⟨o, hg, hs⟩
    · simp only [OrderSvc.step]
      rw [hs]
      exact h
    · simp only [OrderSvc.step]
      rw [hs]
      exact OrderSvc.KeyedByID_mapSet h (h _ (mem_of_mapGet hg))

theorem OrderSvc.TotalOK_step (st : OrderSvc.Step) (m : OrderSvc.mockOrderRepository)
    (d : OrderSvc.mockEventDispatcher) (h : ∀ e ∈ m.store, OrderSvc.TotalOK e.2) :
    ∀ e ∈ (OrderSvc.step st m d).1.store, OrderSvc.TotalOK e.2 := by
  cases st with
  | call c => exact OrderSvc.TotalOK_exec c m d h
  | delete id =>
    rcases OrderSvc.mockOrderRepository.Delete_store_cases id m with hs | ⟨o, hg, hs⟩
    · simp only [OrderSvc.step]
      rw [hs]
      exact h
    · simp only [OrderSvc.step]
      rw [hs]
      intro e he
      rcases mem_mapSet he with he | he
      · exact h e he
      · subst he
        exact OrderSvc.TotalOK_of_same o _ (h _ (mem_of_mapGet hg)) rfl rfl

/-- In every store built by calls of the service and deletions the orders are filed under
their identifier, the total of a stored order is the sum of its item prices reduced to
`int64`, and no item has a negative price. -/
theorem OrderSvc.built_store (uuids : Nat → UUID) (clock : Nat → Time)
    (ss : List OrderSvc.Step) :
    OrderSvc.KeyedByID (OrderSvc.built uuids clock ss).1.store ∧
    ∀ e ∈ (OrderSvc.built uuids clock ss).1.store, OrderSvc.TotalOK e.2 := by
  unfold OrderSvc.built
  generalize hm : OrderSvc.mockOrderRepository.new uuids clock = m
  have h : OrderSvc.KeyedByID m.store ∧ ∀ e ∈ m.store, OrderSvc.TotalOK e.2 := by
    subst hm
    simp [OrderSvc.KeyedByID, OrderSvc.mockOrderRepository.new]
  clear hm
  generalize OrderSvc.mockEventDispatcher.new = d
  induction ss generalizing m d with
  | nil => simpa [OrderSvc.steps] using h
  | cons st rest ih =>
    simp only [OrderSvc.steps]
    exact ih _ ⟨OrderSvc.KeyedByID_step st m d h.1, OrderSvc.TotalOK_step st m d h.2⟩ _

/-- The stores reached by calls of the service alone are among the built ones. -/
theorem OrderSvc.built_of_calls (uuids : Nat → UUID) (clock : Nat → Time)
    (cs : List OrderSvc.Cmd) :
    OrderSvc.built uuids clock (cs.map .call) = OrderSvc.reached uuids clock cs := by
  unfold OrderSvc.built OrderSvc.reached
  generalize OrderSvc.mockOrderRepository.new uuids clock = m
  generalize OrderSvc.mockEventDispatcher.new = d
  induction cs generalizing m d with
  | nil => rfl
  | cons c rest ih =>
    simp only [List.map_cons, OrderSvc.steps, OrderSvc.run, OrderSvc.step]
    exact ih _ _

theorem OrderSvc.built_total (uuids : Nat → UUID) (clock : Nat → Time)
    (ss : List OrderSvc.Step) (id : UUID) (o : OrderSvc.Order)
    (hget : mapGet (OrderSvc.built uuids clock ss).1.store id = some o) :
    o.TotalCents = wrap64 (OrderSvc.priceSum o) ∧
    (OrderSvc.priceSum o < 2 ^ 63 → o.TotalCents = OrderSvc.priceSum o) := by
  have h : OrderSvc.TotalOK o :=
    (OrderSvc.built_store uuids clock ss).2 (id, o) (mem_of_mapGet hget)
  refine ⟨h.1, fun hlt => ?_⟩
  have hnn : 0 ≤ OrderSvc.priceSum o := by
    unfold OrderSvc.priceSum
    apply List.sum_nonneg
    intro x hx
    obtain ⟨item, hi, rfl⟩ := List.mem_map.mp hx
    exact h.2 item hi
  rw [h.1]
  exact wrap64_of_inRange (by omega) hlt

theorem OrderSvc.mockOrderRepository.Find_of_deleted (m : OrderSvc.mockOrderRepository)
    (id : UUID) (o : OrderSvc.Order) (hget : mapGet m.store id = some o)
    (hd : o.DeletedAt ≠ none) :
    OrderSvc.mockOrderRepository.Find id m = (.error .ErrOrderNotFound, m) := by
  unfold OrderSvc.mockOrderRepository.Find
  rw [hget]
  simp [hd]

/-- A call addressed to a stored order that is marked as deleted returns an error and leaves
the in-memory store and the dispatcher as they were; the error is `ErrOrderNotFound`,
except for `AddItemToOrder` with a negative price, which is rejected before the lookup. -/
theorem OrderSvc.exec_on_deleted (c : OrderSvc.Cmd) (m : OrderSvc.mockOrderRepository)
    (d : OrderSvc.mockEventDispatcher) (id : UUID) (o : OrderSvc.Order)
    (hget : mapGet m.store id = some o) (hd : o.DeletedAt ≠ none)
    (ht : c.target = some id) :
    ∃ e, (e = .ErrOrderNotFound ∨ e = .ErrNegativePrice) ∧
      OrderSvc.exec OrderSvc.mockOrderRepository.impl OrderSvc.mockEventDispatcher.impl
        c m d = (some e, m, d) := by
  have hF := OrderSvc.mockOrderRepository.Find_of_deleted m id o hget hd
  cases c with
  | CreateNewOrder now customerID => simp [OrderSvc.Cmd.target] at ht
  | AddItemToOrder now orderID productID priceCents =>
    simp only [OrderSvc.Cmd.target, Option.some.injEq] at ht
    subst ht
    by_cases hp : priceCents < 0
    · exact ⟨.ErrNegativePrice, Or.inr rfl,
        by simp [OrderSvc.exec, OrderSvc.AddItemToOrder, hp]⟩
    · exact ⟨.ErrOrderNotFound, Or.inl rfl, by
        simp [OrderSvc.exec, OrderSvc.AddItemToOrder, hp, OrderSvc.mockOrderRepository.impl,
          hF]⟩
  | RemoveItemFromOrder now orderID itemID =>
    simp only [OrderSvc.Cmd.target, Option.some.injEq] at ht
    subst ht
    exact ⟨.ErrOrderNotFound, Or.inl rfl, by
      simp [OrderSvc.exec, OrderSvc.RemoveItemFromOrder, OrderSvc.mockOrderRepository.impl,
        hF]⟩
  | SubmitOrderForPayment now orderID =>
    simp only [OrderSvc.Cmd.target, Option.some.injEq] at ht
    subst ht
    exact ⟨.ErrOrderNotFound, Or.inl rfl, by
      simp [OrderSvc.exec, OrderSvc.SubmitOrderForPayment, OrderSvc.mockOrderRepository.impl,
        hF]⟩
  | MarkOrderAsPaid now orderID =>
    simp only [OrderSvc.Cmd.target, Option.some.injEq] at ht
    subst ht
    exact ⟨.ErrOrderNotFound, Or.inl rfl, by
      simp [OrderSvc.exec, OrderSvc.MarkOrderAsPaid, OrderSvc.mockOrderRepository.impl,
        hF]⟩
  | CancelOrder now orderID reason =>
    simp only [OrderSvc.Cmd.target, Option.some.injEq] at ht
    subst ht
    exact ⟨.ErrOrderNotFound, Or.inl rfl, by
      simp [OrderSvc.exec, OrderSvc.CancelOrder, OrderSvc.mockOrderRepository.impl,
        hF]⟩

/-! ## C13: the status of an order -/

/-- C13 as stated fails for a stored order that is marked as deleted: after
`sampleDeleteSteps` the order 10 is stored in status `Pending` with the deletion mark the
store's `Delete` has set.  `CancelOrder(10, "late")` returns `ErrOrderNotFound`, the stored
order keeps the status `Pending` and no event is dispatched. -/
theorem C13_cancel_of_a_deleted_pending_order_fails :
    mapGet OrderSvc.sampleDeleted.1.store 10 = some OrderSvc.sampleDeletedOrder ∧
    OrderSvc.sampleDeletedOrder.Status = .Pending ∧
    OrderSvc.sampleDeletedOrder.DeletedAt = some 50 ∧
    OrderSvc.sampleDeletedCancel.1 = some .ErrOrderNotFound ∧
    OrderSvc.sampleDeletedCancel.2.1.store = OrderSvc.sampleDeleted.1.store ∧
    OrderSvc.sampleDeletedCancel.2.2.events = OrderSvc.sampleDeleted.2.events := by
  decide

/-- C13, amended.  In every in-memory store built from the empty one by calls of the order
service and deletions of the store, for every stored order `o` (filed under `id`, marked as
deleted or not) and every call `c`: after the call the order is still stored and its status
is the one before or follows one of the edges `Open → Pending`, `Open → Cancelled`,
`Pending → Paid`, `Pending → Cancelled`; when `o` is `Paid`, `Cancelled` or marked as
deleted the stored order is the same after the call (all fields), and a call addressed to it
returns an error and leaves the whole store and the dispatcher as they were; when `o` is
`Open` or `Pending` and not marked as deleted, `CancelOrder` returns success, stores `o`
with status `Cancelled` (version raised by one) and dispatches one `OrderCancelled` with the
reason; when `o` is marked as deleted, `CancelOrder` returns `ErrOrderNotFound`.  Each of
the four edges is taken by some call: the last four conjuncts exhibit them. -/
theorem C13_order_status_is_a_state_machine (uuids : Nat → UUID) (clock : Nat → Time)
    (ss : List OrderSvc.Step) (c : OrderSvc.Cmd) (id : UUID) (o : OrderSvc.Order)
    (hget : mapGet (OrderSvc.built uuids clock ss).1.store id = some o) :
    (∃ o', mapGet (OrderSvc.exec OrderSvc.mockOrderRepository.impl
          OrderSvc.mockEventDispatcher.impl c (OrderSvc.built uuids clock ss).1
          (OrderSvc.built uuids clock ss).2).2.1.store id = some o' ∧
        (o'.Status = o.Status ∨
          (o.Status, o'.Status) ∈
            [(OrderSvc.OrderStatus.Open, OrderSvc.OrderStatus.Pending),
             (OrderSvc.OrderStatus.Open, OrderSvc.OrderStatus.Cancelled),
             (OrderSvc.OrderStatus.Pending, OrderSvc.OrderStatus.Paid),
             (OrderSvc.OrderStatus.Pending, OrderSvc.OrderStatus.Cancelled)]) ∧
        (o.Status = .Paid ∨ o.Status = .Cancelled ∨ o.DeletedAt ≠ none → o' = o)) ∧
    (o.Status = .Paid ∨ o.Status = .Cancelled ∨ o.DeletedAt ≠ none → c.target = some id →
      ∃ e, OrderSvc.exec OrderSvc.mockOrderRepository.impl OrderSvc.mockEventDispatcher.impl c
          (OrderSvc.built uuids clock ss).1 (OrderSvc.built uuids clock ss).2
        = (some e, (OrderSvc.built uuids clock ss).1, (OrderSvc.built uuids clock ss).2)) ∧
    (o.DeletedAt = none → o.Status = .Open ∨ o.Status = .Pending →
      ∀ (now : Time) (reason : String),
      OrderSvc.CancelOrder OrderSvc.mockOrderRepository.impl OrderSvc.mockEventDispatcher.impl
          now id reason (OrderSvc.built uuids clock ss).1 (OrderSvc.built uuids clock ss).2
        = (none,
            { (OrderSvc.built uuids clock ss).1 with
              store := mapSet (OrderSvc.built uuids clock ss).1.store id
                { o with Status := .Cancelled, Version := o.Version + 1, UpdatedAt := now } },
            { events := (OrderSvc.built uuids clock ss).2.events ++
                [.OrderCancelled id reason] })) ∧
    (o.DeletedAt ≠ none → ∀ (now : Time) (reason : String),
      OrderSvc.CancelOrder OrderSvc.mockOrderRepository.impl OrderSvc.mockEventDispatcher.impl
          now id reason (OrderSvc.built uuids clock ss).1 (OrderSvc.built uuids clock ss).2
        = (some .ErrOrderNotFound, (OrderSvc.built uuids clock ss).1,
            (OrderSvc.built uuids clock ss).2)) ∧
    (OrderSvc.sampleStatusAfter (OrderSvc.sampleSubmitCalls.take 2) 10 = some .Open ∧
      OrderSvc.sampleStatusAfter OrderSvc.sampleSubmitCalls 10 = some .Pending) ∧
    (OrderSvc.sampleStatusAfter
      (OrderSvc.sampleSubmitCalls.take 2 ++ [.CancelOrder 4 10 "late"]) 10
        = some .Cancelled) ∧
    (OrderSvc.sampleStatusAfter (OrderSvc.sampleSubmitCalls ++ [.MarkOrderAsPaid 4 10]) 10
        = some .Paid) ∧
    (OrderSvc.sampleStatusAfter (OrderSvc.sampleSubmitCalls ++ [.CancelOrder 4 10 "late"]) 10
        = some .Cancelled) := by
  have hk := (OrderSvc.built_store uuids clock ss).1
  have hfix : o.Status = .Paid ∨ o.Status = .Cancelled ∨ o.DeletedAt ≠ none →
      c.target = some id →
      ∃ e, OrderSvc.exec OrderSvc.mockOrderRepository.impl OrderSvc.mockEventDispatcher.impl c
          (OrderSvc.built uuids clock ss).1 (OrderSvc.built uuids clock ss).2
        = (some e, (OrderSvc.built uuids clock ss).1, (OrderSvc.built uuids clock ss).2) := by
    intro hfin ht
    by_cases hd : o.DeletedAt = none
    · have hfin' : o.Status = .Paid ∨ o.Status = .Cancelled := by
        rcases hfin with h | h | h
        · exact Or.inl h
        · exact Or.inr h
        · exact absurd hd h
      exact OrderSvc.exec_on_final_status c _ _ id o
        (OrderSvc.mockOrderRepository.Find_of_stored _ id o hget hd) hfin' ht
    · obtain ⟨e, _, he⟩ := OrderSvc.exec_on_deleted c _ (OrderSvc.built uuids clock ss).2 id o
        hget hd ht
      exact ⟨e, he⟩
  refine ⟨?_, hfix, ?_, ?_, by decide, by decide, by decide, by decide⟩
  · obtain ⟨o', hg', hstep⟩ := OrderSvc.exec_stored_step c _ (OrderSvc.built uuids clock ss).2
      hk id o hget
    refine ⟨o', hg', ?_, ?_⟩
    · rcases hstep with h | ⟨_, ⟨h₁, h₂ | h₂ | h₂⟩ | ⟨h₁, h₂ | h₂⟩⟩
      · exact Or.inl (by rw [h])
      · exact Or.inl (by rw [h₁, h₂])
      · exact Or.inr (by simp [h₁, h₂])
      · exact Or.inr (by simp [h₁, h₂])
      · exact Or.inr (by simp [h₁, h₂])
      · exact Or.inr (by simp [h₁, h₂])
    · intro hfin
      rcases hstep with h | ⟨ht, _⟩
      · exact h
      · obtain ⟨e, he⟩ := hfix hfin ht
        rw [he, hget] at hg'
        exact (Option.some.inj hg').symm
  · intro hd hs now reason
    exact OrderSvc.CancelOrder_of_stored _ _ now id reason o hk hget hd hs
  · intro hd now reason
    have hF := OrderSvc.mockOrderRepository.Find_of_deleted _ id o hget hd
    simp [OrderSvc.CancelOrder, OrderSvc.mockOrderRepository.impl, hF]

/-- C13 at the order 10 of the sample calls.  Stored `Pending` and not marked as deleted,
`MarkOrderAsPaid` moves it along the edge `Pending → Paid`; stored `Pending` and marked as
deleted, `CancelOrder` returns `ErrOrderNotFound` and changes nothing. -/
theorem C13_order_status_witness :
    (∃ o', mapGet (OrderSvc.exec OrderSvc.mockOrderRepository.impl
          OrderSvc.mockEventDispatcher.impl (.MarkOrderAsPaid 4 10)
          (OrderSvc.built (fun n => n + 10) (fun n => n)
            (OrderSvc.sampleSubmitCalls.map .call)).1
          (OrderSvc.built (fun n => n + 10) (fun n => n)
            (OrderSvc.sampleSubmitCalls.map .call)).2).2.1.store 10 = some o' ∧
        (o'.Status = OrderSvc.samplePendingOrder.Status ∨
          (OrderSvc.samplePendingOrder.Status, o'.Status) ∈
            [(OrderSvc.OrderStatus.Open, OrderSvc.OrderStatus.Pending),
             (OrderSvc.OrderStatus.Open, OrderSvc.OrderStatus.Cancelled),
             (OrderSvc.OrderStatus.Pending, OrderSvc.OrderStatus.Paid),
             (OrderSvc.OrderStatus.Pending, OrderSvc.OrderStatus.Cancelled)]) ∧
        (OrderSvc.samplePendingOrder.Status = .Paid ∨
          OrderSvc.samplePendingOrder.Status = .Cancelled ∨
          OrderSvc.samplePendingOrder.DeletedAt ≠ none → o' = OrderSvc.samplePendingOrder)) ∧
    OrderSvc.CancelOrder OrderSvc.mockOrderRepository.impl OrderSvc.mockEventDispatcher.impl
        4 10 "late" OrderSvc.sampleDeleted.1 OrderSvc.sampleDeleted.2
      = (some .ErrOrderNotFound, OrderSvc.sampleDeleted.1, OrderSvc.sampleDeleted.2) :=
  ⟨(C13_order_status_is_a_state_machine (fun n => n + 10) (fun n => n)
      (OrderSvc.sampleSubmitCalls.map .call) (.MarkOrderAsPaid 4 10) 10
      OrderSvc.samplePendingOrder (by decide)).1,
    (C13_order_status_is_a_state_machine (fun n => n + 10) (fun n => n + 50)
      OrderSvc.sampleDeleteSteps (.CancelOrder 4 10 "late") 10 OrderSvc.sampleDeletedOrder
      (by decide)).2.2.2.1 (by decide) 4 "late"⟩

/-! ## The in-memory ledger -/

theorem PaymentSvc.mockPaymentRepository.firstByRef_none (walletID : UUID) (refID : String)
    (txs : List PaymentSvc.Transaction)
    (h : PaymentSvc.mockPaymentRepository.firstByRef walletID refID txs = none) :
    txs.filter (fun tx => decide (tx.WalletID = walletID ∧ tx.ReferenceID = refID)) = [] := by
  induction txs with
  | nil => rfl
  | cons tx rest ih =>
    unfold PaymentSvc.mockPaymentRepository.firstByRef at h
    split at h
    · simp at h
    · next hne =>
      rw [List.filter_cons_of_neg (by simpa using hne)]
      exact ih h

theorem PaymentSvc.mockPaymentRepository.firstByRef_some (walletID : UUID) (refID : String)
    (txs : List PaymentSvc.Transaction) (tx : PaymentSvc.Transaction) (hmem : tx ∈ txs)
    (hw : tx.WalletID = walletID) (hr : tx.ReferenceID = refID) :
    ∃ tx', PaymentSvc.mockPaymentRepository.firstByRef walletID refID txs = some tx' := by
  induction txs with
  | nil => simp at hmem
  | cons tx₀ rest ih =>
    unfold PaymentSvc.mockPaymentRepository.firstByRef
    split
    · exact ⟨tx₀, rfl⟩
    · next hne =>
      rcases List.mem_cons.mp hmem with h | h
      · subst h
        exact absurd ⟨hw, hr⟩ hne
      · exact ih h

theorem PaymentSvc.LedgerOK_append (txs : List PaymentSvc.Transaction)
    (tx : PaymentSvc.Transaction) (h : PaymentSvc.LedgerOK txs)
    (hnew : PaymentSvc.mockPaymentRepository.firstByRef tx.WalletID tx.ReferenceID txs = none)
    (hst : tx.Status ≠ .TxPending) : PaymentSvc.LedgerOK (txs ++ [tx]) := by
  refine ⟨fun tx' hmem => ?_, fun walletID refID => ?_⟩
  · rcases List.mem_append.mp hmem with h' | h'
    · exact h.1 tx' h'
    · rw [List.mem_singleton.mp h']
      exact hst
  · rw [List.filter_append, List.length_append]
    by_cases hk : tx.WalletID = walletID ∧ tx.ReferenceID = refID
    · obtain ⟨hw, hr⟩ := hk
      subst hw hr
      rw [PaymentSvc.mockPaymentRepository.firstByRef_none _ _ _ hnew]
      simp
    · rw [List.filter_cons_of_neg (by simpa using hk)]
      simpa using h.2 walletID refID

theorem PaymentSvc.mockPaymentRepository.UpdateWallet_storeTxs (w : PaymentSvc.Wallet)
    (m : PaymentSvc.mockPaymentRepository) :
    (PaymentSvc.mockPaymentRepository.UpdateWallet w m).2.storeTxs = m.storeTxs := by
  unfold PaymentSvc.mockPaymentRepository.UpdateWallet
  split
  · rfl
  · split <;> rfl

set_option maxRecDepth 8000 in
/-- The wallet command on the in-memory store leaves the ledger as it was or appends one
record, not `Pending`, for a wallet and a reference the ledger had no record for. -/
theorem PaymentSvc.processTransaction_ledger (t₁ t₂ : Time) (userID : UUID) (amount : Int)
    (refID : String) (txType : PaymentSvc.TransactionType)
    (m : PaymentSvc.mockPaymentRepository) (d : PaymentSvc.mockEventDispatcher) :
    (PaymentSvc.processTransaction PaymentSvc.mockPaymentRepository.impl
      PaymentSvc.mockEventDispatcher.impl t₁ t₂ userID amount refID txType m d).2.1.storeTxs
        = m.storeTxs ∨
    ∃ tx, (PaymentSvc.processTransaction PaymentSvc.mockPaymentRepository.impl
      PaymentSvc.mockEventDispatcher.impl t₁ t₂ userID amount refID txType m d).2.1.storeTxs
        = m.storeTxs ++ [tx] ∧
      PaymentSvc.mockPaymentRepository.firstByRef tx.WalletID tx.ReferenceID m.storeTxs = none ∧
      tx.Status ≠ .TxPending := by
  simp only [PaymentSvc.processTransaction, PaymentSvc.mockPaymentRepository.impl,
    PaymentSvc.mockPaymentRepository.GetWalletByUserID_state,
    PaymentSvc.mockPaymentRepository.FindTransactionByRef,
    PaymentSvc.mockPaymentRepository.NextID, PaymentSvc.mockPaymentRepository.SaveTransaction]
  (repeat' split) <;>
  simp_all [PaymentSvc.mockPaymentRepository.UpdateWallet_storeTxs]
  all_goals
    by_contra hne
    obtain ⟨tx, htx⟩ := Option.ne_none_iff_exists'.mp hne
    simp_all

/-! ## The in-memory wallet store: lookups -/

theorem PaymentSvc.mockPaymentRepository.GetWalletByUserID_of_ok {userID : UUID}
    {m : PaymentSvc.mockPaymentRepository} {w : PaymentSvc.Wallet}
    (hget : (PaymentSvc.mockPaymentRepository.GetWalletByUserID userID m).1 = .ok w) :
    PaymentSvc.mockPaymentRepository.GetWalletByUserID userID m
      = (.ok w, { m with starts := fun n => m.starts (n + 1) }) := by
  unfold PaymentSvc.mockPaymentRepository.GetWalletByUserID at hget ⊢
  cases hf : PaymentSvc.mockPaymentRepository.firstByUser userID
      (mapRange m.storeWallets (m.starts 0)) with
  | none => simp [hf] at hget
  | some w' =>
    simp [hf] at hget
    simp [hget]

theorem PaymentSvc.mockPaymentRepository.firstByUser_mem (userID : UUID)
    (entries : List (UUID × PaymentSvc.Wallet)) (w : PaymentSvc.Wallet)
    (h : PaymentSvc.mockPaymentRepository.firstByUser userID entries = some w) :
    (∃ k, (k, w) ∈ entries) ∧ w.UserID = userID := by
  induction entries with
  | nil => simp [PaymentSvc.mockPaymentRepository.firstByUser] at h
  | cons e rest ih =>
    obtain ⟨k, w'⟩ := e
    unfold PaymentSvc.mockPaymentRepository.firstByUser at h
    split at h
    · next hu =>
      simp only [Option.some.injEq] at h
      subst h
      exact ⟨⟨k, List.mem_cons_self _ _⟩, hu⟩
    · obtain ⟨⟨k', hk'⟩, hu⟩ := ih h
      exact ⟨⟨k', List.mem_cons_of_mem _ hk'⟩, hu⟩

/-- The wallet a lookup by user returns is an entry of the wallet map, with that user. -/
theorem PaymentSvc.mockPaymentRepository.GetWalletByUserID_mem {userID : UUID}
    {m : PaymentSvc.mockPaymentRepository} {w : PaymentSvc.Wallet}
    (hget : (PaymentSvc.mockPaymentRepository.GetWalletByUserID userID m).1 = .ok w) :
    (∃ k, (k, w) ∈ m.storeWallets) ∧ w.UserID = userID := by
  unfold PaymentSvc.mockPaymentRepository.GetWalletByUserID at hget
  cases hf : PaymentSvc.mockPaymentRepository.firstByUser userID
      (mapRange m.storeWallets (m.starts 0)) with
  | none => simp [hf] at hget
  | some w' =>
    simp [hf] at hget
    subst hget
    obtain ⟨⟨k, hk⟩, hu⟩ := PaymentSvc.mockPaymentRepository.firstByUser_mem _ _ _ hf
    exact ⟨⟨k, by simpa [mapRange] using hk⟩, hu⟩

theorem PaymentSvc.mockPaymentRepository.firstByRef_of_absent (walletID : UUID)
    (refID : String) (txs : List PaymentSvc.Transaction)
    (h : ∀ tx ∈ txs, ¬ (tx.WalletID = walletID ∧ tx.ReferenceID = refID)) :
    PaymentSvc.mockPaymentRepository.firstByRef walletID refID txs = none := by
  induction txs with
  | nil => rfl
  | cons tx rest ih =>
    unfold PaymentSvc.mockPaymentRepository.firstByRef
    rw [if_neg (h tx (List.mem_cons_self _ _))]
    exact ih (fun tx' h' => h tx' (List.mem_cons_of_mem _ h'))

/-! ## C14: a reference the ledger already holds -/

/-- On the in-memory store, when the lookup by user returns the wallet `w`, the
ledger holds a transaction `tx` (any type, amount and status) for `w` and the reference, and
the amount is positive: `Deposit` with that reference returns success with `w`, which is an
entry of the wallet map, and `PayForOrder` for an order whose identifier renders as that
reference returns success; after either call the wallet map, the ledger and the identifier
generator are as before (only the iteration counter of the lookup has advanced) and the
dispatcher is as before.  For every repository and dispatcher, such a call makes the two
lookups and nothing else: the repository is left in the state `FindTransactionByRef` left it. -/
theorem PaymentSvc.known_reference_is_answered_without_effect
    (m : PaymentSvc.mockPaymentRepository) (d : PaymentSvc.mockEventDispatcher)
    (t₁ t₂ : Time) (userID : UUID) (a : Int) (ref : String) (w : PaymentSvc.Wallet)
    (tx : PaymentSvc.Transaction)
    (hget : (PaymentSvc.mockPaymentRepository.GetWalletByUserID userID m).1 = .ok w)
    (htx : tx ∈ m.storeTxs) (hw : tx.WalletID = w.ID) (hr : tx.ReferenceID = ref)
    (ha : 0 < a) :
    PaymentSvc.Deposit PaymentSvc.mockPaymentRepository.impl PaymentSvc.mockEventDispatcher.impl
        t₁ t₂ userID a ref m d
      = (.ok w, { m with starts := fun n => m.starts (n + 1) }, d) ∧
    (∀ orderID, uuidString orderID = ref →
      PaymentSvc.PayForOrder PaymentSvc.mockPaymentRepository.impl
          PaymentSvc.mockEventDispatcher.impl t₁ t₂ userID orderID a m d
        = (none, { m with starts := fun n => m.starts (n + 1) }, d)) ∧
    (∃ k, (k, w) ∈ m.storeWallets) ∧
    (∀ (σ δ : Type) (R : PaymentSvc.PaymentRepository σ) (D : PaymentSvc.EventDispatcher δ)
        (s : σ) (d' : δ) (tx' : PaymentSvc.Transaction),
        (R.GetWalletByUserID userID s).1 = .ok w →
        (R.FindTransactionByRef w.ID ref (R.GetWalletByUserID userID s).2).1 = (some tx', none) →
        PaymentSvc.Deposit R D t₁ t₂ userID a ref s d'
          = (.ok w, (R.FindTransactionByRef w.ID ref (R.GetWalletByUserID userID s).2).2, d') ∧
        ∀ orderID, uuidString orderID = ref →
          PaymentSvc.PayForOrder R D t₁ t₂ userID orderID a s d'
            = (none, (R.FindTransactionByRef w.ID ref (R.GetWalletByUserID userID s).2).2,
                d')) := by
  have ha' : ¬ a ≤ 0 := by omega
  obtain ⟨tx₀, hfind⟩ := PaymentSvc.mockPaymentRepository.firstByRef_some w.ID ref m.storeTxs
    tx htx hw hr
  have hgen : ∀ (σ δ : Type) (R : PaymentSvc.PaymentRepository σ)
      (D : PaymentSvc.EventDispatcher δ) (s : σ) (d' : δ) (tx' : PaymentSvc.Transaction),
      (R.GetWalletByUserID userID s).1 = .ok w →
      (R.FindTransactionByRef w.ID ref (R.GetWalletByUserID userID s).2).1 = (some tx', none) →
      PaymentSvc.Deposit R D t₁ t₂ userID a ref s d'
        = (.ok w, (R.FindTransactionByRef w.ID ref (R.GetWalletByUserID userID s).2).2, d') ∧
      ∀ orderID, uuidString orderID = ref →
        PaymentSvc.PayForOrder R D t₁ t₂ userID orderID a s d'
          = (none, (R.FindTransactionByRef w.ID ref (R.GetWalletByUserID userID s).2).2,
              d') := by
    intro σ δ R D s d' tx' h₁ h₂
    refine ⟨?_, fun orderID ho => ?_⟩
    · simp [PaymentSvc.Deposit, PaymentSvc.processTransaction, ha', h₁, h₂]
    · subst ho
      simp [PaymentSvc.PayForOrder, PaymentSvc.processTransaction, ha', h₁, h₂]
  have hmock := hgen _ _ PaymentSvc.mockPaymentRepository.impl
    PaymentSvc.mockEventDispatcher.impl m d tx₀ hget
    (by simp [PaymentSvc.mockPaymentRepository.impl,
      PaymentSvc.mockPaymentRepository.FindTransactionByRef,
      PaymentSvc.mockPaymentRepository.GetWalletByUserID_state, hfind])
  have hst : (PaymentSvc.mockPaymentRepository.impl.FindTransactionByRef w.ID ref
      (PaymentSvc.mockPaymentRepository.impl.GetWalletByUserID userID m).2).2
      = { m with starts := fun n => m.starts (n + 1) } := by
    simp [PaymentSvc.mockPaymentRepository.impl,
      PaymentSvc.mockPaymentRepository.FindTransactionByRef,
      PaymentSvc.mockPaymentRepository.GetWalletByUserID_state]
  rw [hst] at hmock
  exact ⟨hmock.1, hmock.2, (PaymentSvc.mockPaymentRepository.GetWalletByUserID_mem hget).1, hgen⟩

/-- A retried payment: after `sampleRetryCalls` the ledger holds the `Failed` record
of the payment for order 20 and the lookup returns the wallet with balance 1000;
`PayForOrder` of 500 for order 20 returns success and store and dispatcher stay as they are:
nothing is withdrawn. -/
theorem PaymentSvc.known_reference_on_a_retried_payment :
    PaymentSvc.sampleFailedRecord ∈
      (PaymentSvc.reached (fun n => n + 10) (fun n => n) PaymentSvc.sampleRetryCalls).1.storeTxs ∧
    PaymentSvc.PayForOrder PaymentSvc.mockPaymentRepository.impl
        PaymentSvc.mockEventDispatcher.impl 105 106 7 20 500
        (PaymentSvc.reached (fun n => n + 10) (fun n => n) PaymentSvc.sampleRetryCalls).1
        (PaymentSvc.reached (fun n => n + 10) (fun n => n) PaymentSvc.sampleRetryCalls).2
      = (none,
          { (PaymentSvc.reached (fun n => n + 10) (fun n => n) PaymentSvc.sampleRetryCalls).1
            with starts := fun n =>
              (PaymentSvc.reached (fun n => n + 10) (fun n => n)
                PaymentSvc.sampleRetryCalls).1.starts (n + 1) },
          (PaymentSvc.reached (fun n => n + 10) (fun n => n) PaymentSvc.sampleRetryCalls).2) :=
  ⟨by decide, (PaymentSvc.known_reference_is_answered_without_effect
    (PaymentSvc.reached (fun n => n + 10) (fun n => n) PaymentSvc.sampleRetryCalls).1
    (PaymentSvc.reached (fun n => n + 10) (fun n => n) PaymentSvc.sampleRetryCalls).2
    105 106 7 500 "20" PaymentSvc.sampleFundedWallet PaymentSvc.sampleFailedRecord
    rfl (by decide) (by decide) (by decide) (by decide)).2.1 20 (by decide)⟩

/-- C14, evaluated on the in-memory store.  After `CreateWallet` for user 7 (wallet 10) and
`Deposit(7, 500, "r1")` the ledger holds one transaction, `Committed`, for the wallet 10 and
"r1", and the wallet stored under the identifier 10 has balance 500 at version 2.
`Deposit(7, 500, "r1")` again, with the map iteration starting at the entry under key 7,
returns success, appends no transaction, leaves the wallet map as it was and dispatches no
event; but the wallet it returns has balance 0 at version 1: it is the entry that
`CreateWallet` filed under key 7 and no update has replaced, not the wallet 10 as currently
stored. -/
theorem C14_known_reference_returns_wallet_of_before_update :
    PaymentSvc.sampleFirstDeposit.2.1.storeTxs.map
        (fun tx => (tx.WalletID, tx.ReferenceID, tx.Status)) = [(10, "r1", .TxCommitted)] ∧
    PaymentSvc.sampleFirstDeposit.2.1.storeWallets.map
        (fun e => (e.1, e.2.ID, e.2.BalanceCents, e.2.Version))
      = [(10, 10, 500, 2), (7, 10, 0, 1)] ∧
    PaymentSvc.sampleSecondDeposit.1.toOption.map (fun w => (w.ID, w.BalanceCents, w.Version))
      = some (10, 0, 1) ∧
    decide (PaymentSvc.sampleSecondDeposit.1.toOption
      = mapGet PaymentSvc.sampleSecondDeposit.2.1.storeWallets 10) = false ∧
    PaymentSvc.sampleSecondDeposit.2.1.storeTxs = PaymentSvc.sampleFirstDeposit.2.1.storeTxs ∧
    PaymentSvc.sampleSecondDeposit.2.1.storeWallets
      = PaymentSvc.sampleFirstDeposit.2.1.storeWallets ∧
    PaymentSvc.sampleSecondDeposit.2.2.events = PaymentSvc.sampleFirstDeposit.2.2.events := by
  decide

/-! ## The in-memory ledger after a sequence of calls -/

theorem PaymentSvc.LedgerOK_exec (c : PaymentSvc.Cmd) (m : PaymentSvc.mockPaymentRepository)
    (d : PaymentSvc.mockEventDispatcher) (h : PaymentSvc.LedgerOK m.storeTxs) :
    PaymentSvc.LedgerOK (PaymentSvc.exec PaymentSvc.mockPaymentRepository.impl
      PaymentSvc.mockEventDispatcher.impl c m d).2.1.storeTxs := by
  have key : ∀ t₁ t₂ userID amount refID txType,
      PaymentSvc.LedgerOK (PaymentSvc.processTransaction PaymentSvc.mockPaymentRepository.impl
        PaymentSvc.mockEventDispatcher.impl t₁ t₂ userID amount refID txType m d).2.1.storeTxs := by
    intro t₁ t₂ userID amount refID txType
    rcases PaymentSvc.processTransaction_ledger t₁ t₂ userID amount refID txType m d with
      h' | ⟨tx, h', hnew, hst⟩
    · rw [h']
      exact h
    · rw [h']
      exact PaymentSvc.LedgerOK_append _ tx h hnew hst
  cases c with
  | CreateWallet now userID =>
    simp only [PaymentSvc.exec, PaymentSvc.CreateWallet, PaymentSvc.mockPaymentRepository.impl,
      PaymentSvc.mockPaymentRepository.NextID, PaymentSvc.mockPaymentRepository.CreateWallet]
    (repeat' split) <;> simp_all
  | Deposit t₁ t₂ userID amountCents referenceID =>
    simp only [PaymentSvc.exec, PaymentSvc.Deposit]
    split
    · exact h
    · exact key _ _ _ _ _ _
  | PayForOrder t₁ t₂ userID orderID amountCents =>
    simp only [PaymentSvc.exec, PaymentSvc.PayForOrder]
    split
    · exact h
    · split <;> exact key _ _ _ _ _ _
  | GetBalance userID =>
    simp only [PaymentSvc.exec, PaymentSvc.GetBalance, PaymentSvc.mockPaymentRepository.impl,
      PaymentSvc.mockPaymentRepository.GetWalletByUserID_state]
    split <;> exact h

theorem PaymentSvc.LedgerOK_run (cs : List PaymentSvc.Cmd)
    (m : PaymentSvc.mockPaymentRepository) (d : PaymentSvc.mockEventDispatcher)
    (h : PaymentSvc.LedgerOK m.storeTxs) :
    PaymentSvc.LedgerOK (PaymentSvc.run PaymentSvc.mockPaymentRepository.impl
      PaymentSvc.mockEventDispatcher.impl cs m d).1.storeTxs := by
  induction cs generalizing m d with
  | nil => simpa [PaymentSvc.run] using h
  | cons c rest ih =>
    simp only [PaymentSvc.run]
    exact ih _ _ (PaymentSvc.LedgerOK_exec c m d h)

/-! ## C15: one record for each wallet and reference -/

/-- C15.  Starting from the empty in-memory payment store, after every sequence of
`CreateWallet`, `Deposit`, `PayForOrder` and `GetBalance` calls (every choice of generated
identifiers and of map iteration orders): no stored transaction has status `Pending`, and
for every wallet identifier and reference the ledger holds at most one transaction with
status `Committed` or `Failed`, indeed at most one transaction at all. -/
theorem C15_at_most_one_record_for_each_wallet_and_reference (uuids : Nat → UUID)
    (starts : Nat → Nat) (cs : List PaymentSvc.Cmd) (walletID : UUID) (refID : String) :
    (∀ tx ∈ (PaymentSvc.reached uuids starts cs).1.storeTxs, tx.Status ≠ .TxPending) ∧
    ((PaymentSvc.reached uuids starts cs).1.storeTxs.filter
      (fun tx => decide (tx.WalletID = walletID ∧ tx.ReferenceID = refID ∧
        (tx.Status = .TxCommitted ∨ tx.Status = .TxFailed)))).length ≤ 1 ∧
    ((PaymentSvc.reached uuids starts cs).1.storeTxs.filter
      (fun tx => decide (tx.WalletID = walletID ∧ tx.ReferenceID = refID))).length ≤ 1 := by
  have h := PaymentSvc.LedgerOK_run cs (PaymentSvc.mockPaymentRepository.new uuids starts)
    PaymentSvc.mockEventDispatcher.new
    (by simp [PaymentSvc.LedgerOK, PaymentSvc.mockPaymentRepository.new])
  refine ⟨h.1, ?_, h.2 walletID refID⟩
  refine le_trans ?_ (h.2 walletID refID)
  apply List.Sublist.length_le
  apply List.monotone_filter_right
  intro tx htx
  simp only [decide_eq_true_eq] at htx ⊢
  exact ⟨htx.1, htx.2.1⟩

/-! ## C16: an amount that is not positive -/

/-- C16.  For every repository and dispatcher, every user, reference or order identifier
and every amount `≤ 0`, `Deposit` and `PayForOrder` return `ErrInvalidAmount` and hand back
the repository and the dispatcher in the state they were given: no repository method has been
called and nothing dispatched, whatever the repository holds for the user. -/
theorem C16_amount_not_positive_is_rejected_before_any_call {σ δ : Type}
    (R : PaymentSvc.PaymentRepository σ) (D : PaymentSvc.EventDispatcher δ) (t₁ t₂ : Time)
    (userID orderID : UUID) (referenceID : String) (amountCents : Int) (s : σ) (d : δ)
    (h : amountCents ≤ 0) :
    PaymentSvc.Deposit R D t₁ t₂ userID amountCents referenceID s d
      = (.error .ErrInvalidAmount, s, d) ∧
    PaymentSvc.PayForOrder R D t₁ t₂ userID orderID amountCents s d
      = (some .ErrInvalidAmount, s, d) := by
  simp [PaymentSvc.Deposit, PaymentSvc.PayForOrder, h]

/-- C16 on the in-memory store holding a wallet for user 7: a deposit of 0 and a payment of 0
for order 20 are rejected, store and dispatcher untouched. -/
theorem C16_amount_not_positive_witness :
    PaymentSvc.Deposit PaymentSvc.mockPaymentRepository.impl
        PaymentSvc.mockEventDispatcher.impl 101 102 7 0 "r1" PaymentSvc.sampleCreated.2
        PaymentSvc.mockEventDispatcher.new
      = (.error .ErrInvalidAmount, PaymentSvc.sampleCreated.2,
          PaymentSvc.mockEventDispatcher.new) ∧
    PaymentSvc.PayForOrder PaymentSvc.mockPaymentRepository.impl
        PaymentSvc.mockEventDispatcher.impl 101 102 7 20 0 PaymentSvc.sampleCreated.2
        PaymentSvc.mockEventDispatcher.new
      = (some .ErrInvalidAmount, PaymentSvc.sampleCreated.2,
          PaymentSvc.mockEventDispatcher.new) :=
  C16_amount_not_positive_is_rejected_before_any_call PaymentSvc.mockPaymentRepository.impl
    PaymentSvc.mockEventDispatcher.impl 101 102 7 20 "r1" 0 PaymentSvc.sampleCreated.2
    PaymentSvc.mockEventDispatcher.new (by decide)

/-! ## C17: the first use of a reference -/

/-- C17 as stated fails: after `sampleLargeBalance` the wallet of user 7 is stored with
balance `2^62` at version 2 and the ledger has no record for "r2".  `Deposit(7, 2^62, "r2")`
succeeds, but the balance it returns and stores, and the `NewBalance` of the event, is
`-2^63`, not `2^62 + 2^62`. -/
theorem C17_deposit_balance_wraps_on_overflow :
    PaymentSvc.sampleLargeBalance.1.storeWallets.map
        (fun e => (e.1, e.2.BalanceCents, e.2.Version))
      = [(10, 2 ^ 62, 2), (7, 0, 1)] ∧
    PaymentSvc.sampleLargeBalance.1.storeTxs.map (fun tx => tx.ReferenceID) = ["r1"] ∧
    PaymentSvc.sampleLargeDeposit.1.toOption.map (fun w => (w.BalanceCents, w.Version))
      = some (-2 ^ 63, 3) ∧
    (mapGet PaymentSvc.sampleLargeDeposit.2.1.storeWallets 10).map
        (fun w => (w.BalanceCents, w.Version, decide (w.BalanceCents = 2 ^ 62 + 2 ^ 62)))
      = some (-2 ^ 63, 3, false) ∧
    PaymentSvc.sampleLargeDeposit.2.2.events
      = PaymentSvc.sampleLargeBalance.2.events ++
          [.FundsDeposited 10 7 (2 ^ 62) "r2" (-2 ^ 63)] := by
  decide

/-- C17, amended.  On the in-memory store, when the lookup by user returns the wallet `w`
that is stored under its identifier (balance `b`, version `v`, an `int` below the largest
one, so that the increment `wallet.Version++` and the version test of `UpdateWallet` do not
wrap), the amount `a` is positive and the ledger holds no transaction for `w` and the
reference: `Deposit` succeeds, returns
and stores under the identifier of `w` the wallet with balance `b + a` reduced to `int64`,
version `v + 1` and the update time set, appends exactly one transaction, a `Committed`
`Deposit` of `a` for the reference, and dispatches exactly one event, `FundsDeposited` with
`AmountCents = a` and `NewBalance` that balance; the balance is `b + a` itself whenever
`b + a < 2^63`.  `PayForOrder` for an order whose identifier renders as the reference, when
`a ≤ b`, succeeds, stores balance `b - a` reduced to `int64` (which is `b - a` itself for
`b < 2^63`) and version `v + 1`, appends exactly one `Committed` `Withdrawal` of `a` for the
reference and dispatches exactly one `FundsWithdrawn` with `AmountCents = a` and the
reference. -/
theorem C17_first_use_of_a_reference
    (m : PaymentSvc.mockPaymentRepository) (d : PaymentSvc.mockEventDispatcher)
    (t₁ t₂ : Time) (userID : UUID) (a : Int) (ref : String) (w : PaymentSvc.Wallet)
    (hget : (PaymentSvc.mockPaymentRepository.GetWalletByUserID userID m).1 = .ok w)
    (hcur : mapGet m.storeWallets w.ID = some w)
    (hv₁ : -2 ^ 63 ≤ w.Version) (hv₂ : w.Version < 2 ^ 63 - 1)
    (hno : ∀ tx ∈ m.storeTxs, ¬ (tx.WalletID = w.ID ∧ tx.ReferenceID = ref))
    (ha : 0 < a) :
    PaymentSvc.Deposit PaymentSvc.mockPaymentRepository.impl PaymentSvc.mockEventDispatcher.impl
        t₁ t₂ userID a ref m d
      = (.ok { w with BalanceCents := wrap64 (w.BalanceCents + a), Version := w.Version + 1,
                      UpdatedAt := t₂ },
          { storeWallets := mapSet m.storeWallets w.ID
              { w with BalanceCents := wrap64 (w.BalanceCents + a), Version := w.Version + 1,
                       UpdatedAt := t₂ }
            storeTxs := m.storeTxs ++
              [{ ID := m.uuids 0, WalletID := w.ID, Type_ := .Deposit, AmountCents := a,
                 ReferenceID := ref, Status := .TxCommitted, ErrorMessage := "",
                 CreatedAt := t₁ }]
            uuids := fun n => m.uuids (n + 1)
            starts := fun n => m.starts (n + 1) },
          { events := d.events ++
              [.FundsDeposited w.ID userID a ref (wrap64 (w.BalanceCents + a))] }) ∧
    (-2 ^ 63 ≤ w.BalanceCents → w.BalanceCents + a < 2 ^ 63 →
      wrap64 (w.BalanceCents + a) = w.BalanceCents + a) ∧
    (∀ orderID, uuidString orderID = ref → a ≤ w.BalanceCents →
      PaymentSvc.PayForOrder PaymentSvc.mockPaymentRepository.impl
          PaymentSvc.mockEventDispatcher.impl t₁ t₂ userID orderID a m d
        = (none,
            { storeWallets := mapSet m.storeWallets w.ID
                { w with BalanceCents := wrap64 (w.BalanceCents - a), Version := w.Version + 1,
                         UpdatedAt := t₂ }
              storeTxs := m.storeTxs ++
                [{ ID := m.uuids 0, WalletID := w.ID, Type_ := .Withdrawal, AmountCents := a,
                   ReferenceID := ref, Status := .TxCommitted, ErrorMessage := "",
                   CreatedAt := t₁ }]
              uuids := fun n => m.uuids (n + 1)
              starts := fun n => m.starts (n + 1) },
            { events := d.events ++ [.FundsWithdrawn w.ID userID a ref] })) ∧
    (a ≤ w.BalanceCents → w.BalanceCents < 2 ^ 63 →
      wrap64 (w.BalanceCents - a) = w.BalanceCents - a) ∧
    wrap64 (w.Version + 1) = w.Version + 1 ∧ wrap64 (w.Version + 1 - 1) = w.Version := by
  have hget' := PaymentSvc.mockPaymentRepository.GetWalletByUserID_of_ok hget
  have hno' := PaymentSvc.mockPaymentRepository.firstByRef_of_absent w.ID ref m.storeTxs hno
  have ha' : ¬ a ≤ 0 := by omega
  refine ⟨?_, fun h₁ h₂ => wrap64_of_inRange (by omega) h₂, fun orderID ho hb => ?_,
    fun h₁ h₂ => wrap64_of_inRange (by omega) (by omega),
    wrap64_of_inRange (by omega) (by omega), ?_⟩
  · simp [PaymentSvc.Deposit, PaymentSvc.processTransaction,
      PaymentSvc.mockPaymentRepository.impl, PaymentSvc.mockEventDispatcher.impl,
      hget', ha', PaymentSvc.mockPaymentRepository.FindTransactionByRef, hno',
      PaymentSvc.mockPaymentRepository.NextID, PaymentSvc.mockPaymentRepository.SaveTransaction,
      PaymentSvc.mockPaymentRepository.UpdateWallet, hcur,
      PaymentSvc.mockEventDispatcher.Dispatch]
  · subst ho
    have hb' : ¬ w.BalanceCents < a := by omega
    simp [PaymentSvc.PayForOrder, PaymentSvc.processTransaction,
      PaymentSvc.mockPaymentRepository.impl, PaymentSvc.mockEventDispatcher.impl,
      hget', ha', hb', PaymentSvc.mockPaymentRepository.FindTransactionByRef, hno',
      PaymentSvc.mockPaymentRepository.NextID, PaymentSvc.mockPaymentRepository.SaveTransaction,
      PaymentSvc.mockPaymentRepository.UpdateWallet, hcur,
      PaymentSvc.mockEventDispatcher.Dispatch]
  · rw [add_sub_cancel_right]
    exact wrap64_of_inRange hv₁ (by omega)

/-- C17 on the deposit of the test: 1000 on the wallet just created for user 7 gives
balance 1000 at version 2. -/
theorem C17_first_use_witness :
    (PaymentSvc.Deposit PaymentSvc.mockPaymentRepository.impl
        PaymentSvc.mockEventDispatcher.impl 101 102 7 1000 "r1" PaymentSvc.sampleCreated.2
        PaymentSvc.mockEventDispatcher.new).1
      = .ok { PaymentSvc.sampleNewWallet with
              BalanceCents := wrap64 (PaymentSvc.sampleNewWallet.BalanceCents + 1000),
              Version := PaymentSvc.sampleNewWallet.Version + 1, UpdatedAt := 102 } :=
  congrArg Prod.fst (C17_first_use_of_a_reference PaymentSvc.sampleCreated.2
    PaymentSvc.mockEventDispatcher.new 101 102 7 1000 "r1" PaymentSvc.sampleNewWallet
    rfl (by decide) (by decide) (by decide) (by decide) (by decide)).1

/-! ## C18: submitting an open order -/

/-- C18 as stated fails: the order 10 of `sampleLargeOrder` is stored `Open` with three items
whose prices sum to `3 * 2^62`.  `SubmitOrderForPayment` succeeds and the one event it
dispatches carries `TotalCents = -2^62`, the stored total, which is not the sum of the item
prices. -/
theorem C18_submitted_total_is_not_the_price_sum :
    (mapGet OrderSvc.sampleLargeOrder.1.store 10).map
        (fun o => (o.Status, OrderSvc.priceSum o, o.TotalCents))
      = some (.Open, 3 * 2 ^ 62, -2 ^ 62) ∧
    OrderSvc.sampleLargeSubmitted.1 = none ∧
    OrderSvc.sampleLargeSubmitted.2.2.events
      = OrderSvc.sampleLargeOrder.2.events ++ [.OrderSubmittedForPayment 10 (-2 ^ 62)] := by
  decide

/-- C18, amended.  In every in-memory store built from the empty one by calls of the order
service and deletions of the store, for every stored order `o` in status `Open`.  When `o`
is not marked as deleted: with no items, `SubmitOrderForPayment` returns `ErrOrderIsEmpty`
and leaves store and dispatcher as they were; with items, the call returns success,
replaces the stored order by `o` with status `Pending`, version raised by one and the update
time set (items and total as they were) and dispatches exactly one event,
`OrderSubmittedForPayment` with the stored total of `o`.  When `o` is marked as deleted, the
call returns `ErrOrderNotFound` and leaves store and dispatcher as they were.  The stored
total is the sum of the item prices reduced to `int64`, which is the sum itself whenever the
sum is below `2^63`. -/
theorem C18_submit_of_an_open_order (uuids : Nat → UUID) (clock : Nat → Time)
    (ss : List OrderSvc.Step) (now : Time) (id : UUID) (o : OrderSvc.Order)
    (hget : mapGet (OrderSvc.built uuids clock ss).1.store id = some o)
    (hs : o.Status = .Open) :
    (o.DeletedAt = none → o.Items = [] →
      OrderSvc.SubmitOrderForPayment OrderSvc.mockOrderRepository.impl
          OrderSvc.mockEventDispatcher.impl now id (OrderSvc.built uuids clock ss).1
          (OrderSvc.built uuids clock ss).2
        = (some .ErrOrderIsEmpty, (OrderSvc.built uuids clock ss).1,
            (OrderSvc.built uuids clock ss).2)) ∧
    (o.DeletedAt = none → o.Items ≠ [] →
      OrderSvc.SubmitOrderForPayment OrderSvc.mockOrderRepository.impl
          OrderSvc.mockEventDispatcher.impl now id (OrderSvc.built uuids clock ss).1
          (OrderSvc.built uuids clock ss).2
        = (none,
            { (OrderSvc.built uuids clock ss).1 with
              store := mapSet (OrderSvc.built uuids clock ss).1.store id
                { o with Status := .Pending, Version := o.Version + 1, UpdatedAt := now } },
            { events := (OrderSvc.built uuids clock ss).2.events ++
                [.OrderSubmittedForPayment id o.TotalCents] })) ∧
    (o.DeletedAt ≠ none →
      OrderSvc.SubmitOrderForPayment OrderSvc.mockOrderRepository.impl
          OrderSvc.mockEventDispatcher.impl now id (OrderSvc.built uuids clock ss).1
          (OrderSvc.built uuids clock ss).2
        = (some .ErrOrderNotFound, (OrderSvc.built uuids clock ss).1,
            (OrderSvc.built uuids clock ss).2)) ∧
    o.TotalCents = wrap64 ((o.Items.map (fun item => item.PriceCents)).sum) ∧
    ((o.Items.map (fun item => item.PriceCents)).sum < 2 ^ 63 →
      o.TotalCents = (o.Items.map (fun item => item.PriceCents)).sum) := by
  have hk := (OrderSvc.built_store uuids clock ss).1
  refine ⟨fun hd hi => ?_, fun hd hi => ?_, fun hd => ?_,
    OrderSvc.built_total uuids clock ss id o hget⟩
  · have hF := OrderSvc.mockOrderRepository.Find_of_stored _ id o hget hd
    simp [OrderSvc.SubmitOrderForPayment, OrderSvc.mockOrderRepository.impl, hF, hi]
  · exact OrderSvc.SubmitOrderForPayment_of_stored _ _ now id o hk hget hd hs hi
  · have hF := OrderSvc.mockOrderRepository.Find_of_deleted _ id o hget hd
    simp [OrderSvc.SubmitOrderForPayment, OrderSvc.mockOrderRepository.impl, hF]

/-- C18 on the order of the test: created, one item of 5000 added, then submitted at time 3.
The event carries 5000.  After the store's `Delete` of the order the same call returns
`ErrOrderNotFound`. -/
theorem C18_submit_witness :
    (OrderSvc.sampleOrderWithItem.DeletedAt = none ∧ OrderSvc.sampleOrderWithItem.Items ≠ [] ∧
      OrderSvc.SubmitOrderForPayment OrderSvc.mockOrderRepository.impl
          OrderSvc.mockEventDispatcher.impl 3 10
          (OrderSvc.built (fun n => n + 10) (fun n => n) OrderSvc.sampleItemSteps).1
          (OrderSvc.built (fun n => n + 10) (fun n => n) OrderSvc.sampleItemSteps).2
        = (none,
            { (OrderSvc.built (fun n => n + 10) (fun n => n) OrderSvc.sampleItemSteps).1 with
              store := mapSet
                (OrderSvc.built (fun n => n + 10) (fun n => n) OrderSvc.sampleItemSteps).1.store
                10
                { OrderSvc.sampleOrderWithItem with
                  Status := .Pending, Version := OrderSvc.sampleOrderWithItem.Version + 1,
                  UpdatedAt := 3 } },
            { events :=
                (OrderSvc.built (fun n => n + 10) (fun n => n)
                  OrderSvc.sampleItemSteps).2.events ++
                [.OrderSubmittedForPayment 10 OrderSvc.sampleOrderWithItem.TotalCents] })) ∧
    OrderSvc.SubmitOrderForPayment OrderSvc.mockOrderRepository.impl
        OrderSvc.mockEventDispatcher.impl 3 10 OrderSvc.sampleDeletedOpen.1
        OrderSvc.sampleDeletedOpen.2
      = (some .ErrOrderNotFound, OrderSvc.sampleDeletedOpen.1, OrderSvc.sampleDeletedOpen.2) :=
  ⟨⟨by decide, by decide, (C18_submit_of_an_open_order (fun n => n + 10) (fun n => n)
      OrderSvc.sampleItemSteps 3 10 OrderSvc.sampleOrderWithItem
      (by decide) (by decide)).2.1 (by decide) (by decide)⟩,
    (C18_submit_of_an_open_order (fun n => n + 10) (fun n => n + 50)
      OrderSvc.sampleDeleteOpenSteps 3 10 OrderSvc.sampleDeletedOpenOrder
      (by decide) (by decide)).2.2.1 (by decide)⟩

/-! ## C19: marking an order as paid -/

/-- C19 as stated fails for a stored order that is marked as deleted.  After
`sampleDeleteSteps` the order 10 is stored `Pending` with a deletion mark:
`MarkOrderAsPaid(10)` returns `ErrOrderNotFound` and the order stays `Pending`.  After
`sampleDeleteOpenSteps` the order 10 is stored `Open` with a deletion mark:
`MarkOrderAsPaid(10)` returns `ErrOrderNotFound`, not `ErrOrderCannotBeModified`.  Neither
call changes the store or dispatches an event. -/
theorem C19_mark_as_paid_of_a_deleted_order_is_not_found :
    (mapGet OrderSvc.sampleDeleted.1.store 10).map (fun o => (o.Status, o.DeletedAt))
      = some (.Pending, some 50) ∧
    OrderSvc.sampleDeletedMarked.1 = some .ErrOrderNotFound ∧
    OrderSvc.sampleDeletedMarked.2.1.store = OrderSvc.sampleDeleted.1.store ∧
    OrderSvc.sampleDeletedMarked.2.2.events = OrderSvc.sampleDeleted.2.events ∧
    (mapGet OrderSvc.sampleDeletedOpen.1.store 10).map (fun o => (o.Status, o.DeletedAt))
      = some (.Open, some 50) ∧
    OrderSvc.sampleDeletedOpenMarked.1 = some .ErrOrderNotFound ∧
    OrderSvc.sampleDeletedOpenMarked.2.1.store = OrderSvc.sampleDeletedOpen.1.store ∧
    OrderSvc.sampleDeletedOpenMarked.2.2.events = OrderSvc.sampleDeletedOpen.2.events := by
  decide

/-- C19, amended.  In every in-memory store built from the empty one by calls of the order
service and deletions of the store, for every stored order `o`.  When `o` is not marked as
deleted: if `o` is `Pending`, `MarkOrderAsPaid` returns success, replaces the stored order
by `o` with status `Paid`, version raised by one and the update time set (items and total as
they were) and leaves the dispatcher as it was, so no event is dispatched; if `o` is not
`Pending`, it returns `ErrOrderCannotBeModified` and leaves store and dispatcher as they
were.  When `o` is marked as deleted, whatever its status, the call returns
`ErrOrderNotFound` and leaves store and dispatcher as they were. -/
theorem C19_mark_order_as_paid (uuids : Nat → UUID) (clock : Nat → Time)
    (ss : List OrderSvc.Step) (now : Time) (id : UUID) (o : OrderSvc.Order)
    (hget : mapGet (OrderSvc.built uuids clock ss).1.store id = some o) :
    (o.DeletedAt = none → o.Status = .Pending →
      OrderSvc.MarkOrderAsPaid OrderSvc.mockOrderRepository.impl
          OrderSvc.mockEventDispatcher.impl now id (OrderSvc.built uuids clock ss).1
          (OrderSvc.built uuids clock ss).2
        = (none,
            { (OrderSvc.built uuids clock ss).1 with
              store := mapSet (OrderSvc.built uuids clock ss).1.store id
                { o with Status := .Paid, Version := o.Version + 1, UpdatedAt := now } },
            (OrderSvc.built uuids clock ss).2)) ∧
    (o.DeletedAt = none → o.Status ≠ .Pending →
      OrderSvc.MarkOrderAsPaid OrderSvc.mockOrderRepository.impl
          OrderSvc.mockEventDispatcher.impl now id (OrderSvc.built uuids clock ss).1
          (OrderSvc.built uuids clock ss).2
        = (some .ErrOrderCannotBeModified, (OrderSvc.built uuids clock ss).1,
            (OrderSvc.built uuids clock ss).2)) ∧
    (o.DeletedAt ≠ none →
      OrderSvc.MarkOrderAsPaid OrderSvc.mockOrderRepository.impl
          OrderSvc.mockEventDispatcher.impl now id (OrderSvc.built uuids clock ss).1
          (OrderSvc.built uuids clock ss).2
        = (some .ErrOrderNotFound, (OrderSvc.built uuids clock ss).1,
            (OrderSvc.built uuids clock ss).2)) := by
  have hk := (OrderSvc.built_store uuids clock ss).1
  refine ⟨fun hd hs => ?_, fun hd hs => ?_, fun hd => ?_⟩
  · exact OrderSvc.MarkOrderAsPaid_of_stored _ _ now id o hk hget hd hs
  · have hF := OrderSvc.mockOrderRepository.Find_of_stored _ id o hget hd
    simp [OrderSvc.MarkOrderAsPaid, OrderSvc.mockOrderRepository.impl, hF, hs]
  · have hF := OrderSvc.mockOrderRepository.Find_of_deleted _ id o hget hd
    simp [OrderSvc.MarkOrderAsPaid, OrderSvc.mockOrderRepository.impl, hF]

/-- C19 on the order 10 of the sample calls, stored `Pending` at version 3: it is stored
`Paid` at version 4 and the events are those of before.  After the store's `Delete` of the
order the same call returns `ErrOrderNotFound`. -/
theorem C19_mark_order_as_paid_witness :
    (OrderSvc.samplePendingOrder.DeletedAt = none ∧
      OrderSvc.samplePendingOrder.Status = .Pending ∧
      OrderSvc.MarkOrderAsPaid OrderSvc.mockOrderRepository.impl
          OrderSvc.mockEventDispatcher.impl 4 10
          (OrderSvc.built (fun n => n + 10) (fun n => n)
            (OrderSvc.sampleSubmitCalls.map .call)).1
          (OrderSvc.built (fun n => n + 10) (fun n => n)
            (OrderSvc.sampleSubmitCalls.map .call)).2
        = (none,
            { (OrderSvc.built (fun n => n + 10) (fun n => n)
                (OrderSvc.sampleSubmitCalls.map .call)).1 with
              store := mapSet
                (OrderSvc.built (fun n => n + 10) (fun n => n)
                  (OrderSvc.sampleSubmitCalls.map .call)).1.store 10
                { OrderSvc.samplePendingOrder with
                  Status := .Paid, Version := OrderSvc.samplePendingOrder.Version + 1,
                  UpdatedAt := 4 } },
            (OrderSvc.built (fun n => n + 10) (fun n => n)
              (OrderSvc.sampleSubmitCalls.map .call)).2)) ∧
    OrderSvc.MarkOrderAsPaid OrderSvc.mockOrderRepository.impl
        OrderSvc.mockEventDispatcher.impl 4 10 OrderSvc.sampleDeleted.1 OrderSvc.sampleDeleted.2
      = (some .ErrOrderNotFound, OrderSvc.sampleDeleted.1, OrderSvc.sampleDeleted.2) :=
  ⟨⟨by decide, by decide, (C19_mark_order_as_paid (fun n => n + 10) (fun n => n)
      (OrderSvc.sampleSubmitCalls.map .call) 4 10 OrderSvc.samplePendingOrder
      (by decide)).1 (by decide) (by decide)⟩,
    (C19_mark_order_as_paid (fun n => n + 10) (fun n => n + 50)
      OrderSvc.sampleDeleteSteps 4 10 OrderSvc.sampleDeletedOrder (by decide)).2.2
      (by decide)⟩

/-! ## C20: a negative price -/

/-- C20.  For every repository and dispatcher, every order identifier (whatever the
repository holds for it), product identifier and price `< 0`, `AddItemToOrder` returns
`ErrNegativePrice` with the nil item identifier and hands back the repository and the
dispatcher in the state they were given: no repository method has been called and nothing
dispatched.  Consequently, in every in-memory store reached from the empty one by calls of
the order service, every item of every stored order has a price `≥ 0`. -/
theorem C20_negative_price_is_rejected_before_any_call :
    (∀ (σ δ : Type) (R : OrderSvc.OrderRepository σ) (D : OrderSvc.EventDispatcher δ)
        (now : Time) (orderID productID : UUID) (priceCents : Int) (s : σ) (d : δ),
        priceCents < 0 →
        OrderSvc.AddItemToOrder R D now orderID productID priceCents s d
          = ((0, some .ErrNegativePrice), s, d)) ∧
    (∀ (uuids : Nat → UUID) (clock : Nat → Time) (cs : List OrderSvc.Cmd),
        ∀ e ∈ (OrderSvc.reached uuids clock cs).1.store, ∀ item ∈ e.2.Items,
          0 ≤ item.PriceCents) := by
  constructor
  · intro σ δ R D now orderID productID priceCents s d h
    simp [OrderSvc.AddItemToOrder, h]
  · intro uuids clock cs e he
    exact (OrderSvc.TotalOK_run cs (OrderSvc.mockOrderRepository.new uuids clock)
      OrderSvc.mockEventDispatcher.new (by simp [OrderSvc.mockOrderRepository.new]) e he).2

/-- C20 on the stored `Paid` order 10: adding an item of price -1 is rejected with
`ErrNegativePrice`, store and dispatcher untouched. -/
theorem C20_negative_price_witness :
    OrderSvc.AddItemToOrder OrderSvc.mockOrderRepository.impl OrderSvc.mockEventDispatcher.impl
        9 10 5 (-1) OrderSvc.samplePaidStore OrderSvc.mockEventDispatcher.new
      = ((0, some .ErrNegativePrice), OrderSvc.samplePaidStore,
          OrderSvc.mockEventDispatcher.new) :=
  C20_negative_price_is_rejected_before_any_call.1 _ _ OrderSvc.mockOrderRepository.impl
    OrderSvc.mockEventDispatcher.impl 9 10 5 (-1) OrderSvc.samplePaidStore
    OrderSvc.mockEventDispatcher.new (by decide)

/-! ## C21: removing an item -/

theorem OrderSvc.itemIndex_none (itemID : UUID) (items : List OrderSvc.Item)
    (h : ∀ item ∈ items, item.ID ≠ itemID) : OrderSvc.itemIndex itemID items = none := by
  induction items with
  | nil => rfl
  | cons item rest ih =>
    unfold OrderSvc.itemIndex
    rw [if_neg (h item (List.mem_cons_self _ _))]
    rw [ih (fun x hx => h x (List.mem_cons_of_mem _ hx))]
    rfl

/-- The index `itemIndex` returns is that of the first item carrying the identifier:
removing it leaves the items before and the items after, in their order. -/
theorem OrderSvc.itemIndex_some (itemID : UUID) (items : List OrderSvc.Item)
    (h : ∃ item ∈ items, item.ID = itemID) :
    ∃ (i : Nat) (before : List OrderSvc.Item) (x : OrderSvc.Item) (after : List OrderSvc.Item),
      OrderSvc.itemIndex itemID items = some i ∧ items = before ++ x :: after ∧
      x.ID = itemID ∧ (∀ y ∈ before, y.ID ≠ itemID) ∧
      items.take i ++ items.drop (i + 1) = before ++ after := by
  induction items with
  | nil =>
    obtain ⟨item, hmem, _⟩ := h
    simp at hmem
  | cons item rest ih =>
    by_cases hi : item.ID = itemID
    · refine ⟨0, [], item, rest, ?_, rfl, hi, by simp, by simp⟩
      unfold OrderSvc.itemIndex
      rw [if_pos hi]
    · have h' : ∃ x ∈ rest, x.ID = itemID := by
        obtain ⟨x, hmem, hx⟩ := h
        rcases List.mem_cons.mp hmem with hx' | hx'
        · subst hx'
          exact absurd hx hi
        · exact ⟨x, hx', hx⟩
      obtain ⟨i, before, x, after, hidx, hsplit, hx, hbefore, htake⟩ := ih h'
      refine ⟨i + 1, item :: before, x, after, ?_, by rw [hsplit]; rfl, hx, ?_, ?_⟩
      · unfold OrderSvc.itemIndex
        rw [if_neg hi, hidx]
        rfl
      · intro y hy
        rcases List.mem_cons.mp hy with hy' | hy'
        · subst hy'
          exact hi
        · exact hbefore y hy'
      · simp only [List.take_succ_cons, List.drop_succ_cons, List.cons_append]
        rw [htake]

theorem OrderSvc.recalculateTotal_eq (o : OrderSvc.Order) :
    OrderSvc.recalculateTotal o
      = { o with TotalCents := wrap64 ((o.Items.map (fun item => item.PriceCents)).sum) } := by
  have h := OrderSvc.recalculateTotal_total o
  unfold OrderSvc.recalculateTotal at h ⊢
  simp only at h
  rw [h]

theorem OrderSvc.RemoveItemFromOrder_of_stored (m : OrderSvc.mockOrderRepository)
    (d : OrderSvc.mockEventDispatcher) (now : Time) (id itemID : UUID) (i : Nat)
    (o : OrderSvc.Order) (hk : OrderSvc.KeyedByID m.store) (hget : mapGet m.store id = some o)
    (hd : o.DeletedAt = none) (hs : o.Status = .Open)
    (hi : OrderSvc.itemIndex itemID o.Items = some i) :
    OrderSvc.RemoveItemFromOrder OrderSvc.mockOrderRepository.impl
        OrderSvc.mockEventDispatcher.impl now id itemID m d
      = (none,
          { m with
            store := mapSet m.store id
              { o with
                Items := o.Items.take i ++ o.Items.drop (i + 1)
                TotalCents := wrap64
                  (((o.Items.take i ++ o.Items.drop (i + 1)).map
                    (fun item => item.PriceCents)).sum)
                Version := o.Version + 1
                UpdatedAt := now } },
          { events := d.events ++ [.ItemRemovedFromOrder id itemID] }) := by
  have hid : o.ID = id := hk _ (mem_of_mapGet hget)
  have hF := OrderSvc.mockOrderRepository.Find_of_stored m id o hget hd
  have hU := OrderSvc.mockOrderRepository.Update_of_stored m id o
    { o with
      Items := o.Items.take i ++ o.Items.drop (i + 1)
      TotalCents := wrap64
        (((o.Items.take i ++ o.Items.drop (i + 1)).map (fun item => item.PriceCents)).sum)
      Version := o.Version + 1
      UpdatedAt := now } hget hid rfl
  have hs' : ¬ o.Status ≠ .Open := by simp [hs]
  simp only [OrderSvc.RemoveItemFromOrder, OrderSvc.mockOrderRepository.impl, hF, if_neg hs', hi,
    OrderSvc.recalculateTotal_eq, OrderSvc.updateOrder, hU, OrderSvc.mockEventDispatcher.impl,
    OrderSvc.mockEventDispatcher.Dispatch]

/-- C21 as stated fails: the order 10 of `sampleFourItems` is stored `Open` with the items
11, 12, 13, 14, each of price `2^62`.  `RemoveItemFromOrder(10, 11)` succeeds and the stored
order keeps the items 12, 13, 14, whose prices sum to `3 * 2^62`; its total is `-2^62`. -/
theorem C21_total_after_removal_is_not_the_price_sum :
    (mapGet OrderSvc.sampleFourItems.1.store 10).map
        (fun o => (o.Status, o.Items.map (fun item => item.ID)))
      = some (.Open, [11, 12, 13, 14]) ∧
    OrderSvc.sampleFourItemsRemoved.1 = none ∧
    (mapGet OrderSvc.sampleFourItemsRemoved.2.1.store 10).map
        (fun o => (o.Items.map (fun item => item.ID), OrderSvc.priceSum o, o.TotalCents,
          decide (o.TotalCents = OrderSvc.priceSum o)))
      = some ([12, 13, 14], 3 * 2 ^ 62, -2 ^ 62, false) := by
  decide

/-- C21, amended.  In every in-memory store built from the empty one by calls of the order
service and deletions of the store, for every stored order `o` in status `Open` and every
item identifier.  When `o` is not marked as deleted: if no item of `o` carries the
identifier, `RemoveItemFromOrder` returns `ErrOrderItemNotFound` and leaves store and
dispatcher as they were; otherwise the items of `o` are `before`, then an item `x` carrying
the identifier, then `after`, with no item of `before` carrying it; the call returns
success, replaces the stored order by `o` with the items `before ++ after`, the total set to
the sum of their prices reduced to `int64`, version raised by one and the update time set,
and dispatches exactly one event, `ItemRemovedFromOrder`; the total is the sum itself
whenever the sum is below `2^63`.  When `o` is marked as deleted, the call returns
`ErrOrderNotFound` and leaves store and dispatcher as they were. -/
theorem C21_remove_item_of_an_open_order (uuids : Nat → UUID) (clock : Nat → Time)
    (ss : List OrderSvc.Step) (now : Time) (id itemID : UUID) (o : OrderSvc.Order)
    (hget : mapGet (OrderSvc.built uuids clock ss).1.store id = some o)
    (hs : o.Status = .Open) :
    (o.DeletedAt = none → (∀ item ∈ o.Items, item.ID ≠ itemID) →
      OrderSvc.RemoveItemFromOrder OrderSvc.mockOrderRepository.impl
          OrderSvc.mockEventDispatcher.impl now id itemID (OrderSvc.built uuids clock ss).1
          (OrderSvc.built uuids clock ss).2
        = (some .ErrOrderItemNotFound, (OrderSvc.built uuids clock ss).1,
            (OrderSvc.built uuids clock ss).2)) ∧
    (o.DeletedAt = none → (∃ item ∈ o.Items, item.ID = itemID) →
      ∃ (before : List OrderSvc.Item) (x : OrderSvc.Item) (after : List OrderSvc.Item),
        o.Items = before ++ x :: after ∧ x.ID = itemID ∧ (∀ y ∈ before, y.ID ≠ itemID) ∧
        OrderSvc.RemoveItemFromOrder OrderSvc.mockOrderRepository.impl
            OrderSvc.mockEventDispatcher.impl now id itemID (OrderSvc.built uuids clock ss).1
            (OrderSvc.built uuids clock ss).2
          = (none,
              { (OrderSvc.built uuids clock ss).1 with
                store := mapSet (OrderSvc.built uuids clock ss).1.store id
                  { o with
                    Items := before ++ after
                    TotalCents :=
                      wrap64 (((before ++ after).map (fun item => item.PriceCents)).sum)
                    Version := o.Version + 1
                    UpdatedAt := now } },
              { events := (OrderSvc.built uuids clock ss).2.events ++
                  [.ItemRemovedFromOrder id itemID] }) ∧
        (((before ++ after).map (fun item => item.PriceCents)).sum < 2 ^ 63 →
          wrap64 (((before ++ after).map (fun item => item.PriceCents)).sum)
            = ((before ++ after).map (fun item => item.PriceCents)).sum)) ∧
    (o.DeletedAt ≠ none →
      OrderSvc.RemoveItemFromOrder OrderSvc.mockOrderRepository.impl
          OrderSvc.mockEventDispatcher.impl now id itemID (OrderSvc.built uuids clock ss).1
          (OrderSvc.built uuids clock ss).2
        = (some .ErrOrderNotFound, (OrderSvc.built uuids clock ss).1,
            (OrderSvc.built uuids clock ss).2)) := by
  obtain ⟨hk, htot⟩ := OrderSvc.built_store uuids clock ss
  have hpos : ∀ item ∈ o.Items, 0 ≤ item.PriceCents := (htot (id, o) (mem_of_mapGet hget)).2
  refine ⟨fun hd hno => ?_, fun hd hex => ?_, fun hd => ?_⟩
  · have hF := OrderSvc.mockOrderRepository.Find_of_stored _ id o hget hd
    have hi := OrderSvc.itemIndex_none itemID o.Items hno
    simp [OrderSvc.RemoveItemFromOrder, OrderSvc.mockOrderRepository.impl, hF, hs, hi]
  · obtain ⟨i, before, x, after, hi, hsplit, hx, hbefore, htake⟩ :=
      OrderSvc.itemIndex_some itemID o.Items hex
    refine ⟨before, x, after, hsplit, hx, hbefore, ?_, fun hlt => ?_⟩
    · have h := OrderSvc.RemoveItemFromOrder_of_stored _ (OrderSvc.built uuids clock ss).2
        now id itemID i o hk hget hd hs hi
      rw [htake] at h
      exact h
    · apply wrap64_of_inRange _ hlt
      have : 0 ≤ ((before ++ after).map (fun item => item.PriceCents)).sum := by
        apply List.sum_nonneg
        intro v hv
        obtain ⟨item, hmem, rfl⟩ := List.mem_map.mp hv
        apply hpos
        rw [hsplit]
        rcases List.mem_append.mp hmem with h' | h'
        · exact List.mem_append_left _ h'
        · exact List.mem_append_right _ (List.mem_cons_of_mem _ h')
      omega
  · have hF := OrderSvc.mockOrderRepository.Find_of_deleted _ id o hget hd
    simp [OrderSvc.RemoveItemFromOrder, OrderSvc.mockOrderRepository.impl, hF]

/-- C21 on the order of the test with its one item 11 of price 5000: removing the item 11 at
time 3 leaves no items and total 0 at version 3.  After the store's `Delete` of the order
the same call returns `ErrOrderNotFound`. -/
theorem C21_remove_item_witness :
    (∃ (before : List OrderSvc.Item) (x : OrderSvc.Item) (after : List OrderSvc.Item),
      OrderSvc.sampleOrderWithItem.Items = before ++ x :: after ∧ x.ID = 11 ∧
      (∀ y ∈ before, y.ID ≠ 11) ∧
      OrderSvc.RemoveItemFromOrder OrderSvc.mockOrderRepository.impl
          OrderSvc.mockEventDispatcher.impl 3 10 11
          (OrderSvc.built (fun n => n + 10) (fun n => n) OrderSvc.sampleItemSteps).1
          (OrderSvc.built (fun n => n + 10) (fun n => n) OrderSvc.sampleItemSteps).2
        = (none,
            { (OrderSvc.built (fun n => n + 10) (fun n => n) OrderSvc.sampleItemSteps).1 with
              store := mapSet
                (OrderSvc.built (fun n => n + 10) (fun n => n) OrderSvc.sampleItemSteps).1.store
                10
                { OrderSvc.sampleOrderWithItem with
                  Items := before ++ after
                  TotalCents :=
                    wrap64 (((before ++ after).map (fun item => item.PriceCents)).sum)
                  Version := OrderSvc.sampleOrderWithItem.Version + 1
                  UpdatedAt := 3 } },
            { events :=
                (OrderSvc.built (fun n => n + 10) (fun n => n)
                  OrderSvc.sampleItemSteps).2.events ++
                [.ItemRemovedFromOrder 10 11] }) ∧
      (((before ++ after).map (fun item => item.PriceCents)).sum < 2 ^ 63 →
        wrap64 (((before ++ after).map (fun item => item.PriceCents)).sum)
          = ((before ++ after).map (fun item => item.PriceCents)).sum)) ∧
    OrderSvc.RemoveItemFromOrder OrderSvc.mockOrderRepository.impl
        OrderSvc.mockEventDispatcher.impl 3 10 11 OrderSvc.sampleDeletedOpen.1
        OrderSvc.sampleDeletedOpen.2
      = (some .ErrOrderNotFound, OrderSvc.sampleDeletedOpen.1, OrderSvc.sampleDeletedOpen.2) :=
  ⟨(C21_remove_item_of_an_open_order (fun n => n + 10) (fun n => n)
      OrderSvc.sampleItemSteps 3 10 11 OrderSvc.sampleOrderWithItem
      (by decide) (by decide)).2.1 (by decide) (by decide),
    (C21_remove_item_of_an_open_order (fun n => n + 10) (fun n => n + 50)
      OrderSvc.sampleDeleteOpenSteps 3 10 11 OrderSvc.sampleDeletedOpenOrder
      (by decide) (by decide)).2.2 (by decide)⟩

/-! ## C22: soft deletion in the in-memory order store -/

/-- C22.  In the in-memory order store: `Delete` of an identifier with no entry returns
`ErrOrderNotFound` and leaves the store as it was.  `Delete` of an identifier whose entry is
`o` returns success and replaces the entry by `o` with the deletion time set, every other
field (version, status, items, total) and every other entry as before.  Afterwards `Find` of
the identifier returns `ErrOrderNotFound`, and so do `AddItemToOrder` with a price `≥ 0`,
`RemoveItemFromOrder`, `SubmitOrderForPayment`, `MarkOrderAsPaid` and `CancelOrder` on it,
each leaving store and dispatcher as they were. -/
theorem C22_deleted_order_is_kept_and_not_found (m : OrderSvc.mockOrderRepository)
    (d : OrderSvc.mockEventDispatcher) (id : UUID) (o : OrderSvc.Order)
    (hget : mapGet m.store id = some o) :
    (∀ id', mapGet m.store id' = none →
      OrderSvc.mockOrderRepository.Delete id' m = (some .ErrOrderNotFound, m)) ∧
    OrderSvc.mockOrderRepository.Delete id m
      = (none,
          { m with
            store := mapSet m.store id { o with DeletedAt := some (m.clock 0) }
            clock := fun n => m.clock (n + 1) }) ∧
    mapGet (OrderSvc.mockOrderRepository.Delete id m).2.store id
      = some { o with DeletedAt := some (m.clock 0) } ∧
    (∀ id', id' ≠ id →
      mapGet (OrderSvc.mockOrderRepository.Delete id m).2.store id' = mapGet m.store id') ∧
    OrderSvc.mockOrderRepository.Find id (OrderSvc.mockOrderRepository.Delete id m).2
      = (.error .ErrOrderNotFound, (OrderSvc.mockOrderRepository.Delete id m).2) ∧
    (∀ (now : Time) (productID : UUID) (priceCents : Int), 0 ≤ priceCents →
      OrderSvc.AddItemToOrder OrderSvc.mockOrderRepository.impl OrderSvc.mockEventDispatcher.impl
          now id productID priceCents (OrderSvc.mockOrderRepository.Delete id m).2 d
        = ((0, some .ErrOrderNotFound), (OrderSvc.mockOrderRepository.Delete id m).2, d)) ∧
    (∀ (now : Time) (itemID : UUID),
      OrderSvc.RemoveItemFromOrder OrderSvc.mockOrderRepository.impl
          OrderSvc.mockEventDispatcher.impl now id itemID
          (OrderSvc.mockOrderRepository.Delete id m).2 d
        = (some .ErrOrderNotFound, (OrderSvc.mockOrderRepository.Delete id m).2, d)) ∧
    (∀ (now : Time),
      OrderSvc.SubmitOrderForPayment OrderSvc.mockOrderRepository.impl
          OrderSvc.mockEventDispatcher.impl now id (OrderSvc.mockOrderRepository.Delete id m).2 d
        = (some .ErrOrderNotFound, (OrderSvc.mockOrderRepository.Delete id m).2, d)) ∧
    (∀ (now : Time),
      OrderSvc.MarkOrderAsPaid OrderSvc.mockOrderRepository.impl
          OrderSvc.mockEventDispatcher.impl now id (OrderSvc.mockOrderRepository.Delete id m).2 d
        = (some .ErrOrderNotFound, (OrderSvc.mockOrderRepository.Delete id m).2, d)) ∧
    (∀ (now : Time) (reason : String),
      OrderSvc.CancelOrder OrderSvc.mockOrderRepository.impl
          OrderSvc.mockEventDispatcher.impl now id reason
          (OrderSvc.mockOrderRepository.Delete id m).2 d
        = (some .ErrOrderNotFound, (OrderSvc.mockOrderRepository.Delete id m).2, d)) := by
  have hD : OrderSvc.mockOrderRepository.Delete id m
      = (none,
          { m with
            store := mapSet m.store id { o with DeletedAt := some (m.clock 0) }
            clock := fun n => m.clock (n + 1) }) := by
    unfold OrderSvc.mockOrderRepository.Delete
    rw [hget]
  have hF : OrderSvc.mockOrderRepository.Find id (OrderSvc.mockOrderRepository.Delete id m).2
      = (.error .ErrOrderNotFound, (OrderSvc.mockOrderRepository.Delete id m).2) := by
    rw [hD]
    unfold OrderSvc.mockOrderRepository.Find
    simp [mapGet_mapSet_self]
  refine ⟨?_, hD, ?_, ?_, hF, ?_, ?_, ?_, ?_, ?_⟩
  · intro id' h
    unfold OrderSvc.mockOrderRepository.Delete
    rw [h]
  · rw [hD]
    exact mapGet_mapSet_self _ _ _
  · intro id' hne
    rw [hD]
    exact mapGet_mapSet_of_ne _ _ hne
  · intro now productID priceCents hp
    have hp' : ¬ priceCents < 0 := by omega
    simp [OrderSvc.AddItemToOrder, hp', OrderSvc.mockOrderRepository.impl, hF]
  · intro now itemID
    simp [OrderSvc.RemoveItemFromOrder, OrderSvc.mockOrderRepository.impl, hF]
  · intro now
    simp [OrderSvc.SubmitOrderForPayment, OrderSvc.mockOrderRepository.impl, hF]
  · intro now
    simp [OrderSvc.MarkOrderAsPaid, OrderSvc.mockOrderRepository.impl, hF]
  · intro now reason
    simp [OrderSvc.CancelOrder, OrderSvc.mockOrderRepository.impl, hF]

/-- C22 on the store holding the `Paid` order 10: after `Delete(10)` the order is stored with
the deletion time 0 and its other fields, and `Find(10)` returns `ErrOrderNotFound`. -/
theorem C22_deleted_order_witness :
    mapGet (OrderSvc.mockOrderRepository.Delete 10 OrderSvc.samplePaidStore).2.store 10
      = some { OrderSvc.samplePaidOrder with DeletedAt := some (OrderSvc.samplePaidStore.clock 0) } ∧
    OrderSvc.mockOrderRepository.Find 10
        (OrderSvc.mockOrderRepository.Delete 10 OrderSvc.samplePaidStore).2
      = (.error .ErrOrderNotFound,
          (OrderSvc.mockOrderRepository.Delete 10 OrderSvc.samplePaidStore).2) :=
  ⟨(C22_deleted_order_is_kept_and_not_found OrderSvc.samplePaidStore
      OrderSvc.mockEventDispatcher.new 10 OrderSvc.samplePaidOrder (by decide)).2.2.1,
   (C22_deleted_order_is_kept_and_not_found OrderSvc.samplePaidStore
      OrderSvc.mockEventDispatcher.new 10 OrderSvc.samplePaidOrder (by decide)).2.2.2.2.1⟩

/-! ## C23: `Create` of an identifier that is present -/

/-- C23 as stated fails for the product store: the store holds the laptop under the
identifier 10; `Create` of another product with the identifier 10 returns success and the
entry under 10 is that other product. -/
theorem C23_product_create_replaces_present_product :
    mapGet ProductSvc.sampleLaptopStore.store 10 = some ProductSvc.sampleLaptop ∧
    ProductSvc.sampleOtherProduct.ID = 10 ∧
    (ProductSvc.mockProductRepository.Create ProductSvc.sampleOtherProduct
      ProductSvc.sampleLaptopStore).1 = none ∧
    mapGet (ProductSvc.mockProductRepository.Create ProductSvc.sampleOtherProduct
      ProductSvc.sampleLaptopStore).2.store 10 = some ProductSvc.sampleOtherProduct ∧
    ProductSvc.sampleOtherProduct ≠ ProductSvc.sampleLaptop := by
  decide

/-- C23, amended.  In the in-memory order store `Create`, and in the in-memory wallet store
`CreateWallet`, of an aggregate whose identifier has an entry return an error and leave the
store as it was; when the identifier has no entry they return success and file the aggregate
under its identifier (the wallet also under the identifier of its user).  In the in-memory
product store `Create` makes no such check: it always returns success and files the product
under its identifier, in place of what was filed there. -/
theorem C23_create_of_present_and_absent_identifier :
    (∀ (m : OrderSvc.mockOrderRepository) (o x : OrderSvc.Order),
      mapGet m.store o.ID = some x →
      OrderSvc.mockOrderRepository.Create o m
        = (some (.other "order with this ID already exists"), m)) ∧
    (∀ (m : OrderSvc.mockOrderRepository) (o : OrderSvc.Order),
      mapGet m.store o.ID = none →
      OrderSvc.mockOrderRepository.Create o m
          = (none, { m with store := mapSet m.store o.ID o }) ∧
        mapGet (OrderSvc.mockOrderRepository.Create o m).2.store o.ID = some o) ∧
    (∀ (m : PaymentSvc.mockPaymentRepository) (w x : PaymentSvc.Wallet),
      mapGet m.storeWallets w.ID = some x →
      PaymentSvc.mockPaymentRepository.CreateWallet w m
        = (some (.other "wallet already exists"), m)) ∧
    (∀ (m : PaymentSvc.mockPaymentRepository) (w : PaymentSvc.Wallet),
      mapGet m.storeWallets w.ID = none →
      PaymentSvc.mockPaymentRepository.CreateWallet w m
          = (none, { m with storeWallets := mapSet (mapSet m.storeWallets w.ID w) w.UserID w }) ∧
        mapGet (PaymentSvc.mockPaymentRepository.CreateWallet w m).2.storeWallets w.ID
          = some w ∧
        mapGet (PaymentSvc.mockPaymentRepository.CreateWallet w m).2.storeWallets w.UserID
          = some w) ∧
    (∀ (m : ProductSvc.mockProductRepository) (p : ProductSvc.Product),
      ProductSvc.mockProductRepository.Create p m
          = (none, { m with store := mapSet m.store p.ID p }) ∧
        mapGet (ProductSvc.mockProductRepository.Create p m).2.store p.ID = some p) := by
  refine ⟨?_, ?_, ?_, ?_, ?_⟩
  · intro m o x h
    unfold OrderSvc.mockOrderRepository.Create
    rw [h]
  · intro m o h
    have hC : OrderSvc.mockOrderRepository.Create o m
        = (none, { m with store := mapSet m.store o.ID o }) := by
      unfold OrderSvc.mockOrderRepository.Create
      rw [h]
    exact ⟨hC, by rw [hC]; exact mapGet_mapSet_self _ _ _⟩
  · intro m w x h
    unfold PaymentSvc.mockPaymentRepository.CreateWallet
    rw [h]
  · intro m w h
    have hC : PaymentSvc.mockPaymentRepository.CreateWallet w m
        = (none, { m with storeWallets := mapSet (mapSet m.storeWallets w.ID w) w.UserID w }) := by
      unfold PaymentSvc.mockPaymentRepository.CreateWallet
      rw [h]
    refine ⟨hC, ?_, ?_⟩
    · rw [hC]
      by_cases hk : w.ID = w.UserID
      · rw [← hk]
        exact mapGet_mapSet_self _ _ _
      · show mapGet (mapSet (mapSet m.storeWallets w.ID w) w.UserID w) w.ID = some w
        rw [mapGet_mapSet_of_ne _ _ hk]
        exact mapGet_mapSet_self _ _ _
    · rw [hC]
      exact mapGet_mapSet_self _ _ _
  · intro m p
    exact ⟨rfl, mapGet_mapSet_self _ _ _⟩

/-- C23 on the order store holding the order 10: `Create` of an order with the identifier 10
is refused and the store stays as it is. -/
theorem C23_create_witness :
    OrderSvc.mockOrderRepository.Create OrderSvc.samplePendingOrder OrderSvc.samplePaidStore
      = (some (.other "order with this ID already exists"), OrderSvc.samplePaidStore) :=
  C23_create_of_present_and_absent_identifier.1 OrderSvc.samplePaidStore
    OrderSvc.samplePendingOrder OrderSvc.samplePaidOrder (by decide)

/-! ## The in-memory product store: what a call changes -/

theorem ProductSvc.mockProductRepository.Update_store_cases_product (p : ProductSvc.Product)
    (m : ProductSvc.mockProductRepository) :
    (ProductSvc.mockProductRepository.Update p m).2.store = m.store ∨
    (ProductSvc.mockProductRepository.Update p m).2.store = mapSet m.store p.ID p := by
  rw [ProductSvc.mockProductRepository.Update_store_product]
  split
  · exact Or.inr rfl
  · exact Or.inl rfl

theorem ProductSvc.mockProductRepository.Find_ok_product {id : UUID}
    {m : ProductSvc.mockProductRepository} {p : ProductSvc.Product}
    (h : (ProductSvc.mockProductRepository.Find id m).1 = .ok p) :
    mapGet m.store id = some p := by
  unfold ProductSvc.mockProductRepository.Find at h
  split at h
  · next p' hp =>
    simp only [Except.ok.injEq] at h
    subst h
    exact hp
  · simp at h

/-- What `changeStock` does to the map of the in-memory store. -/
theorem ProductSvc.changeStock_store_cases (now : Time) (productID : UUID) (amount : Int)
    (m : ProductSvc.mockProductRepository) (d : ProductSvc.mockEventDispatcher) :
    (ProductSvc.changeStock ProductSvc.mockProductRepository.impl
      ProductSvc.mockEventDispatcher.impl now productID amount m d).2.1.store = m.store ∨
    (∃ (p p' : ProductSvc.Product),
      (ProductSvc.mockProductRepository.Find productID m).1 = .ok p ∧ p.Status = .Available ∧
      p'.ID = p.ID ∧ p'.Status = p.Status ∧ p'.PriceCents = p.PriceCents ∧
      0 ≤ p'.StockQuantity ∧
      (ProductSvc.changeStock ProductSvc.mockProductRepository.impl
        ProductSvc.mockEventDispatcher.impl now productID amount m d).2.1.store
          = mapSet m.store p'.ID p') := by
  unfold ProductSvc.changeStock
  simp only [ProductSvc.mockProductRepository.impl,
    ProductSvc.mockProductRepository.Find_state_product]
  cases hF : (ProductSvc.mockProductRepository.Find productID m).1 with
  | error err => exact Or.inl rfl
  | ok p =>
    simp only []
    split
    · exact Or.inl rfl
    · next hs =>
      have hs' : p.Status = .Available := by simpa using hs
      split
      · exact Or.inl rfl
      · next hlt =>
        simp only [ProductSvc.updateProduct]
        rcases ProductSvc.mockProductRepository.Update_store_cases_product
          { p with StockQuantity := wrap64 (p.StockQuantity + amount),
                   Version := p.Version + 1, UpdatedAt := now } m with h | h
        · refine Or.inl ?_
          split <;> exact h
        · refine Or.inr ⟨p,
            { p with StockQuantity := wrap64 (p.StockQuantity + amount),
                     Version := p.Version + 1, UpdatedAt := now },
            rfl, hs', rfl, rfl, rfl, by simpa using hlt, ?_⟩
          split <;> exact h

/-- A call of the product service on the in-memory store leaves the map as it was, or files
a new `Available` product with price and stock `≥ 0` under the identifier the generator
issues, or replaces the product that `Find` returned for the identifier the call is
addressed to, which was not `Archived`, by a product with the same identifier whose status
is the same or `Archived` and whose price and stock are `≥ 0` where they differ. -/
theorem ProductSvc.exec_store_cases_product (c : ProductSvc.Cmd)
    (m : ProductSvc.mockProductRepository) (d : ProductSvc.mockEventDispatcher) :
    (ProductSvc.exec ProductSvc.mockProductRepository.impl ProductSvc.mockEventDispatcher.impl
      c m d).2.1.store = m.store ∨
    (∃ p' : ProductSvc.Product, c.target = none ∧ p'.ID = m.uuids 0 ∧
      p'.Status = .Available ∧ 0 ≤ p'.PriceCents ∧ 0 ≤ p'.StockQuantity ∧
      (ProductSvc.exec ProductSvc.mockProductRepository.impl ProductSvc.mockEventDispatcher.impl
        c m d).2.1.store = mapSet m.store p'.ID p') ∨
    (∃ (productID : UUID) (p p' : ProductSvc.Product), c.target = some productID ∧
      (ProductSvc.mockProductRepository.Find productID m).1 = .ok p ∧
      p.Status ≠ .Archived ∧ p'.ID = p.ID ∧
      (p'.Status = p.Status ∨ p'.Status = .Archived) ∧
      (p'.PriceCents = p.PriceCents ∨ 0 ≤ p'.PriceCents) ∧
      (p'.StockQuantity = p.StockQuantity ∨ 0 ≤ p'.StockQuantity) ∧
      (ProductSvc.exec ProductSvc.mockProductRepository.impl ProductSvc.mockEventDispatcher.impl
        c m d).2.1.store = mapSet m.store p'.ID p') := by
  have hstock : ∀ (now : Time) (productID : UUID) (amount : Int),
      (ProductSvc.changeStock ProductSvc.mockProductRepository.impl
        ProductSvc.mockEventDispatcher.impl now productID amount m d).2.1.store = m.store ∨
      (∃ (p p' : ProductSvc.Product),
        (ProductSvc.mockProductRepository.Find productID m).1 = .ok p ∧
        p.Status ≠ .Archived ∧ p'.ID = p.ID ∧
        (p'.Status = p.Status ∨ p'.Status = .Archived) ∧
        (p'.PriceCents = p.PriceCents ∨ 0 ≤ p'.PriceCents) ∧
        (p'.StockQuantity = p.StockQuantity ∨ 0 ≤ p'.StockQuantity) ∧
        (ProductSvc.changeStock ProductSvc.mockProductRepository.impl
          ProductSvc.mockEventDispatcher.impl now productID amount m d).2.1.store
            = mapSet m.store p'.ID p') := by
    intro now productID amount
    rcases ProductSvc.changeStock_store_cases now productID amount m d with h |
      ⟨p, p', hF, hs, hid, hst, hpr, hq, h⟩
    · exact Or.inl h
    · exact Or.inr ⟨p, p', hF, by simp [hs], hid, Or.inl hst, Or.inl hpr, Or.inr hq, h⟩
  cases c with
  | CreateProduct now name description priceCents initialStock =>
    simp only [ProductSvc.exec]
    unfold ProductSvc.CreateProduct
    split
    · exact Or.inl rfl
    · next hneg =>
      simp only [ProductSvc.mockProductRepository.impl, ProductSvc.mockProductRepository.NextID,
        ProductSvc.mockProductRepository.Create]
      have hp : 0 ≤ priceCents ∧ 0 ≤ initialStock := by
        constructor <;> (by_contra hc; exact hneg (by omega))
      exact Or.inr (Or.inl
        ⟨{ ID := m.uuids 0, Name := name, Description := description, PriceCents := priceCents,
           StockQuantity := initialStock, Status := .Available, Version := 1,
           CreatedAt := now, UpdatedAt := now }, rfl, rfl, rfl, hp.1, hp.2, rfl⟩)
  | ChangeProductPrice now productID newPriceCents =>
    simp only [ProductSvc.exec]
    unfold ProductSvc.ChangeProductPrice
    simp only [ProductSvc.mockProductRepository.impl,
      ProductSvc.mockProductRepository.Find_state_product]
    cases hF : (ProductSvc.mockProductRepository.Find productID m).1 with
    | error err => exact Or.inl rfl
    | ok p =>
      simp only []
      split
      · exact Or.inl rfl
      · next hs =>
        split
        · exact Or.inl rfl
        · next hp =>
          simp only [ProductSvc.updateProduct]
          rcases ProductSvc.mockProductRepository.Update_store_cases_product
            { p with PriceCents := newPriceCents, Version := p.Version + 1, UpdatedAt := now }
            m with h | h
          · refine Or.inl ?_
            split <;> exact h
          · refine Or.inr (Or.inr ⟨productID, p,
              { p with PriceCents := newPriceCents, Version := p.Version + 1,
                       UpdatedAt := now },
              rfl, hF, hs, rfl, Or.inl rfl, Or.inr (by simpa using hp), Or.inl rfl, ?_⟩)
            split <;> exact h
  | ReceiveStock now productID quantity =>
    simp only [ProductSvc.exec]
    unfold ProductSvc.ReceiveStock
    split
    · exact Or.inl rfl
    · rcases hstock now productID quantity with h | ⟨p, p', h⟩
      · exact Or.inl h
      · exact Or.inr (Or.inr ⟨productID, p, p', rfl, h⟩)
  | ReserveStock now productID quantity =>
    simp only [ProductSvc.exec]
    unfold ProductSvc.ReserveStock
    split
    · exact Or.inl rfl
    · rcases hstock now productID (wrap64 (-quantity)) with h | ⟨p, p', h⟩
      · exact Or.inl h
      · exact Or.inr (Or.inr ⟨productID, p, p', rfl, h⟩)
  | ArchiveProduct now productID =>
    simp only [ProductSvc.exec]
    unfold ProductSvc.ArchiveProduct
    simp only [ProductSvc.mockProductRepository.impl,
      ProductSvc.mockProductRepository.Find_state_product]
    cases hF : (ProductSvc.mockProductRepository.Find productID m).1 with
    | error err => exact Or.inl rfl
    | ok p =>
      simp only []
      split
      · exact Or.inl rfl
      · next hs =>
        simp only [ProductSvc.updateProduct]
        rcases ProductSvc.mockProductRepository.Update_store_cases_product
          { p with Status := .Archived, Version := p.Version + 1, UpdatedAt := now }
          m with h | h
        · refine Or.inl ?_
          split <;> exact h
        · refine Or.inr (Or.inr ⟨productID, p,
            { p with Status := .Archived, Version := p.Version + 1, UpdatedAt := now },
            rfl, hF, hs, rfl, Or.inr rfl, Or.inl rfl, Or.inl rfl, ?_⟩)
          split <;> exact h

/-- Every call of the product service keeps the entries of the in-memory store filed under
the identifier of their product, with price and stock `≥ 0` and a status that is `Available`
or `Archived`. -/
theorem ProductSvc.WellFormed_exec (c : ProductSvc.Cmd) (m : ProductSvc.mockProductRepository)
    (d : ProductSvc.mockEventDispatcher)
    (h : ProductSvc.KeyedByID m.store ∧ ∀ e ∈ m.store, ProductSvc.WellFormed e.2) :
    ProductSvc.KeyedByID (ProductSvc.exec ProductSvc.mockProductRepository.impl
      ProductSvc.mockEventDispatcher.impl c m d).2.1.store ∧
    ∀ e ∈ (ProductSvc.exec ProductSvc.mockProductRepository.impl
      ProductSvc.mockEventDispatcher.impl c m d).2.1.store, ProductSvc.WellFormed e.2 := by
  rcases ProductSvc.exec_store_cases_product c m d with hs | ⟨p', _, _, hst, hpr, hq, hs⟩ |
    ⟨productID, p, p', _, hF, _, _, hst, hpr, hq, hs⟩
  · rw [hs]
    exact h
  · rw [hs]
    constructor
    · intro e he
      rcases mem_mapSet he with he | he
      · exact h.1 e he
      · subst he
        rfl
    · intro e he
      rcases mem_mapSet he with he | he
      · exact h.2 e he
      · subst he
        exact ⟨hpr, hq, Or.inl hst⟩
  · rw [hs]
    have hp : ProductSvc.WellFormed p :=
      h.2 _ (mem_of_mapGet (ProductSvc.mockProductRepository.Find_ok_product hF))
    constructor
    · intro e he
      rcases mem_mapSet he with he | he
      · exact h.1 e he
      · subst he
        rfl
    · intro e he
      rcases mem_mapSet he with he | he
      · exact h.2 e he
      · subst he
        refine ⟨?_, ?_, ?_⟩
        · rcases hpr with h' | h'
          · rw [h']
            exact hp.1
          · exact h'
        · rcases hq with h' | h'
          · rw [h']
            exact hp.2.1
          · exact h'
        · rcases hst with h' | h'
          · rw [h']
            exact hp.2.2
          · exact Or.inr h'

/-- In every store reached from the empty one the products are filed under their identifier,
their price and stock are `≥ 0` and their status is `Available` or `Archived`. -/
theorem ProductSvc.reached_store_product (uuids : Nat → UUID) (cs : List ProductSvc.Cmd) :
    ProductSvc.KeyedByID (ProductSvc.reached uuids cs).1.store ∧
    ∀ e ∈ (ProductSvc.reached uuids cs).1.store, ProductSvc.WellFormed e.2 := by
  unfold ProductSvc.reached
  generalize hm : ProductSvc.mockProductRepository.new uuids = m
  have h : ProductSvc.KeyedByID m.store ∧ ∀ e ∈ m.store, ProductSvc.WellFormed e.2 := by
    subst hm
    simp [ProductSvc.KeyedByID, ProductSvc.mockProductRepository.new]
  clear hm
  generalize ProductSvc.mockEventDispatcher.new = d
  induction cs generalizing m d with
  | nil => simpa [ProductSvc.run] using h
  | cons c rest ih =>
    simp only [ProductSvc.run]
    exact ih _ (ProductSvc.WellFormed_exec c m d h) _

/-- What a call does to a stored product of a store whose entries are filed under their
identifier: the product stays as it is, or the call is addressed to it and it was not
`Archived`, or the call creates a product and the generator issues its identifier again. -/
theorem ProductSvc.exec_stored_step_product (c : ProductSvc.Cmd)
    (m : ProductSvc.mockProductRepository) (d : ProductSvc.mockEventDispatcher)
    (hk : ProductSvc.KeyedByID m.store) (id : UUID) (p : ProductSvc.Product)
    (hget : mapGet m.store id = some p) :
    mapGet (ProductSvc.exec ProductSvc.mockProductRepository.impl
        ProductSvc.mockEventDispatcher.impl c m d).2.1.store id = some p ∨
    (c.target = some id ∧ p.Status ≠ .Archived) ∨
    (c.target = none ∧ m.uuids 0 = id) := by
  rcases ProductSvc.exec_store_cases_product c m d with hs | ⟨p', ht, hid, _, _, _, hs⟩ |
    ⟨productID, p₁, p₁', ht, hF, hna, hid, _, _, _, hs⟩
  · rw [hs]
    exact Or.inl hget
  · by_cases hne : id = m.uuids 0
    · exact Or.inr (Or.inr ⟨ht, hne.symm⟩)
    · rw [hs, hid, mapGet_mapSet_of_ne _ _ hne]
      exact Or.inl hget
  · have hg := ProductSvc.mockProductRepository.Find_ok_product hF
    have hkey : p₁.ID = productID := hk _ (mem_of_mapGet hg)
    by_cases hne : id = productID
    · subst hne
      rw [hg] at hget
      simp only [Option.some.injEq] at hget
      subst hget
      exact Or.inr (Or.inl ⟨ht, hna⟩)
    · rw [hs, hid, hkey, mapGet_mapSet_of_ne _ _ hne]
      exact Or.inl hget

theorem ProductSvc.mockProductRepository.Update_uuids (p : ProductSvc.Product)
    (m : ProductSvc.mockProductRepository) :
    (ProductSvc.mockProductRepository.Update p m).2.uuids = m.uuids := by
  unfold ProductSvc.mockProductRepository.Update
  split
  · rfl
  · split <;> rfl

/-- A call of the product service consumes at most the next identifier of the generator. -/
theorem ProductSvc.exec_uuids_product (c : ProductSvc.Cmd)
    (m : ProductSvc.mockProductRepository) (d : ProductSvc.mockEventDispatcher) :
    (ProductSvc.exec ProductSvc.mockProductRepository.impl ProductSvc.mockEventDispatcher.impl
      c m d).2.1.uuids = m.uuids ∨
    (ProductSvc.exec ProductSvc.mockProductRepository.impl ProductSvc.mockEventDispatcher.impl
      c m d).2.1.uuids = fun n => m.uuids (n + 1) := by
  cases c <;>
  simp only [ProductSvc.exec, ProductSvc.CreateProduct, ProductSvc.ChangeProductPrice,
    ProductSvc.ReceiveStock, ProductSvc.ReserveStock, ProductSvc.changeStock,
    ProductSvc.ArchiveProduct, ProductSvc.updateProduct, ProductSvc.mockProductRepository.impl,
    ProductSvc.mockProductRepository.Find_state_product,
    ProductSvc.mockProductRepository.NextID, ProductSvc.mockProductRepository.Create] <;>
  (repeat' split) <;>
  simp_all [ProductSvc.mockProductRepository.Update_uuids]

theorem ProductSvc.mockProductRepository.Find_of_stored_product
    (m : ProductSvc.mockProductRepository) (id : UUID) (p : ProductSvc.Product)
    (hget : mapGet m.store id = some p) :
    ProductSvc.mockProductRepository.Find id m = (.ok p, m) := by
  unfold ProductSvc.mockProductRepository.Find
  rw [hget]

theorem ProductSvc.mockProductRepository.Update_of_stored_product
    (m : ProductSvc.mockProductRepository) (id : UUID) (p p' : ProductSvc.Product)
    (hget : mapGet m.store id = some p) (hid : p'.ID = id)
    (hv : p'.Version = p.Version + 1) :
    ProductSvc.mockProductRepository.Update p' m
      = (none, { m with store := mapSet m.store id p' }) := by
  subst hid
  unfold ProductSvc.mockProductRepository.Update
  rw [hget]
  simp [hv]

theorem ProductSvc.changeStock_of_stored (m : ProductSvc.mockProductRepository)
    (d : ProductSvc.mockEventDispatcher) (now : Time) (id : UUID) (amount : Int)
    (p : ProductSvc.Product) (hk : ProductSvc.KeyedByID m.store)
    (hget : mapGet m.store id = some p) (hs : p.Status = .Available)
    (hq : 0 ≤ wrap64 (p.StockQuantity + amount)) :
    ProductSvc.changeStock ProductSvc.mockProductRepository.impl
        ProductSvc.mockEventDispatcher.impl now id amount m d
      = (none,
          { m with
            store := mapSet m.store id
              { p with StockQuantity := wrap64 (p.StockQuantity + amount),
                       Version := p.Version + 1, UpdatedAt := now } },
          { events := d.events ++
              [.ProductStockChanged id amount (wrap64 (p.StockQuantity + amount))] }) := by
  have hid : p.ID = id := hk _ (mem_of_mapGet hget)
  have hF := ProductSvc.mockProductRepository.Find_of_stored_product m id p hget
  have hU := ProductSvc.mockProductRepository.Update_of_stored_product m id p
    { p with StockQuantity := wrap64 (p.StockQuantity + amount),
             Version := p.Version + 1, UpdatedAt := now } hget hid rfl
  have hq' : ¬ wrap64 (p.StockQuantity + amount) < 0 := by omega
  simp only [hs] at hU
  simp [ProductSvc.changeStock, ProductSvc.mockProductRepository.impl, hF, hs, hq',
    ProductSvc.updateProduct, hU, ProductSvc.mockEventDispatcher.impl,
    ProductSvc.mockEventDispatcher.Dispatch]

theorem ProductSvc.changeStock_insufficient (m : ProductSvc.mockProductRepository)
    (d : ProductSvc.mockEventDispatcher) (now : Time) (id : UUID) (amount : Int)
    (p : ProductSvc.Product) (hget : mapGet m.store id = some p) (hs : p.Status = .Available)
    (hq : wrap64 (p.StockQuantity + amount) < 0) :
    ProductSvc.changeStock ProductSvc.mockProductRepository.impl
        ProductSvc.mockEventDispatcher.impl now id amount m d
      = (some .ErrInsufficientStock, m, d) := by
  have hF := ProductSvc.mockProductRepository.Find_of_stored_product m id p hget
  simp [ProductSvc.changeStock, ProductSvc.mockProductRepository.impl, hF, hs, hq]

theorem ProductSvc.changeStock_not_available (m : ProductSvc.mockProductRepository)
    (d : ProductSvc.mockEventDispatcher) (now : Time) (id : UUID) (amount : Int)
    (p : ProductSvc.Product) (hget : mapGet m.store id = some p) (hs : p.Status ≠ .Available) :
    ProductSvc.changeStock ProductSvc.mockProductRepository.impl
        ProductSvc.mockEventDispatcher.impl now id amount m d
      = (some .ErrProductNotAvailable, m, d) := by
  have hF := ProductSvc.mockProductRepository.Find_of_stored_product m id p hget
  simp [ProductSvc.changeStock, ProductSvc.mockProductRepository.impl, hF, hs]

theorem ProductSvc.ChangeProductPrice_of_stored (m : ProductSvc.mockProductRepository)
    (d : ProductSvc.mockEventDispatcher) (now : Time) (id : UUID) (newPriceCents : Int)
    (p : ProductSvc.Product) (hk : ProductSvc.KeyedByID m.store)
    (hget : mapGet m.store id = some p) (hs : p.Status ≠ .Archived)
    (hp : 0 ≤ newPriceCents) :
    ProductSvc.ChangeProductPrice ProductSvc.mockProductRepository.impl
        ProductSvc.mockEventDispatcher.impl now id newPriceCents m d
      = (none,
          { m with
            store := mapSet m.store id
              { p with PriceCents := newPriceCents, Version := p.Version + 1,
                       UpdatedAt := now } },
          { events := d.events ++ [.ProductPriceChanged id p.PriceCents newPriceCents] }) := by
  have hid : p.ID = id := hk _ (mem_of_mapGet hget)
  have hF := ProductSvc.mockProductRepository.Find_of_stored_product m id p hget
  have hU := ProductSvc.mockProductRepository.Update_of_stored_product m id p
    { p with PriceCents := newPriceCents, Version := p.Version + 1, UpdatedAt := now }
    hget hid rfl
  have hp' : ¬ newPriceCents < 0 := by omega
  simp [ProductSvc.ChangeProductPrice, ProductSvc.mockProductRepository.impl, hF, hs, hp',
    ProductSvc.updateProduct, hU, ProductSvc.mockEventDispatcher.impl,
    ProductSvc.mockEventDispatcher.Dispatch]

theorem ProductSvc.ArchiveProduct_of_stored (m : ProductSvc.mockProductRepository)
    (d : ProductSvc.mockEventDispatcher) (now : Time) (id : UUID)
    (p : ProductSvc.Product) (hk : ProductSvc.KeyedByID m.store)
    (hget : mapGet m.store id = some p) (hs : p.Status ≠ .Archived) :
    ProductSvc.ArchiveProduct ProductSvc.mockProductRepository.impl
        ProductSvc.mockEventDispatcher.impl now id m d
      = (none,
          { m with
            store := mapSet m.store id
              { p with Status := .Archived, Version := p.Version + 1, UpdatedAt := now } },
          { events := d.events ++ [.ProductArchived id] }) := by
  have hid : p.ID = id := hk _ (mem_of_mapGet hget)
  have hF := ProductSvc.mockProductRepository.Find_of_stored_product m id p hget
  have hU := ProductSvc.mockProductRepository.Update_of_stored_product m id p
    { p with Status := .Archived, Version := p.Version + 1, UpdatedAt := now } hget hid rfl
  simp [ProductSvc.ArchiveProduct, ProductSvc.mockProductRepository.impl, hF, hs,
    ProductSvc.updateProduct, hU, ProductSvc.mockEventDispatcher.impl,
    ProductSvc.mockEventDispatcher.Dispatch]

/-- A call addressed to a stored `Archived` product leaves the in-memory store and the
dispatcher as they were. -/
theorem ProductSvc.exec_on_archived (c : ProductSvc.Cmd) (m : ProductSvc.mockProductRepository)
    (d : ProductSvc.mockEventDispatcher) (id : UUID) (p : ProductSvc.Product)
    (hget : mapGet m.store id = some p) (hs : p.Status = .Archived)
    (ht : c.target = some id) :
    (ProductSvc.exec ProductSvc.mockProductRepository.impl ProductSvc.mockEventDispatcher.impl
      c m d).2 = (m, d) := by
  have hF := ProductSvc.mockProductRepository.Find_of_stored_product m id p hget
  have hna : p.Status ≠ .Available := by simp [hs]
  cases c with
  | CreateProduct now name description priceCents initialStock =>
    simp [ProductSvc.Cmd.target] at ht
  | ChangeProductPrice now productID newPriceCents =>
    simp only [ProductSvc.Cmd.target, Option.some.injEq] at ht
    subst ht
    simp [ProductSvc.exec, ProductSvc.ChangeProductPrice, ProductSvc.mockProductRepository.impl,
      hF, hs]
  | ReceiveStock now productID quantity =>
    simp only [ProductSvc.Cmd.target, Option.some.injEq] at ht
    subst ht
    simp only [ProductSvc.exec, ProductSvc.ReceiveStock]
    split
    · rfl
    · rw [ProductSvc.changeStock_not_available m d now productID quantity p hget hna]
  | ReserveStock now productID quantity =>
    simp only [ProductSvc.Cmd.target, Option.some.injEq] at ht
    subst ht
    simp only [ProductSvc.exec, ProductSvc.ReserveStock]
    split
    · rfl
    · rw [ProductSvc.changeStock_not_available m d now productID _ p hget hna]
  | ArchiveProduct now productID =>
    simp only [ProductSvc.Cmd.target, Option.some.injEq] at ht
    subst ht
    simp [ProductSvc.exec, ProductSvc.ArchiveProduct, ProductSvc.mockProductRepository.impl,
      hF, hs]

/-! ## C24: receiving and reserving stock -/

/-- C24 as stated fails: a product is created with stock `2^63 - 1`, the largest `int`, and
is stored `Available`.  `ReceiveStock` of 1 does not succeed: it returns
`ErrInsufficientStock`, and stock, version and events stay as they were. -/
theorem C24_receive_stock_fails_when_the_sum_overflows :
    (mapGet ProductSvc.sampleFullStock.1.store 10).map
        (fun p => (p.Status, p.StockQuantity, p.Version))
      = some (.Available, 2 ^ 63 - 1, 1) ∧
    ProductSvc.sampleFullReceive.1 = some .ErrInsufficientStock ∧
    (mapGet ProductSvc.sampleFullReceive.2.1.store 10).map
        (fun p => (p.StockQuantity, p.Version))
      = some (2 ^ 63 - 1, 1) ∧
    ProductSvc.sampleFullReceive.2.2.events = ProductSvc.sampleFullStock.2.events := by
  decide

/-- C24, amended.  In every in-memory store reached from the empty one by calls of the
product service, for every stored product `p` in status `Available` with stock `s` and
version `v` and every quantity `q > 0` (`s` and `q` Go `int`s, so below `2^63`):
`ReceiveStock(q)` with `s + q < 2^63` succeeds and stores stock `s + q`; with `s + q ≥ 2^63`
the sum wraps below 0 and the call returns `ErrInsufficientStock`, store and dispatcher as
they were; `ReserveStock(q)` with `q ≤ s` succeeds and stores stock `s - q`.  In both
successful cases the stored product is `p` with that stock, version `v + 1` and the update
time set (price and status as they were), and exactly one event is dispatched,
`ProductStockChanged` with `ChangeAmount` `q`, respectively `-q`, and `NewQuantity` the
stock stored. -/
theorem C24_stock_change_of_an_available_product (uuids : Nat → UUID)
    (cs : List ProductSvc.Cmd) (now : Time) (id : UUID) (p : ProductSvc.Product) (q : Int)
    (hget : mapGet (ProductSvc.reached uuids cs).1.store id = some p)
    (hs : p.Status = .Available) (hq : 0 < q) (hqmax : q < 2 ^ 63)
    (hsmax : p.StockQuantity < 2 ^ 63) :
    (p.StockQuantity + q < 2 ^ 63 →
      ProductSvc.ReceiveStock ProductSvc.mockProductRepository.impl
          ProductSvc.mockEventDispatcher.impl now id q (ProductSvc.reached uuids cs).1
          (ProductSvc.reached uuids cs).2
        = (none,
            { (ProductSvc.reached uuids cs).1 with
              store := mapSet (ProductSvc.reached uuids cs).1.store id
                { p with StockQuantity := p.StockQuantity + q, Version := p.Version + 1,
                         UpdatedAt := now } },
            { events := (ProductSvc.reached uuids cs).2.events ++
                [.ProductStockChanged id q (p.StockQuantity + q)] })) ∧
    (2 ^ 63 ≤ p.StockQuantity + q →
      ProductSvc.ReceiveStock ProductSvc.mockProductRepository.impl
          ProductSvc.mockEventDispatcher.impl now id q (ProductSvc.reached uuids cs).1
          (ProductSvc.reached uuids cs).2
        = (some .ErrInsufficientStock, (ProductSvc.reached uuids cs).1,
            (ProductSvc.reached uuids cs).2)) ∧
    (q ≤ p.StockQuantity →
      ProductSvc.ReserveStock ProductSvc.mockProductRepository.impl
          ProductSvc.mockEventDispatcher.impl now id q (ProductSvc.reached uuids cs).1
          (ProductSvc.reached uuids cs).2
        = (none,
            { (ProductSvc.reached uuids cs).1 with
              store := mapSet (ProductSvc.reached uuids cs).1.store id
                { p with StockQuantity := p.StockQuantity - q, Version := p.Version + 1,
                         UpdatedAt := now } },
            { events := (ProductSvc.reached uuids cs).2.events ++
                [.ProductStockChanged id (-q) (p.StockQuantity - q)] })) := by
  obtain ⟨hk, hwf⟩ := ProductSvc.reached_store_product uuids cs
  have h0 : 0 ≤ p.StockQuantity := (hwf _ (mem_of_mapGet hget)).2.1
  have hq' : ¬ q ≤ 0 := by omega
  refine ⟨fun hlt => ?_, fun hge => ?_, fun hle => ?_⟩
  · have hw : wrap64 (p.StockQuantity + q) = p.StockQuantity + q :=
      wrap64_of_inRange (by omega) hlt
    have := ProductSvc.changeStock_of_stored _ (ProductSvc.reached uuids cs).2 now id q p hk
      hget hs (by rw [hw]; omega)
    rw [hw] at this
    simp only [ProductSvc.ReceiveStock, if_neg hq']
    exact this
  · have hw : wrap64 (p.StockQuantity + q) < 0 := by
      unfold wrap64
      omega
    simp only [ProductSvc.ReceiveStock, if_neg hq']
    exact ProductSvc.changeStock_insufficient _ _ now id q p hget hs hw
  · have hn : wrap64 (-q) = -q := wrap64_of_inRange (by omega) (by omega)
    have hw : wrap64 (p.StockQuantity + -q) = p.StockQuantity - q := by
      rw [wrap64_of_inRange (by omega) (by omega)]
      omega
    have := ProductSvc.changeStock_of_stored _ (ProductSvc.reached uuids cs).2 now id (-q) p hk
      hget hs (by rw [hw]; omega)
    rw [hw] at this
    simp only [ProductSvc.ReserveStock, if_neg hq', hn]
    exact this

/-- C24 on the test: the laptop is created with stock 10 at version 1; `ReserveStock(3)`
stores stock 7 at version 2 and dispatches `ProductStockChanged` with -3 and 7. -/
theorem C24_stock_change_witness :
    ProductSvc.ReserveStock ProductSvc.mockProductRepository.impl
        ProductSvc.mockEventDispatcher.impl 2 10 3
        (ProductSvc.reached (fun n => n + 10)
          [.CreateProduct 1 "Laptop" "Powerful laptop" 150000 10]).1
        (ProductSvc.reached (fun n => n + 10)
          [.CreateProduct 1 "Laptop" "Powerful laptop" 150000 10]).2
      = (none,
          { (ProductSvc.reached (fun n => n + 10)
              [.CreateProduct 1 "Laptop" "Powerful laptop" 150000 10]).1 with
            store := mapSet (ProductSvc.reached (fun n => n + 10)
                [.CreateProduct 1 "Laptop" "Powerful laptop" 150000 10]).1.store 10
              { ProductSvc.sampleNewLaptop with
                StockQuantity := ProductSvc.sampleNewLaptop.StockQuantity - 3,
                Version := ProductSvc.sampleNewLaptop.Version + 1, UpdatedAt := 2 } },
          { events := (ProductSvc.reached (fun n => n + 10)
              [.CreateProduct 1 "Laptop" "Powerful laptop" 150000 10]).2.events ++
              [.ProductStockChanged 10 (-3) (ProductSvc.sampleNewLaptop.StockQuantity - 3)] }) :=
  (C24_stock_change_of_an_available_product (fun n => n + 10)
    [.CreateProduct 1 "Laptop" "Powerful laptop" 150000 10] 2 10 ProductSvc.sampleNewLaptop 3
    (by decide) (by decide) (by decide) (by decide) (by decide)).2.2 (by decide)

/-! ## C25: a stock quantity that is not positive -/

/-- C25.  For every repository and dispatcher, every product identifier (whatever the
repository holds for it) and every quantity `≤ 0`, `ReceiveStock` and `ReserveStock` return
`ErrInvalidStockQuantity` and hand back the repository and the dispatcher in the state they
were given: no repository method has been called and nothing dispatched. -/
theorem C25_quantity_not_positive_is_rejected_before_any_call {σ δ : Type}
    (R : ProductSvc.ProductRepository σ) (D : ProductSvc.EventDispatcher δ) (now : Time)
    (productID : UUID) (quantity : Int) (s : σ) (d : δ) (h : quantity ≤ 0) :
    ProductSvc.ReceiveStock R D now productID quantity s d
      = (some .ErrInvalidStockQuantity, s, d) ∧
    ProductSvc.ReserveStock R D now productID quantity s d
      = (some .ErrInvalidStockQuantity, s, d) := by
  simp [ProductSvc.ReceiveStock, ProductSvc.ReserveStock, h]

/-- C25 on the test: `ReserveStock` of -5 on the store holding the laptop. -/
theorem C25_quantity_not_positive_witness :
    ProductSvc.ReserveStock ProductSvc.mockProductRepository.impl
        ProductSvc.mockEventDispatcher.impl 3 10 (-5) ProductSvc.sampleLaptopStore
        ProductSvc.mockEventDispatcher.new
      = (some .ErrInvalidStockQuantity, ProductSvc.sampleLaptopStore,
          ProductSvc.mockEventDispatcher.new) :=
  (C25_quantity_not_positive_is_rejected_before_any_call ProductSvc.mockProductRepository.impl
    ProductSvc.mockEventDispatcher.impl 3 10 (-5) ProductSvc.sampleLaptopStore
    ProductSvc.mockEventDispatcher.new (by decide)).2

/-! ## C26: price and stock are never negative -/

/-- C26.  Starting from the empty in-memory product store, after every sequence of
`CreateProduct`, `ChangeProductPrice`, `ReceiveStock`, `ReserveStock` and `ArchiveProduct`
calls with arbitrary arguments (stock arithmetic wrapping at 64 bits), every stored product
has `PriceCents ≥ 0` and `StockQuantity ≥ 0`. -/
theorem C26_price_and_stock_are_never_negative (uuids : Nat → UUID)
    (cs : List ProductSvc.Cmd) :
    ∀ e ∈ (ProductSvc.reached uuids cs).1.store, 0 ≤ e.2.PriceCents ∧ 0 ≤ e.2.StockQuantity :=
  fun e he =>
    ⟨((ProductSvc.reached_store_product uuids cs).2 e he).1,
     ((ProductSvc.reached_store_product uuids cs).2 e he).2.1⟩

/-- C26 on the test scenario: after the laptop is created with stock 10 and 3 are reserved,
the stored laptop has price 150000 and stock 7. -/
theorem C26_price_and_stock_witness :
    (10, ProductSvc.sampleLaptop) ∈
      (ProductSvc.reached (fun n => n + 10) ProductSvc.sampleCalls).1.store ∧
    0 ≤ ProductSvc.sampleLaptop.PriceCents ∧ 0 ≤ ProductSvc.sampleLaptop.StockQuantity :=
  ⟨by decide, C26_price_and_stock_are_never_negative (fun n => n + 10) ProductSvc.sampleCalls
    (10, ProductSvc.sampleLaptop) (by decide)⟩

/-! ## C27: creating a product -/

/-- C27.  For every repository and dispatcher, `CreateProduct` with a negative price or a
negative initial stock returns an error and hands back repository and dispatcher as they
were given: nothing is created and nothing dispatched.  Otherwise, when `NextID` and
`Create` of the repository succeed, it returns the product with the generated identifier,
the given name, description, price and stock, status `Available` and version 1, has passed
that product to `Create`, and has dispatched exactly one event, `ProductCreated`.  On the
in-memory store both always succeed: the product is returned and filed under its
identifier. -/
theorem C27_create_product :
    (∀ (σ δ : Type) (R : ProductSvc.ProductRepository σ) (D : ProductSvc.EventDispatcher δ)
        (now : Time) (name description : String) (priceCents initialStock : Int)
        (s : σ) (d : δ), priceCents < 0 ∨ initialStock < 0 →
        ProductSvc.CreateProduct R D now name description priceCents initialStock s d
          = (.error (.other "price and stock cannot be negative"), s, d)) ∧
    (∀ (σ δ : Type) (R : ProductSvc.ProductRepository σ) (D : ProductSvc.EventDispatcher δ)
        (now : Time) (name description : String) (priceCents initialStock : Int)
        (s : σ) (d : δ) (id : UUID), 0 ≤ priceCents → 0 ≤ initialStock →
        (R.NextID s).1 = .ok id →
        (R.Create
          { ID := id, Name := name, Description := description, PriceCents := priceCents,
            StockQuantity := initialStock, Status := .Available, Version := 1,
            CreatedAt := now, UpdatedAt := now } (R.NextID s).2).1 = none →
        ProductSvc.CreateProduct R D now name description priceCents initialStock s d
          = (.ok
              { ID := id, Name := name, Description := description, PriceCents := priceCents,
                StockQuantity := initialStock, Status := .Available, Version := 1,
                CreatedAt := now, UpdatedAt := now },
             (R.Create
              { ID := id, Name := name, Description := description, PriceCents := priceCents,
                StockQuantity := initialStock, Status := .Available, Version := 1,
                CreatedAt := now, UpdatedAt := now } (R.NextID s).2).2,
             (D.Dispatch (.ProductCreated id name) d).2)) ∧
    (∀ (m : ProductSvc.mockProductRepository) (d : ProductSvc.mockEventDispatcher)
        (now : Time) (name description : String) (priceCents initialStock : Int),
        0 ≤ priceCents → 0 ≤ initialStock →
        ProductSvc.CreateProduct ProductSvc.mockProductRepository.impl
            ProductSvc.mockEventDispatcher.impl now name description priceCents initialStock m d
          = (.ok
              { ID := m.uuids 0, Name := name, Description := description,
                PriceCents := priceCents, StockQuantity := initialStock, Status := .Available,
                Version := 1, CreatedAt := now, UpdatedAt := now },
             { store := mapSet m.store (m.uuids 0)
                { ID := m.uuids 0, Name := name, Description := description,
                  PriceCents := priceCents, StockQuantity := initialStock,
                  Status := .Available, Version := 1, CreatedAt := now, UpdatedAt := now }
               uuids := fun n => m.uuids (n + 1) },
             { events := d.events ++ [.ProductCreated (m.uuids 0) name] }) ∧
        mapGet (ProductSvc.CreateProduct ProductSvc.mockProductRepository.impl
            ProductSvc.mockEventDispatcher.impl now name description priceCents initialStock
            m d).2.1.store (m.uuids 0)
          = some
              { ID := m.uuids 0, Name := name, Description := description,
                PriceCents := priceCents, StockQuantity := initialStock, Status := .Available,
                Version := 1, CreatedAt := now, UpdatedAt := now }) := by
  refine ⟨?_, ?_, ?_⟩
  · intro σ δ R D now name description priceCents initialStock s d h
    simp [ProductSvc.CreateProduct, h]
  · intro σ δ R D now name description priceCents initialStock s d id hp hq hN hC
    have h : ¬ (priceCents < 0 ∨ initialStock < 0) := by omega
    simp [ProductSvc.CreateProduct, h, hN, hC]
  · intro m d now name description priceCents initialStock hp hq
    have h : ¬ (priceCents < 0 ∨ initialStock < 0) := by omega
    have hC : ProductSvc.CreateProduct ProductSvc.mockProductRepository.impl
        ProductSvc.mockEventDispatcher.impl now name description priceCents initialStock m d
      = (.ok
          { ID := m.uuids 0, Name := name, Description := description,
            PriceCents := priceCents, StockQuantity := initialStock, Status := .Available,
            Version := 1, CreatedAt := now, UpdatedAt := now },
         { store := mapSet m.store (m.uuids 0)
            { ID := m.uuids 0, Name := name, Description := description,
              PriceCents := priceCents, StockQuantity := initialStock,
              Status := .Available, Version := 1, CreatedAt := now, UpdatedAt := now }
           uuids := fun n => m.uuids (n + 1) },
         { events := d.events ++ [.ProductCreated (m.uuids 0) name] }) := by
      simp [ProductSvc.CreateProduct, h, ProductSvc.mockProductRepository.impl,
        ProductSvc.mockProductRepository.NextID, ProductSvc.mockProductRepository.Create,
        ProductSvc.mockEventDispatcher.impl, ProductSvc.mockEventDispatcher.Dispatch]
    refine ⟨hC, ?_⟩
    rw [hC]
    exact mapGet_mapSet_self _ _ _

/-- C27 on the test: `CreateProduct("Laptop", "Powerful laptop", 150000, 10)` on a new
store returns the laptop with stock 10 at version 1. -/
theorem C27_create_product_witness :
    (ProductSvc.CreateProduct ProductSvc.mockProductRepository.impl
        ProductSvc.mockEventDispatcher.impl 1 "Laptop" "Powerful laptop" 150000 10
        (ProductSvc.mockProductRepository.new (fun n => n + 10))
        ProductSvc.mockEventDispatcher.new).1
      = .ok
          { ID := (ProductSvc.mockProductRepository.new (fun n => n + 10)).uuids 0,
            Name := "Laptop", Description := "Powerful laptop", PriceCents := 150000,
            StockQuantity := 10, Status := .Available, Version := 1, CreatedAt := 1,
            UpdatedAt := 1 } :=
  congrArg Prod.fst (C27_create_product.2.2 (ProductSvc.mockProductRepository.new (fun n => n + 10))
    ProductSvc.mockEventDispatcher.new 1 "Laptop" "Powerful laptop" 150000 10
    (by decide) (by decide)).1

/-! ## C28: changing the price -/

/-- C28.  In every in-memory store reached from the empty one by calls of the product
service, for every stored product `p`: when `p` is `Archived`, `ChangeProductPrice` returns
`ErrProductNotAvailable` whatever the new price; when it is not and the new price is
negative, the call returns the error "price cannot be negative"; in both cases store and
dispatcher stay as they were.  Otherwise the call returns success, replaces the stored
product by `p` with the new price, version raised by one and the update time set (stock and
status as they were), and dispatches exactly one event, `ProductPriceChanged` with the price
stored before and the new price. -/
theorem C28_change_product_price (uuids : Nat → UUID) (cs : List ProductSvc.Cmd)
    (now : Time) (id : UUID) (p : ProductSvc.Product) (newPriceCents : Int)
    (hget : mapGet (ProductSvc.reached uuids cs).1.store id = some p) :
    (p.Status = .Archived →
      ProductSvc.ChangeProductPrice ProductSvc.mockProductRepository.impl
          ProductSvc.mockEventDispatcher.impl now id newPriceCents
          (ProductSvc.reached uuids cs).1 (ProductSvc.reached uuids cs).2
        = (some .ErrProductNotAvailable, (ProductSvc.reached uuids cs).1,
            (ProductSvc.reached uuids cs).2)) ∧
    (p.Status ≠ .Archived → newPriceCents < 0 →
      ProductSvc.ChangeProductPrice ProductSvc.mockProductRepository.impl
          ProductSvc.mockEventDispatcher.impl now id newPriceCents
          (ProductSvc.reached uuids cs).1 (ProductSvc.reached uuids cs).2
        = (some (.other "price cannot be negative"), (ProductSvc.reached uuids cs).1,
            (ProductSvc.reached uuids cs).2)) ∧
    (p.Status ≠ .Archived → 0 ≤ newPriceCents →
      ProductSvc.ChangeProductPrice ProductSvc.mockProductRepository.impl
          ProductSvc.mockEventDispatcher.impl now id newPriceCents
          (ProductSvc.reached uuids cs).1 (ProductSvc.reached uuids cs).2
        = (none,
            { (ProductSvc.reached uuids cs).1 with
              store := mapSet (ProductSvc.reached uuids cs).1.store id
                { p with PriceCents := newPriceCents, Version := p.Version + 1,
                         UpdatedAt := now } },
            { events := (ProductSvc.reached uuids cs).2.events ++
                [.ProductPriceChanged id p.PriceCents newPriceCents] })) := by
  obtain ⟨hk, _⟩ := ProductSvc.reached_store_product uuids cs
  have hF := ProductSvc.mockProductRepository.Find_of_stored_product _ id p hget
  refine ⟨fun hs => ?_, fun hs hp => ?_, fun hs hp => ?_⟩
  · simp [ProductSvc.ChangeProductPrice, ProductSvc.mockProductRepository.impl, hF, hs]
  · simp [ProductSvc.ChangeProductPrice, ProductSvc.mockProductRepository.impl, hF, hs, hp]
  · exact ProductSvc.ChangeProductPrice_of_stored _ _ now id newPriceCents p hk hget hs hp

/-- C28 on the laptop of the test, stored at price 150000 and version 1: the price 140000 is
stored at version 2 and `ProductPriceChanged` carries 150000 and 140000. -/
theorem C28_change_product_price_witness :
    ProductSvc.ChangeProductPrice ProductSvc.mockProductRepository.impl
        ProductSvc.mockEventDispatcher.impl 2 10 140000
        (ProductSvc.reached (fun n => n + 10)
          [.CreateProduct 1 "Laptop" "Powerful laptop" 150000 10]).1
        (ProductSvc.reached (fun n => n + 10)
          [.CreateProduct 1 "Laptop" "Powerful laptop" 150000 10]).2
      = (none,
          { (ProductSvc.reached (fun n => n + 10)
              [.CreateProduct 1 "Laptop" "Powerful laptop" 150000 10]).1 with
            store := mapSet (ProductSvc.reached (fun n => n + 10)
                [.CreateProduct 1 "Laptop" "Powerful laptop" 150000 10]).1.store 10
              { ProductSvc.sampleNewLaptop with
                PriceCents := 140000, Version := ProductSvc.sampleNewLaptop.Version + 1,
                UpdatedAt := 2 } },
          { events := (ProductSvc.reached (fun n => n + 10)
              [.CreateProduct 1 "Laptop" "Powerful laptop" 150000 10]).2.events ++
              [.ProductPriceChanged 10 ProductSvc.sampleNewLaptop.PriceCents 140000] }) :=
  (C28_change_product_price (fun n => n + 10)
    [.CreateProduct 1 "Laptop" "Powerful laptop" 150000 10] 2 10 ProductSvc.sampleNewLaptop
    140000 (by decide)).2.2 (by decide) (by decide)

/-! ## C29 and C30: archived products -/

/-- Repeating `ArchiveProduct` on a stored `Archived` product changes neither store nor
dispatcher. -/
theorem ProductSvc.run_archive_again (nows : List Time) (m : ProductSvc.mockProductRepository)
    (d : ProductSvc.mockEventDispatcher) (id : UUID) (p : ProductSvc.Product)
    (hget : mapGet m.store id = some p) (hs : p.Status = .Archived) :
    ProductSvc.run ProductSvc.mockProductRepository.impl ProductSvc.mockEventDispatcher.impl
      (nows.map (fun now => ProductSvc.Cmd.ArchiveProduct now id)) m d = (m, d) := by
  induction nows with
  | nil => rfl
  | cons now rest ih =>
    simp only [List.map_cons, ProductSvc.run]
    have h := ProductSvc.exec_on_archived (.ArchiveProduct now id) m d id p hget hs rfl
    have h₁ : (ProductSvc.exec ProductSvc.mockProductRepository.impl
        ProductSvc.mockEventDispatcher.impl (.ArchiveProduct now id) m d).2.1 = m :=
      congrArg Prod.fst h
    have h₂ : (ProductSvc.exec ProductSvc.mockProductRepository.impl
        ProductSvc.mockEventDispatcher.impl (.ArchiveProduct now id) m d).2.2 = d :=
      congrArg Prod.snd h
    rw [h₁, h₂]
    exact ih

/-- An `Archived` product of the in-memory store stays stored as it is over every sequence
of calls, as long as the generator does not issue its identifier again. -/
theorem ProductSvc.archived_kept_by_run (cs : List ProductSvc.Cmd)
    (m : ProductSvc.mockProductRepository) (d : ProductSvc.mockEventDispatcher) (id : UUID)
    (p : ProductSvc.Product)
    (hwf : ProductSvc.KeyedByID m.store ∧ ∀ e ∈ m.store, ProductSvc.WellFormed e.2)
    (hfresh : ∀ n, m.uuids n ≠ id) (hget : mapGet m.store id = some p)
    (hs : p.Status = .Archived) :
    mapGet (ProductSvc.run ProductSvc.mockProductRepository.impl
      ProductSvc.mockEventDispatcher.impl cs m d).1.store id = some p := by
  induction cs generalizing m d with
  | nil => simpa [ProductSvc.run] using hget
  | cons c rest ih =>
    simp only [ProductSvc.run]
    refine ih _ _ (ProductSvc.WellFormed_exec c m d hwf) ?_ ?_
    · rcases ProductSvc.exec_uuids_product c m d with h | h
      · rw [h]
        exact hfresh
      · rw [h]
        exact fun n => hfresh (n + 1)
    · rcases ProductSvc.exec_stored_step_product c m d hwf.1 id p hget with h | ⟨_, h⟩ | ⟨_, h⟩
      · exact h
      · exact absurd hs h
      · exact absurd h (hfresh 0)

/-- C29.  In every in-memory store reached from the empty one by calls of the product
service, for every stored product `p` that is not `Archived`: `ArchiveProduct` returns
success, replaces the stored product by `p` with status `Archived`, version raised by one and
the update time set, and dispatches exactly one event, `ProductArchived`.  Every further
`ArchiveProduct` on it returns success and leaves the store (so the stored product and its
version) and the dispatcher as they are, so that any number of further calls gives the state
of the first.  For every repository and dispatcher, `ArchiveProduct` on a product that `Find`
returns as `Archived` returns success with the repository in the state `Find` left it:
`Update` is not called. -/
theorem C29_archive_product_is_idempotent (uuids : Nat → UUID) (cs : List ProductSvc.Cmd)
    (now now' : Time) (nows : List Time) (id : UUID) (p : ProductSvc.Product)
    (hget : mapGet (ProductSvc.reached uuids cs).1.store id = some p)
    (hs : p.Status ≠ .Archived) :
    ProductSvc.ArchiveProduct ProductSvc.mockProductRepository.impl
        ProductSvc.mockEventDispatcher.impl now id (ProductSvc.reached uuids cs).1
        (ProductSvc.reached uuids cs).2
      = (none,
          { (ProductSvc.reached uuids cs).1 with
            store := mapSet (ProductSvc.reached uuids cs).1.store id
              { p with Status := .Archived, Version := p.Version + 1, UpdatedAt := now } },
          { events := (ProductSvc.reached uuids cs).2.events ++ [.ProductArchived id] }) ∧
    ProductSvc.ArchiveProduct ProductSvc.mockProductRepository.impl
        ProductSvc.mockEventDispatcher.impl now' id
        (ProductSvc.ArchiveProduct ProductSvc.mockProductRepository.impl
          ProductSvc.mockEventDispatcher.impl now id (ProductSvc.reached uuids cs).1
          (ProductSvc.reached uuids cs).2).2.1
        (ProductSvc.ArchiveProduct ProductSvc.mockProductRepository.impl
          ProductSvc.mockEventDispatcher.impl now id (ProductSvc.reached uuids cs).1
          (ProductSvc.reached uuids cs).2).2.2
      = (none,
          (ProductSvc.ArchiveProduct ProductSvc.mockProductRepository.impl
            ProductSvc.mockEventDispatcher.impl now id (ProductSvc.reached uuids cs).1
            (ProductSvc.reached uuids cs).2).2.1,
          (ProductSvc.ArchiveProduct ProductSvc.mockProductRepository.impl
            ProductSvc.mockEventDispatcher.impl now id (ProductSvc.reached uuids cs).1
            (ProductSvc.reached uuids cs).2).2.2) ∧
    ProductSvc.run ProductSvc.mockProductRepository.impl ProductSvc.mockEventDispatcher.impl
        (.ArchiveProduct now id :: nows.map (fun t => ProductSvc.Cmd.ArchiveProduct t id))
        (ProductSvc.reached uuids cs).1 (ProductSvc.reached uuids cs).2
      = ProductSvc.run ProductSvc.mockProductRepository.impl ProductSvc.mockEventDispatcher.impl
        [.ArchiveProduct now id] (ProductSvc.reached uuids cs).1
        (ProductSvc.reached uuids cs).2 ∧
    (∀ (σ δ : Type) (R : ProductSvc.ProductRepository σ) (D : ProductSvc.EventDispatcher δ)
        (s : σ) (x : δ) (p' : ProductSvc.Product),
        (R.Find id s).1 = .ok p' → p'.Status = .Archived →
        ProductSvc.ArchiveProduct R D now' id s x = (none, (R.Find id s).2, x)) := by
  obtain ⟨hk, _⟩ := ProductSvc.reached_store_product uuids cs
  have hA := ProductSvc.ArchiveProduct_of_stored _ (ProductSvc.reached uuids cs).2 now id p hk
    hget hs
  have hgen : ∀ (σ δ : Type) (R : ProductSvc.ProductRepository σ)
      (D : ProductSvc.EventDispatcher δ) (s : σ) (x : δ) (p' : ProductSvc.Product),
      (R.Find id s).1 = .ok p' → p'.Status = .Archived →
      ProductSvc.ArchiveProduct R D now' id s x = (none, (R.Find id s).2, x) := by
    intro σ δ R D s x p' hF hs'
    simp [ProductSvc.ArchiveProduct, hF, hs']
  have hget₁ : mapGet (ProductSvc.ArchiveProduct ProductSvc.mockProductRepository.impl
      ProductSvc.mockEventDispatcher.impl now id (ProductSvc.reached uuids cs).1
      (ProductSvc.reached uuids cs).2).2.1.store id
      = some { p with Status := .Archived, Version := p.Version + 1, UpdatedAt := now } := by
    rw [hA]
    exact mapGet_mapSet_self _ _ _
  refine ⟨hA, ?_, ?_, hgen⟩
  · have h := hgen _ _ ProductSvc.mockProductRepository.impl
      ProductSvc.mockEventDispatcher.impl
      (ProductSvc.ArchiveProduct ProductSvc.mockProductRepository.impl
        ProductSvc.mockEventDispatcher.impl now id (ProductSvc.reached uuids cs).1
        (ProductSvc.reached uuids cs).2).2.1
      (ProductSvc.ArchiveProduct ProductSvc.mockProductRepository.impl
        ProductSvc.mockEventDispatcher.impl now id (ProductSvc.reached uuids cs).1
        (ProductSvc.reached uuids cs).2).2.2 _
      (by
        show (ProductSvc.mockProductRepository.Find id _).1 = _
        rw [ProductSvc.mockProductRepository.Find_of_stored_product _ id _ hget₁])
      rfl
    rw [h]
    simp [ProductSvc.mockProductRepository.impl,
      ProductSvc.mockProductRepository.Find_state_product]
  · simp only [ProductSvc.run, ProductSvc.exec]
    exact ProductSvc.run_archive_again nows _ _ id _ hget₁ rfl

/-- C29 on the laptop of the test: archived at time 3 it is stored `Archived` at version 2
with one `ProductArchived` dispatched. -/
theorem C29_archive_product_witness :
    ProductSvc.ArchiveProduct ProductSvc.mockProductRepository.impl
        ProductSvc.mockEventDispatcher.impl 3 10
        (ProductSvc.reached (fun n => n + 10)
          [.CreateProduct 1 "Laptop" "Powerful laptop" 150000 10]).1
        (ProductSvc.reached (fun n => n + 10)
          [.CreateProduct 1 "Laptop" "Powerful laptop" 150000 10]).2
      = (none,
          { (ProductSvc.reached (fun n => n + 10)
              [.CreateProduct 1 "Laptop" "Powerful laptop" 150000 10]).1 with
            store := mapSet (ProductSvc.reached (fun n => n + 10)
                [.CreateProduct 1 "Laptop" "Powerful laptop" 150000 10]).1.store 10
              { ProductSvc.sampleNewLaptop with
                Status := .Archived, Version := ProductSvc.sampleNewLaptop.Version + 1,
                UpdatedAt := 3 } },
          { events := (ProductSvc.reached (fun n => n + 10)
              [.CreateProduct 1 "Laptop" "Powerful laptop" 150000 10]).2.events ++
              [.ProductArchived 10] }) :=
  (C29_archive_product_is_idempotent (fun n => n + 10)
    [.CreateProduct 1 "Laptop" "Powerful laptop" 150000 10] 3 4 [5, 6] 10
    ProductSvc.sampleNewLaptop (by decide) (by decide)).1

/-- C30.  Starting from the empty in-memory product store, after every sequence of calls of
the product service every stored product is `Available` or `Archived`.  For a stored
`Archived` product: every call addressed to it leaves the whole store and the dispatcher as
they were, so nothing is dispatched; `ReceiveStock` and `ReserveStock` with a quantity `> 0`
and `ChangeProductPrice` with any price return `ErrProductNotAvailable`; every call leaves the
stored product as it is, `CreateProduct` included unless the generator issues the
identifier of the product again; and so does every sequence of calls, as long as the
generator does not issue that identifier again. -/
theorem C30_archived_product_is_terminal (uuids : Nat → UUID) (cs : List ProductSvc.Cmd) :
    (∀ e ∈ (ProductSvc.reached uuids cs).1.store,
      e.2.Status = .Available ∨ e.2.Status = .Archived) ∧
    (∀ (id : UUID) (p : ProductSvc.Product),
      mapGet (ProductSvc.reached uuids cs).1.store id = some p → p.Status = .Archived →
      (∀ c : ProductSvc.Cmd, c.target = some id →
        (ProductSvc.exec ProductSvc.mockProductRepository.impl
          ProductSvc.mockEventDispatcher.impl c (ProductSvc.reached uuids cs).1
          (ProductSvc.reached uuids cs).2).2
            = ((ProductSvc.reached uuids cs).1, (ProductSvc.reached uuids cs).2)) ∧
      (∀ (now : Time) (q : Int), 0 < q →
        ProductSvc.ReceiveStock ProductSvc.mockProductRepository.impl
            ProductSvc.mockEventDispatcher.impl now id q (ProductSvc.reached uuids cs).1
            (ProductSvc.reached uuids cs).2
          = (some .ErrProductNotAvailable, (ProductSvc.reached uuids cs).1,
              (ProductSvc.reached uuids cs).2) ∧
        ProductSvc.ReserveStock ProductSvc.mockProductRepository.impl
            ProductSvc.mockEventDispatcher.impl now id q (ProductSvc.reached uuids cs).1
            (ProductSvc.reached uuids cs).2
          = (some .ErrProductNotAvailable, (ProductSvc.reached uuids cs).1,
              (ProductSvc.reached uuids cs).2)) ∧
      (∀ (now : Time) (newPriceCents : Int),
        ProductSvc.ChangeProductPrice ProductSvc.mockProductRepository.impl
            ProductSvc.mockEventDispatcher.impl now id newPriceCents
            (ProductSvc.reached uuids cs).1 (ProductSvc.reached uuids cs).2
          = (some .ErrProductNotAvailable, (ProductSvc.reached uuids cs).1,
              (ProductSvc.reached uuids cs).2)) ∧
      (∀ c : ProductSvc.Cmd,
        (c.target = none → (ProductSvc.reached uuids cs).1.uuids 0 ≠ id) →
        mapGet (ProductSvc.exec ProductSvc.mockProductRepository.impl
          ProductSvc.mockEventDispatcher.impl c (ProductSvc.reached uuids cs).1
          (ProductSvc.reached uuids cs).2).2.1.store id = some p) ∧
      (∀ cs' : List ProductSvc.Cmd, (∀ n, (ProductSvc.reached uuids cs).1.uuids n ≠ id) →
        mapGet (ProductSvc.run ProductSvc.mockProductRepository.impl
          ProductSvc.mockEventDispatcher.impl cs' (ProductSvc.reached uuids cs).1
          (ProductSvc.reached uuids cs).2).1.store id = some p)) := by
  have hwf := ProductSvc.reached_store_product uuids cs
  refine ⟨fun e he => (hwf.2 e he).2.2, ?_⟩
  intro id p hget hs
  have hna : p.Status ≠ .Available := by simp [hs]
  have hF := ProductSvc.mockProductRepository.Find_of_stored_product _ id p hget
  refine ⟨fun c ht => ProductSvc.exec_on_archived c _ _ id p hget hs ht, ?_, ?_, ?_, ?_⟩
  · intro now q hq
    have hq' : ¬ q ≤ 0 := by omega
    constructor
    · simp only [ProductSvc.ReceiveStock, if_neg hq']
      exact ProductSvc.changeStock_not_available _ _ now id q p hget hna
    · simp only [ProductSvc.ReserveStock, if_neg hq']
      exact ProductSvc.changeStock_not_available _ _ now id _ p hget hna
  · intro now newPriceCents
    simp [ProductSvc.ChangeProductPrice, ProductSvc.mockProductRepository.impl, hF, hs]
  · intro c hc
    rcases ProductSvc.exec_stored_step_product c _ (ProductSvc.reached uuids cs).2 hwf.1 id p
      hget with h | ⟨_, h⟩ | ⟨ht, h⟩
    · exact h
    · exact absurd hs h
    · exact absurd h (hc ht)
  · intro cs' hfresh
    exact ProductSvc.archived_kept_by_run cs' _ _ id p hwf hfresh hget hs

/-- C30 on the archived laptop of the test: `ReserveStock(3)` returns
`ErrProductNotAvailable`, store and dispatcher as they were. -/
theorem C30_archived_product_witness :
    ProductSvc.ReserveStock ProductSvc.mockProductRepository.impl
        ProductSvc.mockEventDispatcher.impl 4 10 3
        (ProductSvc.reached (fun n => n + 10) ProductSvc.sampleArchiveCalls).1
        (ProductSvc.reached (fun n => n + 10) ProductSvc.sampleArchiveCalls).2
      = (some .ErrProductNotAvailable,
          (ProductSvc.reached (fun n => n + 10) ProductSvc.sampleArchiveCalls).1,
          (ProductSvc.reached (fun n => n + 10) ProductSvc.sampleArchiveCalls).2) :=
  (((C30_archived_product_is_terminal (fun n => n + 10) ProductSvc.sampleArchiveCalls).2 10
    ProductSvc.sampleArchivedLaptop (by decide) (by decide)).2.1 4 3 (by decide)).2


/-! ## The in-memory user store: lookups and the store after a call -/

theorem UserSvc.mockUserRepository.firstByEmail_none (email : String)
    (l : List (UUID × UserSvc.User)) :
    UserSvc.mockUserRepository.firstByEmail email l = none ↔ ∀ e ∈ l, e.2.Email ≠ email := by
  induction l with
  | nil => simp [UserSvc.mockUserRepository.firstByEmail]
  | cons e rest ih =>
    obtain ⟨k, u⟩ := e
    by_cases h : u.Email = email
    · simp [UserSvc.mockUserRepository.firstByEmail, h]
    · simp [UserSvc.mockUserRepository.firstByEmail, h, ih]

theorem UserSvc.mockUserRepository.firstByEmail_some {email : String}
    {l : List (UUID × UserSvc.User)} {u : UserSvc.User}
    (h : UserSvc.mockUserRepository.firstByEmail email l = some u) :
    u.Email = email ∧ ∃ k, (k, u) ∈ l := by
  induction l with
  | nil => simp [UserSvc.mockUserRepository.firstByEmail] at h
  | cons e rest ih =>
    obtain ⟨k, u₀⟩ := e
    by_cases h₀ : u₀.Email = email
    · simp [UserSvc.mockUserRepository.firstByEmail, h₀] at h
      subst h
      exact ⟨h₀, k, by simp⟩
    · simp [UserSvc.mockUserRepository.firstByEmail, h₀] at h
      obtain ⟨h₁, k', hk⟩ := ih h
      exact ⟨h₁, k', List.mem_cons_of_mem _ hk⟩

theorem UserSvc.mockUserRepository.FindByEmail_of_absent (email : String)
    (m : UserSvc.mockUserRepository) (h : ∀ e ∈ m.store, e.2.Email ≠ email) :
    UserSvc.mockUserRepository.FindByEmail email m
      = (.error .ErrUserNotFound, { m with starts := fun n => m.starts (n + 1) }) := by
  have h₀ : UserSvc.mockUserRepository.firstByEmail email (mapRange m.store (m.starts 0))
      = none := by
    rw [UserSvc.mockUserRepository.firstByEmail_none]
    intro e he
    exact h e (by simpa [mapRange, List.mem_rotate] using he)
  simp [UserSvc.mockUserRepository.FindByEmail, h₀]

theorem UserSvc.mockUserRepository.FindByEmail_of_present (email : String)
    (m : UserSvc.mockUserRepository) (h : ∃ e ∈ m.store, e.2.Email = email) :
    ∃ u, u.Email = email ∧ (∃ k, (k, u) ∈ m.store) ∧
      UserSvc.mockUserRepository.FindByEmail email m
        = (.ok u, { m with starts := fun n => m.starts (n + 1) }) := by
  cases h₀ : UserSvc.mockUserRepository.firstByEmail email (mapRange m.store (m.starts 0)) with
  | none =>
    rw [UserSvc.mockUserRepository.firstByEmail_none] at h₀
    obtain ⟨e, he, hem⟩ := h
    exact absurd hem (h₀ e (by simpa [mapRange, List.mem_rotate] using he))
  | some u =>
    obtain ⟨h₁, k, hk⟩ := UserSvc.mockUserRepository.firstByEmail_some h₀
    refine ⟨u, h₁, ⟨k, by simpa [mapRange, List.mem_rotate] using hk⟩, ?_⟩
    simp [UserSvc.mockUserRepository.FindByEmail, h₀]

theorem UserSvc.mockUserRepository.FindByEmail_ok_mem {email : String}
    {m : UserSvc.mockUserRepository} {u : UserSvc.User}
    (h : (UserSvc.mockUserRepository.FindByEmail email m).1 = .ok u) :
    u.Email = email ∧ ∃ k, (k, u) ∈ m.store := by
  unfold UserSvc.mockUserRepository.FindByEmail at h
  cases h₀ : UserSvc.mockUserRepository.firstByEmail email (mapRange m.store (m.starts 0)) with
  | none => simp [h₀] at h
  | some u₀ =>
    simp [h₀] at h
    subst h
    obtain ⟨h₁, k, hk⟩ := UserSvc.mockUserRepository.firstByEmail_some h₀
    exact ⟨h₁, k, by simpa [mapRange, List.mem_rotate] using hk⟩

/-- A successful registration on the in-memory store, whatever the password manager. -/
theorem UserSvc.RegisterNewUser_of_absent (P : UserSvc.PasswordManager)
    (m : UserSvc.mockUserRepository) (d : UserSvc.mockEventDispatcher) (now : Time)
    (firstName lastName email plainTextPassword hashedPassword : String)
    (hlen : 8 ≤ plainTextPassword.utf8ByteSize)
    (habs : ∀ e ∈ m.store, e.2.Email ≠ email)
    (hh : P.Hash plainTextPassword = .ok hashedPassword) :
    UserSvc.RegisterNewUser UserSvc.mockUserRepository.impl P UserSvc.mockEventDispatcher.impl
      now firstName lastName email plainTextPassword m d
      = (.ok { ID := m.uuids 0, Email := email, HashedPassword := hashedPassword,
               FirstName := firstName, LastName := lastName, Status := .Active,
               CreatedAt := now, UpdatedAt := now },
         { store := mapSet m.store (m.uuids 0)
             { ID := m.uuids 0, Email := email, HashedPassword := hashedPassword,
               FirstName := firstName, LastName := lastName, Status := .Active,
               CreatedAt := now, UpdatedAt := now }
           uuids := fun n => m.uuids (n + 1)
           starts := fun n => m.starts (n + 1) },
         { events := d.events ++ [.UserRegistered (m.uuids 0) email firstName] }) := by
  have hl : ¬ plainTextPassword.utf8ByteSize < UserSvc.minPasswordLength := by
    simp [UserSvc.minPasswordLength]; omega
  simp only [UserSvc.RegisterNewUser, if_neg hl, UserSvc.mockUserRepository.impl,
    UserSvc.mockUserRepository.FindByEmail_of_absent email m habs, hh,
    UserSvc.mockUserRepository.NextID, UserSvc.mockUserRepository.Create,
    UserSvc.mockEventDispatcher.impl, UserSvc.mockEventDispatcher.Dispatch]

/-- A status change on the in-memory store, evaluated. -/
theorem UserSvc.changeStatus_eq_user (m : UserSvc.mockUserRepository)
    (d : UserSvc.mockEventDispatcher) (now : Time) (userID : UUID)
    (newStatus : UserSvc.UserStatus) :
    UserSvc.changeStatus UserSvc.mockUserRepository.impl UserSvc.mockEventDispatcher.impl
      now userID newStatus m d
      = match mapGet m.store userID with
        | none => (some .ErrUserNotFound, m, d)
        | some u =>
          if u.Status = newStatus ∨ u.Status = .Deactivated then (none, m, d)
          else
            (none,
             { m with
               store := mapSet m.store u.ID { u with Status := newStatus, UpdatedAt := now } },
             { events := d.events ++ [.UserStatusChanged userID u.Status newStatus] ++
                 (if newStatus = .Deactivated then [.UserDeactivated userID] else []) }) := by
  unfold UserSvc.changeStatus
  simp only [UserSvc.mockUserRepository.impl, UserSvc.mockUserRepository.Find_eq_user]
  cases mapGet m.store userID with
  | none => rfl
  | some u =>
    by_cases hs : u.Status = newStatus ∨ u.Status = .Deactivated
    · simp only [if_pos hs]
    · by_cases hn : newStatus = .Deactivated
      · simp [if_neg hs, if_pos hn, UserSvc.mockUserRepository.Update,
          UserSvc.mockEventDispatcher.impl, UserSvc.mockEventDispatcher.Dispatch]
      · simp [if_neg hs, if_neg hn, UserSvc.mockUserRepository.Update,
          UserSvc.mockEventDispatcher.impl, UserSvc.mockEventDispatcher.Dispatch]

/-- A profile update on the in-memory store, evaluated. -/
theorem UserSvc.UpdateUserProfile_eq_user (m : UserSvc.mockUserRepository)
    (d : UserSvc.mockEventDispatcher) (now : Time) (userID : UUID)
    (firstName lastName : String) :
    UserSvc.UpdateUserProfile UserSvc.mockUserRepository.impl UserSvc.mockEventDispatcher.impl
      now userID firstName lastName m d
      = match mapGet m.store userID with
        | none => (some .ErrUserNotFound, m, d)
        | some u =>
          if u.Status = .Deactivated then (some .ErrUserCannotBeChanged, m, d)
          else
            (none,
             { m with
               store := mapSet m.store u.ID
                 { u with FirstName := firstName, LastName := lastName, UpdatedAt := now } },
             { events := d.events ++ [.UserProfileUpdated userID] }) := by
  unfold UserSvc.UpdateUserProfile
  simp only [UserSvc.mockUserRepository.impl, UserSvc.mockUserRepository.Find_eq_user]
  cases mapGet m.store userID with
  | none => rfl
  | some u =>
    by_cases hs : u.Status = .Deactivated
    · simp only [if_pos hs]
    · simp [if_neg hs, UserSvc.mockUserRepository.Update,
        UserSvc.mockEventDispatcher.impl, UserSvc.mockEventDispatcher.Dispatch]

/-- The store after a call of the user service: unchanged, or a new user filed under a
generated identifier, or the stored user of the call replaced by one with the same
identifier, email and credential. -/
theorem UserSvc.exec_store_cases_user (P : UserSvc.PasswordManager) (c : UserSvc.Cmd)
    (m : UserSvc.mockUserRepository) (d : UserSvc.mockEventDispatcher) :
    (UserSvc.exec UserSvc.mockUserRepository.impl P UserSvc.mockEventDispatcher.impl
      c m d).2.1.store = m.store ∨
    (∃ u' : UserSvc.User, u'.ID = m.uuids 0 ∧ u'.Status = .Active ∧
      (∀ e ∈ m.store, e.2.Email ≠ u'.Email) ∧
      (∃ now firstName lastName plainTextPassword,
        c = .RegisterNewUser now firstName lastName u'.Email plainTextPassword) ∧
      (UserSvc.exec UserSvc.mockUserRepository.impl P UserSvc.mockEventDispatcher.impl
        c m d).2.1.store = mapSet m.store u'.ID u') ∨
    (∃ (userID : UUID) (u u' : UserSvc.User), mapGet m.store userID = some u ∧
      u.Status ≠ .Deactivated ∧ u'.ID = u.ID ∧ u'.Email = u.Email ∧
      u'.HashedPassword = u.HashedPassword ∧
      (u'.Status = u.Status ∨ u'.Status = .Suspended ∨ u'.Status = .Active ∨
        u'.Status = .Deactivated) ∧
      (UserSvc.exec UserSvc.mockUserRepository.impl P UserSvc.mockEventDispatcher.impl
        c m d).2.1.store = mapSet m.store u'.ID u') := by
  have hstatus : ∀ (now : Time) (userID : UUID) (newStatus : UserSvc.UserStatus),
      (newStatus = .Suspended ∨ newStatus = .Active ∨ newStatus = .Deactivated) →
      ((UserSvc.changeStatus UserSvc.mockUserRepository.impl UserSvc.mockEventDispatcher.impl
        now userID newStatus m d).2.1.store = m.store ∨
      (∃ (id₀ : UUID) (u u' : UserSvc.User), mapGet m.store id₀ = some u ∧
        u.Status ≠ .Deactivated ∧ u'.ID = u.ID ∧ u'.Email = u.Email ∧
        u'.HashedPassword = u.HashedPassword ∧
        (u'.Status = u.Status ∨ u'.Status = .Suspended ∨ u'.Status = .Active ∨
          u'.Status = .Deactivated) ∧
        (UserSvc.changeStatus UserSvc.mockUserRepository.impl UserSvc.mockEventDispatcher.impl
          now userID newStatus m d).2.1.store = mapSet m.store u'.ID u')) := by
    intro now userID newStatus hnew
    have hE := UserSvc.changeStatus_eq_user m d now userID newStatus
    cases hg : mapGet m.store userID with
    | none =>
      rw [hg] at hE
      exact Or.inl (by rw [hE])
    | some u =>
      rw [hg] at hE
      by_cases hs : u.Status = newStatus ∨ u.Status = .Deactivated
      · simp only [if_pos hs] at hE
        exact Or.inl (by rw [hE])
      · simp only [if_neg hs] at hE
        exact Or.inr ⟨userID, u, { u with Status := newStatus, UpdatedAt := now }, hg,
          fun h => hs (Or.inr h), rfl, rfl, rfl, Or.inr hnew, by rw [hE]⟩
  cases c with
  | RegisterNewUser now firstName lastName email plainTextPassword =>
    simp only [UserSvc.exec]
    by_cases hl : plainTextPassword.utf8ByteSize < UserSvc.minPasswordLength
    · left
      simp only [UserSvc.RegisterNewUser, if_pos hl]
    · by_cases hp : ∃ e ∈ m.store, e.2.Email = email
      · obtain ⟨u, _, _, hF⟩ := UserSvc.mockUserRepository.FindByEmail_of_present email m hp
        left
        simp only [UserSvc.RegisterNewUser, if_neg hl, UserSvc.mockUserRepository.impl, hF]
      · have habs : ∀ e ∈ m.store, e.2.Email ≠ email := fun e he h => hp ⟨e, he, h⟩
        cases hh : P.Hash plainTextPassword with
        | error err =>
          left
          simp only [UserSvc.RegisterNewUser, if_neg hl, UserSvc.mockUserRepository.impl,
            UserSvc.mockUserRepository.FindByEmail_of_absent email m habs, hh]
        | ok hashedPassword =>
          have hlen : 8 ≤ plainTextPassword.utf8ByteSize := by
            simp [UserSvc.minPasswordLength] at hl; omega
          rw [UserSvc.RegisterNewUser_of_absent P m d now firstName lastName email
            plainTextPassword hashedPassword hlen habs hh]
          exact Or.inr (Or.inl
            ⟨{ ID := m.uuids 0, Email := email, HashedPassword := hashedPassword,
               FirstName := firstName, LastName := lastName, Status := .Active,
               CreatedAt := now, UpdatedAt := now }, rfl, rfl, habs,
             ⟨now, firstName, lastName, plainTextPassword, rfl⟩, rfl⟩)
  | UpdateUserProfile now userID firstName lastName =>
    simp only [UserSvc.exec]
    have hE := UserSvc.UpdateUserProfile_eq_user m d now userID firstName lastName
    cases hg : mapGet m.store userID with
    | none =>
      rw [hg] at hE
      exact Or.inl (by rw [hE])
    | some u =>
      rw [hg] at hE
      by_cases hs : u.Status = .Deactivated
      · simp only [if_pos hs] at hE
        exact Or.inl (by rw [hE])
      · simp only [if_neg hs] at hE
        exact Or.inr (Or.inr ⟨userID, u,
          { u with FirstName := firstName, LastName := lastName, UpdatedAt := now }, hg,
          hs, rfl, rfl, rfl, Or.inl rfl, by rw [hE]⟩)
  | SuspendUser now userID =>
    simp only [UserSvc.exec, UserSvc.SuspendUser]
    rcases hstatus now userID .Suspended (Or.inl rfl) with h | h
    · exact Or.inl h
    · exact Or.inr (Or.inr h)
  | ActivateUser now userID =>
    simp only [UserSvc.exec, UserSvc.ActivateUser]
    rcases hstatus now userID .Active (Or.inr (Or.inl rfl)) with h | h
    · exact Or.inl h
    · exact Or.inr (Or.inr h)
  | DeactivateUser now userID =>
    simp only [UserSvc.exec, UserSvc.DeactivateUser]
    rcases hstatus now userID .Deactivated (Or.inr (Or.inr rfl)) with h | h
    · exact Or.inl h
    · exact Or.inr (Or.inr h)

/-! ## Go maps: the values along the entries -/

theorem map_mapSet_of_get {α β : Type} (g : α → β) {l : List (UUID × α)} {k : UUID} {v₀ v : α}
    (hget : mapGet l k = some v₀) (hg : g v = g v₀) :
    (mapSet l k v).map (fun e => g e.2) = l.map (fun e => g e.2) := by
  induction l with
  | nil => simp [mapGet] at hget
  | cons e rest ih =>
    obtain ⟨k', v'⟩ := e
    by_cases hk : k' = k
    · simp [mapGet, hk] at hget
      subst hget
      simp [mapSet, hk, hg]
    · simp [mapGet, hk] at hget
      simp [mapSet, hk, ih hget]

theorem nodup_map_mapSet {α β : Type} (g : α → β) {l : List (UUID × α)} (k : UUID) {v : α}
    (hn : (l.map (fun e => g e.2)).Nodup) (hne : ∀ e ∈ l, g e.2 ≠ g v) :
    ((mapSet l k v).map (fun e => g e.2)).Nodup := by
  induction l with
  | nil => simp [mapSet]
  | cons e rest ih =>
    obtain ⟨k', v'⟩ := e
    simp only [List.map_cons, List.nodup_cons, List.mem_map, not_exists, not_and] at hn
    have hrest : ∀ e ∈ rest, g e.2 ≠ g v := fun e he => hne e (List.mem_cons_of_mem _ he)
    by_cases hk : k' = k
    · simp only [mapSet, hk, if_true, List.map_cons, List.nodup_cons, List.mem_map, not_exists,
        not_and]
      exact ⟨fun e he h => hrest e he h, hn.2⟩
    · simp only [mapSet, hk, if_false, List.map_cons, List.nodup_cons, List.mem_map, not_exists,
        not_and]
      refine ⟨?_, ih hn.2 hrest⟩
      intro e he h
      rcases mem_mapSet he with h' | h'
      · exact hn.1 e h' h
      · subst h'
        exact hne (k', v') (by simp) h.symm

/-! ## Stored users -/

theorem UserSvc.store_invariant_exec (P : UserSvc.PasswordManager) (c : UserSvc.Cmd)
    (m : UserSvc.mockUserRepository) (d : UserSvc.mockEventDispatcher)
    (h : UserSvc.KeyedByID m.store ∧ UserSvc.EmailsDistinct m.store ∧
      ∀ e ∈ m.store, e.2.Status ≠ .PendingVerification) :
    UserSvc.KeyedByID (UserSvc.exec UserSvc.mockUserRepository.impl P
      UserSvc.mockEventDispatcher.impl c m d).2.1.store ∧
    UserSvc.EmailsDistinct (UserSvc.exec UserSvc.mockUserRepository.impl P
      UserSvc.mockEventDispatcher.impl c m d).2.1.store ∧
    ∀ e ∈ (UserSvc.exec UserSvc.mockUserRepository.impl P
      UserSvc.mockEventDispatcher.impl c m d).2.1.store, e.2.Status ≠ .PendingVerification := by
  obtain ⟨hk, he, hp⟩ := h
  rcases UserSvc.exec_store_cases_user P c m d with h | ⟨u', hid, hs, habs, _, h⟩ |
    ⟨userID, u, u', hget, hnd, hid, hem, hpw, hst, h⟩
  · rw [h]
    exact ⟨hk, he, hp⟩
  · rw [h]
    refine ⟨?_, ?_, ?_⟩
    · intro e hmem
      rcases mem_mapSet hmem with h' | h'
      · exact hk e h'
      · subst h'
        rfl
    · exact nodup_map_mapSet (fun u : UserSvc.User => u.Email) u'.ID he habs
    · intro e hmem
      rcases mem_mapSet hmem with h' | h'
      · exact hp e h'
      · subst h'
        simp [hs]
  · rw [h]
    have hkey : u.ID = userID := hk _ (mem_of_mapGet hget)
    refine ⟨?_, ?_, ?_⟩
    · intro e hmem
      rcases mem_mapSet hmem with h' | h'
      · exact hk e h'
      · subst h'
        rfl
    · unfold UserSvc.EmailsDistinct
      rw [hid, hkey, map_mapSet_of_get (fun u : UserSvc.User => u.Email) hget hem]
      exact he
    · intro e hmem
      rcases mem_mapSet hmem with h' | h'
      · exact hp e h'
      · subst h'
        have := hp _ (mem_of_mapGet hget)
        rcases hst with h₁ | h₁ | h₁ | h₁ <;> simp_all

theorem UserSvc.store_invariant_run (P : UserSvc.PasswordManager) (cs : List UserSvc.Cmd)
    (m : UserSvc.mockUserRepository) (d : UserSvc.mockEventDispatcher)
    (h : UserSvc.KeyedByID m.store ∧ UserSvc.EmailsDistinct m.store ∧
      ∀ e ∈ m.store, e.2.Status ≠ .PendingVerification) :
    UserSvc.KeyedByID (UserSvc.run UserSvc.mockUserRepository.impl P
      UserSvc.mockEventDispatcher.impl cs m d).1.store ∧
    UserSvc.EmailsDistinct (UserSvc.run UserSvc.mockUserRepository.impl P
      UserSvc.mockEventDispatcher.impl cs m d).1.store ∧
    ∀ e ∈ (UserSvc.run UserSvc.mockUserRepository.impl P
      UserSvc.mockEventDispatcher.impl cs m d).1.store, e.2.Status ≠ .PendingVerification := by
  induction cs generalizing m d with
  | nil => exact h
  | cons c rest ih =>
    simp only [UserSvc.run]
    exact ih _ _ (UserSvc.store_invariant_exec P c m d h)

theorem UserSvc.reached_store_user (P : UserSvc.PasswordManager) (uuids : Nat → UUID)
    (starts : Nat → Nat) (cs : List UserSvc.Cmd) :
    UserSvc.KeyedByID (UserSvc.reached P uuids starts cs).1.store ∧
    UserSvc.EmailsDistinct (UserSvc.reached P uuids starts cs).1.store ∧
    ∀ e ∈ (UserSvc.reached P uuids starts cs).1.store, e.2.Status ≠ .PendingVerification :=
  UserSvc.store_invariant_run P cs _ _
    ⟨by simp [UserSvc.KeyedByID, UserSvc.mockUserRepository.new],
     by simp [UserSvc.EmailsDistinct, UserSvc.mockUserRepository.new],
     by simp [UserSvc.mockUserRepository.new]⟩

/-! ## C31: the checks of a registration -/

/-- C31.  `RegisterNewUser` with a password of fewer than 8 bytes (the Go `len`) returns
`ErrPasswordTooShort` and makes no call: whatever the repository, the password manager and
the dispatcher are, their states are as before, so no email is looked up.  With 8 bytes or
more and an email that `FindByEmail` resolves to a user it returns `ErrEmailTaken`; the
repository is in the state the lookup left it in, the result does not depend on the
password manager (it is not called), and nothing is dispatched.  On the in-memory store the
lookup resolves as soon as some stored user, of whatever status, carries the email, and the
stored users are then as before; with the password manager of the tests
`ErrPasswordTooShort` is returned exactly when the password has fewer than 8 bytes. -/
theorem C31_register_checks_password_then_email {σ δ : Type} (R : UserSvc.UserRepository σ)
    (P : UserSvc.PasswordManager) (D : UserSvc.EventDispatcher δ) (now : Time)
    (firstName lastName email plainTextPassword : String) (s : σ) (d : δ)
    (m : UserSvc.mockUserRepository) (dm : UserSvc.mockEventDispatcher) :
    (plainTextPassword.utf8ByteSize < 8 →
      UserSvc.RegisterNewUser R P D now firstName lastName email plainTextPassword s d
        = (.error .ErrPasswordTooShort, s, d)) ∧
    (8 ≤ plainTextPassword.utf8ByteSize → ∀ u, (R.FindByEmail email s).1 = .ok u →
      UserSvc.RegisterNewUser R P D now firstName lastName email plainTextPassword s d
        = (.error .ErrEmailTaken, (R.FindByEmail email s).2, d)) ∧
    (8 ≤ plainTextPassword.utf8ByteSize → (∃ e ∈ m.store, e.2.Email = email) →
      UserSvc.RegisterNewUser UserSvc.mockUserRepository.impl P
          UserSvc.mockEventDispatcher.impl now firstName lastName email plainTextPassword m dm
        = (.error .ErrEmailTaken, { m with starts := fun n => m.starts (n + 1) }, dm)) ∧
    ((UserSvc.RegisterNewUser UserSvc.mockUserRepository.impl UserSvc.mockPasswordManager
          UserSvc.mockEventDispatcher.impl now firstName lastName email plainTextPassword
          m dm).1 = .error .ErrPasswordTooShort ↔
      plainTextPassword.utf8ByteSize < 8) := by
  have hshort : ∀ {σ' δ' : Type} (R' : UserSvc.UserRepository σ') (P' : UserSvc.PasswordManager)
      (D' : UserSvc.EventDispatcher δ') (s' : σ') (d' : δ'),
      plainTextPassword.utf8ByteSize < 8 →
      UserSvc.RegisterNewUser R' P' D' now firstName lastName email plainTextPassword s' d'
        = (.error .ErrPasswordTooShort, s', d') := by
    intro σ' δ' R' P' D' s' d' h
    have hl : plainTextPassword.utf8ByteSize < UserSvc.minPasswordLength := h
    simp only [UserSvc.RegisterNewUser, if_pos hl]
  have htaken : ∀ {σ' δ' : Type} (R' : UserSvc.UserRepository σ') (P' : UserSvc.PasswordManager)
      (D' : UserSvc.EventDispatcher δ') (s' : σ') (d' : δ'),
      8 ≤ plainTextPassword.utf8ByteSize → ∀ u, (R'.FindByEmail email s').1 = .ok u →
      UserSvc.RegisterNewUser R' P' D' now firstName lastName email plainTextPassword s' d'
        = (.error .ErrEmailTaken, (R'.FindByEmail email s').2, d') := by
    intro σ' δ' R' P' D' s' d' h u hu
    have hl : ¬ plainTextPassword.utf8ByteSize < UserSvc.minPasswordLength := by
      simp only [UserSvc.minPasswordLength]; omega
    simp only [UserSvc.RegisterNewUser, if_neg hl, hu]
  refine ⟨hshort R P D s d, htaken R P D s d, ?_, ?_⟩
  · intro h hp
    obtain ⟨u, _, _, hF⟩ := UserSvc.mockUserRepository.FindByEmail_of_present email m hp
    have h₁ := htaken UserSvc.mockUserRepository.impl P UserSvc.mockEventDispatcher.impl m dm
      h u (by simp [UserSvc.mockUserRepository.impl, hF])
    rw [h₁]
    simp [UserSvc.mockUserRepository.impl, hF]
  · constructor
    · intro h
      by_contra hlen
      have hlen' : 8 ≤ plainTextPassword.utf8ByteSize := by omega
      by_cases hp : ∃ e ∈ m.store, e.2.Email = email
      · obtain ⟨u, _, _, hF⟩ := UserSvc.mockUserRepository.FindByEmail_of_present email m hp
        rw [htaken UserSvc.mockUserRepository.impl UserSvc.mockPasswordManager
          UserSvc.mockEventDispatcher.impl m dm hlen' u
          (by simp [UserSvc.mockUserRepository.impl, hF])] at h
        simp at h
      · have habs : ∀ e ∈ m.store, e.2.Email ≠ email := fun e he h => hp ⟨e, he, h⟩
        have hne : plainTextPassword ≠ "" := by
          intro h₀
          subst h₀
          simp [String.utf8ByteSize, String.utf8ByteSize.go] at hlen'
        rw [UserSvc.RegisterNewUser_of_absent UserSvc.mockPasswordManager m dm now firstName
          lastName email plainTextPassword (plainTextPassword ++ "-hashed") hlen' habs
          (by simp [UserSvc.mockPasswordManager, hne])] at h
        simp at h
    · intro h
      rw [hshort UserSvc.mockUserRepository.impl UserSvc.mockPasswordManager
        UserSvc.mockEventDispatcher.impl m dm h]

/-- C31 on a store holding the deactivated user 10: a password of 7 bytes is rejected and
nothing changes; a password of 8 bytes with the email of the deactivated user is rejected
with `ErrEmailTaken` and the stored users are as before; a password of 8 bytes with a new
email is not rejected for its length. -/
theorem C31_register_checks_witness :
    UserSvc.RegisterNewUser UserSvc.mockUserRepository.impl UserSvc.mockPasswordManager
        UserSvc.mockEventDispatcher.impl 5 "Jane" "Doe" "gone@example.com" "1234567"
        UserSvc.sampleStore UserSvc.mockEventDispatcher.new
      = (.error .ErrPasswordTooShort, UserSvc.sampleStore, UserSvc.mockEventDispatcher.new) ∧
    UserSvc.RegisterNewUser UserSvc.mockUserRepository.impl UserSvc.mockPasswordManager
        UserSvc.mockEventDispatcher.impl 5 "Jane" "Doe" "gone@example.com" "12345678"
        UserSvc.sampleStore UserSvc.mockEventDispatcher.new
      = (.error .ErrEmailTaken,
         { UserSvc.sampleStore with starts := fun n => UserSvc.sampleStore.starts (n + 1) },
         UserSvc.mockEventDispatcher.new) ∧
    (UserSvc.RegisterNewUser UserSvc.mockUserRepository.impl UserSvc.mockPasswordManager
        UserSvc.mockEventDispatcher.impl 5 "Jane" "Doe" "jane@example.com" "12345678"
        UserSvc.sampleStore UserSvc.mockEventDispatcher.new).1
      ≠ .error .ErrPasswordTooShort :=
  ⟨(C31_register_checks_password_then_email UserSvc.mockUserRepository.impl
      UserSvc.mockPasswordManager UserSvc.mockEventDispatcher.impl 5 "Jane" "Doe"
      "gone@example.com" "1234567" UserSvc.sampleStore UserSvc.mockEventDispatcher.new
      UserSvc.sampleStore UserSvc.mockEventDispatcher.new).1 (by decide),
   (C31_register_checks_password_then_email UserSvc.mockUserRepository.impl
      UserSvc.mockPasswordManager UserSvc.mockEventDispatcher.impl 5 "Jane" "Doe"
      "gone@example.com" "12345678" UserSvc.sampleStore UserSvc.mockEventDispatcher.new
      UserSvc.sampleStore UserSvc.mockEventDispatcher.new).2.2.1 (by decide)
      ⟨(10, UserSvc.sampleDeactivated), by simp [UserSvc.sampleStore], rfl⟩,
   fun h => absurd ((C31_register_checks_password_then_email UserSvc.mockUserRepository.impl
      UserSvc.mockPasswordManager UserSvc.mockEventDispatcher.impl 5 "Jane" "Doe"
      "jane@example.com" "12345678" UserSvc.sampleStore UserSvc.mockEventDispatcher.new
      UserSvc.sampleStore UserSvc.mockEventDispatcher.new).2.2.2.1 h) (by decide)⟩

/-! ## C32: a successful registration -/

/-- C32.  On the in-memory store, for a password of 8 bytes or more, an email no stored
user carries and a password manager that returns the digest `hashedPassword` for the
password: `RegisterNewUser` returns a user with the generated identifier, the given email
and names, the digest as credential and status `Active`; that user is stored under its
identifier; exactly one event is appended, `UserRegistered` with the identifier, the email
and the first name.  The password manager of the tests returns a digest for every such
password.  After every sequence of calls on a new store no stored user has status
`PendingVerification`. -/
theorem C32_register_new_user (P : UserSvc.PasswordManager) (m : UserSvc.mockUserRepository)
    (d : UserSvc.mockEventDispatcher) (now : Time)
    (firstName lastName email plainTextPassword hashedPassword : String)
    (uuids : Nat → UUID) (starts : Nat → Nat) (cs : List UserSvc.Cmd) :
    (8 ≤ plainTextPassword.utf8ByteSize → (∀ e ∈ m.store, e.2.Email ≠ email) →
      P.Hash plainTextPassword = .ok hashedPassword →
      UserSvc.RegisterNewUser UserSvc.mockUserRepository.impl P
          UserSvc.mockEventDispatcher.impl now firstName lastName email plainTextPassword m d
        = (.ok { ID := m.uuids 0, Email := email, HashedPassword := hashedPassword,
                 FirstName := firstName, LastName := lastName, Status := .Active,
                 CreatedAt := now, UpdatedAt := now },
           { store := mapSet m.store (m.uuids 0)
               { ID := m.uuids 0, Email := email, HashedPassword := hashedPassword,
                 FirstName := firstName, LastName := lastName, Status := .Active,
                 CreatedAt := now, UpdatedAt := now }
             uuids := fun n => m.uuids (n + 1)
             starts := fun n => m.starts (n + 1) },
           { events := d.events ++ [.UserRegistered (m.uuids 0) email firstName] }) ∧
      mapGet (UserSvc.RegisterNewUser UserSvc.mockUserRepository.impl P
          UserSvc.mockEventDispatcher.impl now firstName lastName email plainTextPassword
          m d).2.1.store (m.uuids 0)
        = some { ID := m.uuids 0, Email := email, HashedPassword := hashedPassword,
                 FirstName := firstName, LastName := lastName, Status := .Active,
                 CreatedAt := now, UpdatedAt := now }) ∧
    (8 ≤ plainTextPassword.utf8ByteSize →
      UserSvc.mockPasswordManager.Hash plainTextPassword
        = .ok (plainTextPassword ++ "-hashed")) ∧
    (∀ e ∈ (UserSvc.reached P uuids starts cs).1.store,
      e.2.Status ≠ .PendingVerification) := by
  refine ⟨?_, ?_, (UserSvc.reached_store_user P uuids starts cs).2.2⟩
  · intro hlen habs hh
    have h := UserSvc.RegisterNewUser_of_absent P m d now firstName lastName email
      plainTextPassword hashedPassword hlen habs hh
    refine ⟨h, ?_⟩
    rw [h]
    exact mapGet_mapSet_self _ _ _
  · intro hlen
    have hne : plainTextPassword ≠ "" := by
      intro h₀
      subst h₀
      simp [String.utf8ByteSize, String.utf8ByteSize.go] at hlen
    simp [UserSvc.mockPasswordManager, hne]

/-- C32 at the registration of the user test on a new store: the user 10 is returned with
status `Active` and the credential "password123-hashed", and one `UserRegistered` is
dispatched. -/
theorem C32_register_new_user_witness :
    UserSvc.RegisterNewUser UserSvc.mockUserRepository.impl UserSvc.mockPasswordManager
        UserSvc.mockEventDispatcher.impl 1 "John" "Doe" "test@example.com" "password123"
        (UserSvc.mockUserRepository.new (fun n => n + 10) (fun n => n))
        UserSvc.mockEventDispatcher.new
      = (.ok UserSvc.sampleActive,
         { store := [(10, UserSvc.sampleActive)]
           uuids := fun n => n + 1 + 10
           starts := fun n => n + 1 },
         { events := [.UserRegistered 10 "test@example.com" "John"] }) :=
  ((C32_register_new_user UserSvc.mockPasswordManager
      (UserSvc.mockUserRepository.new (fun n => n + 10) (fun n => n))
      UserSvc.mockEventDispatcher.new 1 "John" "Doe" "test@example.com" "password123"
      "password123-hashed" (fun n => n) (fun n => n) []).1
    (by decide) (by simp [UserSvc.mockUserRepository.new]) rfl).1

/-! ## C33: emails of the stored users -/

/-- C33.  After every sequence of user-service calls on a new in-memory store no two
entries of the store carry the same email: two identifiers under which users with the same
email are stored are the same identifier.  A call other than `RegisterNewUser` leaves the
email of every stored user as it is. -/
theorem C33_stored_emails_are_distinct (P : UserSvc.PasswordManager) (uuids : Nat → UUID)
    (starts : Nat → Nat) (cs : List UserSvc.Cmd) :
    UserSvc.EmailsDistinct (UserSvc.reached P uuids starts cs).1.store ∧
    (∀ (id₁ id₂ : UUID) (u₁ u₂ : UserSvc.User),
      mapGet (UserSvc.reached P uuids starts cs).1.store id₁ = some u₁ →
      mapGet (UserSvc.reached P uuids starts cs).1.store id₂ = some u₂ →
      u₁.Email = u₂.Email → id₁ = id₂) ∧
    (∀ (c : UserSvc.Cmd) (d : UserSvc.mockEventDispatcher) (id : UUID) (u : UserSvc.User),
      (∀ now firstName lastName email plainTextPassword,
        c ≠ .RegisterNewUser now firstName lastName email plainTextPassword) →
      mapGet (UserSvc.reached P uuids starts cs).1.store id = some u →
      ∃ u', mapGet (UserSvc.exec UserSvc.mockUserRepository.impl P
          UserSvc.mockEventDispatcher.impl c (UserSvc.reached P uuids starts cs).1
          d).2.1.store id = some u' ∧ u'.Email = u.Email) := by
  obtain ⟨hk, he, _⟩ := UserSvc.reached_store_user P uuids starts cs
  refine ⟨he, ?_, ?_⟩
  · intro id₁ id₂ u₁ u₂ h₁ h₂ hem
    have h := List.inj_on_of_nodup_map he (mem_of_mapGet h₁) (mem_of_mapGet h₂) hem
    exact (Prod.mk.inj h).1
  · intro c d id u hc hget
    rcases UserSvc.exec_store_cases_user P c (UserSvc.reached P uuids starts cs).1 d with
      h | ⟨u', hid, hs, habs, hc', h⟩ | ⟨userID, u₀, u', hget₀, hnd, hid, hem, hpw, hst, h⟩
    · rw [h]
      exact ⟨u, hget, rfl⟩
    · obtain ⟨now, firstName, lastName, plainTextPassword, hreg⟩ := hc'
      exact absurd hreg (hc now firstName lastName u'.Email plainTextPassword)
    · rw [h]
      have hkey : u₀.ID = userID := hk _ (mem_of_mapGet hget₀)
      by_cases hi : id = userID
      · subst hi
        rw [hget] at hget₀
        cases hget₀
        exact ⟨u', by rw [hid, hkey]; exact mapGet_mapSet_self _ _ _, hem⟩
      · exact ⟨u, by rw [hid, hkey, mapGet_mapSet_of_ne _ _ hi]; exact hget, rfl⟩

/-- C33 after the registration of the user test: the emails of the store are distinct, and
`SuspendUser` of the user 10 leaves its email as it is. -/
theorem C33_stored_emails_witness :
    UserSvc.EmailsDistinct UserSvc.sampleRegistered.1.store ∧
    ∃ u', mapGet (UserSvc.exec UserSvc.mockUserRepository.impl UserSvc.mockPasswordManager
        UserSvc.mockEventDispatcher.impl (.SuspendUser 2 10) UserSvc.sampleRegistered.1
        UserSvc.mockEventDispatcher.new).2.1.store 10 = some u' ∧
      u'.Email = UserSvc.sampleActive.Email :=
  ⟨(C33_stored_emails_are_distinct UserSvc.mockPasswordManager (fun n => n + 10) (fun n => n)
      UserSvc.sampleRegisterCalls).1,
   (C33_stored_emails_are_distinct UserSvc.mockPasswordManager (fun n => n + 10) (fun n => n)
      UserSvc.sampleRegisterCalls).2.2 (.SuspendUser 2 10) UserSvc.mockEventDispatcher.new 10
      UserSvc.sampleActive (by intros; simp) (by decide)⟩

/-! ## C34: status changes -/

/-- C34.  `SuspendUser`, `ActivateUser` and `DeactivateUser` are `changeStatus` with the
status `Suspended`, `Active` and `Deactivated`.  Whatever the repository and the dispatcher
are: when the user found has the requested status already, or is `Deactivated`, the call
returns no error, the repository is in the state `Find` left it in (no `Update`) and
nothing is dispatched.  For a user `u` stored under `id` after any sequence of calls on a
new in-memory store, in the other case: the call returns no error, the user stored under
`id` is `u` with the new status and the update time, all other fields as before, and the
events appended are `UserStatusChanged` with the old and the new status, followed by
`UserDeactivated` exactly when the new status is `Deactivated`. -/
theorem C34_status_change_of_stored_user {σ δ : Type} (R : UserSvc.UserRepository σ)
    (D : UserSvc.EventDispatcher δ) (s : σ) (d₀ : δ) (P : UserSvc.PasswordManager)
    (uuids : Nat → UUID) (starts : Nat → Nat) (cs : List UserSvc.Cmd)
    (d : UserSvc.mockEventDispatcher) (now : Time) (id : UUID) (u : UserSvc.User)
    (newStatus : UserSvc.UserStatus) :
    (UserSvc.SuspendUser R D now id s d₀ = UserSvc.changeStatus R D now id .Suspended s d₀ ∧
      UserSvc.ActivateUser R D now id s d₀ = UserSvc.changeStatus R D now id .Active s d₀ ∧
      UserSvc.DeactivateUser R D now id s d₀
        = UserSvc.changeStatus R D now id .Deactivated s d₀) ∧
    ((R.Find id s).1 = .ok u → u.Status = newStatus ∨ u.Status = .Deactivated →
      UserSvc.changeStatus R D now id newStatus s d₀ = (none, (R.Find id s).2, d₀)) ∧
    (mapGet (UserSvc.reached P uuids starts cs).1.store id = some u →
      UserSvc.changeStatus UserSvc.mockUserRepository.impl UserSvc.mockEventDispatcher.impl
          now id newStatus (UserSvc.reached P uuids starts cs).1 d
        = if u.Status = newStatus ∨ u.Status = .Deactivated then
            (none, (UserSvc.reached P uuids starts cs).1, d)
          else
            (none,
             { (UserSvc.reached P uuids starts cs).1 with
               store := mapSet (UserSvc.reached P uuids starts cs).1.store id
                 { ID := u.ID, Email := u.Email, HashedPassword := u.HashedPassword,
                   FirstName := u.FirstName, LastName := u.LastName, Status := newStatus,
                   CreatedAt := u.CreatedAt, UpdatedAt := now } },
             { events := d.events ++ [.UserStatusChanged id u.Status newStatus] ++
                 (if newStatus = .Deactivated then [.UserDeactivated id] else []) })) := by
  refine ⟨⟨rfl, rfl, rfl⟩, ?_, ?_⟩
  · intro hF hs
    simp only [UserSvc.changeStatus, hF, if_pos hs]
  · intro hget
    have hkey : u.ID = id := (UserSvc.reached_store_user P uuids starts cs).1 _
      (mem_of_mapGet hget)
    rw [UserSvc.changeStatus_eq_user, hget]
    simp only [hkey]

/-- C34 at the suspension of the user test: the user 10, registered and `Active`, is
suspended; one event is dispatched, `UserStatusChanged` from `Active` to `Suspended`, and
the user is stored as `Suspended`. -/
theorem C34_status_change_witness :
    UserSvc.SuspendUser UserSvc.mockUserRepository.impl UserSvc.mockEventDispatcher.impl
        2 10 UserSvc.sampleRegistered.1 UserSvc.mockEventDispatcher.new
      = (none,
         { UserSvc.sampleRegistered.1 with store := [(10, UserSvc.sampleSuspended)] },
         { events := [.UserStatusChanged 10 .Active .Suspended] }) := by
  have h := (C34_status_change_of_stored_user UserSvc.mockUserRepository.impl
    UserSvc.mockEventDispatcher.impl UserSvc.sampleRegistered.1 UserSvc.mockEventDispatcher.new
    UserSvc.mockPasswordManager (fun n => n + 10) (fun n => n) UserSvc.sampleRegisterCalls
    UserSvc.mockEventDispatcher.new 2 10 UserSvc.sampleActive .Suspended).2.2 (by decide)
  exact h

/-! ## C35: profile updates -/

/-- C35.  For a user `u` stored under `id` after any sequence of calls on a new in-memory
store: if `u` is `Deactivated`, `UpdateUserProfile` returns `ErrUserCannotBeChanged`, the
store is as before and nothing is dispatched; otherwise it returns no error, the user
stored under `id` is `u` with the given first and last name and the update time, its
identifier, email, credential and status as before, and exactly one event is appended,
`UserProfileUpdated` for `id`. -/
theorem C35_update_user_profile (P : UserSvc.PasswordManager) (uuids : Nat → UUID)
    (starts : Nat → Nat) (cs : List UserSvc.Cmd) (d : UserSvc.mockEventDispatcher)
    (now : Time) (id : UUID) (u : UserSvc.User) (firstName lastName : String)
    (hget : mapGet (UserSvc.reached P uuids starts cs).1.store id = some u) :
    UserSvc.UpdateUserProfile UserSvc.mockUserRepository.impl UserSvc.mockEventDispatcher.impl
        now id firstName lastName (UserSvc.reached P uuids starts cs).1 d
      = (if u.Status = .Deactivated then
          (some .ErrUserCannotBeChanged, (UserSvc.reached P uuids starts cs).1, d)
        else
          (none,
           { (UserSvc.reached P uuids starts cs).1 with
             store := mapSet (UserSvc.reached P uuids starts cs).1.store id
               { ID := u.ID, Email := u.Email, HashedPassword := u.HashedPassword,
                 FirstName := firstName, LastName := lastName, Status := u.Status,
                 CreatedAt := u.CreatedAt, UpdatedAt := now } },
           { events := d.events ++ [.UserProfileUpdated id] })) ∧
    (u.Status ≠ .Deactivated →
      mapGet (UserSvc.UpdateUserProfile UserSvc.mockUserRepository.impl
          UserSvc.mockEventDispatcher.impl now id firstName lastName
          (UserSvc.reached P uuids starts cs).1 d).2.1.store id
        = some { ID := u.ID, Email := u.Email, HashedPassword := u.HashedPassword,
                 FirstName := firstName, LastName := lastName, Status := u.Status,
                 CreatedAt := u.CreatedAt, UpdatedAt := now }) := by
  have hkey : u.ID = id := (UserSvc.reached_store_user P uuids starts cs).1 _
    (mem_of_mapGet hget)
  have h : UserSvc.UpdateUserProfile UserSvc.mockUserRepository.impl
      UserSvc.mockEventDispatcher.impl now id firstName lastName
      (UserSvc.reached P uuids starts cs).1 d
      = (if u.Status = .Deactivated then
          (some .ErrUserCannotBeChanged, (UserSvc.reached P uuids starts cs).1, d)
        else
          (none,
           { (UserSvc.reached P uuids starts cs).1 with
             store := mapSet (UserSvc.reached P uuids starts cs).1.store id
               { ID := u.ID, Email := u.Email, HashedPassword := u.HashedPassword,
                 FirstName := firstName, LastName := lastName, Status := u.Status,
                 CreatedAt := u.CreatedAt, UpdatedAt := now } },
           { events := d.events ++ [.UserProfileUpdated id] })) := by
    rw [UserSvc.UpdateUserProfile_eq_user, hget]
    simp only [hkey]
  refine ⟨h, ?_⟩
  intro hs
  rw [h, if_neg hs]
  exact mapGet_mapSet_self _ _ _

/-- C35 after the registration of the user test: the profile of the user 10 is updated at
time 3; the user is stored with the new names and one `UserProfileUpdated` is dispatched. -/
theorem C35_update_user_profile_witness :
    UserSvc.UpdateUserProfile UserSvc.mockUserRepository.impl UserSvc.mockEventDispatcher.impl
        3 10 "Johnny" "Doe" UserSvc.sampleRegistered.1 UserSvc.mockEventDispatcher.new
      = (none,
         { UserSvc.sampleRegistered.1 with store := [(10, UserSvc.sampleRenamed)] },
         { events := [.UserProfileUpdated 10] }) := by
  have h := (C35_update_user_profile UserSvc.mockPasswordManager (fun n => n + 10)
    (fun n => n) UserSvc.sampleRegisterCalls UserSvc.mockEventDispatcher.new 3 10
    UserSvc.sampleActive "Johnny" "Doe" (by decide)).1
  exact h

/-! ## C36: updates of a user -/

/-- C36 as stated fails: a user carries no version and the in-memory user store accepts
every update.  On the store holding the registered user 10: the update to `Suspended`
succeeds; an update computed from the copy loaded before the suspension then succeeds too
and replaces the stored user, so that the user is `Active` again; and on a new store the
update of a user that is not stored succeeds and files it. -/
theorem C36_user_update_is_not_version_checked :
    UserSvc.mockUserRepository.Update UserSvc.sampleSuspended UserSvc.sampleRegistered.1
      = (none, { UserSvc.sampleRegistered.1 with store := [(10, UserSvc.sampleSuspended)] }) ∧
    UserSvc.mockUserRepository.Update UserSvc.sampleRenamed
        (UserSvc.mockUserRepository.Update UserSvc.sampleSuspended
          UserSvc.sampleRegistered.1).2
      = (none, { UserSvc.sampleRegistered.1 with store := [(10, UserSvc.sampleRenamed)] }) ∧
    UserSvc.sampleRenamed.Status = .Active ∧
    (UserSvc.mockUserRepository.Update UserSvc.sampleActive
        (UserSvc.mockUserRepository.new (fun n => n + 10) (fun n => n))).1 = none ∧
    (UserSvc.mockUserRepository.Update UserSvc.sampleActive
        (UserSvc.mockUserRepository.new (fun n => n + 10) (fun n => n))).2.store
      = [(10, UserSvc.sampleActive)] := by
  refine ⟨?_, ?_, ?_, ?_, ?_⟩ <;> rfl

/-- C36, amended.  `Create` and `Update` of the in-memory user store file the given user
under its identifier without any check and return no error, and the user is then the one
stored under that identifier.  For a user stored under `id` after any sequence of calls on
a new store, `SuspendUser`, `ActivateUser` and `DeactivateUser` return no error, and
`UpdateUserProfile` returns no error unless the user is `Deactivated`. -/
theorem C36_user_update_always_succeeds (P : UserSvc.PasswordManager) (uuids : Nat → UUID)
    (starts : Nat → Nat) (cs : List UserSvc.Cmd) (d : UserSvc.mockEventDispatcher)
    (now : Time) (id : UUID) (u user : UserSvc.User) (firstName lastName : String)
    (m : UserSvc.mockUserRepository) :
    (UserSvc.mockUserRepository.Create user m
        = (none, { m with store := mapSet m.store user.ID user }) ∧
      UserSvc.mockUserRepository.Update user m
        = (none, { m with store := mapSet m.store user.ID user }) ∧
      mapGet (UserSvc.mockUserRepository.Update user m).2.store user.ID = some user) ∧
    (mapGet (UserSvc.reached P uuids starts cs).1.store id = some u →
      (UserSvc.SuspendUser UserSvc.mockUserRepository.impl UserSvc.mockEventDispatcher.impl
        now id (UserSvc.reached P uuids starts cs).1 d).1 = none ∧
      (UserSvc.ActivateUser UserSvc.mockUserRepository.impl UserSvc.mockEventDispatcher.impl
        now id (UserSvc.reached P uuids starts cs).1 d).1 = none ∧
      (UserSvc.DeactivateUser UserSvc.mockUserRepository.impl UserSvc.mockEventDispatcher.impl
        now id (UserSvc.reached P uuids starts cs).1 d).1 = none ∧
      (u.Status ≠ .Deactivated →
        (UserSvc.UpdateUserProfile UserSvc.mockUserRepository.impl
          UserSvc.mockEventDispatcher.impl now id firstName lastName
          (UserSvc.reached P uuids starts cs).1 d).1 = none)) := by
  refine ⟨⟨rfl, rfl, mapGet_mapSet_self _ _ _⟩, ?_⟩
  intro hget
  have hst : ∀ newStatus, (UserSvc.changeStatus UserSvc.mockUserRepository.impl
      UserSvc.mockEventDispatcher.impl now id newStatus
      (UserSvc.reached P uuids starts cs).1 d).1 = none := by
    intro newStatus
    rw [UserSvc.changeStatus_eq_user, hget]
    simp only []
    split <;> rfl
  refine ⟨hst _, hst _, hst _, ?_⟩
  intro hs
  rw [UserSvc.UpdateUserProfile_eq_user, hget]
  simp only [if_neg hs]

/-- C36, amended, after the registration of the user test: the user 10 is suspended,
activated and deactivated without error, whatever was stored before. -/
theorem C36_user_update_witness :
    (UserSvc.SuspendUser UserSvc.mockUserRepository.impl UserSvc.mockEventDispatcher.impl
      2 10 UserSvc.sampleRegistered.1 UserSvc.mockEventDispatcher.new).1 = none ∧
    (UserSvc.UpdateUserProfile UserSvc.mockUserRepository.impl
      UserSvc.mockEventDispatcher.impl 2 10 "Johnny" "Doe" UserSvc.sampleRegistered.1
      UserSvc.mockEventDispatcher.new).1 = none :=
  ⟨((C36_user_update_always_succeeds UserSvc.mockPasswordManager (fun n => n + 10)
      (fun n => n) UserSvc.sampleRegisterCalls UserSvc.mockEventDispatcher.new 2 10
      UserSvc.sampleActive UserSvc.sampleActive "Johnny" "Doe" UserSvc.sampleRegistered.1).2
      (by decide)).1,
   ((C36_user_update_always_succeeds UserSvc.mockPasswordManager (fun n => n + 10)
      (fun n => n) UserSvc.sampleRegisterCalls UserSvc.mockEventDispatcher.new 2 10
      UserSvc.sampleActive UserSvc.sampleActive "Johnny" "Doe" UserSvc.sampleRegistered.1).2
      (by decide)).2.2.2 (by decide)⟩


/-! ## Go maps: assignments to one key -/

theorem mapSet_mapSet {α : Type} (m : List (UUID × α)) (k : UUID) (v₁ v₂ : α) :
    mapSet (mapSet m k v₁) k v₂ = mapSet m k v₂ := by
  induction m with
  | nil => simp [mapSet]
  | cons e rest ih =>
    obtain ⟨k', v'⟩ := e
    by_cases hk : k' = k
    · simp [mapSet, hk]
    · simp [mapSet, hk, ih]

theorem length_mapSet_of_absent {α : Type} (m : List (UUID × α)) (k : UUID) (v : α)
    (h : mapGet m k = none) : (mapSet m k v).length = m.length + 1 := by
  induction m with
  | nil => simp [mapSet]
  | cons e rest ih =>
    obtain ⟨k', v'⟩ := e
    by_cases hk : k' = k
    · simp [mapGet, hk] at h
    · simp [mapGet, hk] at h
      simp [mapSet, hk, ih h]

/-! ## C37: sending a notification -/

/-- C37.  `SendWelcomeEmail`, `NotifyOrderConfirmation` and `NotifyPaymentFailed` are
`orchestrateSend` on the channel `Email` with their subject and body.  For a repository
whose calls succeed and a sender configured for the channel: the call returns no error,
the sender is called once, with the given recipient, subject and body, and one event is
dispatched, `NotificationFailed` with the message of the sender's error when the sender
fails and `NotificationSent` when it succeeds.  On the in-memory repository, sender and
dispatcher of the tests: the notification is stored under the generated identifier with
status `Failed` and the reason "failed to send" when the sender fails, and with status
`Sent` and the sent time otherwise, never `Pending`; the sender has counted one more call
and holds the recipient; one event is appended; the store has one record more when the
identifier is new. -/
theorem C37_notification_send {σ ς δ : Type} (R : NotificationSvc.NotificationRepository σ)
    (senders : NotificationSvc.NotificationChannel → Option (NotificationSvc.NotificationSender ς))
    (D : NotificationSvc.EventDispatcher δ) (sender : NotificationSvc.NotificationSender ς)
    (t₁ t₂ : Time) (userID orderID : UUID) (recipient subject body firstName reason : String)
    (channel : NotificationSvc.NotificationChannel) (s : σ) (z : ς) (d : δ)
    (m : NotificationSvc.mockNotificationRepository)
    (zm : NotificationSvc.mockNotificationSender) (dm : NotificationSvc.mockEventDispatcher) :
    (NotificationSvc.SendWelcomeEmail R senders D t₁ t₂ userID recipient firstName s z d
        = NotificationSvc.orchestrateSend R senders D t₁ t₂ userID recipient
            "Welcome to our store!" ("Hi " ++ firstName ++ ", thanks for joining us!")
            .Email s z d ∧
      NotificationSvc.NotifyOrderConfirmation R senders D t₁ t₂ userID recipient orderID s z d
        = NotificationSvc.orchestrateSend R senders D t₁ t₂ userID recipient
            ("Your order " ++ uuidString orderID ++ " has been confirmed!")
            "We have received your order and will process it shortly." .Email s z d ∧
      NotificationSvc.NotifyPaymentFailed R senders D t₁ t₂ userID recipient orderID reason
          s z d
        = NotificationSvc.orchestrateSend R senders D t₁ t₂ userID recipient
            ("Payment failed for order " ++ uuidString orderID)
            ("Unfortunately, the payment for your order failed. Reason: " ++ reason)
            .Email s z d) ∧
    ((∀ s', ∃ id, (R.NextID s').1 = .ok id) → (∀ n s', (R.Create n s').1 = none) →
      (∀ n s', (R.Update n s').1 = none) → senders channel = some sender →
      (NotificationSvc.orchestrateSend R senders D t₁ t₂ userID recipient subject body channel
          s z d).1 = none ∧
      (NotificationSvc.orchestrateSend R senders D t₁ t₂ userID recipient subject body channel
          s z d).2.2.1 = (sender.Send recipient subject body z).2 ∧
      ∃ id, (R.NextID s).1 = .ok id ∧
        (NotificationSvc.orchestrateSend R senders D t₁ t₂ userID recipient subject body
            channel s z d).2.2.2
          = (D.Dispatch
              (match (sender.Send recipient subject body z).1 with
                | some err => .NotificationFailed id userID channel err.Error
                | none => .NotificationSent id userID channel) d).2) ∧
    (NotificationSvc.orchestrateSend NotificationSvc.mockNotificationRepository.impl
        NotificationSvc.setupSenders NotificationSvc.mockEventDispatcher.impl t₁ t₂ userID
        recipient subject body .Email m zm dm
      = (none,
         { store := mapSet m.store (m.uuids 0)
             { ID := m.uuids 0, UserID := userID, Channel := .Email,
               RecipientAddress := recipient, Subject := subject, Body := body,
               Status := if zm.ShouldError then .Failed else .Sent,
               FailureReason := if zm.ShouldError then "failed to send" else "",
               CreatedAt := t₁,
               SentAt := if zm.ShouldError then none else some t₂ }
           uuids := fun n => m.uuids (n + 1) },
         { SendCount := wrap64 (zm.SendCount + 1), LastRecipient := recipient,
           ShouldError := zm.ShouldError },
         { events := dm.events ++
             [if zm.ShouldError then
                .NotificationFailed (m.uuids 0) userID .Email "failed to send"
              else .NotificationSent (m.uuids 0) userID .Email] }) ∧
      (∃ n, mapGet (NotificationSvc.orchestrateSend
            NotificationSvc.mockNotificationRepository.impl NotificationSvc.setupSenders
            NotificationSvc.mockEventDispatcher.impl t₁ t₂ userID recipient subject body
            .Email m zm dm).2.1.store (m.uuids 0) = some n ∧
          n.Status ≠ .Pending ∧ n.RecipientAddress = recipient) ∧
      (mapGet m.store (m.uuids 0) = none →
        (NotificationSvc.orchestrateSend NotificationSvc.mockNotificationRepository.impl
          NotificationSvc.setupSenders NotificationSvc.mockEventDispatcher.impl t₁ t₂ userID
          recipient subject body .Email m zm dm).2.1.store.length = m.store.length + 1)) := by
  have hmock : NotificationSvc.orchestrateSend NotificationSvc.mockNotificationRepository.impl
        NotificationSvc.setupSenders NotificationSvc.mockEventDispatcher.impl t₁ t₂ userID
        recipient subject body .Email m zm dm
      = (none,
         { store := mapSet m.store (m.uuids 0)
             { ID := m.uuids 0, UserID := userID, Channel := .Email,
               RecipientAddress := recipient, Subject := subject, Body := body,
               Status := if zm.ShouldError then .Failed else .Sent,
               FailureReason := if zm.ShouldError then "failed to send" else "",
               CreatedAt := t₁,
               SentAt := if zm.ShouldError then none else some t₂ }
           uuids := fun n => m.uuids (n + 1) },
         { SendCount := wrap64 (zm.SendCount + 1), LastRecipient := recipient,
           ShouldError := zm.ShouldError },
         { events := dm.events ++
             [if zm.ShouldError then
                .NotificationFailed (m.uuids 0) userID .Email "failed to send"
              else .NotificationSent (m.uuids 0) userID .Email] }) := by
    cases hz : zm.ShouldError <;>
      simp [NotificationSvc.orchestrateSend, NotificationSvc.mockNotificationRepository.impl,
        NotificationSvc.mockNotificationRepository.NextID,
        NotificationSvc.mockNotificationRepository.Create,
        NotificationSvc.mockNotificationRepository.Update, NotificationSvc.setupSenders,
        NotificationSvc.mockNotificationSender.impl, NotificationSvc.mockNotificationSender.Send,
        NotificationSvc.mockEventDispatcher.impl, NotificationSvc.mockEventDispatcher.Dispatch,
        NotificationSvc.Err.Error, hz, mapSet_mapSet]
  refine ⟨⟨rfl, rfl, rfl⟩, ?_, hmock, ?_, ?_⟩
  · intro hN hC hU hS
    obtain ⟨id, hid⟩ := hN s
    cases hsend : (sender.Send recipient subject body z).1 with
    | none =>
      simp only [NotificationSvc.orchestrateSend, hid, hC, hS, hsend, hU]
      exact ⟨trivial, trivial, id, rfl, rfl⟩
    | some err =>
      simp only [NotificationSvc.orchestrateSend, hid, hC, hS, hsend, hU]
      exact ⟨trivial, trivial, id, rfl, rfl⟩
  · rw [hmock]
    refine ⟨_, mapGet_mapSet_self _ _ _, ?_, rfl⟩
    cases zm.ShouldError <;> simp
  · intro habs
    rw [hmock]
    exact length_mapSet_of_absent _ _ _ habs

/-- C37 at the welcome emails of the test (the generator issues 10, 11, ..., the clock
reads 1 and 2).  With a sender that succeeds: no error, the record 10 is stored as `Sent`
with the sent time 2, the sender has counted one call and holds the recipient, and one
`NotificationSent` is dispatched.  With a sender that fails: no error, the record is stored
as `Failed` with the reason "failed to send", and one `NotificationFailed` with that reason
is dispatched. -/
theorem C37_notification_send_witness :
    NotificationSvc.SendWelcomeEmail NotificationSvc.mockNotificationRepository.impl
        NotificationSvc.setupSenders NotificationSvc.mockEventDispatcher.impl 1 2 7
        "test@example.com" "John" (NotificationSvc.mockNotificationRepository.new (fun n => n + 10))
        NotificationSvc.mockNotificationSender.new NotificationSvc.mockEventDispatcher.new
      = (none,
         { store := [(10, NotificationSvc.sampleSentRecord)], uuids := fun n => n + 1 + 10 },
         { SendCount := 1, LastRecipient := "test@example.com", ShouldError := false },
         { events := [.NotificationSent 10 7 .Email] }) ∧
    NotificationSvc.SendWelcomeEmail NotificationSvc.mockNotificationRepository.impl
        NotificationSvc.setupSenders NotificationSvc.mockEventDispatcher.impl 1 2 7
        "fail@example.com" "Jane" (NotificationSvc.mockNotificationRepository.new (fun n => n + 10))
        { SendCount := 0, LastRecipient := "", ShouldError := true }
        NotificationSvc.mockEventDispatcher.new
      = (none,
         { store := [(10, NotificationSvc.sampleFailedNotification)],
           uuids := fun n => n + 1 + 10 },
         { SendCount := 1, LastRecipient := "fail@example.com", ShouldError := true },
         { events := [.NotificationFailed 10 7 .Email "failed to send"] }) ∧
    (NotificationSvc.orchestrateSend NotificationSvc.mockNotificationRepository.impl
        NotificationSvc.setupSenders NotificationSvc.mockEventDispatcher.impl 1 2 7
        "test@example.com" "Welcome to our store!" "Hi John, thanks for joining us!" .Email
        (NotificationSvc.mockNotificationRepository.new (fun n => n + 10))
        NotificationSvc.mockNotificationSender.new NotificationSvc.mockEventDispatcher.new).1
      = none := by
  have h₁ := (C37_notification_send NotificationSvc.mockNotificationRepository.impl
    NotificationSvc.setupSenders NotificationSvc.mockEventDispatcher.impl
    NotificationSvc.mockNotificationSender.impl 1 2 7 0 "test@example.com"
    "Welcome to our store!" "Hi John, thanks for joining us!" "John" ""
    .Email (NotificationSvc.mockNotificationRepository.new (fun n => n + 10))
    NotificationSvc.mockNotificationSender.new NotificationSvc.mockEventDispatcher.new
    (NotificationSvc.mockNotificationRepository.new (fun n => n + 10))
    NotificationSvc.mockNotificationSender.new NotificationSvc.mockEventDispatcher.new)
  have h₂ := (C37_notification_send NotificationSvc.mockNotificationRepository.impl
    NotificationSvc.setupSenders NotificationSvc.mockEventDispatcher.impl
    NotificationSvc.mockNotificationSender.impl 1 2 7 0 "fail@example.com"
    "Welcome to our store!" "Hi Jane, thanks for joining us!" "Jane" ""
    .Email (NotificationSvc.mockNotificationRepository.new (fun n => n + 10))
    { SendCount := 0, LastRecipient := "", ShouldError := true }
    NotificationSvc.mockEventDispatcher.new
    (NotificationSvc.mockNotificationRepository.new (fun n => n + 10))
    { SendCount := 0, LastRecipient := "", ShouldError := true }
    NotificationSvc.mockEventDispatcher.new)
  refine ⟨?_, ?_, ?_⟩
  · exact h₁.2.2.1
  · exact h₂.2.2.1
  · exact (h₁.2.1 (fun s' => ⟨s'.uuids 0, rfl⟩) (fun _ _ => rfl) (fun _ _ => rfl) rfl).1


/-! ## The wallet command on the in-memory store, evaluated -/

set_option maxRecDepth 8000 in
theorem PaymentSvc.processTransaction_eq_wallet (t₁ t₂ : Time) (userID : UUID) (amount : Int)
    (refID : String) (txType : PaymentSvc.TransactionType)
    (m : PaymentSvc.mockPaymentRepository) (d : PaymentSvc.mockEventDispatcher) :
    PaymentSvc.processTransaction PaymentSvc.mockPaymentRepository.impl
      PaymentSvc.mockEventDispatcher.impl t₁ t₂ userID amount refID txType m d
      = match PaymentSvc.mockPaymentRepository.firstByUser userID
            (mapRange m.storeWallets (m.starts 0)) with
        | none => (.error .ErrWalletNotFound, { m with starts := fun n => m.starts (n + 1) }, d)
        | some w =>
          match PaymentSvc.mockPaymentRepository.firstByRef w.ID refID m.storeTxs with
          | some _ => (.ok w, { m with starts := fun n => m.starts (n + 1) }, d)
          | none =>
            if txType = .Withdrawal ∧ w.BalanceCents < amount then
              (.error .ErrInsufficientFunds,
               { storeWallets := m.storeWallets
                 storeTxs := m.storeTxs ++
                   [{ ID := m.uuids 0, WalletID := w.ID, Type_ := txType, AmountCents := amount,
                      ReferenceID := refID, Status := .TxFailed,
                      ErrorMessage := "insufficient funds", CreatedAt := t₁ }]
                 uuids := fun n => m.uuids (n + 1)
                 starts := fun n => m.starts (n + 1) },
               { events := d.events ++ [.PaymentFailed w.ID refID "insufficient funds"] })
            else
              match mapGet m.storeWallets w.ID with
              | none =>
                (.error .ErrWalletNotFound,
                 { storeWallets := m.storeWallets
                   storeTxs := m.storeTxs ++
                     [{ ID := m.uuids 0, WalletID := w.ID, Type_ := txType,
                        AmountCents := amount, ReferenceID := refID, Status := .TxCommitted,
                        ErrorMessage := "", CreatedAt := t₁ }]
                   uuids := fun n => m.uuids (n + 1)
                   starts := fun n => m.starts (n + 1) }, d)
              | some existing =>
                if existing.Version ≠ w.Version then
                  (.error .ErrOptimisticLock,
                   { storeWallets := m.storeWallets
                     storeTxs := m.storeTxs ++
                       [{ ID := m.uuids 0, WalletID := w.ID, Type_ := txType,
                          AmountCents := amount, ReferenceID := refID, Status := .TxCommitted,
                          ErrorMessage := "", CreatedAt := t₁ }]
                     uuids := fun n => m.uuids (n + 1)
                     starts := fun n => m.starts (n + 1) }, d)
                else
                  (.ok { w with
                         BalanceCents :=
                           if txType = .Withdrawal then wrap64 (w.BalanceCents - amount)
                           else wrap64 (w.BalanceCents + amount)
                         Version := w.Version + 1
                         UpdatedAt := t₂ },
                   { storeWallets := mapSet m.storeWallets w.ID
                       { w with
                         BalanceCents :=
                           if txType = .Withdrawal then wrap64 (w.BalanceCents - amount)
                           else wrap64 (w.BalanceCents + amount)
                         Version := w.Version + 1
                         UpdatedAt := t₂ }
                     storeTxs := m.storeTxs ++
                       [{ ID := m.uuids 0, WalletID := w.ID, Type_ := txType,
                          AmountCents := amount, ReferenceID := refID, Status := .TxCommitted,
                          ErrorMessage := "", CreatedAt := t₁ }]
                     uuids := fun n => m.uuids (n + 1)
                     starts := fun n => m.starts (n + 1) },
                   { events := d.events ++
                       [if txType = .Withdrawal then .FundsWithdrawn w.ID userID amount refID
                        else .FundsDeposited w.ID userID amount refID
                          (if txType = .Withdrawal then wrap64 (w.BalanceCents - amount)
                           else wrap64 (w.BalanceCents + amount))] }) := by
  simp only [PaymentSvc.processTransaction, PaymentSvc.mockPaymentRepository.impl,
    PaymentSvc.mockPaymentRepository.GetWalletByUserID,
    PaymentSvc.mockPaymentRepository.FindTransactionByRef,
    PaymentSvc.mockPaymentRepository.NextID, PaymentSvc.mockPaymentRepository.SaveTransaction,
    PaymentSvc.mockPaymentRepository.UpdateWallet, PaymentSvc.mockEventDispatcher.impl,
    PaymentSvc.mockEventDispatcher.Dispatch, PaymentSvc.Err.Error]
  cases PaymentSvc.mockPaymentRepository.firstByUser userID
      (mapRange m.storeWallets (m.starts 0)) with
  | none => rfl
  | some w =>
    simp only []
    cases PaymentSvc.mockPaymentRepository.firstByRef w.ID refID m.storeTxs with
    | some tx => rfl
    | none =>
      simp only []
      by_cases hi : txType = .Withdrawal ∧ w.BalanceCents < amount
      · simp only [if_pos hi]
      · simp only [if_neg hi]
        cases mapGet m.storeWallets w.ID with
        | none => rfl
        | some existing =>
          simp only []
          by_cases hv : existing.Version ≠ w.Version
          · have hv' : existing.Version ≠ w.Version + 1 - 1 := by omega
            simp only [if_pos hv, if_pos hv']
          · have hv' : ¬ existing.Version ≠ w.Version + 1 - 1 := by omega
            cases txType <;> simp [if_neg hv, if_neg hv']

/-- What the wallet command does to the wallet map and the ledger of the in-memory store:
nothing; or one record is appended, for a stored wallet, and the wallet map stays (the
record is `TxFailed`, or the update was refused); or one `TxCommitted` record is appended
and the entry under the identifier of the loaded wallet is replaced. -/
theorem PaymentSvc.processTransaction_cases_wallet (t₁ t₂ : Time) (userID : UUID)
    (amount : Int) (refID : String) (txType : PaymentSvc.TransactionType)
    (m : PaymentSvc.mockPaymentRepository) (d : PaymentSvc.mockEventDispatcher) :
    ((PaymentSvc.processTransaction PaymentSvc.mockPaymentRepository.impl
        PaymentSvc.mockEventDispatcher.impl t₁ t₂ userID amount refID txType m
        d).2.1.storeWallets = m.storeWallets ∧
      (PaymentSvc.processTransaction PaymentSvc.mockPaymentRepository.impl
        PaymentSvc.mockEventDispatcher.impl t₁ t₂ userID amount refID txType m
        d).2.1.storeTxs = m.storeTxs) ∨
    (∃ (k : UUID) (w : PaymentSvc.Wallet) (tx : PaymentSvc.Transaction),
      (k, w) ∈ m.storeWallets ∧ tx.WalletID = w.ID ∧
      (PaymentSvc.processTransaction PaymentSvc.mockPaymentRepository.impl
        PaymentSvc.mockEventDispatcher.impl t₁ t₂ userID amount refID txType m
        d).2.1.storeWallets = m.storeWallets ∧
      (PaymentSvc.processTransaction PaymentSvc.mockPaymentRepository.impl
        PaymentSvc.mockEventDispatcher.impl t₁ t₂ userID amount refID txType m
        d).2.1.storeTxs = m.storeTxs ++ [tx] ∧
      (tx.Status = .TxFailed ∨
        (PaymentSvc.processTransaction PaymentSvc.mockPaymentRepository.impl
          PaymentSvc.mockEventDispatcher.impl t₁ t₂ userID amount refID txType m d).1
          = .error .ErrOptimisticLock ∨
        mapGet m.storeWallets w.ID = none)) ∨
    (∃ (k : UUID) (w w₀ : PaymentSvc.Wallet) (tx : PaymentSvc.Transaction)
        (w₁ : PaymentSvc.Wallet),
      (k, w) ∈ m.storeWallets ∧ mapGet m.storeWallets w.ID = some w₀ ∧
      w₀.Version = w.Version ∧ (txType = .Withdrawal → amount ≤ w.BalanceCents) ∧
      tx.WalletID = w.ID ∧ tx.Status = .TxCommitted ∧ tx.Type_ = txType ∧
      tx.AmountCents = amount ∧ w₁.ID = w.ID ∧ w₁.Version = w.Version + 1 ∧
      w₁.BalanceCents = (if txType = .Withdrawal then wrap64 (w.BalanceCents - amount)
        else wrap64 (w.BalanceCents + amount)) ∧
      (PaymentSvc.processTransaction PaymentSvc.mockPaymentRepository.impl
        PaymentSvc.mockEventDispatcher.impl t₁ t₂ userID amount refID txType m
        d).2.1.storeWallets = mapSet m.storeWallets w.ID w₁ ∧
      (PaymentSvc.processTransaction PaymentSvc.mockPaymentRepository.impl
        PaymentSvc.mockEventDispatcher.impl t₁ t₂ userID amount refID txType m
        d).2.1.storeTxs = m.storeTxs ++ [tx]) := by
  have hE := PaymentSvc.processTransaction_eq_wallet t₁ t₂ userID amount refID txType m d
  cases hfu : PaymentSvc.mockPaymentRepository.firstByUser userID
      (mapRange m.storeWallets (m.starts 0)) with
  | none =>
    simp only [hfu] at hE
    exact Or.inl (by rw [hE]; exact ⟨rfl, rfl⟩)
  | some w =>
    simp only [hfu] at hE
    obtain ⟨⟨k, hk⟩, _⟩ := PaymentSvc.mockPaymentRepository.firstByUser_mem _ _ _ hfu
    have hmem : (k, w) ∈ m.storeWallets := by simpa [mapRange] using hk
    cases hfr : PaymentSvc.mockPaymentRepository.firstByRef w.ID refID m.storeTxs with
    | some tx₀ =>
      simp only [hfr] at hE
      exact Or.inl (by rw [hE]; exact ⟨rfl, rfl⟩)
    | none =>
      simp only [hfr] at hE
      by_cases hi : txType = .Withdrawal ∧ w.BalanceCents < amount
      · simp only [if_pos hi] at hE
        exact Or.inr (Or.inl ⟨k, w,
          { ID := m.uuids 0, WalletID := w.ID, Type_ := txType, AmountCents := amount,
            ReferenceID := refID, Status := .TxFailed,
            ErrorMessage := "insufficient funds", CreatedAt := t₁ },
          hmem, rfl, by rw [hE], by rw [hE], Or.inl rfl⟩)
      · simp only [if_neg hi] at hE
        cases hg : mapGet m.storeWallets w.ID with
        | none =>
          simp only [hg] at hE
          exact Or.inr (Or.inl ⟨k, w,
            { ID := m.uuids 0, WalletID := w.ID, Type_ := txType, AmountCents := amount,
              ReferenceID := refID, Status := .TxCommitted, ErrorMessage := "",
              CreatedAt := t₁ },
            hmem, rfl, by rw [hE], by rw [hE], Or.inr (Or.inr hg)⟩)
        | some existing =>
          simp only [hg] at hE
          by_cases hv : existing.Version ≠ w.Version
          · simp only [if_pos hv] at hE
            exact Or.inr (Or.inl ⟨k, w,
              { ID := m.uuids 0, WalletID := w.ID, Type_ := txType, AmountCents := amount,
                ReferenceID := refID, Status := .TxCommitted, ErrorMessage := "",
                CreatedAt := t₁ },
              hmem, rfl, by rw [hE], by rw [hE], Or.inr (Or.inl (by rw [hE]))⟩)
          · simp only [if_neg hv] at hE
            have hw : txType = .Withdrawal → amount ≤ w.BalanceCents := by
              intro ht
              by_contra hlt
              exact hi ⟨ht, by omega⟩
            exact Or.inr (Or.inr ⟨k, w, existing,
              { ID := m.uuids 0, WalletID := w.ID, Type_ := txType, AmountCents := amount,
                ReferenceID := refID, Status := .TxCommitted, ErrorMessage := "",
                CreatedAt := t₁ },
              { w with
                BalanceCents :=
                  if txType = .Withdrawal then wrap64 (w.BalanceCents - amount)
                  else wrap64 (w.BalanceCents + amount)
                Version := w.Version + 1
                UpdatedAt := t₂ },
              hmem, hg, by omega, hw, rfl, rfl, rfl, rfl, rfl, rfl, rfl,
              by rw [hE], by rw [hE]⟩)

/-- The generator after the wallet command is the generator of before, advanced. -/
theorem PaymentSvc.processTransaction_uuids (t₁ t₂ : Time) (userID : UUID)
    (amount : Int) (refID : String) (txType : PaymentSvc.TransactionType)
    (m : PaymentSvc.mockPaymentRepository) (d : PaymentSvc.mockEventDispatcher) :
    ∃ j, (PaymentSvc.processTransaction PaymentSvc.mockPaymentRepository.impl
        PaymentSvc.mockEventDispatcher.impl t₁ t₂ userID amount refID txType m
        d).2.1.uuids = fun n => m.uuids (n + j) := by
  rw [PaymentSvc.processTransaction_eq_wallet]
  repeat' split
  all_goals first
    | exact ⟨0, rfl⟩
    | exact ⟨1, rfl⟩

/-- The wallet map and the ledger of the in-memory store after a call of the payment
service. -/
theorem PaymentSvc.exec_cases_wallet (c : PaymentSvc.Cmd)
    (m : PaymentSvc.mockPaymentRepository) (d : PaymentSvc.mockEventDispatcher) :
    ((PaymentSvc.exec PaymentSvc.mockPaymentRepository.impl PaymentSvc.mockEventDispatcher.impl
        c m d).2.1.storeWallets = m.storeWallets ∧
      (PaymentSvc.exec PaymentSvc.mockPaymentRepository.impl PaymentSvc.mockEventDispatcher.impl
        c m d).2.1.storeTxs = m.storeTxs) ∨
    (∃ (now : Time) (userID : UUID), c = .CreateWallet now userID ∧
      mapGet m.storeWallets (m.uuids 0) = none ∧
      (PaymentSvc.exec PaymentSvc.mockPaymentRepository.impl PaymentSvc.mockEventDispatcher.impl
        c m d).2.1.storeWallets
        = mapSet (mapSet m.storeWallets (m.uuids 0)
            { ID := m.uuids 0, UserID := userID, BalanceCents := 0,
              Currency := "INTERNAL_COIN", Version := 1, CreatedAt := now, UpdatedAt := now })
            userID
            { ID := m.uuids 0, UserID := userID, BalanceCents := 0,
              Currency := "INTERNAL_COIN", Version := 1, CreatedAt := now, UpdatedAt := now } ∧
      (PaymentSvc.exec PaymentSvc.mockPaymentRepository.impl PaymentSvc.mockEventDispatcher.impl
        c m d).2.1.storeTxs = m.storeTxs) ∨
    (∃ (k : UUID) (w : PaymentSvc.Wallet) (tx : PaymentSvc.Transaction),
      (k, w) ∈ m.storeWallets ∧ tx.WalletID = w.ID ∧
      (PaymentSvc.exec PaymentSvc.mockPaymentRepository.impl PaymentSvc.mockEventDispatcher.impl
        c m d).2.1.storeWallets = m.storeWallets ∧
      (PaymentSvc.exec PaymentSvc.mockPaymentRepository.impl PaymentSvc.mockEventDispatcher.impl
        c m d).2.1.storeTxs = m.storeTxs ++ [tx] ∧
      (tx.Status = .TxFailed ∨
        (PaymentSvc.exec PaymentSvc.mockPaymentRepository.impl
          PaymentSvc.mockEventDispatcher.impl c m d).1 = some .ErrOptimisticLock ∨
        mapGet m.storeWallets w.ID = none)) ∨
    (∃ (k : UUID) (w w₀ : PaymentSvc.Wallet) (tx : PaymentSvc.Transaction)
        (w₁ : PaymentSvc.Wallet) (amount : Int) (txType : PaymentSvc.TransactionType),
      (k, w) ∈ m.storeWallets ∧ mapGet m.storeWallets w.ID = some w₀ ∧
      w₀.Version = w.Version ∧ 0 < amount ∧
      (txType = .Withdrawal → amount ≤ w.BalanceCents) ∧
      (txType = .Deposit → ∃ t₁ t₂ u ref, c = .Deposit t₁ t₂ u amount ref) ∧
      tx.WalletID = w.ID ∧ tx.Status = .TxCommitted ∧ tx.Type_ = txType ∧
      tx.AmountCents = amount ∧ w₁.ID = w.ID ∧ w₁.Version = w.Version + 1 ∧
      w₁.BalanceCents = (if txType = .Withdrawal then wrap64 (w.BalanceCents - amount)
        else wrap64 (w.BalanceCents + amount)) ∧
      (PaymentSvc.exec PaymentSvc.mockPaymentRepository.impl PaymentSvc.mockEventDispatcher.impl
        c m d).2.1.storeWallets = mapSet m.storeWallets w.ID w₁ ∧
      (PaymentSvc.exec PaymentSvc.mockPaymentRepository.impl PaymentSvc.mockEventDispatcher.impl
        c m d).2.1.storeTxs = m.storeTxs ++ [tx]) := by
  cases c with
  | CreateWallet now userID =>
    simp only [PaymentSvc.exec, PaymentSvc.CreateWallet, PaymentSvc.mockPaymentRepository.impl,
      PaymentSvc.mockPaymentRepository.NextID, PaymentSvc.mockPaymentRepository.CreateWallet]
    cases hg : mapGet m.storeWallets (m.uuids 0) with
    | some w => exact Or.inl ⟨rfl, rfl⟩
    | none => exact Or.inr (Or.inl ⟨now, userID, rfl, rfl, rfl, rfl⟩)
  | Deposit t₁ t₂ userID amountCents referenceID =>
    simp only [PaymentSvc.exec, PaymentSvc.Deposit]
    by_cases ha : amountCents ≤ 0
    · rw [if_pos ha]
      exact Or.inl ⟨rfl, rfl⟩
    · rw [if_neg ha]
      rcases PaymentSvc.processTransaction_cases_wallet t₁ t₂ userID amountCents referenceID
        .Deposit m d with h | ⟨k, w, tx, h₁, h₂, h₃, h₄, h₅⟩ |
        ⟨k, w, w₀, tx, w₁, h₁, h₂, h₃, h₄, h₅, h₆, h₇, h₈, h₉, h₁₀, h₁₁, h₁₂, h₁₃⟩
      · exact Or.inl h
      · refine Or.inr (Or.inr (Or.inl ⟨k, w, tx, h₁, h₂, h₃, h₄, ?_⟩))
        rcases h₅ with h | h | h
        · exact Or.inl h
        · exact Or.inr (Or.inl (by rw [h]))
        · exact Or.inr (Or.inr h)
      · exact Or.inr (Or.inr (Or.inr ⟨k, w, w₀, tx, w₁, amountCents, .Deposit, h₁, h₂, h₃,
          by omega, h₄, fun _ => ⟨t₁, t₂, userID, referenceID, rfl⟩, h₅, h₆, h₇, h₈, h₉, h₁₀,
          h₁₁, h₁₂, h₁₃⟩))
  | PayForOrder t₁ t₂ userID orderID amountCents =>
    simp only [PaymentSvc.exec, PaymentSvc.PayForOrder]
    by_cases ha : amountCents ≤ 0
    · rw [if_pos ha]
      exact Or.inl ⟨rfl, rfl⟩
    · rw [if_neg ha]
      have hst : ∀ r : Except PaymentSvc.Err PaymentSvc.Wallet × PaymentSvc.mockPaymentRepository ×
          PaymentSvc.mockEventDispatcher,
          (match r.1 with
            | .error e => (some e, r.2)
            | .ok _ => ((none : Option PaymentSvc.Err), r.2)).2 = r.2 := by
        intro r
        split <;> rfl
      have her : ∀ r : Except PaymentSvc.Err PaymentSvc.Wallet × PaymentSvc.mockPaymentRepository ×
          PaymentSvc.mockEventDispatcher, r.1 = .error .ErrOptimisticLock →
          (match r.1 with
            | .error e => (some e, r.2)
            | .ok _ => ((none : Option PaymentSvc.Err), r.2)).1 = some .ErrOptimisticLock := by
        intro r h
        rw [h]
      simp only [hst]
      rcases PaymentSvc.processTransaction_cases_wallet t₁ t₂ userID amountCents
        (uuidString orderID) .Withdrawal m d with h | ⟨k, w, tx, h₁, h₂, h₃, h₄, h₅⟩ |
        ⟨k, w, w₀, tx, w₁, h₁, h₂, h₃, h₄, h₅, h₆, h₇, h₈, h₉, h₁₀, h₁₁, h₁₂, h₁₃⟩
      · exact Or.inl h
      · refine Or.inr (Or.inr (Or.inl ⟨k, w, tx, h₁, h₂, h₃, h₄, ?_⟩))
        rcases h₅ with h | h | h
        · exact Or.inl h
        · exact Or.inr (Or.inl (her _ h))
        · exact Or.inr (Or.inr h)
      · exact Or.inr (Or.inr (Or.inr ⟨k, w, w₀, tx, w₁, amountCents, .Withdrawal, h₁, h₂, h₃,
          by omega, h₄, fun h => PaymentSvc.TransactionType.noConfusion h, h₅, h₆, h₇, h₈, h₉, h₁₀,
          h₁₁, h₁₂, h₁₃⟩))
  | GetBalance userID =>
    simp only [PaymentSvc.exec, PaymentSvc.GetBalance, PaymentSvc.mockPaymentRepository.impl,
      PaymentSvc.mockPaymentRepository.GetWalletByUserID_state]
    left
    split <;> exact ⟨rfl, rfl⟩

/-- The generator after a call of the payment service is the generator of before,
advanced. -/
theorem PaymentSvc.exec_uuids_wallet (c : PaymentSvc.Cmd)
    (m : PaymentSvc.mockPaymentRepository) (d : PaymentSvc.mockEventDispatcher) :
    ∃ j, (PaymentSvc.exec PaymentSvc.mockPaymentRepository.impl
        PaymentSvc.mockEventDispatcher.impl c m d).2.1.uuids = fun n => m.uuids (n + j) := by
  cases c with
  | CreateWallet now userID =>
    simp only [PaymentSvc.exec, PaymentSvc.CreateWallet, PaymentSvc.mockPaymentRepository.impl,
      PaymentSvc.mockPaymentRepository.NextID, PaymentSvc.mockPaymentRepository.CreateWallet]
    cases hg : mapGet m.storeWallets (m.uuids 0) with
    | some w => exact ⟨1, rfl⟩
    | none => exact ⟨1, rfl⟩
  | Deposit t₁ t₂ userID amountCents referenceID =>
    simp only [PaymentSvc.exec, PaymentSvc.Deposit]
    by_cases ha : amountCents ≤ 0
    · simp only [if_pos ha]
      exact ⟨0, rfl⟩
    · simp only [if_neg ha]
      exact PaymentSvc.processTransaction_uuids _ _ _ _ _ _ _ _
  | PayForOrder t₁ t₂ userID orderID amountCents =>
    simp only [PaymentSvc.exec, PaymentSvc.PayForOrder]
    by_cases ha : amountCents ≤ 0
    · simp only [if_pos ha]
      exact ⟨0, rfl⟩
    · simp only [if_neg ha]
      obtain ⟨j, hj⟩ := PaymentSvc.processTransaction_uuids t₁ t₂ userID amountCents
        (uuidString orderID) .Withdrawal m d
      refine ⟨j, ?_⟩
      rw [← hj]
      split <;> rfl
  | GetBalance userID =>
    simp only [PaymentSvc.exec, PaymentSvc.GetBalance, PaymentSvc.mockPaymentRepository.impl,
      PaymentSvc.mockPaymentRepository.GetWalletByUserID_state]
    refine ⟨0, ?_⟩
    split <;> rfl

/-! ## Balances of the stored wallets -/

theorem mapGet_mapSet_some {α : Type} (m : List (UUID × α)) (k k' : UUID) (v : α) {x : α}
    (h : mapGet m k' = some x) : ∃ y, mapGet (mapSet m k v) k' = some y := by
  by_cases hk : k' = k
  · subst hk
    exact ⟨v, mapGet_mapSet_self _ _ _⟩
  · exact ⟨x, by rw [mapGet_mapSet_of_ne _ _ hk]; exact h⟩

theorem wrap64_sub_wrap64 (x y : Int) : wrap64 (wrap64 x - y) = wrap64 (x - y) := by
  unfold wrap64
  omega

theorem PaymentSvc.ledgerBalance_append (k : UUID) (txs : List PaymentSvc.Transaction)
    (tx : PaymentSvc.Transaction) :
    PaymentSvc.ledgerBalance k (txs ++ [tx])
      = PaymentSvc.ledgerBalance k txs +
        (if tx.WalletID = k ∧ tx.Status = .TxCommitted then
          (if tx.Type_ = .Deposit then tx.AmountCents else -tx.AmountCents)
         else 0) := by
  unfold PaymentSvc.ledgerBalance
  simp only [List.filter_append, List.map_append, List.sum_append]
  by_cases h₁ : tx.WalletID = k
  · by_cases h₂ : tx.Status = .TxCommitted
    · cases h₃ : tx.Type_ <;> simp [List.filter, h₁, h₂, h₃] <;> omega
    · simp [List.filter, h₁, h₂]
  · simp [List.filter, h₁]

theorem PaymentSvc.ledgerBalance_of_absent (k : UUID) (txs : List PaymentSvc.Transaction)
    (h : ∀ tx ∈ txs, tx.WalletID ≠ k) : PaymentSvc.ledgerBalance k txs = 0 := by
  induction txs with
  | nil => simp [PaymentSvc.ledgerBalance]
  | cons tx rest ih =>
    have h₁ : tx.WalletID ≠ k := h tx (List.mem_cons_self _ _)
    have h₂ := ih (fun tx' h' => h tx' (List.mem_cons_of_mem _ h'))
    unfold PaymentSvc.ledgerBalance at h₂ ⊢
    simpa [List.filter, h₁] using h₂

theorem PaymentSvc.Agree_exec (isUser : UUID → Prop) (c : PaymentSvc.Cmd)
    (m : PaymentSvc.mockPaymentRepository) (d : PaymentSvc.mockEventDispatcher)
    (hA : PaymentSvc.Agree m.storeWallets m.storeTxs)
    (hids : ∀ e ∈ m.storeWallets, ¬ isUser e.2.ID)
    (hU : ∀ now userID, c = .CreateWallet now userID → isUser userID)
    (hgen : ¬ isUser (m.uuids 0))
    (hlock : (PaymentSvc.exec PaymentSvc.mockPaymentRepository.impl
      PaymentSvc.mockEventDispatcher.impl c m d).1 ≠ some .ErrOptimisticLock) :
    PaymentSvc.Agree
      (PaymentSvc.exec PaymentSvc.mockPaymentRepository.impl
        PaymentSvc.mockEventDispatcher.impl c m d).2.1.storeWallets
      (PaymentSvc.exec PaymentSvc.mockPaymentRepository.impl
        PaymentSvc.mockEventDispatcher.impl c m d).2.1.storeTxs ∧
    ∀ e ∈ (PaymentSvc.exec PaymentSvc.mockPaymentRepository.impl
        PaymentSvc.mockEventDispatcher.impl c m d).2.1.storeWallets, ¬ isUser e.2.ID := by
  obtain ⟨hI1, hI2, hI3⟩ := hA
  rcases PaymentSvc.exec_cases_wallet c m d with ⟨h₁, h₂⟩ |
    ⟨now, userID, hc, hnone, h₁, h₂⟩ | ⟨k, w, tx, hmem, htw, h₁, h₂, hst⟩ |
    ⟨k, w, w₀, tx, w₁, amount, txType, hmem, hg, hv, ha, hw, hdep, htw, hts, htt, hta, hid₁,
      hv₁, hbal, h₁, h₂⟩
  · rw [h₁, h₂]
    exact ⟨⟨hI1, hI2, hI3⟩, hids⟩
  · -- a wallet is created
    rw [h₁, h₂]
    have hUser : isUser userID := hU now userID hc
    have hJU : m.uuids 0 ≠ userID := fun h => hgen (h ▸ hUser)
    have hgetJ : ∀ W : PaymentSvc.Wallet,
        mapGet (mapSet (mapSet m.storeWallets (m.uuids 0) W) userID W) (m.uuids 0) = some W := by
      intro W
      rw [mapGet_mapSet_of_ne _ _ hJU]
      exact mapGet_mapSet_self _ _ _
    have hold : ∀ (W : PaymentSvc.Wallet) (k : UUID), k ≠ m.uuids 0 → k ≠ userID →
        mapGet (mapSet (mapSet m.storeWallets (m.uuids 0) W) userID W) k
          = mapGet m.storeWallets k := by
      intro W k hk₁ hk₂
      rw [mapGet_mapSet_of_ne _ _ hk₂, mapGet_mapSet_of_ne _ _ hk₁]
    have hmem' : ∀ (W : PaymentSvc.Wallet) (e : UUID × PaymentSvc.Wallet),
        e ∈ mapSet (mapSet m.storeWallets (m.uuids 0) W) userID W → e ∈ m.storeWallets ∨ e.2 = W := by
      intro W e he
      rcases mem_mapSet he with he | he
      · rcases mem_mapSet he with he | he
        · exact Or.inl he
        · exact Or.inr (by rw [he])
      · exact Or.inr (by rw [he])
    refine ⟨⟨?_, ?_, ?_⟩, ?_⟩
    · intro e he
      rcases hmem' _ e he with he | he
      · obtain ⟨x, hx₁, hx₂, hx₃, hx₄⟩ := hI1 e he
        have hk₁ : e.2.ID ≠ m.uuids 0 := by
          intro h
          rw [h, hnone] at hx₁
          cases hx₁
        have hk₂ : e.2.ID ≠ userID := fun h => hids e he (h ▸ hUser)
        exact ⟨x, by rw [hold _ _ hk₁ hk₂]; exact hx₁, hx₂, hx₃, hx₄⟩
      · rw [he]
        exact ⟨_, hgetJ _, rfl, le_refl _, fun _ => rfl⟩
    · intro k x hx hxk
      by_cases hk₂ : k = userID
      · subst hk₂
        rw [mapGet_mapSet_self] at hx
        cases hx
        exact absurd hxk hJU
      · by_cases hk₁ : k = m.uuids 0
        · subst hk₁
          rw [hgetJ] at hx
          cases hx
          have hz : PaymentSvc.ledgerBalance (m.uuids 0) m.storeTxs = 0 := by
            apply PaymentSvc.ledgerBalance_of_absent
            intro tx htx h
            obtain ⟨y, hy⟩ := hI3 tx htx
            rw [h, hnone] at hy
            cases hy
          rw [hz, wrap64_zero]
        · rw [hold _ _ hk₁ hk₂] at hx
          exact hI2 k x hx hxk
    · intro tx htx
      obtain ⟨y, hy⟩ := hI3 tx htx
      obtain ⟨y₁, hy₁⟩ := mapGet_mapSet_some m.storeWallets (m.uuids 0) tx.WalletID
        (v := { ID := m.uuids 0, UserID := userID, BalanceCents := 0,
                 Currency := "INTERNAL_COIN", Version := 1, CreatedAt := now,
                 UpdatedAt := now }) hy
      exact mapGet_mapSet_some _ _ _ _ hy₁
    · intro e he
      rcases hmem' _ e he with he | he
      · exact hids e he
      · rw [he]
        exact hgen
  · -- a record is appended and the wallet map stays
    rw [h₁, h₂]
    obtain ⟨x, hx₁, hx₂, hx₃, hx₄⟩ := hI1 (k, w) hmem
    have hfailed : tx.Status = .TxFailed := by
      rcases hst with h | h | h
      · exact h
      · exact absurd h hlock
      · rw [h] at hx₁
        cases hx₁
    refine ⟨⟨hI1, ?_, ?_⟩, hids⟩
    · intro k' x' hx' hk'
      have hcond : ¬ (tx.WalletID = k' ∧ tx.Status = .TxCommitted) := by
        rw [hfailed]
        exact fun h => PaymentSvc.TransactionStatus.noConfusion h.2
      rw [PaymentSvc.ledgerBalance_append, if_neg hcond, add_zero]
      exact hI2 k' x' hx' hk'
    · intro tx' htx'
      rcases List.mem_append.mp htx' with h | h
      · exact hI3 tx' h
      · simp only [List.mem_singleton] at h
        subst h
        exact ⟨x, by rw [htw]; exact hx₁⟩
  · -- the balance is updated
    rw [h₁, h₂]
    obtain ⟨x, hx₁, hx₂, hx₃, hx₄⟩ := hI1 (k, w) hmem
    simp only at hx₁ hx₂ hx₃ hx₄
    rw [hg] at hx₁
    cases hx₁
    refine ⟨⟨?_, ?_, ?_⟩, ?_⟩
    · intro e he
      rcases mem_mapSet he with he | he
      · obtain ⟨y, hy₁, hy₂, hy₃, hy₄⟩ := hI1 e he
        by_cases hk : e.2.ID = w.ID
        · rw [hk] at hy₁
          rw [hg] at hy₁
          cases hy₁
          refine ⟨w₁, by rw [hk]; exact mapGet_mapSet_self _ _ _, by rw [hid₁, hk], by omega,
            fun h => ?_⟩
          omega
        · exact ⟨y, by rw [mapGet_mapSet_of_ne _ _ hk]; exact hy₁, hy₂, hy₃, hy₄⟩
      · subst he
        exact ⟨w₁, by simp only [hid₁]; exact mapGet_mapSet_self _ _ _, rfl, le_refl _,
          fun _ => rfl⟩
    · intro k' x' hx' hk'
      rw [PaymentSvc.ledgerBalance_append]
      by_cases hk : k' = w.ID
      · subst hk
        rw [mapGet_mapSet_self] at hx'
        cases hx'
        have hL := hI2 w.ID w₀ hg hx₂
        have hwb : w.BalanceCents = w₀.BalanceCents := hx₄ hv.symm
        have hcond : tx.WalletID = w.ID ∧ tx.Status = .TxCommitted := ⟨htw, hts⟩
        rw [if_pos hcond, hta, hbal, hwb, hL]
        cases txType with
        | Deposit =>
          have h₃ : ¬ (PaymentSvc.TransactionType.Deposit = .Withdrawal) := by decide
          rw [if_neg h₃, if_pos htt, wrap64_add_wrap64]
        | Withdrawal =>
          have h₃ : ¬ (tx.Type_ = .Deposit) := by rw [htt]; decide
          rw [if_pos rfl, if_neg h₃, wrap64_sub_wrap64, sub_eq_add_neg]
      · rw [mapGet_mapSet_of_ne _ _ hk] at hx'
        have hcond : ¬ (tx.WalletID = k' ∧ tx.Status = .TxCommitted) := by
          rw [htw]
          exact fun h => hk h.1.symm
        rw [if_neg hcond, add_zero]
        exact hI2 k' x' hx' hk'
    · intro tx' htx'
      rcases List.mem_append.mp htx' with h | h
      · obtain ⟨y, hy⟩ := hI3 tx' h
        exact mapGet_mapSet_some _ _ _ _ hy
      · simp only [List.mem_singleton] at h
        subst h
        exact ⟨w₁, by rw [htw]; exact mapGet_mapSet_self _ _ _⟩
    · intro e he
      rcases mem_mapSet he with he | he
      · exact hids e he
      · subst he
        simp only [hid₁]
        exact hids (k, w) hmem

theorem PaymentSvc.Agree_run (isUser : UUID → Prop) (cs : List PaymentSvc.Cmd)
    (m : PaymentSvc.mockPaymentRepository) (d : PaymentSvc.mockEventDispatcher)
    (hA : PaymentSvc.Agree m.storeWallets m.storeTxs)
    (hids : ∀ e ∈ m.storeWallets, ¬ isUser e.2.ID)
    (hU : ∀ c ∈ cs, ∀ now userID, c = .CreateWallet now userID → isUser userID)
    (hgen : ∀ n, ¬ isUser (m.uuids n))
    (hlock : some .ErrOptimisticLock ∉ PaymentSvc.results PaymentSvc.mockPaymentRepository.impl
      PaymentSvc.mockEventDispatcher.impl cs m d) :
    PaymentSvc.Agree
      (PaymentSvc.run PaymentSvc.mockPaymentRepository.impl
        PaymentSvc.mockEventDispatcher.impl cs m d).1.storeWallets
      (PaymentSvc.run PaymentSvc.mockPaymentRepository.impl
        PaymentSvc.mockEventDispatcher.impl cs m d).1.storeTxs := by
  induction cs generalizing m d with
  | nil => exact hA
  | cons c rest ih =>
    simp only [PaymentSvc.results, List.mem_cons, not_or] at hlock
    obtain ⟨h₁, h₂⟩ := PaymentSvc.Agree_exec isUser c m d hA hids
      (hU c (List.mem_cons_self _ _)) (hgen 0) (fun h => hlock.1 h.symm)
    obtain ⟨j, hj⟩ := PaymentSvc.exec_uuids_wallet c m d
    simp only [PaymentSvc.run]
    exact ih _ _ h₁ h₂ (fun c' hc' => hU c' (List.mem_cons_of_mem _ hc'))
      (fun n => by rw [hj]; exact hgen _) hlock.2

/-! ## C39: the ledger and the stored balance -/

/-- C39 as stated fails.  On a new in-memory store (the generator issues 10, 11, ... and
the `n`-th map iteration starts at position `n`) a wallet is created for user 7, 500 is
deposited under "r1" and 100 under "r2": the second deposit loads the entry that still
holds version 1, its `TxCommitted` record is appended and the update is refused with
`ErrOptimisticLock`; the ledger then says 600 for the wallet 10 and the stored balance is
500.  And after two deposits of `2^62`, which both succeed, the ledger says `2^63` and the
stored balance is `-2^63`. -/
theorem C39_ledger_and_stored_balance_differ :
    (PaymentSvc.results PaymentSvc.mockPaymentRepository.impl PaymentSvc.mockEventDispatcher.impl
        PaymentSvc.sampleTwoDepositCalls
        (PaymentSvc.mockPaymentRepository.new (fun n => n + 10) (fun n => n))
        PaymentSvc.mockEventDispatcher.new = [none, none, some .ErrOptimisticLock] ∧
      PaymentSvc.ledgerBalance 10 (PaymentSvc.reached (fun n => n + 10) (fun n => n)
        PaymentSvc.sampleTwoDepositCalls).1.storeTxs = 600 ∧
      (mapGet (PaymentSvc.reached (fun n => n + 10) (fun n => n)
        PaymentSvc.sampleTwoDepositCalls).1.storeWallets 10).map (fun w => w.BalanceCents)
        = some 500) ∧
    (PaymentSvc.results PaymentSvc.mockPaymentRepository.impl PaymentSvc.mockEventDispatcher.impl
        PaymentSvc.sampleLargeDepositCalls
        (PaymentSvc.mockPaymentRepository.new (fun n => n + 10) (fun _ => 0))
        PaymentSvc.mockEventDispatcher.new = [none, none, none] ∧
      PaymentSvc.ledgerBalance 10 (PaymentSvc.reached (fun n => n + 10) (fun _ => 0)
        PaymentSvc.sampleLargeDepositCalls).1.storeTxs = 2 ^ 63 ∧
      (mapGet (PaymentSvc.reached (fun n => n + 10) (fun _ => 0)
        PaymentSvc.sampleLargeDepositCalls).1.storeWallets 10).map (fun w => w.BalanceCents)
        = some (-(2 ^ 63))) := by
  decide

/-- C39, amended.  Starting from the empty in-memory payment store, after every sequence
of calls none of which returns `ErrOptimisticLock`, with user identifiers that the
generator never issues: a wallet filed under its own identifier has the balance the ledger
gives, the `TxCommitted` deposits of the wallet minus its `TxCommitted` withdrawals, reduced
to `int64`. -/
theorem C39_stored_balance_is_ledger_balance (uuids : Nat → UUID) (starts : Nat → Nat)
    (cs : List PaymentSvc.Cmd)
    (hfresh : ∀ now userID n, PaymentSvc.Cmd.CreateWallet now userID ∈ cs → uuids n ≠ userID)
    (hlock : some .ErrOptimisticLock ∉ PaymentSvc.results PaymentSvc.mockPaymentRepository.impl
      PaymentSvc.mockEventDispatcher.impl cs
      (PaymentSvc.mockPaymentRepository.new uuids starts) PaymentSvc.mockEventDispatcher.new)
    (k : UUID) (w : PaymentSvc.Wallet)
    (hget : mapGet (PaymentSvc.reached uuids starts cs).1.storeWallets k = some w)
    (hid : w.ID = k) :
    w.BalanceCents
      = wrap64 (PaymentSvc.ledgerBalance k (PaymentSvc.reached uuids starts cs).1.storeTxs) := by
  have h := PaymentSvc.Agree_run (fun u => ∃ now, PaymentSvc.Cmd.CreateWallet now u ∈ cs) cs
    (PaymentSvc.mockPaymentRepository.new uuids starts) PaymentSvc.mockEventDispatcher.new
    (by simp [PaymentSvc.Agree, PaymentSvc.mockPaymentRepository.new, mapGet])
    (by simp [PaymentSvc.mockPaymentRepository.new])
    (fun c hc now userID hcu => ⟨now, hcu ▸ hc⟩)
    (fun n ⟨now, hmem⟩ => hfresh now _ n hmem rfl)
    hlock
  exact h.2.1 k w hget hid

/-- C39, amended, at the payment test: after a deposit of 2000 and a payment of 500, none
refused, the wallet stored under 10 has the balance 1500 the ledger gives. -/
theorem C39_stored_balance_witness :
    PaymentSvc.samplePaidWallet.BalanceCents
      = wrap64 (PaymentSvc.ledgerBalance 10 (PaymentSvc.reached (fun n => n + 10) (fun _ => 0)
          PaymentSvc.samplePaymentCalls).1.storeTxs) :=
  C39_stored_balance_is_ledger_balance (fun n => n + 10) (fun _ => 0)
    PaymentSvc.samplePaymentCalls
    (by
      intro now userID n h
      simp [PaymentSvc.samplePaymentCalls] at h
      obtain ⟨-, rfl⟩ := h
      show n + 10 ≠ 7
      omega)
    (by decide) 10 PaymentSvc.samplePaidWallet (by decide) rfl

end DistributedProgramming
